import Mathlib

/-! # Swap-chain lifecycle and frame presentation (cs311, Vulkan part)

A shallow embedding of `440gui.c`, `440vulkan.c`, `450buffer.c`, `450image.c`,
`450swap.c`, `480uniform.c`, `480description.c` and the connection / frame
presentation code of `590mainDiffuse.c`.

Conventions of the embedding.

* The C globals `gui`, `vul`, `swap` and the connection globals are the fields
  of one record, `World`, that every function takes and returns.
* Calls into GLFW, Vulkan and the C allocator are not executed: each one
  appends a `Call` to `World.env.trace` (in program order) and, when the program
  looks at its answer, reads that answer from a `Driver`, a record of answer
  streams indexed by how many calls of that kind were made before.
* A handle (`VkFence`, `VkImage`, a `malloc` pointer, ...) is a natural number;
  `0` is `VK_NULL_HANDLE` / `NULL`.  A successful creation call returns the next
  unused number, so distinct live objects have distinct handles.
* `uint32_t` values are natural numbers, reduced modulo `2^32` where the code
  performs arithmetic or a cast on them.
-/

namespace CS311

/-! ## Vulkan and GLFW vocabulary -/

/-- A Vulkan handle or a heap pointer. -/
abbrev Handle := Nat

/-- The null handle, also used for the null pointer. -/
def VK_NULL_HANDLE : Handle := 0

/-- The largest `uint32_t`. -/
def UINT32_MAX : Nat := 4294967295

/-- The cast `(uint32_t)x` of a C `int`. -/
def toUint32 (x : Int) : Nat := (x % 4294967296).toNat

/-- The largest C `int` (32 bits). -/
def INT_MAX : Int := 2147483647

/-- The smallest C `int` (32 bits, two's complement). -/
def INT_MIN : Int := -2147483648

/-- A value brought into the range of a C `int`: what 32-bit two's-complement
arithmetic leaves of an `int` result that overflows, and of a wider unsigned
value that is converted to `int`. -/
def toInt32 (x : Int) : Int := (x + 2147483648) % 4294967296 - 2147483648

/-- The `VkResult` values the program tells apart; `other c` is any further
status code `c`, different from the three named ones. -/
inductive VkResult where
  | VK_SUCCESS
  | VK_SUBOPTIMAL_KHR
  | VK_ERROR_OUT_OF_DATE_KHR
  | other (code : Int)
deriving DecidableEq, Repr

/-- Values of `VkFormat` (from `vulkan_core.h`). -/
def VK_FORMAT_B8G8R8A8_SRGB : Nat := 50
def VK_FORMAT_D32_SFLOAT : Nat := 126
def VK_FORMAT_D24_UNORM_S8_UINT : Nat := 129
def VK_FORMAT_D32_SFLOAT_S8_UINT : Nat := 130

/-- Value of `VkColorSpaceKHR` (from `vulkan_core.h`). -/
def VK_COLOR_SPACE_SRGB_NONLINEAR_KHR : Nat := 0

/-- Values of `VkPresentModeKHR` (from `vulkan_core.h`). -/
def VK_PRESENT_MODE_MAILBOX_KHR : Nat := 1
def VK_PRESENT_MODE_FIFO_KHR : Nat := 2

/-- Values of `VkImageTiling`. -/
def VK_IMAGE_TILING_OPTIMAL : Nat := 0
def VK_IMAGE_TILING_LINEAR : Nat := 1

/-- Feature and stage bits (from `vulkan_core.h`). -/
def VK_FORMAT_FEATURE_DEPTH_STENCIL_ATTACHMENT_BIT : Nat := 512
def VK_PIPELINE_STAGE_COLOR_ATTACHMENT_OUTPUT_BIT : Nat := 1024

/-- Values of `VkImageLayout`. -/
def VK_IMAGE_LAYOUT_UNDEFINED : Nat := 0
def VK_IMAGE_LAYOUT_DEPTH_STENCIL_ATTACHMENT_OPTIMAL : Nat := 3
def VK_IMAGE_LAYOUT_SHADER_READ_ONLY_OPTIMAL : Nat := 5
def VK_IMAGE_LAYOUT_TRANSFER_DST_OPTIMAL : Nat := 7

/-- Memory property bits. -/
def VK_MEMORY_PROPERTY_DEVICE_LOCAL_BIT : Nat := 1
def VK_MEMORY_PROPERTY_HOST_VISIBLE_BIT : Nat := 2
def VK_MEMORY_PROPERTY_HOST_COHERENT_BIT : Nat := 4

structure VkExtent2D where
  width : Nat
  height : Nat
deriving DecidableEq, Repr

structure VkSurfaceFormatKHR where
  format : Nat
  colorSpace : Nat
deriving DecidableEq, Repr

/-- The fields of `VkSurfaceCapabilitiesKHR` that the program reads. -/
structure VkSurfaceCapabilitiesKHR where
  minImageCount : Nat
  maxImageCount : Nat
  currentExtent : VkExtent2D
  minImageExtent : VkExtent2D
  maxImageExtent : VkExtent2D
  currentTransform : Nat
deriving DecidableEq, Repr

/-- The fields of `VkFormatProperties`. -/
structure VkFormatProperties where
  linearTilingFeatures : Nat
  optimalTilingFeatures : Nat
deriving DecidableEq, Repr

/-- One entry of `VkPhysicalDeviceMemoryProperties.memoryTypes`. -/
structure VkMemoryType where
  propertyFlags : Nat
deriving DecidableEq, Repr

/-- The fields of `VkMemoryRequirements` that the program reads. -/
structure VkMemoryRequirements where
  size : Nat
  memoryTypeBits : Nat
deriving DecidableEq, Repr

/-- One queue family of a physical device: its `queueFlags` graphics bit and
whether it can present to the surface. -/
structure QueueFamily where
  graphics : Bool
  presentSupport : Bool
deriving DecidableEq, Repr

/-- The kinds of object whose creation and release the trace records. -/
inductive Obj where
  | hostMemory
  | swapchain
  | image
  | deviceMemory
  | imageView
  | renderPass
  | framebuffer
  | semaphore
  | fence
  | buffer
  | descriptorSetLayout
  | descriptorPool
  | pipelineLayout
  | pipeline
  | commandBuffer
  | window
  | vkInstance
  | surface
  | device
  | commandPool
  | shaProgram
  | veshStyle
  | veshes
  | textures
deriving DecidableEq, Repr

/-- The functions of the program whose entry the trace marks. -/
inductive Fn where
  | reinitializeSwapChain
  | finalizeConnection
  | initializeConnection
  | swapFinalize
  | swapInitialize
  | swapInitializeImages
  | swapInitializeViews
  | swapInitializeDepthBuffer
  | swapInitializeRenderPass
  | swapInitializeFramebuffers
  | swapInitializeSyncs
  | swapFinalizeImages
  | swapFinalizeViews
  | swapFinalizeDepthBuffer
  | swapFinalizeRenderPass
  | swapFinalizeFramebuffers
  | swapFinalizeSyncs
  | initializeUniforms
  | initializePipeline
  | initializeCommandBuffers
  | finalizeUniforms
  | finalizePipeline
  | finalizeCommandBuffers
  | presentFrame
  | guiInitialize
  | guiFinalize
  | vulInitialize
  | vulFinalize
  | initializeArtwork
  | finalizeArtwork
deriving DecidableEq, Repr

/-- The `VkSubmitInfo` handed to `vkQueueSubmit`. -/
structure VkSubmitInfo where
  waitSemaphores : List Handle
  waitDstStageMask : List Nat
  commandBuffers : List Handle
  signalSemaphores : List Handle
deriving DecidableEq, Repr

/-- The `VkPresentInfoKHR` handed to `vkQueuePresentKHR`. -/
structure VkPresentInfoKHR where
  waitSemaphores : List Handle
  swapchains : List Handle
  imageIndices : List Nat
deriving DecidableEq, Repr

/-- The fields of `VkSwapchainCreateInfoKHR` that `swapInitializeImages`
computes. -/
structure VkSwapchainCreateInfoKHR where
  minImageCount : Nat
  imageFormat : Nat
  imageColorSpace : Nat
  imageExtent : VkExtent2D
  concurrentSharing : Bool
  preTransform : Nat
  presentMode : Nat
deriving DecidableEq, Repr

/-- One observable step of the program: a call into GLFW, Vulkan or the
allocator, or the entry of one of the program's own functions. -/
inductive Call where
  | enter (f : Fn)
  | glfwGetFramebufferSize (width height : Int)
  | glfwWaitEvents
  | glfwPollEvents
  | guiResizingCallback
  | vkDeviceWaitIdle
  | vkQueueWaitIdle
  | vkWaitForFences (fence : Handle)
  | vkResetFences (fence : Handle)
  | vkAcquireNextImageKHR (swapChain semaphore : Handle) (result : VkResult)
      (imageIndex : Nat)
  | vkQueueSubmit (info : VkSubmitInfo) (fence : Handle) (result : VkResult)
  | vkQueuePresentKHR (info : VkPresentInfoKHR) (result : VkResult)
  | vkCreateSwapchainKHR (info : VkSwapchainCreateInfoKHR)
  | create (kind : Obj) (handle : Handle)
  | createFailed (kind : Obj)
  | destroy (kind : Obj) (handle : Handle)
  | vkBindImageMemory (image memory : Handle)
  | vkBindBufferMemory (buffer memory : Handle)
  | vkBeginCommandBuffer (commandBuffer : Handle) (ok : Bool)
  | vkEndCommandBuffer (commandBuffer : Handle) (ok : Bool)
  | vkCmdPipelineBarrier (commandBuffer image : Handle) (oldLayout newLayout : Nat)
  | vkCmdBeginRenderPass (commandBuffer renderPass framebuffer : Handle)
  | vkCmdBindPipeline (commandBuffer pipeline : Handle)
  | vkCmdBindDescriptorSets (commandBuffer descriptorSet : Handle) (offset : Nat)
  | veshRender (commandBuffer vesh : Handle)
  | vkCmdEndRenderPass (commandBuffer : Handle)
  | vkUpdateDescriptorSets (descriptorSet : Handle)
  | vkMapMemory (memory : Handle)
  | vkUnmapMemory (memory : Handle)
deriving DecidableEq, Repr

/-! ## The environment -/

/-- What GLFW, the Vulkan driver and the allocator answer.  Each stream is
indexed by the number of earlier calls of the same kind. -/
structure Driver where
  /-- The size reported by the n-th `glfwGetFramebufferSize`. -/
  framebufferSize : Nat → Int × Int
  /-- Whether the n-th `glfwWaitEvents` dispatches `guiResizingCallback`. -/
  resizeOnWait : Nat → Bool
  /-- Whether the n-th `glfwPollEvents` dispatches `guiResizingCallback`. -/
  resizeOnPoll : Nat → Bool
  /-- The answer of the n-th `glfwWindowShouldClose`. -/
  windowShouldClose : Nat → Bool
  /-- Result and image index of the n-th `vkAcquireNextImageKHR`. -/
  acquireNextImage : Nat → VkResult × Nat
  /-- Result of the n-th `vkQueueSubmit`. -/
  queueSubmit : Nat → VkResult
  /-- Result of the n-th `vkQueuePresentKHR`. -/
  queuePresent : Nat → VkResult
  /-- Whether the n-th object-creating Vulkan call returns `VK_SUCCESS`. -/
  createOk : Nat → Bool
  /-- Whether the n-th `vkBeginCommandBuffer` / `vkEndCommandBuffer` returns
  `VK_SUCCESS`. -/
  recordOk : Nat → Bool
  /-- Whether the n-th `malloc` returns a non-null pointer. -/
  mallocOk : Nat → Bool
  /-- The uninitialised contents of the n-th `malloc` block, by element. -/
  heapJunk : Nat → Nat → Handle
  /-- The value found in an uninitialised local variable. -/
  stackJunk : Nat → Handle
  /-- Surface capabilities, formats and present modes reported to the n-th
  `vulInitializeSwapChainSupport`. -/
  surfaceCapabilities : Nat → VkSurfaceCapabilitiesKHR
  surfaceFormats : Nat → List VkSurfaceFormatKHR
  presentModes : Nat → List Nat
  /-- The image count `vkGetSwapchainImagesKHR` reports for the n-th swap chain
  created. -/
  swapchainImageCount : Nat → Nat
  /-- The answer of `vkGetPhysicalDeviceFormatProperties`, by format. -/
  formatProperties : Nat → VkFormatProperties
  /-- The memory types of the physical device. -/
  memoryTypes : List VkMemoryType
  /-- The memory requirements of an image or buffer, by its handle. -/
  memoryRequirements : Handle → VkMemoryRequirements
  /-- The queue families of the physical device. -/
  queueFamilies : List QueueFamily

/-! ## Program state -/

/-- The `guiGUI` struct of `440gui.c`.  The clock fields are floating-point
bookkeeping and are left out; the frame presenter is passed to `guiRun` as an
argument. -/
structure guiGUI where
  window : Handle
  framebufferResized : Int
deriving DecidableEq, Repr

/-- The `vulVulkan` struct of `440vulkan.c`; of `physicalDeviceProperties` only
`limits.minUniformBufferOffsetAlignment` is kept. -/
structure vulVulkan where
  vkInstance : Handle
  surface : Handle
  physicalDevice : Handle
  device : Handle
  graphicsQueue : Handle
  presentQueue : Handle
  commandPool : Handle
  minUniformBufferOffsetAlignment : Int
deriving DecidableEq, Repr

/-- A heap array of handles: the pointer `malloc` returned and the contents. -/
structure Arr where
  ptr : Handle
  elems : List Handle
deriving DecidableEq, Repr

/-- The `swapChain` struct of `450swap.c`.  The three fixed-size arrays have
`MAXFRAMESINFLIGHT` elements. -/
structure swapChain where
  swapChain : Handle
  imageFormat : Nat
  renderPass : Handle
  curFrame : Nat
  extent : VkExtent2D
  imageAvailSems : List Handle
  renderDoneSems : List Handle
  inFlightFences : List Handle
  depthImage : Handle
  depthImageMemory : Handle
  depthImageView : Handle
  numImages : Nat
  images : Arr
  imageViews : Arr
  framebuffers : Arr
  imagesInFlight : Arr
deriving DecidableEq, Repr

/-- The `unifAligned` struct of `480uniform.c`. -/
structure unifAligned where
  uboNum : Int
  uboSize : Int
  alignedSize : Int
  data : Handle
deriving DecidableEq, Repr

/-- The `descDescription` struct of `480description.c`. -/
structure descDescription where
  descriptorSetLayout : Handle
  descriptorPool : Handle
  descriptorSets : Arr
deriving DecidableEq, Repr

/-- A `bodyBody *` of `550body.c`: `NULL`, or a body with its vesh and its
`firstChild` and `nextSibling` pointers.  Isometry and uniform contents are
floating-point data and are left out. -/
inductive bodyBody where
  | NULL
  | body (vesh : Handle) (firstChild nextSibling : bodyBody)
deriving DecidableEq, Repr

/-- The file-scope variables of `590mainDiffuse.c` that connect the swap chain
to the scene. -/
structure Connection where
  sceneUniformBuffers : Arr
  sceneUniformBuffersMemory : Arr
  bodyUniformBuffers : Arr
  bodyUniformBuffersMemory : Arr
  aligned : unifAligned
  desc : descDescription
  connPipelineLayout : Handle
  connGraphicsPipeline : Handle
  connCommandBuffers : Arr
deriving DecidableEq, Repr

/-- Bookkeeping of the environment: the calls made so far, in order, the next
unused handle, and how many answers of each stream have been consumed. -/
structure Env where
  trace : List Call
  nextHandle : Nat
  nFramebufferSize : Nat
  nWaitEvents : Nat
  nPollEvents : Nat
  nShouldClose : Nat
  nAcquire : Nat
  nSubmit : Nat
  nPresent : Nat
  nCreate : Nat
  nRecord : Nat
  nMalloc : Nat
  nSupport : Nat
  nSwapchain : Nat
deriving DecidableEq, Repr

/-- The whole state: the globals `gui`, `vul`, `swap`, the connection globals,
the scene (`heroTorsoBody`, `bodyNum`, the sizes of the two uniform structs)
and the environment bookkeeping. -/
structure World where
  gui : guiGUI
  vul : vulVulkan
  swap : swapChain
  conn : Connection
  heroTorsoBody : bodyBody
  bodyNum : Int
  env : Env
deriving DecidableEq, Repr

/-! ## Primitive steps -/

/-- Append one call to the trace. -/
def World.log (w : World) (c : Call) : World :=
  { w with env := { w.env with trace := w.env.trace ++ [c] } }

/-- Mark the entry of a function of the program. -/
def enter (f : Fn) (w : World) : World := w.log (Call.enter f)

/-- A Vulkan call that creates one object: on `VK_SUCCESS` the new handle, on
failure nothing. -/
def vkCreate (d : Driver) (kind : Obj) (w : World) : Option Handle × World :=
  if d.createOk w.env.nCreate then
    (some w.env.nextHandle,
      { w with env := { w.env with
          trace := w.env.trace ++ [Call.create kind w.env.nextHandle],
          nextHandle := w.env.nextHandle + 1,
          nCreate := w.env.nCreate + 1 } })
  else
    (none,
      { w with env := { w.env with
          trace := w.env.trace ++ [Call.createFailed kind],
          nCreate := w.env.nCreate + 1 } })

/-- A Vulkan call that destroys or frees one object. -/
def vkDestroy (kind : Obj) (h : Handle) (w : World) : World :=
  w.log (Call.destroy kind h)

/-- The call `malloc(n * sizeof ...)`: on success a fresh pointer to `n`
uninitialised elements, on failure nothing (`NULL`). -/
def malloc (d : Driver) (n : Nat) (w : World) : Option Arr × World :=
  if d.mallocOk w.env.nMalloc then
    (some { ptr := w.env.nextHandle,
            elems := (List.range n).map (d.heapJunk w.env.nMalloc) },
      { w with env := { w.env with
          trace := w.env.trace ++ [Call.create Obj.hostMemory w.env.nextHandle],
          nextHandle := w.env.nextHandle + 1,
          nMalloc := w.env.nMalloc + 1 } })
  else
    (none,
      { w with env := { w.env with
          trace := w.env.trace ++ [Call.createFailed Obj.hostMemory],
          nMalloc := w.env.nMalloc + 1 } })

/-- The call `free(p)`. -/
def free (p : Handle) (w : World) : World :=
  w.log (Call.destroy Obj.hostMemory p)

/-- The call `glfwGetFramebufferSize(gui.window, &width, &height)`. -/
def glfwGetFramebufferSize (d : Driver) (w : World) : (Int × Int) × World :=
  let s := d.framebufferSize w.env.nFramebufferSize
  (s, { w with env := { w.env with
          trace := w.env.trace ++ [Call.glfwGetFramebufferSize s.1 s.2],
          nFramebufferSize := w.env.nFramebufferSize + 1 } })

/-! ## 440gui.c -/

/-- The accessor `guiSetFramebufferResized`. -/
def guiSetFramebufferResized (w : World) (framebufferResized : Int) : World :=
  { w with gui := { w.gui with framebufferResized := framebufferResized } }

/-- The GLFW callback `guiResizingCallback`: it sets the pending-resize flag. -/
def guiResizingCallback (w : World) : World :=
  { (w.log Call.guiResizingCallback) with
      gui := { w.gui with framebufferResized := 1 } }

/-- The call `glfwWaitEvents()`: it returns after processing events, which may
dispatch the resize callback registered by `guiInitialize`. -/
def glfwWaitEvents (d : Driver) (w : World) : World :=
  let w1 : World := { w with env := { w.env with
      trace := w.env.trace ++ [Call.glfwWaitEvents],
      nWaitEvents := w.env.nWaitEvents + 1 } }
  if d.resizeOnWait w.env.nWaitEvents then guiResizingCallback w1 else w1

/-- The call `glfwPollEvents()`. -/
def glfwPollEvents (d : Driver) (w : World) : World :=
  let w1 : World := { w with env := { w.env with
      trace := w.env.trace ++ [Call.glfwPollEvents],
      nPollEvents := w.env.nPollEvents + 1 } }
  if d.resizeOnPoll w.env.nPollEvents then guiResizingCallback w1 else w1

/-- The loop of `guiRun`, for at most `fuel` iterations: poll events, then call
the frame presenter, until the window should close.  The presenter's return
code only feeds the `VERBOSE` error counter, which prints a warning every 100
errors; it never ends the loop.  `none` means that the loop has not left after
`fuel` iterations or that the presenter did not return. -/
def guiRun (d : Driver) (presentFrame : World → Option Int × World) :
    Nat → World → Option Unit × World
  | 0, w => (none, w)
  | fuel + 1, w =>
    let w1 : World := { w with env := { w.env with
        nShouldClose := w.env.nShouldClose + 1 } }
    if d.windowShouldClose w.env.nShouldClose then (some (), w1)
    else
      let w2 := glfwPollEvents d w1
      match presentFrame w2 with
      | (none, w3) => (none, w3)
      | (some _, w3) => guiRun d presentFrame fuel w3

/-! ## 450swap.c: selection helpers -/

/-- The function `swapIncrementFrame`. -/
def swapIncrementFrame (MAXFRAMESINFLIGHT : Nat) (swap : swapChain) : swapChain :=
  { swap with curFrame := (swap.curFrame + 1) % MAXFRAMESINFLIGHT }

/-- The search loop of `swapGetSurfaceFormat`: the first entry with the
preferred format and colour space, if any. -/
def swapGetSurfaceFormat.loop : List VkSurfaceFormatKHR → Option VkSurfaceFormatKHR
  | [] => none
  | f :: rest =>
    if f.format = VK_FORMAT_B8G8R8A8_SRGB ∧
        f.colorSpace = VK_COLOR_SPACE_SRGB_NONLINEAR_KHR then some f
    else swapGetSurfaceFormat.loop rest

/-- The function `swapGetSurfaceFormat`; `availCount` is the length of the
list.  On an empty list the C code reads `availFormats[0]` out of bounds; the
embedding then returns `junk`. -/
def swapGetSurfaceFormat (availFormats : List VkSurfaceFormatKHR)
    (junk : VkSurfaceFormatKHR) : VkSurfaceFormatKHR :=
  match swapGetSurfaceFormat.loop availFormats with
  | some f => f
  | none => availFormats.getD 0 junk

/-- The function `swapGetPresentMode`. -/
def swapGetPresentMode : List Nat → Nat
  | [] => VK_PRESENT_MODE_FIFO_KHR
  | m :: rest =>
    if m = VK_PRESENT_MODE_MAILBOX_KHR then m else swapGetPresentMode rest

/-- The function `swapClip`. -/
def swapClip (x a b : Nat) : Nat :=
  if x ≥ b then b
  else if x ≤ a then a
  else x

/-- The function `swapGetExtent`. -/
def swapGetExtent (d : Driver) (capabilities : VkSurfaceCapabilitiesKHR)
    (w : World) : VkExtent2D × World :=
  if capabilities.currentExtent.width ≠ UINT32_MAX then
    (capabilities.currentExtent, w)
  else
    let r := glfwGetFramebufferSize d w
    let actualExtent : VkExtent2D :=
      { width := toUint32 r.1.1, height := toUint32 r.1.2 }
    ({ width := swapClip actualExtent.width capabilities.minImageExtent.width
          capabilities.maxImageExtent.width,
       height := swapClip actualExtent.height capabilities.minImageExtent.height
          capabilities.maxImageExtent.height }, r.2)

/-! ## More primitive steps -/

/-- Run `body 0`, `body 1`, ..., `body (n - 1)` in this order: a C loop
`for (i = 0; i < n; i += 1)` whose body has no early exit. -/
def forRange (n : Nat) (body : Nat → World → World) (w : World) : World :=
  (List.range n).foldl (fun acc i => body i acc) w

/-- A Vulkan call that allocates `n` objects at once
(`vkAllocateCommandBuffers`, `vkAllocateDescriptorSets`): on `VK_SUCCESS` the
`n` new handles. -/
def vkAllocate (d : Driver) (kind : Obj) (n : Nat) (w : World) :
    Option (List Handle) × World :=
  if d.createOk w.env.nCreate then
    (some ((List.range n).map (fun i => w.env.nextHandle + i)),
      { w with env := { w.env with
          trace := w.env.trace ++
            (List.range n).map (fun i => Call.create kind (w.env.nextHandle + i)),
          nextHandle := w.env.nextHandle + n,
          nCreate := w.env.nCreate + 1 } })
  else
    (none,
      { w with env := { w.env with
          trace := w.env.trace ++ [Call.createFailed kind],
          nCreate := w.env.nCreate + 1 } })

/-- The call `vkBeginCommandBuffer`; the Boolean says whether it returned
`VK_SUCCESS`. -/
def vkBeginCommandBuffer (d : Driver) (commandBuffer : Handle) (w : World) :
    Bool × World :=
  (d.recordOk w.env.nRecord,
    { w with env := { w.env with
        trace := w.env.trace ++
          [Call.vkBeginCommandBuffer commandBuffer (d.recordOk w.env.nRecord)],
        nRecord := w.env.nRecord + 1 } })

/-- The call `vkEndCommandBuffer`; the Boolean says whether it returned
`VK_SUCCESS`. -/
def vkEndCommandBuffer (d : Driver) (commandBuffer : Handle) (w : World) :
    Bool × World :=
  (d.recordOk w.env.nRecord,
    { w with env := { w.env with
        trace := w.env.trace ++
          [Call.vkEndCommandBuffer commandBuffer (d.recordOk w.env.nRecord)],
        nRecord := w.env.nRecord + 1 } })

/-- The call `vkQueueSubmit(queue, 1, &info, fence)`. -/
def vkQueueSubmit (d : Driver) (info : VkSubmitInfo) (fence : Handle) (w : World) :
    VkResult × World :=
  (d.queueSubmit w.env.nSubmit,
    { w with env := { w.env with
        trace := w.env.trace ++
          [Call.vkQueueSubmit info fence (d.queueSubmit w.env.nSubmit)],
        nSubmit := w.env.nSubmit + 1 } })

/-- The call `vkQueuePresentKHR(vul.presentQueue, &info)`. -/
def vkQueuePresentKHR (d : Driver) (info : VkPresentInfoKHR) (w : World) :
    VkResult × World :=
  (d.queuePresent w.env.nPresent,
    { w with env := { w.env with
        trace := w.env.trace ++
          [Call.vkQueuePresentKHR info (d.queuePresent w.env.nPresent)],
        nPresent := w.env.nPresent + 1 } })

/-- The call `vkAcquireNextImageKHR(device, swapChain, UINT64_MAX, semaphore,
VK_NULL_HANDLE, &imageIndex)`. -/
def vkAcquireNextImageKHR (d : Driver) (swapChain semaphore : Handle) (w : World) :
    (VkResult × Nat) × World :=
  (d.acquireNextImage w.env.nAcquire,
    { w with env := { w.env with
        trace := w.env.trace ++
          [Call.vkAcquireNextImageKHR swapChain semaphore
            (d.acquireNextImage w.env.nAcquire).1
            (d.acquireNextImage w.env.nAcquire).2],
        nAcquire := w.env.nAcquire + 1 } })

/-- The two calls `vkGetSwapchainImagesKHR` of `swapInitializeImages` taken
together: the image count the driver reports for the swap chain just created
and the handles of its images.  The images belong to the swap chain; the
program never creates or destroys them. -/
def vkGetSwapchainImagesKHR (d : Driver) (w : World) : List Handle × World :=
  ((List.range (d.swapchainImageCount w.env.nSwapchain)).map
      (fun i => w.env.nextHandle + i),
    { w with env := { w.env with
        nextHandle := w.env.nextHandle + d.swapchainImageCount w.env.nSwapchain,
        nSwapchain := w.env.nSwapchain + 1 } })

/-- The call `vkAllocateDescriptorSets` for `n` sets: on `VK_SUCCESS` the new
handles.  Descriptor sets belong to their pool and are released with it, so
they are not recorded as objects of their own. -/
def vkAllocateDescriptorSets (d : Driver) (n : Nat) (w : World) :
    Option (List Handle) × World :=
  if d.createOk w.env.nCreate then
    (some ((List.range n).map (fun i => w.env.nextHandle + i)),
      { w with env := { w.env with
          nextHandle := w.env.nextHandle + n,
          nCreate := w.env.nCreate + 1 } })
  else
    (none, { w with env := { w.env with nCreate := w.env.nCreate + 1 } })

/-! ## Assignments to the globals -/

/-- The read `a[i]` of a heap array. -/
def Arr.read (a : Arr) (i : Nat) : Handle := a.elems.getD i 0

/-- The write `a[i] = v` to a heap array. -/
def Arr.write (a : Arr) (i : Nat) (v : Handle) : Arr :=
  { a with elems := a.elems.set i v }

/-- The null pointer as an array. -/
def Arr.null : Arr := { ptr := 0, elems := [] }

def World.setCurFrame (w : World) (v : Nat) : World :=
  { w with swap := { w.swap with curFrame := v } }

def World.setSwapChain (w : World) (v : Handle) : World :=
  { w with swap := { w.swap with swapChain := v } }

def World.setImages (w : World) (v : Arr) : World :=
  { w with swap := { w.swap with images := v } }

def World.setImageFormat (w : World) (v : Nat) : World :=
  { w with swap := { w.swap with imageFormat := v } }

def World.setExtent (w : World) (v : VkExtent2D) : World :=
  { w with swap := { w.swap with extent := v } }

def World.setNumImages (w : World) (v : Nat) : World :=
  { w with swap := { w.swap with numImages := v } }

def World.setImageViews (w : World) (v : Arr) : World :=
  { w with swap := { w.swap with imageViews := v } }

def World.setDepthImage (w : World) (v : Handle) : World :=
  { w with swap := { w.swap with depthImage := v } }

def World.setDepthImageMemory (w : World) (v : Handle) : World :=
  { w with swap := { w.swap with depthImageMemory := v } }

def World.setDepthImageView (w : World) (v : Handle) : World :=
  { w with swap := { w.swap with depthImageView := v } }

def World.setRenderPass (w : World) (v : Handle) : World :=
  { w with swap := { w.swap with renderPass := v } }

def World.setFramebuffers (w : World) (v : Arr) : World :=
  { w with swap := { w.swap with framebuffers := v } }

def World.setImagesInFlight (w : World) (v : Arr) : World :=
  { w with swap := { w.swap with imagesInFlight := v } }

def World.setImageAvailSems (w : World) (v : List Handle) : World :=
  { w with swap := { w.swap with imageAvailSems := v } }

def World.setRenderDoneSems (w : World) (v : List Handle) : World :=
  { w with swap := { w.swap with renderDoneSems := v } }

def World.setInFlightFences (w : World) (v : List Handle) : World :=
  { w with swap := { w.swap with inFlightFences := v } }

def World.setConn (w : World) (v : Connection) : World :=
  { w with conn := v }

/-! ## 440vulkan.c -/

/-- The struct `vulQueueFamilyIndices`. -/
structure vulQueueFamilyIndices where
  hasGraphicsFamily : Int
  graphicsFamily : Nat
  hasPresentFamily : Int
  presentFamily : Nat
deriving DecidableEq, Repr

/-- The scan of `vulGetQueueFamilies` over the queue families, from index `i`. -/
def vulGetQueueFamilies.loop :
    List QueueFamily → Nat → vulQueueFamilyIndices → vulQueueFamilyIndices
  | [], _, indices => indices
  | q :: rest, i, indices =>
    let indices1 : vulQueueFamilyIndices :=
      if q.graphics then
        { indices with hasGraphicsFamily := 1, graphicsFamily := i }
      else indices
    let indices2 : vulQueueFamilyIndices :=
      if q.presentSupport then
        { indices1 with hasPresentFamily := 1, presentFamily := i }
      else indices1
    vulGetQueueFamilies.loop rest (i + 1) indices2

/-- The function `vulGetQueueFamilies` for `vul.physicalDevice`.  The two index
fields start uninitialised. -/
def vulGetQueueFamilies (d : Driver) (w : World) : vulQueueFamilyIndices × World :=
  let indices : vulQueueFamilyIndices :=
    { hasGraphicsFamily := 0, graphicsFamily := d.stackJunk 0,
      hasPresentFamily := 0, presentFamily := d.stackJunk 1 }
  let r := malloc d d.queueFamilies.length w
  match r.1 with
  | none => (indices, r.2)
  | some queueFamilies =>
    (vulGetQueueFamilies.loop d.queueFamilies 0 indices, free queueFamilies.ptr r.2)

/-- The struct `vulSwapChainSupportDetails`: the two arrays with their
pointers (`0` when the count is zero). -/
structure vulSwapChainSupportDetails where
  capabilities : VkSurfaceCapabilitiesKHR
  formats : List VkSurfaceFormatKHR
  formatsPtr : Handle
  presentModes : List Nat
  presentModesPtr : Handle
deriving DecidableEq, Repr

/-- Allocation of one of the two arrays of `vulInitializeSwapChainSupport`:
`some p` with `p` the pointer (`NULL` for a zero count), `none` when `malloc`
failed. -/
def vulInitializeSwapChainSupport.alloc (d : Driver) (count : Nat) (w : World) :
    Option Handle × World :=
  if count ≠ 0 then
    let r := malloc d count w
    match r.1 with
    | some a => (some a.ptr, r.2)
    | none => (none, r.2)
  else (some 0, w)

/-- The three queries that open `vulInitializeSwapChainSupport`
(`vkGetPhysicalDeviceSurfaceCapabilitiesKHR`, `...SurfaceFormatsKHR`,
`...SurfacePresentModesKHR`): what the driver reports this time. -/
def querySwapChainSupport (d : Driver) (w : World) :
    vulSwapChainSupportDetails × World :=
  ({ capabilities := d.surfaceCapabilities w.env.nSupport,
     formats := d.surfaceFormats w.env.nSupport, formatsPtr := 0,
     presentModes := d.presentModes w.env.nSupport, presentModesPtr := 0 },
    { w with env := { w.env with nSupport := w.env.nSupport + 1 } })

/-- The function `vulInitializeSwapChainSupport` for `vul.physicalDevice`. -/
def vulInitializeSwapChainSupport (d : Driver) (w : World) :
    Int × vulSwapChainSupportDetails × World :=
  let q := querySwapChainSupport d w
  let details := q.1
  let rf := vulInitializeSwapChainSupport.alloc d details.formats.length q.2
  match rf.1 with
  | none => (2, details, rf.2)
  | some fp =>
    let rm := vulInitializeSwapChainSupport.alloc d details.presentModes.length rf.2
    match rm.1 with
    | none =>
      (1, { details with formatsPtr := fp },
        if fp ≠ 0 then free fp rm.2 else rm.2)
    | some mp =>
      (0, { details with formatsPtr := fp, presentModesPtr := mp }, rm.2)

/-- The function `vulFinalizeSwapChainSupport`. -/
def vulFinalizeSwapChainSupport (details : vulSwapChainSupportDetails) (w : World) :
    World :=
  let w1 := if details.formatsPtr ≠ 0 then free details.formatsPtr w else w
  if details.presentModesPtr ≠ 0 then free details.presentModesPtr w1 else w1

/-- The scan of `vulGetMemoryType` over the memory types, from index `i`. -/
def vulGetMemoryType.loop (typeFilter props : Nat) :
    List VkMemoryType → Nat → Option Nat
  | [], _ => none
  | t :: rest, i =>
    if typeFilter &&& (1 <<< i) ≠ 0 ∧ t.propertyFlags &&& props = props then some i
    else vulGetMemoryType.loop typeFilter props rest (i + 1)

/-- The function `vulGetMemoryType`: `some i` when it returns 0 and writes `i`
to `*memType`, `none` when it returns 1. -/
def vulGetMemoryType (d : Driver) (typeFilter props : Nat) : Option Nat :=
  vulGetMemoryType.loop typeFilter props d.memoryTypes 0

/-! ## 450buffer.c -/

/-- The function `bufBeginSingleTimeCommands`.  The result of
`vkAllocateCommandBuffers` is not checked: on failure the local variable keeps
its uninitialised value. -/
def bufBeginSingleTimeCommands (d : Driver) (w : World) : Handle × World :=
  let r := vkCreate d Obj.commandBuffer w
  let commandBuffer : Handle := r.1.getD (d.stackJunk 2)
  (commandBuffer, (vkBeginCommandBuffer d commandBuffer r.2).2)

/-- The function `bufEndSingleTimeCommands`. -/
def bufEndSingleTimeCommands (d : Driver) (commandBuffer : Handle) (w : World) :
    World :=
  let w1 := (vkEndCommandBuffer d commandBuffer w).2
  let w2 := (vkQueueSubmit d
    { waitSemaphores := [], waitDstStageMask := [],
      commandBuffers := [commandBuffer], signalSemaphores := [] }
    VK_NULL_HANDLE w1).2
  let w3 := w2.log Call.vkQueueWaitIdle
  vkDestroy Obj.commandBuffer commandBuffer w3

/-- The function `bufInitialize`: the return code and the values of `*buf` and
`*bufMem` afterwards (`buf` and `bufMem` are their values before). -/
def bufInitialize (d : Driver) (properties : Nat) (buf bufMem : Handle) (w : World) :
    Int × Handle × Handle × World :=
  let r := vkCreate d Obj.buffer w
  match r.1 with
  | none => (3, buf, bufMem, r.2)
  | some b =>
    let memReqs := d.memoryRequirements b
    match vulGetMemoryType d memReqs.memoryTypeBits properties with
    | none => (2, b, bufMem, vkDestroy Obj.buffer b r.2)
    | some _ =>
      let r2 := vkCreate d Obj.deviceMemory r.2
      match r2.1 with
      | none => (1, b, bufMem, vkDestroy Obj.buffer b r2.2)
      | some m => (0, b, m, r2.2.log (Call.vkBindBufferMemory b m))

/-- The function `bufFinalize`. -/
def bufFinalize (buf bufMem : Handle) (w : World) : World :=
  vkDestroy Obj.buffer buf (vkDestroy Obj.deviceMemory bufMem w)

/-! ## 450image.c -/

/-- The function `imageTransitionLayout`.  The parameter `format` only selects
the aspect mask of the barrier, and the access and stage masks are fixed by
the layout pair; the embedding keeps the image and the pair of the barrier and
leaves the masks, and with them `format`, out. -/
def imageTransitionLayout (d : Driver) (image : Handle) (oldLayout newLayout : Nat)
    (w : World) : Int × World :=
  let r := bufBeginSingleTimeCommands d w
  if (oldLayout = VK_IMAGE_LAYOUT_UNDEFINED ∧
        newLayout = VK_IMAGE_LAYOUT_TRANSFER_DST_OPTIMAL) ∨
      (oldLayout = VK_IMAGE_LAYOUT_TRANSFER_DST_OPTIMAL ∧
        newLayout = VK_IMAGE_LAYOUT_SHADER_READ_ONLY_OPTIMAL) ∨
      (oldLayout = VK_IMAGE_LAYOUT_UNDEFINED ∧
        newLayout = VK_IMAGE_LAYOUT_DEPTH_STENCIL_ATTACHMENT_OPTIMAL) then
    let w1 := r.2.log (Call.vkCmdPipelineBarrier r.1 image oldLayout newLayout)
    (0, bufEndSingleTimeCommands d r.1 w1)
  else (1, r.2)

/-- The function `imageInitialize`: the return code and the values of `*image`
and `*imageMemory` afterwards. -/
def imageInitialize (d : Driver) (properties : Nat) (image imageMemory : Handle)
    (w : World) : Int × Handle × Handle × World :=
  let r := vkCreate d Obj.image w
  match r.1 with
  | none => (3, image, imageMemory, r.2)
  | some im =>
    let memReqs := d.memoryRequirements im
    match vulGetMemoryType d memReqs.memoryTypeBits properties with
    | none => (2, im, imageMemory, vkDestroy Obj.image im r.2)
    | some _ =>
      let r2 := vkCreate d Obj.deviceMemory r.2
      match r2.1 with
      | none => (1, im, imageMemory, vkDestroy Obj.image im r2.2)
      | some m => (0, im, m, r2.2.log (Call.vkBindImageMemory im m))

/-- The function `imageFinalize`. -/
def imageFinalize (image imageMemory : Handle) (w : World) : World :=
  vkDestroy Obj.image image (vkDestroy Obj.deviceMemory imageMemory w)

/-- The function `imageInitializeView`: the return code and the value of
`*imageView` afterwards. -/
def imageInitializeView (d : Driver) (imageView : Handle) (w : World) :
    Int × Handle × World :=
  let r := vkCreate d Obj.imageView w
  match r.1 with
  | none => (1, imageView, r.2)
  | some v => (0, v, r.2)

/-- The function `imageFinalizeView`. -/
def imageFinalizeView (imageView : Handle) (w : World) : World :=
  vkDestroy Obj.imageView imageView w

/-! ## 450swap.c: construction and destruction -/

/-- The function `swapInitializeImages`. -/
def swapInitializeImages (d : Driver) (w0 : World) : Int × World :=
  let w := enter Fn.swapInitializeImages w0
  let s := vulInitializeSwapChainSupport d w
  if s.1 ≠ 0 then (3, s.2.2)
  else
    let details := s.2.1
    let surfaceFormat := swapGetSurfaceFormat details.formats
      { format := d.stackJunk 3, colorSpace := d.stackJunk 4 }
    let presentMode := swapGetPresentMode details.presentModes
    let e := swapGetExtent d details.capabilities s.2.2
    let imageCount0 : Nat := (details.capabilities.minImageCount + 1) % 4294967296
    let imageCount : Nat :=
      if details.capabilities.maxImageCount > 0 ∧
          imageCount0 > details.capabilities.maxImageCount then
        details.capabilities.maxImageCount
      else imageCount0
    let q := vulGetQueueFamilies d e.2
    let createInfo : VkSwapchainCreateInfoKHR :=
      { minImageCount := imageCount,
        imageFormat := surfaceFormat.format,
        imageColorSpace := surfaceFormat.colorSpace,
        imageExtent := e.1,
        concurrentSharing := decide (q.1.graphicsFamily ≠ q.1.presentFamily),
        preTransform := details.capabilities.currentTransform,
        presentMode := presentMode }
    let c := vkCreate d Obj.swapchain (q.2.log (Call.vkCreateSwapchainKHR createInfo))
    match c.1 with
    | none => (2, vulFinalizeSwapChainSupport details c.2)
    | some sc =>
      let g := vkGetSwapchainImagesKHR d (c.2.setSwapChain sc)
      let m := malloc d g.1.length g.2
      match m.1 with
      | none => (1, vulFinalizeSwapChainSupport details (m.2.setImages Arr.null))
      | some a =>
        (0, vulFinalizeSwapChainSupport details
          ((((m.2.setImages { ptr := a.ptr, elems := g.1 }).setImageFormat
            surfaceFormat.format).setExtent e.1).setNumImages g.1.length))

/-- The function `swapFinalizeImages`. -/
def swapFinalizeImages (w0 : World) : World :=
  let w := enter Fn.swapFinalizeImages w0
  free w.swap.images.ptr (vkDestroy Obj.swapchain w.swap.swapChain w)

/-- The call `imageFinalizeView(&(swap->imageViews[j]))`. -/
def swapFinalizeViewAt (j : Nat) (w : World) : World :=
  imageFinalizeView (w.swap.imageViews.read j) w

/-- The creation loop of `swapInitializeViews`, with `n` iterations left, at
index `i`. -/
def swapInitializeViews.loop (d : Driver) : Nat → Nat → World → Int × World
  | 0, _, w => (0, w)
  | n + 1, i, w =>
    let r := imageInitializeView d (w.swap.imageViews.read i) w
    let w1 := r.2.2.setImageViews (r.2.2.swap.imageViews.write i r.2.1)
    if r.1 ≠ 0 then
      let w2 := forRange i swapFinalizeViewAt w1
      (1, free w2.swap.imageViews.ptr w2)
    else swapInitializeViews.loop d n (i + 1) w1

/-- The function `swapInitializeViews`. -/
def swapInitializeViews (d : Driver) (w0 : World) : Int × World :=
  let w := enter Fn.swapInitializeViews w0
  let m := malloc d w.swap.numImages w
  match m.1 with
  | none => (2, m.2.setImageViews Arr.null)
  | some a => swapInitializeViews.loop d w.swap.numImages 0 (m.2.setImageViews a)

/-- The function `swapFinalizeViews`. -/
def swapFinalizeViews (w0 : World) : World :=
  let w := enter Fn.swapFinalizeViews w0
  let w1 := forRange w.swap.numImages swapFinalizeViewAt w
  free w1.swap.imageViews.ptr w1

/-- The scan of `swapGetSupportedFormat` over the candidates, from index `i`:
`some i` when it returns 0 and elects `i`, `none` when it returns 1. -/
def swapGetSupportedFormat.loop (d : Driver) (tiling features : Nat) :
    List Nat → Nat → Option Nat
  | [], _ => none
  | c :: rest, i =>
    if tiling = VK_IMAGE_TILING_LINEAR ∧
        (d.formatProperties c).linearTilingFeatures &&& features = features then some i
    else if tiling = VK_IMAGE_TILING_OPTIMAL ∧
        (d.formatProperties c).optimalTilingFeatures &&& features = features then some i
    else swapGetSupportedFormat.loop d tiling features rest (i + 1)

/-- The function `swapGetSupportedFormat`. -/
def swapGetSupportedFormat (d : Driver) (candidates : List Nat)
    (tiling features : Nat) : Option Nat :=
  swapGetSupportedFormat.loop d tiling features candidates 0

/-- The function `swapGetDepthFormat`: `some f` when it returns 0 and writes
`f` to `*format`, `none` when it returns the error and writes nothing. -/
def swapGetDepthFormat (d : Driver) : Option Nat :=
  let candidates : List Nat :=
    [VK_FORMAT_D32_SFLOAT, VK_FORMAT_D32_SFLOAT_S8_UINT, VK_FORMAT_D24_UNORM_S8_UINT]
  match swapGetSupportedFormat d candidates VK_IMAGE_TILING_OPTIMAL
      VK_FORMAT_FEATURE_DEPTH_STENCIL_ATTACHMENT_BIT with
  | some elected => some (candidates.getD elected 0)
  | none => none

/-- The function `swapInitializeRenderPass`. -/
def swapInitializeRenderPass (d : Driver) (w0 : World) : Int × World :=
  let w := enter Fn.swapInitializeRenderPass w0
  match swapGetDepthFormat d with
  | none => (2, w)
  | some _ =>
    let r := vkCreate d Obj.renderPass w
    match r.1 with
    | none => (1, r.2)
    | some rp => (0, r.2.setRenderPass rp)

/-- The function `swapFinalizeRenderPass`. -/
def swapFinalizeRenderPass (w0 : World) : World :=
  let w := enter Fn.swapFinalizeRenderPass w0
  vkDestroy Obj.renderPass w.swap.renderPass w

/-- The creation loop of `swapInitializeFramebuffers`, with `n` iterations
left, at index `i`. -/
def swapInitializeFramebuffers.loop (d : Driver) : Nat → Nat → World → Int × World
  | 0, _, w => (0, w)
  | n + 1, i, w =>
    let r := vkCreate d Obj.framebuffer w
    match r.1 with
    | none => (1, free r.2.swap.framebuffers.ptr r.2)
    | some fb =>
      swapInitializeFramebuffers.loop d n (i + 1)
        (r.2.setFramebuffers (r.2.swap.framebuffers.write i fb))

/-- The function `swapInitializeFramebuffers`. -/
def swapInitializeFramebuffers (d : Driver) (w0 : World) : Int × World :=
  let w := enter Fn.swapInitializeFramebuffers w0
  let m := malloc d w.swap.numImages w
  match m.1 with
  | none => (2, m.2.setFramebuffers Arr.null)
  | some a =>
    swapInitializeFramebuffers.loop d w.swap.numImages 0 (m.2.setFramebuffers a)

/-- The call `vkDestroyFramebuffer(vul.device, swap->framebuffers[i], NULL)`. -/
def swapDestroyFramebufferAt (i : Nat) (w : World) : World :=
  vkDestroy Obj.framebuffer (w.swap.framebuffers.read i) w

/-- The function `swapFinalizeFramebuffers`. -/
def swapFinalizeFramebuffers (w0 : World) : World :=
  let w := enter Fn.swapFinalizeFramebuffers w0
  let w1 := forRange w.swap.numImages swapDestroyFramebufferAt w
  free w1.swap.framebuffers.ptr w1

/-- The three destroy calls that the error paths of `swapInitializeSyncs` and
the loop of `swapFinalizeSyncs` make for slot `j`. -/
def swapDestroySyncSlot (j : Nat) (w : World) : World :=
  vkDestroy Obj.fence (w.swap.inFlightFences.getD j 0)
    (vkDestroy Obj.semaphore (w.swap.renderDoneSems.getD j 0)
      (vkDestroy Obj.semaphore (w.swap.imageAvailSems.getD j 0) w))

/-- The creation loop of `swapInitializeSyncs`, with `n` iterations left, at
slot `i`. -/
def swapInitializeSyncs.loop (d : Driver) : Nat → Nat → World → Int × World
  | 0, _, w => (0, w)
  | n + 1, i, w =>
    let r1 := vkCreate d Obj.semaphore w
    match r1.1 with
    | none =>
      let w1 := forRange i swapDestroySyncSlot r1.2
      (3, free w1.swap.imagesInFlight.ptr w1)
    | some s1 =>
      let r2 := vkCreate d Obj.semaphore
        (r1.2.setImageAvailSems (r1.2.swap.imageAvailSems.set i s1))
      match r2.1 with
      | none =>
        let w2 := forRange i swapDestroySyncSlot r2.2
        let w3 := vkDestroy Obj.semaphore (w2.swap.imageAvailSems.getD i 0) w2
        (2, free w3.swap.imagesInFlight.ptr w3)
      | some s2 =>
        let r3 := vkCreate d Obj.fence
          (r2.2.setRenderDoneSems (r2.2.swap.renderDoneSems.set i s2))
        match r3.1 with
        | none =>
          let w3 := forRange i swapDestroySyncSlot r3.2
          let w4 := vkDestroy Obj.semaphore (w3.swap.imageAvailSems.getD i 0) w3
          let w5 := vkDestroy Obj.semaphore (w4.swap.renderDoneSems.getD i 0) w4
          (1, free w5.swap.imagesInFlight.ptr w5)
        | some f =>
          swapInitializeSyncs.loop d n (i + 1)
            (r3.2.setInFlightFences (r3.2.swap.inFlightFences.set i f))

/-- The function `swapInitializeSyncs`.  The block for `imagesInFlight` comes
from `malloc` and is not written by this function. -/
def swapInitializeSyncs (MAXFRAMESINFLIGHT : Nat) (d : Driver) (w0 : World) :
    Int × World :=
  let w := enter Fn.swapInitializeSyncs w0
  let m := malloc d w.swap.numImages w
  match m.1 with
  | none => (4, m.2.setImagesInFlight Arr.null)
  | some a => swapInitializeSyncs.loop d MAXFRAMESINFLIGHT 0 (m.2.setImagesInFlight a)

/-- The function `swapFinalizeSyncs`. -/
def swapFinalizeSyncs (MAXFRAMESINFLIGHT : Nat) (w0 : World) : World :=
  let w := enter Fn.swapFinalizeSyncs w0
  let w1 := forRange MAXFRAMESINFLIGHT swapDestroySyncSlot w
  free w1.swap.imagesInFlight.ptr w1

/-- The function `swapInitializeDepthBuffer`.  The return code of
`imageTransitionLayout` is not looked at. -/
def swapInitializeDepthBuffer (d : Driver) (w0 : World) : Int × World :=
  let w := enter Fn.swapInitializeDepthBuffer w0
  match swapGetDepthFormat d with
  | none => (2, w)
  | some _ =>
    let r := imageInitialize d VK_MEMORY_PROPERTY_DEVICE_LOCAL_BIT
      w.swap.depthImage w.swap.depthImageMemory w
    let w1 := (r.2.2.2.setDepthImage r.2.1).setDepthImageMemory r.2.2.1
    if r.1 ≠ 0 then (1, w1)
    else
      let v := imageInitializeView d w1.swap.depthImageView w1
      let w2 := v.2.2.setDepthImageView v.2.1
      if v.1 ≠ 0 then
        (1, imageFinalize w2.swap.depthImage w2.swap.depthImageMemory w2)
      else
        (0, (imageTransitionLayout d w2.swap.depthImage VK_IMAGE_LAYOUT_UNDEFINED
          VK_IMAGE_LAYOUT_DEPTH_STENCIL_ATTACHMENT_OPTIMAL w2).2)

/-- The function `swapFinalizeDepthBuffer`. -/
def swapFinalizeDepthBuffer (w0 : World) : World :=
  let w := enter Fn.swapFinalizeDepthBuffer w0
  imageFinalize w.swap.depthImage w.swap.depthImageMemory
    (imageFinalizeView w.swap.depthImageView w)

/-- The function `swapInitialize`. -/
def swapInitialize (MAXFRAMESINFLIGHT : Nat) (d : Driver) (w0 : World) : Int × World :=
  let w := enter Fn.swapInitialize w0
  let r1 := swapInitializeImages d (w.setCurFrame 0)
  if r1.1 ≠ 0 then (6, r1.2)
  else
    let r2 := swapInitializeViews d r1.2
    if r2.1 ≠ 0 then (5, swapFinalizeImages r2.2)
    else
      let r3 := swapInitializeDepthBuffer d r2.2
      if r3.1 ≠ 0 then (4, swapFinalizeImages (swapFinalizeViews r3.2))
      else
        let r4 := swapInitializeRenderPass d r3.2
        if r4.1 ≠ 0 then
          (3, swapFinalizeImages (swapFinalizeViews (swapFinalizeDepthBuffer r4.2)))
        else
          let r5 := swapInitializeFramebuffers d r4.2
          if r5.1 ≠ 0 then
            (2, swapFinalizeImages (swapFinalizeViews (swapFinalizeDepthBuffer
              (swapFinalizeRenderPass r5.2))))
          else
            let r6 := swapInitializeSyncs MAXFRAMESINFLIGHT d r5.2
            if r6.1 ≠ 0 then
              (1, swapFinalizeImages (swapFinalizeViews (swapFinalizeDepthBuffer
                (swapFinalizeRenderPass (swapFinalizeFramebuffers r6.2)))))
            else (0, r6.2)

/-- The function `swapFinalize`. -/
def swapFinalize (MAXFRAMESINFLIGHT : Nat) (w0 : World) : World :=
  let w := enter Fn.swapFinalize w0
  swapFinalizeImages (swapFinalizeViews (swapFinalizeDepthBuffer
    (swapFinalizeRenderPass (swapFinalizeFramebuffers
      (swapFinalizeSyncs MAXFRAMESINFLIGHT w)))))

/-! ## 480uniform.c -/

/-- Which pair of uniform-buffer arrays a call of `unifInitializeBuffers` or
`unifFinalizeBuffers` is given: the scene's or the bodies'. -/
inductive UnifSlot where
  | scene
  | body
deriving DecidableEq, Repr

/-- The array `*unifBufs` of the slot. -/
def Connection.bufs (c : Connection) : UnifSlot → Arr
  | UnifSlot.scene => c.sceneUniformBuffers
  | UnifSlot.body => c.bodyUniformBuffers

/-- The array `*unifBufsMem` of the slot. -/
def Connection.bufsMem (c : Connection) : UnifSlot → Arr
  | UnifSlot.scene => c.sceneUniformBuffersMemory
  | UnifSlot.body => c.bodyUniformBuffersMemory

/-- Assignment to `*unifBufs` of the slot. -/
def Connection.setBufs (c : Connection) (slot : UnifSlot) (a : Arr) : Connection :=
  match slot with
  | UnifSlot.scene => { c with sceneUniformBuffers := a }
  | UnifSlot.body => { c with bodyUniformBuffers := a }

/-- Assignment to `*unifBufsMem` of the slot. -/
def Connection.setBufsMem (c : Connection) (slot : UnifSlot) (a : Arr) : Connection :=
  match slot with
  | UnifSlot.scene => { c with sceneUniformBuffersMemory := a }
  | UnifSlot.body => { c with bodyUniformBuffersMemory := a }

/-- The call `bufFinalize(&(*unifBufs)[j], &(*unifBufsMem)[j])`. -/
def unifFinalizeBufferAt (slot : UnifSlot) (j : Nat) (w : World) : World :=
  bufFinalize ((w.conn.bufs slot).read j) ((w.conn.bufsMem slot).read j) w

/-- The creation loop of `unifInitializeBuffers`, with `n` iterations left, at
index `i`. -/
def unifInitializeBuffers.loop (d : Driver) (slot : UnifSlot) :
    Nat → Nat → World → Int × World
  | 0, _, w => (0, w)
  | n + 1, i, w =>
    let r := bufInitialize d
      (VK_MEMORY_PROPERTY_HOST_VISIBLE_BIT ||| VK_MEMORY_PROPERTY_HOST_COHERENT_BIT)
      ((w.conn.bufs slot).read i) ((w.conn.bufsMem slot).read i) w
    let c1 := r.2.2.2.conn.setBufs slot ((r.2.2.2.conn.bufs slot).write i r.2.1)
    let c2 := c1.setBufsMem slot ((c1.bufsMem slot).write i r.2.2.1)
    let w1 := r.2.2.2.setConn c2
    if r.1 ≠ 0 then
      let w2 := forRange i (unifFinalizeBufferAt slot) w1
      (1, free (w2.conn.bufs slot).ptr (free (w2.conn.bufsMem slot).ptr w2))
    else unifInitializeBuffers.loop d slot n (i + 1) w1

/-- The function `unifInitializeBuffers`. -/
def unifInitializeBuffers (d : Driver) (slot : UnifSlot) (w : World) : Int × World :=
  let m1 := malloc d w.swap.numImages w
  match m1.1 with
  | none => (3, m1.2.setConn (m1.2.conn.setBufs slot Arr.null))
  | some a =>
    let w1 := m1.2.setConn (m1.2.conn.setBufs slot a)
    let m2 := malloc d w.swap.numImages w1
    match m2.1 with
    | none => (2, free a.ptr (m2.2.setConn (m2.2.conn.setBufsMem slot Arr.null)))
    | some b =>
      unifInitializeBuffers.loop d slot w.swap.numImages 0
        (m2.2.setConn (m2.2.conn.setBufsMem slot b))

/-- The function `unifFinalizeBuffers`. -/
def unifFinalizeBuffers (slot : UnifSlot) (w : World) : World :=
  let w1 := forRange w.swap.numImages (unifFinalizeBufferAt slot) w
  free (w1.conn.bufs slot).ptr (free (w1.conn.bufsMem slot).ptr w1)

/-- The function `unifAlignment`, in C `int` arithmetic: the device limit (a
`VkDeviceSize`) is converted to `int`, division and remainder truncate towards
zero, and sum and product are 32-bit.  On an alignment of 0 the C program
divides by zero; the embedding then follows the convention `x % 0 = x`. -/
def unifAlignment (vul : vulVulkan) (uboSize : Int) : Int :=
  let alignment := toInt32 vul.minUniformBufferOffsetAlignment
  if Int.tmod uboSize alignment = 0 then uboSize
  else toInt32 (toInt32 (Int.tdiv uboSize alignment + 1) * alignment)

/-- The function `unifInitializeAligned`. -/
def unifInitializeAligned (d : Driver) (uboNum uboSize : Int) (w : World) :
    Int × World :=
  let m := malloc d 0 w
  let aligned : unifAligned :=
    { uboNum := uboNum, uboSize := uboSize,
      alignedSize := unifAlignment w.vul uboSize,
      data := match m.1 with
        | some a => a.ptr
        | none => 0 }
  let w1 := m.2.setConn { m.2.conn with aligned := aligned }
  if aligned.data = 0 then (1, w1) else (0, w1)

/-- The function `unifFinalizeAligned`. -/
def unifFinalizeAligned (w : World) : World :=
  free w.conn.aligned.data w

/-! ## 480description.c -/

/-- The function `descInitializeLayout`. -/
def descInitializeLayout (d : Driver) (w : World) : Int × World :=
  let m := malloc d 0 w
  match m.1 with
  | none => (2, m.2)
  | some layoutBindings =>
    let r := vkCreate d Obj.descriptorSetLayout m.2
    match r.1 with
    | none => (1, free layoutBindings.ptr r.2)
    | some l =>
      (0, free layoutBindings.ptr
        (r.2.setConn { r.2.conn with
          desc := { r.2.conn.desc with descriptorSetLayout := l } }))

/-- The function `descFinalizeLayout`. -/
def descFinalizeLayout (w : World) : World :=
  vkDestroy Obj.descriptorSetLayout w.conn.desc.descriptorSetLayout w

/-- The function `descInitializePool`. -/
def descInitializePool (d : Driver) (w : World) : Int × World :=
  let m := malloc d 0 w
  match m.1 with
  | none => (2, m.2)
  | some poolSizes =>
    let r := vkCreate d Obj.descriptorPool m.2
    match r.1 with
    | none => (1, free poolSizes.ptr r.2)
    | some pool =>
      (0, free poolSizes.ptr
        (r.2.setConn { r.2.conn with
          desc := { r.2.conn.desc with descriptorPool := pool } }))

/-- The function `descFinalizePool`. -/
def descFinalizePool (w : World) : World :=
  vkDestroy Obj.descriptorPool w.conn.desc.descriptorPool w

/-- The callback `setDescriptorSet` of `590mainDiffuse.c`: one
`vkUpdateDescriptorSets` for the descriptor set of swap-chain element `i`. -/
def setDescriptorSet (i : Nat) (w : World) : World :=
  w.log (Call.vkUpdateDescriptorSets (w.conn.desc.descriptorSets.read i))

/-- The function `descInitializeSets`. -/
def descInitializeSets (d : Driver) (w : World) : Int × World :=
  let m1 := malloc d w.swap.numImages w
  match m1.1 with
  | none => (3, m1.2)
  | some layouts =>
    let m2 := malloc d w.swap.numImages m1.2
    match m2.1 with
    | none =>
      (2, free layouts.ptr
        (m2.2.setConn { m2.2.conn with
          desc := { m2.2.conn.desc with descriptorSets := Arr.null } }))
    | some sets =>
      let w1 := m2.2.setConn { m2.2.conn with
          desc := { m2.2.conn.desc with descriptorSets := sets } }
      let r := vkAllocateDescriptorSets d w.swap.numImages w1
      match r.1 with
      | none => (1, free layouts.ptr (free r.2.conn.desc.descriptorSets.ptr r.2))
      | some hs =>
        let w2 := r.2.setConn { r.2.conn with
            desc := { r.2.conn.desc with
              descriptorSets := { ptr := sets.ptr, elems := hs } } }
        (0, free layouts.ptr (forRange w.swap.numImages setDescriptorSet w2))

/-- The function `descFinalizeSets`. -/
def descFinalizeSets (w : World) : World :=
  free w.conn.desc.descriptorSets.ptr w

/-- The function `descInitialize`. -/
def descInitialize (d : Driver) (w : World) : Int × World :=
  let r1 := descInitializeLayout d w
  if r1.1 ≠ 0 then (3, r1.2)
  else
    let r2 := descInitializePool d r1.2
    if r2.1 ≠ 0 then (2, descFinalizeLayout r2.2)
    else
      let r3 := descInitializeSets d r2.2
      if r3.1 ≠ 0 then (1, descFinalizeLayout (descFinalizePool r3.2))
      else (0, r3.2)

/-- The function `descFinalize`. -/
def descFinalize (w : World) : World :=
  descFinalizeLayout (descFinalizePool (descFinalizeSets w))

/-! ## 550body.c: recording the draw calls -/

/-- The function `bodyRender`: bind the descriptor set at the dynamic offset
`index * alignedSize` (a `uint32_t`), then `veshRender`. -/
def bodyRender (vesh cmdBuf descriptorSet : Handle) (alignedSize index : Int)
    (w : World) : World :=
  (w.log (Call.vkCmdBindDescriptorSets cmdBuf descriptorSet
    (toUint32 (index * alignedSize)))).log (Call.veshRender cmdBuf vesh)

/-- The function `bodyRenderRecursively`; `index + 1` is a 32-bit `int` sum.
The C function is only called on non-null bodies; on `NULL` the embedding does
nothing. -/
def bodyRenderRecursively (cmdBuf descriptorSet : Handle) (alignedSize : Int) :
    bodyBody → Int → World → Int × World
  | bodyBody.NULL, index, w => (index, w)
  | bodyBody.body vesh firstChild nextSibling, index, w =>
    let w1 := bodyRender vesh cmdBuf descriptorSet alignedSize index w
    let r1 : Int × World :=
      match firstChild with
      | bodyBody.NULL => (index, w1)
      | bodyBody.body _ _ _ =>
        bodyRenderRecursively cmdBuf descriptorSet alignedSize firstChild
          (toInt32 (index + 1)) w1
    match nextSibling with
    | bodyBody.NULL => r1
    | bodyBody.body _ _ _ =>
      bodyRenderRecursively cmdBuf descriptorSet alignedSize nextSibling
        (toInt32 (r1.1 + 1)) r1.2

/-! ## 590mainDiffuse.c: the connection between swap chain and scene -/

/-- The function `setSceneUniforms`: the scene data (floating point) is left
out, the map / unmap of the image's scene uniform memory is kept. -/
def setSceneUniforms (imageIndex : Nat) (w : World) : World :=
  (w.log (Call.vkMapMemory (w.conn.sceneUniformBuffersMemory.read imageIndex))).log
    (Call.vkUnmapMemory (w.conn.sceneUniformBuffersMemory.read imageIndex))

/-- The function `setBodyUniforms`: the body data (floating point) is left
out, the map / unmap of the image's body uniform memory is kept. -/
def setBodyUniforms (imageIndex : Nat) (w : World) : World :=
  (w.log (Call.vkMapMemory (w.conn.bodyUniformBuffersMemory.read imageIndex))).log
    (Call.vkUnmapMemory (w.conn.bodyUniformBuffersMemory.read imageIndex))

/-- The value of `sizeof(BodyUniforms)`: a 4x4 float matrix and four
`uint32_t`. -/
def sizeofBodyUniforms : Int := 80

/-- The function `initializeUniforms`. -/
def initializeUniforms (d : Driver) (w0 : World) : Int × World :=
  let w := enter Fn.initializeUniforms w0
  let r1 := unifInitializeBuffers d UnifSlot.scene w
  if r1.1 ≠ 0 then (4, r1.2)
  else
    let r2 := unifInitializeBuffers d UnifSlot.body r1.2
    if r2.1 ≠ 0 then (3, unifFinalizeBuffers UnifSlot.scene r2.2)
    else
      let r3 := unifInitializeAligned d r2.2.bodyNum sizeofBodyUniforms r2.2
      if r3.1 ≠ 0 then
        (2, unifFinalizeBuffers UnifSlot.scene (unifFinalizeBuffers UnifSlot.body r3.2))
      else
        let r4 := descInitialize d r3.2
        if r4.1 ≠ 0 then
          (1, unifFinalizeBuffers UnifSlot.scene (unifFinalizeBuffers UnifSlot.body
            (unifFinalizeAligned r4.2)))
        else (0, r4.2)

/-- The function `finalizeUniforms`. -/
def finalizeUniforms (w0 : World) : World :=
  let w := enter Fn.finalizeUniforms w0
  unifFinalizeBuffers UnifSlot.scene (unifFinalizeBuffers UnifSlot.body
    (unifFinalizeAligned (descFinalize w)))

/-- The function `initializePipeline`. -/
def initializePipeline (d : Driver) (w0 : World) : Int × World :=
  let w := enter Fn.initializePipeline w0
  let r1 := vkCreate d Obj.pipelineLayout w
  match r1.1 with
  | none => (2, r1.2)
  | some layout =>
    let r2 := vkCreate d Obj.pipeline
      (r1.2.setConn { r1.2.conn with connPipelineLayout := layout })
    match r2.1 with
    | none => (1, r2.2)
    | some pl => (0, r2.2.setConn { r2.2.conn with connGraphicsPipeline := pl })

/-- The function `finalizePipeline`. -/
def finalizePipeline (w0 : World) : World :=
  let w := enter Fn.finalizePipeline w0
  vkDestroy Obj.pipelineLayout w.conn.connPipelineLayout
    (vkDestroy Obj.pipeline w.conn.connGraphicsPipeline w)

/-- The recording loop of `initializeCommandBuffers`, with `n` iterations left,
at index `i`. -/
def initializeCommandBuffers.loop (d : Driver) : Nat → Nat → World → Int × World
  | 0, _, w => (0, w)
  | n + 1, i, w =>
    let cb := w.conn.connCommandBuffers.read i
    let b := vkBeginCommandBuffer d cb w
    if b.1 = false then (2, free b.2.conn.connCommandBuffers.ptr b.2)
    else
      let w1 := b.2.log
        (Call.vkCmdBeginRenderPass cb b.2.swap.renderPass (b.2.swap.framebuffers.read i))
      let w2 := w1.log (Call.vkCmdBindPipeline cb w1.conn.connGraphicsPipeline)
      let r := bodyRenderRecursively cb (w2.conn.desc.descriptorSets.read i)
        w2.conn.aligned.alignedSize w2.heroTorsoBody 0 w2
      let w3 := r.2.log (Call.vkCmdEndRenderPass cb)
      let e := vkEndCommandBuffer d cb w3
      if e.1 = false then (1, free e.2.conn.connCommandBuffers.ptr e.2)
      else initializeCommandBuffers.loop d n (i + 1) e.2

/-- The function `initializeCommandBuffers`. -/
def initializeCommandBuffers (d : Driver) (w0 : World) : Int × World :=
  let w := enter Fn.initializeCommandBuffers w0
  let m := malloc d w.swap.numImages w
  match m.1 with
  | none => (4, m.2.setConn { m.2.conn with connCommandBuffers := Arr.null })
  | some a =>
    let r := vkAllocate d Obj.commandBuffer w.swap.numImages
      (m.2.setConn { m.2.conn with connCommandBuffers := a })
    match r.1 with
    | none => (3, free a.ptr r.2)
    | some cbs =>
      initializeCommandBuffers.loop d w.swap.numImages 0
        (r.2.setConn { r.2.conn with
          connCommandBuffers := { ptr := a.ptr, elems := cbs } })

/-- One element of the call `vkFreeCommandBuffers(..., connCommandBuffers)`. -/
def freeCommandBufferAt (i : Nat) (w : World) : World :=
  vkDestroy Obj.commandBuffer (w.conn.connCommandBuffers.read i) w

/-- The function `finalizeCommandBuffers`. -/
def finalizeCommandBuffers (w0 : World) : World :=
  let w := enter Fn.finalizeCommandBuffers w0
  let w1 := forRange w.swap.numImages freeCommandBufferAt w
  free w1.conn.connCommandBuffers.ptr w1

/-- The function `initializeConnection`. -/
def initializeConnection (d : Driver) (w0 : World) : Int × World :=
  let w := enter Fn.initializeConnection w0
  let r1 := initializeUniforms d w
  if r1.1 ≠ 0 then (3, r1.2)
  else
    let r2 := initializePipeline d r1.2
    if r2.1 ≠ 0 then (2, finalizeUniforms r2.2)
    else
      let r3 := initializeCommandBuffers d r2.2
      if r3.1 ≠ 0 then (1, finalizeUniforms (finalizePipeline r3.2))
      else (0, r3.2)

/-- The function `finalizeConnection`. -/
def finalizeConnection (w0 : World) : World :=
  let w := enter Fn.finalizeConnection w0
  finalizeUniforms (finalizePipeline (finalizeCommandBuffers w))

/-! ## 590mainDiffuse.c: rebuilding the swap chain and presenting a frame -/

/-- The loop `while (width == 0 || height == 0)` of `reinitializeSwapChain`,
followed for at most `fuel` iterations.  The Boolean says whether the loop was
left. -/
def reinitializeSwapChain.wait (d : Driver) : Nat → Int → Int → World → Bool × World
  | 0, width, height, w => (decide (¬ (width = 0 ∨ height = 0)), w)
  | fuel + 1, width, height, w =>
    if width = 0 ∨ height = 0 then
      let r := glfwGetFramebufferSize d w
      let w1 := glfwWaitEvents d r.2
      reinitializeSwapChain.wait d fuel r.1.1 r.1.2 w1
    else (true, w)

/-- The statements of `reinitializeSwapChain` after its loop. -/
def reinitializeSwapChain.rebuild (MAXFRAMESINFLIGHT : Nat) (d : Driver)
    (w : World) : Int × World :=
  let w1 := w.log Call.vkDeviceWaitIdle
  let w2 := finalizeConnection w1
  let w3 := swapFinalize MAXFRAMESINFLIGHT w2
  let s := swapInitialize MAXFRAMESINFLIGHT d w3
  if s.1 ≠ 0 then (2, s.2)
  else
    let c := initializeConnection d s.2
    if c.1 ≠ 0 then (1, swapFinalize MAXFRAMESINFLIGHT c.2)
    else (0, c.2)

/-- The function `reinitializeSwapChain`.  `none` means that the wait for a
non-zero framebuffer size has not ended after `fuel` iterations. -/
def reinitializeSwapChain (MAXFRAMESINFLIGHT : Nat) (d : Driver) (fuel : Nat)
    (w0 : World) : Option Int × World :=
  let w := enter Fn.reinitializeSwapChain w0
  let r := glfwGetFramebufferSize d w
  let l := reinitializeSwapChain.wait d fuel r.1.1 r.1.2 r.2
  if l.1 = false then (none, l.2)
  else
    let b := reinitializeSwapChain.rebuild MAXFRAMESINFLIGHT d l.2
    (some b.1, b.2)

/-- The function `presentFrame`.  `none` means that the call did not return
because a rebuild is still waiting for a non-zero framebuffer size. -/
def presentFrame (MAXFRAMESINFLIGHT : Nat) (d : Driver) (fuel : Nat) (w0 : World) :
    Option Int × World :=
  let w := enter Fn.presentFrame w0
  let w1 := w.log (Call.vkWaitForFences (w.swap.inFlightFences.getD w.swap.curFrame 0))
  let a := vkAcquireNextImageKHR d w1.swap.swapChain
    (w1.swap.imageAvailSems.getD w1.swap.curFrame 0) w1
  let imageIndex := a.1.2
  if a.1.1 = VkResult.VK_ERROR_OUT_OF_DATE_KHR then
    let r := reinitializeSwapChain MAXFRAMESINFLIGHT d fuel a.2
    match r.1 with
    | none => (none, r.2)
    | some _ => (some 5, r.2)
  else if a.1.1 ≠ VkResult.VK_SUCCESS ∧ a.1.1 ≠ VkResult.VK_SUBOPTIMAL_KHR then
    (some 4, a.2)
  else
    let w2 := a.2.setImagesInFlight (a.2.swap.imagesInFlight.write imageIndex
      (a.2.swap.inFlightFences.getD a.2.swap.curFrame 0))
    let w3 :=
      if w2.swap.imagesInFlight.read imageIndex ≠ VK_NULL_HANDLE then
        w2.log (Call.vkWaitForFences (w2.swap.imagesInFlight.read imageIndex))
      else w2
    let w4 := setSceneUniforms imageIndex w3
    let w5 := setBodyUniforms imageIndex w4
    let submitInfo : VkSubmitInfo :=
      { waitSemaphores := [w5.swap.imageAvailSems.getD w5.swap.curFrame 0],
        waitDstStageMask := [VK_PIPELINE_STAGE_COLOR_ATTACHMENT_OUTPUT_BIT],
        commandBuffers := [w5.conn.connCommandBuffers.read imageIndex],
        signalSemaphores := [w5.swap.renderDoneSems.getD w5.swap.curFrame 0] }
    let w6 := w5.log (Call.vkResetFences (w5.swap.inFlightFences.getD w5.swap.curFrame 0))
    let s := vkQueueSubmit d submitInfo
      (w6.swap.inFlightFences.getD w6.swap.curFrame 0) w6
    if s.1 ≠ VkResult.VK_SUCCESS then (some 3, s.2)
    else
      let presentInfo : VkPresentInfoKHR :=
        { waitSemaphores := submitInfo.signalSemaphores,
          swapchains := [s.2.swap.swapChain],
          imageIndices := [imageIndex] }
      let p := vkQueuePresentKHR d presentInfo s.2
      if p.1 = VkResult.VK_ERROR_OUT_OF_DATE_KHR ∨ p.1 = VkResult.VK_SUBOPTIMAL_KHR ∨
          p.2.gui.framebufferResized ≠ 0 then
        let r := reinitializeSwapChain MAXFRAMESINFLIGHT d fuel
          (guiSetFramebufferResized p.2 0)
        match r.1 with
        | none => (none, r.2)
        | some error =>
          if error ≠ 0 then (some 2, r.2)
          else (some 0, { r.2 with swap := swapIncrementFrame MAXFRAMESINFLIGHT r.2.swap })
      else if p.1 ≠ VkResult.VK_SUCCESS then (some 1, p.2)
      else (some 0, { p.2 with swap := swapIncrementFrame MAXFRAMESINFLIGHT p.2.swap })

/-- The value of `MAXFRAMESINFLIGHT` that `590mainDiffuse.c` defines. -/
def MAXFRAMESINFLIGHT : Nat := 2

/-! ## Reading traces -/

/-- The steps that only the presentation cycle itself makes: the entry of
`presentFrame` and of `reinitializeSwapChain`, fence waits and resets, image
acquisition, the submission of a frame (a `vkQueueSubmit` that signals a
semaphore; the one-shot submissions of `bufEndSingleTimeCommands` signal none),
presentation, and the uniform uploads. -/
def Call.isFrameStep : Call → Bool
  | Call.enter Fn.presentFrame => true
  | Call.enter Fn.reinitializeSwapChain => true
  | Call.vkWaitForFences _ => true
  | Call.vkResetFences _ => true
  | Call.vkAcquireNextImageKHR _ _ _ _ => true
  | Call.vkQueueSubmit info _ _ => decide (info.signalSemaphores ≠ [])
  | Call.vkQueuePresentKHR _ _ => true
  | Call.vkMapMemory _ => true
  | Call.vkUnmapMemory _ => true
  | _ => false

/-- The steps of the presentation cycle in a trace, in order. -/
def frameSteps (tr : List Call) : List Call := tr.filter Call.isFrameStep

/-- The other calls of a trace, in order. -/
def quietPart (tr : List Call) : List Call := tr.filter (fun c => !c.isFrameStep)

/-- The objects of a trace that were created and not destroyed afterwards, in
order of creation. -/
def liveObjects : List Call → List (Obj × Handle)
  | [] => []
  | Call.create k h :: rest =>
    if Call.destroy k h ∈ rest then liveObjects rest else (k, h) :: liveObjects rest
  | _ :: rest => liveObjects rest

/-- State that the construction and destruction code neither reads nor writes,
and a trace to put in front. -/
structure Hidden where
  gui : guiGUI
  curFrame : Nat
  nAcquire : Nat
  nPresent : Nat
  pre : List Call

/-- Replace the state that construction and destruction do not look at, drop
the steps of the presentation cycle from the trace and put `h.pre` in front. -/
def World.hide (h : Hidden) (w : World) : World :=
  { w with
      gui := h.gui,
      swap := { w.swap with curFrame := h.curFrame },
      env := { w.env with
        nAcquire := h.nAcquire, nPresent := h.nPresent,
        trace := h.pre ++ quietPart w.env.trace } }

/-- The hidden state of a world, with its whole trace in front. -/
def World.hidden (w : World) : Hidden :=
  { gui := w.gui, curFrame := w.swap.curFrame, nAcquire := w.env.nAcquire,
    nPresent := w.env.nPresent, pre := w.env.trace }

/-- The world with an empty trace. -/
def World.fresh (w : World) : World := { w with env := { w.env with trace := [] } }

/-- The world `w'` is reached from `w` by calls that are not steps of the
presentation cycle and that leave the frame counters alone. -/
structure Calm (w w' : World) : Prop where
  nAcquire : w'.env.nAcquire = w.env.nAcquire
  nPresent : w'.env.nPresent = w.env.nPresent
  trace : ∃ post, w'.env.trace = w.env.trace ++ post ∧ frameSteps post = []

/-- The calls that `presentFrame` makes from its entry up to and including the
image acquisition. -/
def presentFrame.acquireSteps (d : Driver) (w : World) : List Call :=
  [Call.enter Fn.presentFrame,
   Call.vkWaitForFences (w.swap.inFlightFences.getD w.swap.curFrame 0),
   Call.vkAcquireNextImageKHR w.swap.swapChain
     (w.swap.imageAvailSems.getD w.swap.curFrame 0)
     (d.acquireNextImage w.env.nAcquire).1 (d.acquireNextImage w.env.nAcquire).2]

/-- The table `imagesInFlight` after `presentFrame` has assigned the slot's
fence to the entry of the acquired image. -/
def presentFrame.imagesInFlight (d : Driver) (w : World) : Arr :=
  w.swap.imagesInFlight.write (d.acquireNextImage w.env.nAcquire).2
    (w.swap.inFlightFences.getD w.swap.curFrame 0)

/-- The calls that `presentFrame` makes after a successful acquisition, up to
and including the queue submission. -/
def presentFrame.submitSteps (d : Driver) (w : World) : List Call :=
  (if (presentFrame.imagesInFlight d w).read (d.acquireNextImage w.env.nAcquire).2
      ≠ VK_NULL_HANDLE then
    [Call.vkWaitForFences
      ((presentFrame.imagesInFlight d w).read (d.acquireNextImage w.env.nAcquire).2)]
  else []) ++
  [Call.vkMapMemory
     (w.conn.sceneUniformBuffersMemory.read (d.acquireNextImage w.env.nAcquire).2),
   Call.vkUnmapMemory
     (w.conn.sceneUniformBuffersMemory.read (d.acquireNextImage w.env.nAcquire).2),
   Call.vkMapMemory
     (w.conn.bodyUniformBuffersMemory.read (d.acquireNextImage w.env.nAcquire).2),
   Call.vkUnmapMemory
     (w.conn.bodyUniformBuffersMemory.read (d.acquireNextImage w.env.nAcquire).2),
   Call.vkResetFences (w.swap.inFlightFences.getD w.swap.curFrame 0),
   Call.vkQueueSubmit
     { waitSemaphores := [w.swap.imageAvailSems.getD w.swap.curFrame 0],
       waitDstStageMask := [VK_PIPELINE_STAGE_COLOR_ATTACHMENT_OUTPUT_BIT],
       commandBuffers :=
         [w.conn.connCommandBuffers.read (d.acquireNextImage w.env.nAcquire).2],
       signalSemaphores := [w.swap.renderDoneSems.getD w.swap.curFrame 0] }
     (w.swap.inFlightFences.getD w.swap.curFrame 0)
     (d.queueSubmit w.env.nSubmit)]

/-- The presentation request of `presentFrame`. -/
def presentFrame.presentStep (d : Driver) (w : World) : Call :=
  Call.vkQueuePresentKHR
    { waitSemaphores := [w.swap.renderDoneSems.getD w.swap.curFrame 0],
      swapchains := [w.swap.swapChain],
      imageIndices := [(d.acquireNextImage w.env.nAcquire).2] }
    (d.queuePresent w.env.nPresent)

/-- The state when the image acquisition of `presentFrame` has returned. -/
def presentFrame.acquired (d : Driver) (w : World) : World :=
  { w with env := { w.env with
      trace := w.env.trace ++ presentFrame.acquireSteps d w,
      nAcquire := w.env.nAcquire + 1 } }

/-- The state when the queue submission of `presentFrame` has returned. -/
def presentFrame.submitted (d : Driver) (w : World) : World :=
  { w with
      swap := { w.swap with imagesInFlight := presentFrame.imagesInFlight d w },
      env := { w.env with
        trace := w.env.trace ++ presentFrame.acquireSteps d w ++
          presentFrame.submitSteps d w,
        nAcquire := w.env.nAcquire + 1,
        nSubmit := w.env.nSubmit + 1 } }

/-- The state when the presentation request of `presentFrame` has returned. -/
def presentFrame.presented (d : Driver) (w : World) : World :=
  { presentFrame.submitted d w with
      env := { (presentFrame.submitted d w).env with
        trace := (presentFrame.submitted d w).env.trace ++ [presentFrame.presentStep d w],
        nPresent := w.env.nPresent + 1 } }

/-- Whether `presentFrame` rebuilds the swap chain after the presentation
request. -/
def presentFrame.rebuilds (d : Driver) (w : World) : Prop :=
  d.queuePresent w.env.nPresent = VkResult.VK_ERROR_OUT_OF_DATE_KHR ∨
  d.queuePresent w.env.nPresent = VkResult.VK_SUBOPTIMAL_KHR ∨
  w.gui.framebufferResized ≠ 0

instance (d : Driver) (w : World) : Decidable (presentFrame.rebuilds d w) := by
  unfold presentFrame.rebuilds; infer_instance

/-- `n` successive calls of `presentFrame`, as the frame loop makes them: the
return codes in order and the final state.  A call that does not return ends
the run. -/
def presentFrames (MAXFRAMESINFLIGHT : Nat) (d : Driver) (fuel : Nat) :
    Nat → World → List (Option Int) × World
  | 0, w => ([], w)
  | n + 1, w =>
    let r := presentFrame MAXFRAMESINFLIGHT d fuel w
    match r.1 with
    | none => ([none], r.2)
    | some code =>
      let rest := presentFrames MAXFRAMESINFLIGHT d fuel n r.2
      (some code :: rest.1, rest.2)

/-! ## A test bench -/

/-- A driver on which every call succeeds: a window of 800 x 600 pixels, a
surface with 2 to 8 images, three swap-chain images acquired in turn. -/
def okDriver : Driver :=
  { framebufferSize := fun _ => (800, 600),
    resizeOnWait := fun _ => false,
    resizeOnPoll := fun _ => false,
    windowShouldClose := fun _ => false,
    acquireNextImage := fun n => (VkResult.VK_SUCCESS, n % 3),
    queueSubmit := fun _ => VkResult.VK_SUCCESS,
    queuePresent := fun _ => VkResult.VK_SUCCESS,
    createOk := fun _ => true,
    recordOk := fun _ => true,
    mallocOk := fun _ => true,
    heapJunk := fun _ i => 9000 + i,
    stackJunk := fun _ => 7777,
    surfaceCapabilities := fun _ =>
      { minImageCount := 2, maxImageCount := 8,
        currentExtent := { width := 800, height := 600 },
        minImageExtent := { width := 1, height := 1 },
        maxImageExtent := { width := 4096, height := 4096 },
        currentTransform := 1 },
    surfaceFormats := fun _ =>
      [{ format := 44, colorSpace := 0 }, { format := 50, colorSpace := 0 }],
    presentModes := fun _ => [2, 1],
    swapchainImageCount := fun _ => 3,
    formatProperties := fun _ =>
      { linearTilingFeatures := 0, optimalTilingFeatures := 512 },
    memoryTypes := [{ propertyFlags := 7 }],
    memoryRequirements := fun _ => { size := 1024, memoryTypeBits := 1 },
    queueFamilies := [{ graphics := true, presentSupport := true }] }

/-- The state before `swapInitialize` is first called: the GUI and the device
exist, nothing of the swap chain or the connection does.  The scene is the one
of `main`: the hero's torso (mesh 50) with the head (51) as its child and the
water (56) and the landscape (57) as its siblings; the head has the two eyes
(52, 53), each with its iris (54, 55). -/
def bootWorld : World :=
  { gui := { window := 1, framebufferResized := 0 },
    vul := { vkInstance := 2, surface := 3, physicalDevice := 4, device := 5,
             graphicsQueue := 6, presentQueue := 7, commandPool := 8,
             minUniformBufferOffsetAlignment := 64 },
    swap := { swapChain := 0, imageFormat := 0, renderPass := 0, curFrame := 0,
              extent := { width := 0, height := 0 },
              imageAvailSems := [0, 0], renderDoneSems := [0, 0],
              inFlightFences := [0, 0], depthImage := 0, depthImageMemory := 0,
              depthImageView := 0, numImages := 0, images := Arr.null,
              imageViews := Arr.null, framebuffers := Arr.null,
              imagesInFlight := Arr.null },
    conn := { sceneUniformBuffers := Arr.null, sceneUniformBuffersMemory := Arr.null,
              bodyUniformBuffers := Arr.null, bodyUniformBuffersMemory := Arr.null,
              aligned := { uboNum := 0, uboSize := 0, alignedSize := 0, data := 0 },
              desc := { descriptorSetLayout := 0, descriptorPool := 0,
                        descriptorSets := Arr.null },
              connPipelineLayout := 0, connGraphicsPipeline := 0,
              connCommandBuffers := Arr.null },
    heroTorsoBody :=
      bodyBody.body 50
        (bodyBody.body 51
          (bodyBody.body 52 (bodyBody.body 54 bodyBody.NULL bodyBody.NULL)
            (bodyBody.body 53 (bodyBody.body 55 bodyBody.NULL bodyBody.NULL)
              bodyBody.NULL))
          bodyBody.NULL)
        (bodyBody.body 56 bodyBody.NULL (bodyBody.body 57 bodyBody.NULL bodyBody.NULL)),
    bodyNum := 8,
    env := { trace := [], nextHandle := 100, nFramebufferSize := 0, nWaitEvents := 0,
             nPollEvents := 0, nShouldClose := 0, nAcquire := 0, nSubmit := 0,
             nPresent := 0, nCreate := 0, nRecord := 0, nMalloc := 0, nSupport := 0,
             nSwapchain := 0 } }

/-- The state in which `main` calls `guiRun`: `swapInitialize` and
`initializeConnection` have succeeded on `okDriver`.  The trace is emptied so
that later traces show only what follows. -/
def readyWorld : World :=
  let w := (initializeConnection okDriver
    (swapInitialize MAXFRAMESINFLIGHT okDriver bootWorld).2).2
  { w with env := { w.env with trace := [] } }

/-! ## Vocabulary of the claims and more test inputs -/

/-- The pair that `swapGetSurfaceFormat` prefers: format `B8G8R8A8_SRGB` with
colour space `SRGB_NONLINEAR`. -/
def isPreferredFormat (f : VkSurfaceFormatKHR) : Prop :=
  f.format = VK_FORMAT_B8G8R8A8_SRGB ∧ f.colorSpace = VK_COLOR_SPACE_SRGB_NONLINEAR_KHR

instance (f : VkSurfaceFormatKHR) : Decidable (isPreferredFormat f) := by
  unfold isPreferredFormat; infer_instance

/-- Capabilities of a surface that leaves the extent to the application: the
width of `currentExtent` is the "undefined" mark. -/
def undefinedExtent : VkSurfaceCapabilitiesKHR :=
  { minImageCount := 2, maxImageCount := 8,
    currentExtent := { width := 4294967295, height := 4294967295 },
    minImageExtent := { width := 1, height := 1 },
    maxImageExtent := { width := 4096, height := 4096 },
    currentTransform := 1 }

/-- The driver `okDriver` with a framebuffer of 5000 x 300 pixels. -/
def wideWindowDriver : Driver :=
  { okDriver with framebufferSize := fun _ => (5000, 300) }

/-- Whether the image acquisition of `presentFrame` lets the cycle go on:
the driver reports success or a suboptimal swap chain. -/
def presentFrame.acquires (d : Driver) (w : World) : Prop :=
  (d.acquireNextImage w.env.nAcquire).1 = VkResult.VK_SUCCESS ∨
  (d.acquireNextImage w.env.nAcquire).1 = VkResult.VK_SUBOPTIMAL_KHR

instance (d : Driver) (w : World) : Decidable (presentFrame.acquires d w) := by
  unfold presentFrame.acquires; infer_instance

/-- The state in which `presentFrame` calls `reinitializeSwapChain` after the
presentation request: the request has returned and the resize flag is
cleared. -/
def presentFrame.cleared (d : Driver) (w : World) : World :=
  guiSetFramebufferResized (presentFrame.presented d w) 0

/-- The image counts that a trace asks of `vkCreateSwapchainKHR`
(`createInfo.minImageCount`), in order. -/
def requestedImageCounts : List Call → List Nat
  | [] => []
  | Call.vkCreateSwapchainKHR info :: rest => info.minImageCount :: requestedImageCounts rest
  | _ :: rest => requestedImageCounts rest

/-- The driver `okDriver` on a surface that reports the largest 32-bit minimum
image count and the maximum 5. -/
def wrapDriver : Driver :=
  { okDriver with surfaceCapabilities := fun _ =>
      { minImageCount := 4294967295, maxImageCount := 5,
        currentExtent := { width := 800, height := 600 },
        minImageExtent := { width := 1, height := 1 },
        maxImageExtent := { width := 4096, height := 4096 },
        currentTransform := 1 } }

/-- How many times a trace enters `reinitializeSwapChain`. -/
def rebuildCount (tr : List Call) : Nat :=
  tr.count (Call.enter Fn.reinitializeSwapChain)

/-- The queue submissions of a trace, in order. -/
def queueSubmissions (tr : List Call) : List Call :=
  tr.filter (fun c => match c with
    | Call.vkQueueSubmit _ _ _ => true
    | _ => false)

/-- The driver `okDriver` with a swap chain that hands out image 0 every
time. -/
def sameImageDriver : Driver :=
  { okDriver with acquireNextImage := fun _ => (VkResult.VK_SUCCESS, 0) }

/-- The state after one frame on `sameImageDriver` from `readyWorld`, with the
trace emptied: the frame slot is 1 and image 0 is in flight with the fence of
slot 0. -/
def secondFrameWorld : World :=
  (presentFrame MAXFRAMESINFLIGHT sameImageDriver 1 readyWorld).2.fresh

/-- The driver `okDriver` with every presentation request reporting a
suboptimal swap chain. -/
def suboptimalDriver : Driver :=
  { okDriver with queuePresent := fun _ => VkResult.VK_SUBOPTIMAL_KHR }

/-- The state `readyWorld` after the window system has delivered a resize
event. -/
def resizedWorld : World := guiResizingCallback readyWorld

/-- The driver `okDriver` with a minimised window: the first two reads of the
framebuffer size give 0 x 0, and the first `glfwWaitEvents` delivers the resize
event that restores the window. -/
def minimizedDriver : Driver :=
  { okDriver with
      framebufferSize := fun n => if n < 2 then (0, 0) else (800, 600),
      resizeOnWait := fun n => decide (n = 0) }

/-- The driver `okDriver` with the second image acquisition reporting
out-of-date. -/
def oneOutOfDateDriver : Driver :=
  { okDriver with acquireNextImage := fun n =>
      if n = 1 then (VkResult.VK_ERROR_OUT_OF_DATE_KHR, 0)
      else (VkResult.VK_SUCCESS, n % 3) }

/-- The state after one frame on `oneOutOfDateDriver` from `readyWorld`, with
the trace emptied: the next acquisition is the one that reports
out-of-date. -/
def skippedFrameWorld : World :=
  (presentFrames MAXFRAMESINFLIGHT oneOutOfDateDriver 1 1 readyWorld).2.fresh

/-- The state in which `guiRun` calls the frame presenter: the window was
asked whether it should close and the events were polled. -/
def guiRun.polled (d : Driver) (w : World) : World :=
  glfwPollEvents d { w with env := { w.env with nShouldClose := w.env.nShouldClose + 1 } }

/-- The driver `okDriver` with every presentation request reporting
out-of-date, a device that creates no object after `readyWorld` (so that every
rebuild fails at `vkCreateSwapchainKHR`), and a window that should close at
the third test. -/
def brokenRebuildDriver : Driver :=
  { okDriver with
      queuePresent := fun _ => VkResult.VK_ERROR_OUT_OF_DATE_KHR,
      createOk := fun n => decide (n < 36),
      windowShouldClose := fun n => decide (2 ≤ n) }

/-- The driver `okDriver` with a device on which the creation call number 46
fails: from `readyWorld`, that is the `vkCreateFramebuffer` for the second
image of the rebuilt swap chain. -/
def leakyDriver : Driver :=
  { okDriver with createOk := fun n => decide (n ≠ 46) }

/-! ## 440vulkan.c: choosing the physical device -/

/-- What the Vulkan instance reports about one physical device: its handle,
its queue families, the names of its device extensions, what it supports on
the surface, whether it has sampler anisotropy (a `VkBool32`), and, of its
properties, `limits.minUniformBufferOffsetAlignment`. -/
structure PhysicalDevice where
  handle : Handle
  queueFamilies : List QueueFamily
  extensions : List String
  capabilities : VkSurfaceCapabilitiesKHR
  formats : List VkSurfaceFormatKHR
  presentModes : List Nat
  samplerAnisotropy : Nat
  minUniformBufferOffsetAlignment : Int

/-- The driver as it answers queries about the physical device `device`: the
functions `vulGetQueueFamilies` and `vulInitializeSwapChainSupport` take the
device as an argument, and the embedding keeps the answers in the driver. -/
def Driver.forDevice (d : Driver) (device : PhysicalDevice) : Driver :=
  { d with
      queueFamilies := device.queueFamilies,
      surfaceCapabilities := fun _ => device.capabilities,
      surfaceFormats := fun _ => device.formats,
      presentModes := fun _ => device.presentModes }

/-- The assignment `vul->physicalDevice = v`. -/
def World.setPhysicalDevice (w : World) (v : Handle) : World :=
  { w with vul := { w.vul with physicalDevice := v } }

/-- The inner loop of `vulExtensionSupportError`: `found` after the scan of
the available extensions for the name `deviceExtension`. -/
def vulExtensionSupportError.found (deviceExtension : String) (availExt : List String) :
    Int :=
  availExt.foldl (fun found a => if a = deviceExtension then 1 else found) 0

/-- The outer loop of `vulExtensionSupportError` over the required names that
are left. -/
def vulExtensionSupportError.loop (availExt : List String) (availPtr : Handle) :
    List String → World → Int × World
  | [], w => (0, free availPtr w)
  | e :: rest, w =>
    if vulExtensionSupportError.found e availExt = 0 then (1, free availPtr w)
    else vulExtensionSupportError.loop availExt availPtr rest w

/-- The function `vulExtensionSupportError`; `deviceExtensions` is the list of
the first `NUMDEVICEEXT` entries of the array of that name. -/
def vulExtensionSupportError (deviceExtensions : List String) (d : Driver)
    (device : PhysicalDevice) (w : World) : Int × World :=
  let m := malloc d device.extensions.length w
  match m.1 with
  | none => (2, m.2)
  | some availExt =>
    vulExtensionSupportError.loop device.extensions availExt.ptr deviceExtensions m.2

/-- The function `vulIsDeviceSuitable`: 1 if the device is suitable, 0 if
not. -/
def vulIsDeviceSuitable (ANISOTROPY : Nat) (deviceExtensions : List String) (d : Driver)
    (device : PhysicalDevice) (w : World) : Int × World :=
  let q := vulGetQueueFamilies (d.forDevice device) w
  let isComplete : Bool := q.1.hasGraphicsFamily ≠ 0 ∧ q.1.hasPresentFamily ≠ 0
  let e := vulExtensionSupportError deviceExtensions d device q.2
  let extSuppError := e.1
  let s : Bool × World :=
    if extSuppError = 0 then
      let r := vulInitializeSwapChainSupport (d.forDevice device) e.2
      let swapError := r.1
      let swapChainAdequate : Bool :=
        swapError = 0 ∧ r.2.1.formats.length ≥ 1 ∧ r.2.1.presentModes.length ≥ 1
      (swapChainAdequate,
        if swapError = 0 then vulFinalizeSwapChainSupport r.2.1 r.2.2 else r.2.2)
    else (false, e.2)
  let swapChainAdequate := s.1
  if ANISOTROPY ≠ 0 then
    (if isComplete = true ∧ extSuppError = 0 ∧ swapChainAdequate = true ∧
        device.samplerAnisotropy ≠ 0 then 1 else 0, s.2)
  else
    (if isComplete = true ∧ extSuppError = 0 ∧ swapChainAdequate = true then 1 else 0, s.2)

/-- The scan of `vulSetPhysicalDevice` over the devices that are left: it
stops at the first suitable device and stores its handle. -/
def vulSetPhysicalDevice.loop (ANISOTROPY : Nat) (deviceExtensions : List String)
    (d : Driver) : List PhysicalDevice → World → World
  | [], w => w
  | device :: rest, w =>
    let r := vulIsDeviceSuitable ANISOTROPY deviceExtensions d device w
    if r.1 ≠ 0 then r.2.setPhysicalDevice device.handle
    else vulSetPhysicalDevice.loop ANISOTROPY deviceExtensions d rest r.2

/-- The function `vulSetPhysicalDevice`; `devices` is what
`vkEnumeratePhysicalDevices` reports.  The final `vkGetPhysicalDeviceProperties`
stores the properties of the chosen device. -/
def vulSetPhysicalDevice (ANISOTROPY : Nat) (deviceExtensions : List String) (d : Driver)
    (devices : List PhysicalDevice) (w0 : World) : Int × World :=
  let w := w0.setPhysicalDevice VK_NULL_HANDLE
  if devices.length = 0 then (3, w)
  else
    let m := malloc d devices.length w
    match m.1 with
    | none => (2, m.2)
    | some devicesArr =>
      let w1 := vulSetPhysicalDevice.loop ANISOTROPY deviceExtensions d devices m.2
      if w1.vul.physicalDevice = VK_NULL_HANDLE then (1, w1)
      else
        let w2 := free devicesArr.ptr w1
        match devices.find? (fun x => decide (x.handle = w2.vul.physicalDevice)) with
        | some device =>
          (0, { w2 with vul := { w2.vul with
            minUniformBufferOffsetAlignment := device.minUniformBufferOffsetAlignment } })
        | none => (0, w2)

/-- The constant `ANISOTROPY` of `590mainDiffuse.c`. -/
def ANISOTROPY : Nat := 1

/-- The first `NUMDEVICEEXT` (2) entries of the array `deviceExtensions` of
`590mainDiffuse.c`. -/
def deviceExtensions : List String := ["VK_KHR_swapchain", "VK_KHR_portability_subset"]

/-- The suitability of a physical device, in the words of the claim: it has a
graphics queue family and a present-capable queue family, it supports every
required device extension, it reports at least one surface format and at least
one present mode, and it supports sampler anisotropy when `ANISOTROPY` is
set. -/
def PhysicalDevice.suitable (ANISOTROPY : Nat) (deviceExtensions : List String)
    (device : PhysicalDevice) : Prop :=
  (∃ q ∈ device.queueFamilies, q.graphics = true) ∧
  (∃ q ∈ device.queueFamilies, q.presentSupport = true) ∧
  (∀ e ∈ deviceExtensions, e ∈ device.extensions) ∧
  device.formats ≠ [] ∧ device.presentModes ≠ [] ∧
  (ANISOTROPY ≠ 0 → device.samplerAnisotropy ≠ 0)

instance (A : Nat) (E : List String) (device : PhysicalDevice) :
    Decidable (device.suitable A E) := by
  unfold PhysicalDevice.suitable; infer_instance

/-- A physical device that meets every requirement. -/
def goodDevice : PhysicalDevice :=
  { handle := 4,
    queueFamilies := [{ graphics := true, presentSupport := true }],
    extensions := ["VK_KHR_swapchain", "VK_KHR_maintenance1", "VK_KHR_portability_subset"],
    capabilities := okDriver.surfaceCapabilities 0,
    formats := [{ format := 50, colorSpace := 0 }],
    presentModes := [2],
    samplerAnisotropy := 1,
    minUniformBufferOffsetAlignment := 64 }

/-- A physical device without a queue family that can present to the
surface. -/
def headlessDevice : PhysicalDevice :=
  { goodDevice with
      handle := 9,
      queueFamilies := [{ graphics := true, presentSupport := false }] }

/-- The driver `okDriver` with every `malloc` failing. -/
def noMemoryDriver : Driver := { okDriver with mallocOk := fun _ => false }

/-- The state in which `vulSetPhysicalDevice` is called: the window, the
Vulkan instance and the surface exist, nothing else does, and
`physicalDevice` has not been set. -/
def instanceWorld : World :=
  { bootWorld with
      vul := { vkInstance := 2, surface := 3, physicalDevice := 7777, device := 0,
               graphicsQueue := 0, presentQueue := 0, commandPool := 0,
               minUniformBufferOffsetAlignment := 0 } }

/-- The driver `okDriver` on a device where only `D24_UNORM_S8_UINT` can be a
depth-stencil attachment. -/
def d24Driver : Driver :=
  { okDriver with formatProperties := fun format =>
      if format = VK_FORMAT_D24_UNORM_S8_UINT then
        { linearTilingFeatures := 0, optimalTilingFeatures := 512 }
      else { linearTilingFeatures := 0, optimalTilingFeatures := 0 } }

/-! ## Vocabulary of the claims about construction -/

/-- The flag word `flags` contains every flag of `required`: each bit that is
set in `required` is set in `flags`. -/
def includesFlags (flags required : Nat) : Prop :=
  ∀ b, required.testBit b = true → flags.testBit b = true

/-- The format `format` can be a depth-stencil attachment with optimal
tiling on the device of `d`. -/
def supportsDepthStencil (d : Driver) (format : Nat) : Prop :=
  includesFlags (d.formatProperties format).optimalTilingFeatures
    VK_FORMAT_FEATURE_DEPTH_STENCIL_ATTACHMENT_BIT

/-- Memory type `i` of the device satisfies the request of `vulGetMemoryType`:
bit `i` of the filter is set and the type has every required property. -/
def vulGetMemoryType.suits (d : Driver) (typeFilter props i : Nat) : Prop :=
  typeFilter.testBit i = true ∧
    ∃ t, d.memoryTypes[i]? = some t ∧ includesFlags t.propertyFlags props

/-- The calls of a trace that bind memory to a buffer or an image, in
order. -/
def memoryBinds (tr : List Call) : List Call :=
  tr.filter (fun c => match c with
    | Call.vkBindBufferMemory _ _ => true
    | Call.vkBindImageMemory _ _ => true
    | _ => false)

/-- What `bufInitialize` and `imageInitialize` promise, for an object of kind
`kind` that `bind` binds its memory to, called in state `w` with result `r`
(the code, `*buf` or `*image`, the memory, the state afterwards).  The code
tells the failure site: 3 the creation of the object, 2 the search for a memory
type, 1 the allocation of the memory.  On a non-zero code, nothing that the
call created is left and no memory was bound.  On 0 the call created the
object, allocated the memory, bound the one to the other, in this order, and
made no other call. -/
def InitializeOutcome (d : Driver) (properties : Nat) (kind : Obj)
    (bind : Handle → Handle → Call) (w : World) (r : Int × Handle × Handle × World) :
    Prop :=
  ∃ post, r.2.2.2.env.trace = w.env.trace ++ post ∧
    (r.1 = 3 ↔ d.createOk w.env.nCreate = false) ∧
    (r.1 = 2 ↔
      d.createOk w.env.nCreate = true ∧
      vulGetMemoryType d (d.memoryRequirements w.env.nextHandle).memoryTypeBits
        properties = none) ∧
    (r.1 = 1 ↔
      d.createOk w.env.nCreate = true ∧
      vulGetMemoryType d (d.memoryRequirements w.env.nextHandle).memoryTypeBits
        properties ≠ none ∧
      d.createOk (w.env.nCreate + 1) = false) ∧
    (r.1 = 0 ↔
      d.createOk w.env.nCreate = true ∧
      vulGetMemoryType d (d.memoryRequirements w.env.nextHandle).memoryTypeBits
        properties ≠ none ∧
      d.createOk (w.env.nCreate + 1) = true) ∧
    (r.1 ≠ 0 → liveObjects post = [] ∧ memoryBinds post = []) ∧
    (r.1 = 0 →
      post = [Call.create kind w.env.nextHandle,
        Call.create Obj.deviceMemory (w.env.nextHandle + 1),
        bind w.env.nextHandle (w.env.nextHandle + 1)] ∧
      r.2.1 = w.env.nextHandle ∧ r.2.2.1 = w.env.nextHandle + 1)

/-- The first step of `swapInitialize`: `swapInitializeImages`, called with
`swap.curFrame` at 0. -/
def swapInitialize.images (d : Driver) (w : World) : Int × World :=
  swapInitializeImages d ((enter Fn.swapInitialize w).setCurFrame 0)

/-- The second step of `swapInitialize`, on the state the first has left. -/
def swapInitialize.views (d : Driver) (w : World) : Int × World :=
  swapInitializeViews d (swapInitialize.images d w).2

/-- The third step of `swapInitialize`, on the state the second has left. -/
def swapInitialize.depthBuffer (d : Driver) (w : World) : Int × World :=
  swapInitializeDepthBuffer d (swapInitialize.views d w).2

/-- The fourth step of `swapInitialize`, on the state the third has left. -/
def swapInitialize.renderPass (d : Driver) (w : World) : Int × World :=
  swapInitializeRenderPass d (swapInitialize.depthBuffer d w).2

/-- The fifth step of `swapInitialize`, on the state the fourth has left. -/
def swapInitialize.framebuffers (d : Driver) (w : World) : Int × World :=
  swapInitializeFramebuffers d (swapInitialize.renderPass d w).2

/-- The sixth step of `swapInitialize`, on the state the fifth has left. -/
def swapInitialize.syncs (MAXFRAMESINFLIGHT : Nat) (d : Driver) (w : World) :
    Int × World :=
  swapInitializeSyncs MAXFRAMESINFLIGHT d (swapInitialize.framebuffers d w).2

/-- The driver `okDriver` with the creation call number 10 failing: from
`bootWorld`, that is the `vkCreateFramebuffer` for the second image. -/
def framebufferFailsDriver : Driver :=
  { okDriver with createOk := fun n => decide (n ≠ 10) }

/-- The driver `okDriver` with the creation call number 4 failing: from
`bootWorld`, that is the `vkCreateImage` of the depth image. -/
def depthImageFailsDriver : Driver :=
  { okDriver with createOk := fun n => decide (n ≠ 4) }

/-- The driver `okDriver` with the creation call number 6 failing: from
`bootWorld`, that is the `vkCreateImageView` of the depth image. -/
def depthViewFailsDriver : Driver :=
  { okDriver with createOk := fun n => decide (n ≠ 6) }

/-- Whether a call is the entry mark of a function. -/
def Call.isEnter : Call → Bool
  | Call.enter _ => true
  | _ => false

/-- The functions that a trace enters, in order. -/
def enters : List Call → List Fn
  | [] => []
  | Call.enter f :: rest => f :: enters rest
  | _ :: rest => enters rest

/-- The functions entered so far, and the ring of the frames in flight: the
arrays `imageAvailSems`, `renderDoneSems` and `inFlightFences`. -/
def World.outline (w : World) : List Fn × List Handle × List Handle × List Handle :=
  (enters w.env.trace, w.swap.imageAvailSems, w.swap.renderDoneSems,
    w.swap.inFlightFences)

/-- The six construction steps of `swapInitialize`, in the order of the
claim. -/
def swapInitialize.stepNames : List Fn :=
  [Fn.swapInitializeImages, Fn.swapInitializeViews, Fn.swapInitializeDepthBuffer,
   Fn.swapInitializeRenderPass, Fn.swapInitializeFramebuffers, Fn.swapInitializeSyncs]

/-- The finalizers of the six construction steps, in the order of the
steps. -/
def swapInitialize.finalizerNames : List Fn :=
  [Fn.swapFinalizeImages, Fn.swapFinalizeViews, Fn.swapFinalizeDepthBuffer,
   Fn.swapFinalizeRenderPass, Fn.swapFinalizeFramebuffers, Fn.swapFinalizeSyncs]

/-- The return codes of the six steps of `swapInitialize`, each one run on the
state that the steps before it have left. -/
def swapInitialize.stepCodes (MAXFRAMESINFLIGHT : Nat) (d : Driver) (w : World) :
    List Int :=
  [(swapInitialize.images d w).1, (swapInitialize.views d w).1,
   (swapInitialize.depthBuffer d w).1, (swapInitialize.renderPass d w).1,
   (swapInitialize.framebuffers d w).1, (swapInitialize.syncs MAXFRAMESINFLIGHT d w).1]

/-- The state after one pass of the loop of `swapInitializeSyncs` at slot `i`
in which the three creation calls succeed: two semaphores and a fence, stored
in slot `i` of the three arrays. -/
def swapInitializeSyncs.filled (i : Nat) (w : World) : World :=
  { w with
      swap := { w.swap with
        imageAvailSems := w.swap.imageAvailSems.set i w.env.nextHandle,
        renderDoneSems := w.swap.renderDoneSems.set i (w.env.nextHandle + 1),
        inFlightFences := w.swap.inFlightFences.set i (w.env.nextHandle + 2) },
      env := { w.env with
        trace := w.env.trace ++
          [Call.create Obj.semaphore w.env.nextHandle,
           Call.create Obj.semaphore (w.env.nextHandle + 1),
           Call.create Obj.fence (w.env.nextHandle + 2)],
        nextHandle := w.env.nextHandle + 3,
        nCreate := w.env.nCreate + 3 } }

/-- What the claim says of the tables of the swap chain `s`, but for the
contents of `imagesInFlight`: that table has `s.numImages` entries, and the
ring has `K` slots, slot `j` holding the handles `h + 3 j`, `h + 3 j + 1` and
`h + 3 j + 2`, the two semaphores and the fence that were created for it. -/
def SyncTables (K : Nat) (h : Handle) (s : swapChain) : Prop :=
  s.imagesInFlight.elems.length = s.numImages ∧
  s.imageAvailSems.length = K ∧ s.renderDoneSems.length = K ∧
  s.inFlightFences.length = K ∧
  ∀ j, j < K →
    s.imageAvailSems[j]? = some (h + 3 * j) ∧
    s.renderDoneSems[j]? = some (h + 3 * j + 1) ∧
    s.inFlightFences[j]? = some (h + 3 * j + 2)

/-! ## 490matrix.c: the viewport matrices -/

/-- A `float[4][4]`, by row and column; the entries are rationals, so that the
arithmetic is exact. -/
abbrev Mat44 := Fin 4 → Fin 4 → ℚ

/-- The assignment `m[i][j] = v`. -/
def Mat44.set (m : Mat44) (i j : Fin 4) (v : ℚ) : Mat44 :=
  fun a b => if a = i ∧ b = j then v else m a b

/-- The function `mat44Zero`. -/
def mat44Zero : Mat44 := fun _ _ => 0

/-- The function `mat444Multiply`: entry `[i][j]` starts at 0 and gets
`m[i][k] * n[k][j]` added for `k = 0, 1, 2, 3`. -/
def mat444Multiply (m n : Mat44) : Mat44 :=
  fun i j => (List.finRange 4).foldl (fun acc k => acc + m i k * n k j) 0

/-- The function `mat44Viewport`. -/
def mat44Viewport (width height : ℚ) : Mat44 :=
  ((((((mat44Zero.set 0 0 (width / 2)).set 0 3 (width / 2)).set 1 1 (height / 2)).set 1 3
    (height / 2)).set 2 2 (1 / 2)).set 2 3 (1 / 2)).set 3 3 1

/-- The function `mat44InverseViewport`. -/
def mat44InverseViewport (width height : ℚ) : Mat44 :=
  ((((((mat44Zero.set 0 0 (2 / width)).set 0 3 (-1)).set 1 1 (2 / height)).set 1 3
    (-1)).set 2 2 2).set 2 3 (-1)).set 3 3 (-1)

/-- The 4x4 identity matrix. -/
def mat44Identity : Mat44 := fun i j => if i = j then 1 else 0

/-! ## Vocabulary of the claims about layouts, the connection and the rebuild -/

/-- Whether a call records a pipeline barrier. -/
def Call.isPipelineBarrier : Call → Bool
  | Call.vkCmdPipelineBarrier _ _ _ _ => true
  | _ => false

/-- The pipeline barriers recorded in a trace, in order. -/
def pipelineBarriers (tr : List Call) : List Call := tr.filter Call.isPipelineBarrier

/-- The layout pairs of the claim: undefined to transfer-destination,
transfer-destination to shader-read-only, undefined to
depth-stencil-attachment. -/
def supportedTransition (oldLayout newLayout : Nat) : Prop :=
  (oldLayout = VK_IMAGE_LAYOUT_UNDEFINED ∧
    newLayout = VK_IMAGE_LAYOUT_TRANSFER_DST_OPTIMAL) ∨
  (oldLayout = VK_IMAGE_LAYOUT_TRANSFER_DST_OPTIMAL ∧
    newLayout = VK_IMAGE_LAYOUT_SHADER_READ_ONLY_OPTIMAL) ∨
  (oldLayout = VK_IMAGE_LAYOUT_UNDEFINED ∧
    newLayout = VK_IMAGE_LAYOUT_DEPTH_STENCIL_ATTACHMENT_OPTIMAL)

instance (oldLayout newLayout : Nat) : Decidable (supportedTransition oldLayout newLayout) := by
  unfold supportedTransition; infer_instance

/-- The state after a successful `swapInitialize` on `okDriver`, before
`initializeConnection`.  The trace is emptied so that later traces show only
what follows. -/
def chainWorld : World :=
  let w := (swapInitialize MAXFRAMESINFLIGHT okDriver bootWorld).2
  { w with env := { w.env with trace := [] } }

/-- The driver `okDriver`, except that `vkCreateGraphicsPipelines` fails when
`initializeConnection` is called in `chainWorld` (the 35th object creation). -/
def pipelineFailsDriver : Driver :=
  { okDriver with createOk := fun n => decide (n ≠ 34) }

/-- The driver `okDriver`, except that `vkBeginCommandBuffer` fails for the
second command buffer when `initializeConnection` is called in `chainWorld`
(the fifth begin or end of a recording). -/
def recordFailsDriver : Driver :=
  { okDriver with recordOk := fun n => decide (n ≠ 4) }

/-! ## 550body.c: storing the uniforms of the scene graph -/

/-- The function `bodySetUniformsRecursively`: the stores
`*bodyUnif = body->uniforms` it makes, in order, each as the index handed to
`unifGetAligned` and the body it is made for (named by its vesh), after those
of `stores`, and the return value.  The matrices are floating-point data and
are left out; `index + 1` is a 32-bit `int` sum.  The C function is only
called on non-null bodies; on `NULL` the embedding does nothing. -/
def bodySetUniformsRecursively :
    bodyBody → Int → List (Int × Handle) → Int × List (Int × Handle)
  | bodyBody.NULL, index, stores => (index, stores)
  | bodyBody.body vesh firstChild nextSibling, index, stores =>
    let stores1 := stores ++ [(index, vesh)]
    let r1 : Int × List (Int × Handle) :=
      match firstChild with
      | bodyBody.NULL => (index, stores1)
      | bodyBody.body _ _ _ =>
        bodySetUniformsRecursively firstChild (toInt32 (index + 1)) stores1
    match nextSibling with
    | bodyBody.NULL => r1
    | bodyBody.body _ _ _ =>
      bodySetUniformsRecursively nextSibling (toInt32 (r1.1 + 1)) r1.2

/-- The bodies of a scene graph (named by their veshes) in depth-first order:
the body, then the subgraph of its first child, then the subgraph of its next
sibling. -/
def bodyBody.preorder : bodyBody → List Handle
  | bodyBody.NULL => []
  | bodyBody.body vesh firstChild nextSibling =>
    vesh :: (firstChild.preorder ++ nextSibling.preorder)

/-- The bodies `vs` with the consecutive indices `k`, `k + 1`, ... -/
def indexedFrom (k : Int) : List Handle → List (Int × Handle)
  | [] => []
  | v :: rest => (k, v) :: indexedFrom (k + 1) rest

/-- The calls that draw the indexed bodies `l` into the command buffer
`cmdBuf`: for each, the descriptor set is bound at the dynamic offset
`index * alignedSize` (as a `uint32_t`) and the vesh is rendered. -/
def drawCalls (cmdBuf descriptorSet : Handle) (alignedSize : Int) :
    List (Int × Handle) → List Call
  | [] => []
  | (index, vesh) :: rest =>
    Call.vkCmdBindDescriptorSets cmdBuf descriptorSet (toUint32 (index * alignedSize)) ::
      Call.veshRender cmdBuf vesh :: drawCalls cmdBuf descriptorSet alignedSize rest

/-- The statement `if (child != NULL) index = bodyRenderRecursively(child, ...,
index + 1);` of `bodyRenderRecursively`, for its first child and for its next
sibling: from the index and state `r` to the index and state after it. -/
def bodyRenderRecursively.child (cmdBuf descriptorSet : Handle) (alignedSize : Int)
    (child : bodyBody) (r : Int × World) : Int × World :=
  match child with
  | bodyBody.NULL => r
  | bodyBody.body _ _ _ =>
    bodyRenderRecursively cmdBuf descriptorSet alignedSize child (toInt32 (r.1 + 1)) r.2

/-- The statement `if (child != NULL) index = bodySetUniformsRecursively(child,
..., index + 1);` of `bodySetUniformsRecursively`. -/
def bodySetUniformsRecursively.child (child : bodyBody) (r : Int × List (Int × Handle)) :
    Int × List (Int × Handle) :=
  match child with
  | bodyBody.NULL => r
  | bodyBody.body _ _ _ => bodySetUniformsRecursively child (toInt32 (r.1 + 1)) r.2

/-- A framebuffer size with zero width or zero height (a minimized window). -/
def zeroSize (s : Int × Int) : Prop := s.1 = 0 ∨ s.2 = 0

instance (s : Int × Int) : Decidable (zeroSize s) := by
  unfold zeroSize; infer_instance

/-- The calls of `m` iterations of the wait loop of `reinitializeSwapChain`,
the first of which makes the read number `nSize` of the framebuffer size and
the `glfwWaitEvents` number `nWait`: each iteration reads the size and then
blocks in `glfwWaitEvents` once, which may dispatch the resize callback. -/
def reinitializeSwapChain.waitSteps (d : Driver) : Nat → Nat → Nat → List Call
  | 0, _, _ => []
  | m + 1, nSize, nWait =>
    [Call.glfwGetFramebufferSize (d.framebufferSize nSize).1 (d.framebufferSize nSize).2,
     Call.glfwWaitEvents] ++
    (if d.resizeOnWait nWait then [Call.guiResizingCallback] else []) ++
    reinitializeSwapChain.waitSteps d m (nSize + 1) (nWait + 1)

/-! ## Vocabulary of the ring bound -/

/-- The fence of a frame submission: of a `vkQueueSubmit` that signals a
semaphore, as `presentFrame` makes it (the one-shot submissions of
`bufEndSingleTimeCommands` signal none and carry no fence). -/
def Call.frameFence : Call → Option Handle
  | Call.vkQueueSubmit info fence _ =>
    if info.signalSemaphores ≠ [] then some fence else none
  | _ => none

/-- The effect of one call on the list of outstanding submissions, each named
by its completion fence: a frame submission is added; a wait on a fence
removes the submissions that use this fence; a wait for the whole device
removes them all. -/
def outstanding.step (s : List Handle) : Call → List Handle
  | Call.vkWaitForFences fence => s.filter (fun f => decide (f ≠ fence))
  | Call.vkDeviceWaitIdle => []
  | Call.vkQueueSubmit info fence _ =>
    if info.signalSemaphores ≠ [] then s ++ [fence] else s
  | _ => s

/-- The frame submissions of a trace that are outstanding at its end, by their
fences, in order of submission: those made (whatever `vkQueueSubmit`
returned) and not followed by a CPU wait that covers them, which is a
`vkWaitForFences` on their fence or a `vkDeviceWaitIdle`. -/
def outstanding (tr : List Call) : List Handle := tr.foldl outstanding.step []

/-- The fences of the `K` slots of the ring. -/
def ringFences (K : Nat) (s : swapChain) : List Handle :=
  (List.range K).map (fun i => s.inFlightFences.getD i 0)

/-- The invariant of the ring bound on a trace: at no point of the trace were
more than `K` frame submissions outstanding, and at its end the outstanding
ones use different fences, all from the list `R`. -/
def RingBounded (K : Nat) (R : List Handle) (tr : List Call) : Prop :=
  (∀ p, p <+: tr → (outstanding p).length ≤ K) ∧
  (outstanding tr).Nodup ∧ ∀ f ∈ outstanding tr, f ∈ R

/-! ## 440gui.c and 440vulkan.c: the window, the instance and the device -/

/-- The assignment of the global `gui`. -/
def World.setGui (w : World) (v : guiGUI) : World := { w with gui := v }

/-- The assignment of the global `vul`. -/
def World.setVul (w : World) (v : vulVulkan) : World := { w with vul := v }

/-- The assignment of the scene graph that hangs from `heroTorsoBody`. -/
def World.setScene (w : World) (v : bodyBody) : World := { w with heroTorsoBody := v }

/-- The function `guiInitialize`.  The result of `glfwCreateWindow` is stored
without a test (a failed call stores `NULL`), and the function returns 0 in
every case.  The clock fields are not kept. -/
def guiInitialize (d : Driver) (w0 : World) : Int × World :=
  let w := enter Fn.guiInitialize w0
  let r := vkCreate d Obj.window w
  (0, r.2.setGui { window := r.1.getD 0, framebufferResized := 0 })

/-- The function `guiFinalize`: `glfwDestroyWindow`, then `glfwTerminate`
(which leaves no mark in the trace). -/
def guiFinalize (w0 : World) : World :=
  let w := enter Fn.guiFinalize w0
  vkDestroy Obj.window w.gui.window w

/-- What the loaders report before a device is chosen: the names of the
instance layers (`vkEnumerateInstanceLayerProperties`), the number of instance
extensions that GLFW requires (`glfwGetRequiredInstanceExtensions`), the number
of instance extensions available (`vkEnumerateInstanceExtensionProperties`)
and the physical devices (`vkEnumeratePhysicalDevices`). -/
structure Loader where
  availLayers : List String
  glfwExtensionCount : Nat
  extCount : Nat
  devices : List PhysicalDevice

/-- The constant `VERBOSE` of `590mainDiffuse.c`. -/
def VERBOSE : Nat := 1

/-- The constant `NUMVALLAYERS` of `590mainDiffuse.c`. -/
def NUMVALLAYERS : Nat := 1

/-- The constant `MAXVALLAYERS` of `590mainDiffuse.c`. -/
def MAXVALLAYERS : Nat := 1

/-- The constant `NUMINSTANCEEXT` of `590mainDiffuse.c`. -/
def NUMINSTANCEEXT : Nat := 1

/-- The array `valLayers` of `590mainDiffuse.c`. -/
def valLayers : List String := ["VK_LAYER_KHRONOS_validation"]

/-- The loop of `vulValLayerSupportError` over the required layers that are
left; the inner loop sets `layerFound` when a name matches. -/
def vulValLayerSupportError.loop (availLayers : List String) (availPtr : Handle) :
    List String → World → Int × World
  | [], w => (0, free availPtr w)
  | l :: rest, w =>
    if availLayers.any (fun a => decide (a = l)) then
      vulValLayerSupportError.loop availLayers availPtr rest w
    else (1, free availPtr w)

/-- The function `vulValLayerSupportError`. -/
def vulValLayerSupportError (d : Driver) (loader : Loader) (w : World) : Int × World :=
  if NUMVALLAYERS > MAXVALLAYERS then (2, w)
  else
    let m := malloc d loader.availLayers.length w
    match m.1 with
    | none => (1, m.2)
    | some availLayers =>
      vulValLayerSupportError.loop loader.availLayers availLayers.ptr
        (valLayers.take NUMVALLAYERS) m.2

/-- The `VERBOSE` part of `vulInitializeInstance`, which lists the available
instance extensions: `false` when its `malloc` fails. -/
def vulInitializeInstance.verbose (d : Driver) (loader : Loader) (w : World) :
    Bool × World :=
  if VERBOSE ≠ 0 then
    let m := malloc d loader.extCount w
    match m.1 with
    | none => (false, m.2)
    | some extensions => (true, free extensions.ptr m.2)
  else (true, w)

/-- The function `vulInitializeInstance`.  When the `malloc` of the `VERBOSE`
part fails the function returns 2 at once, with `ext` still allocated. -/
def vulInitializeInstance (d : Driver) (loader : Loader) (w : World) : Int × World :=
  let v : Int × World :=
    if NUMVALLAYERS ≥ 1 then vulValLayerSupportError d loader w else (0, w)
  if v.1 ≠ 0 then (3, v.2)
  else
    let m := malloc d ((loader.glfwExtensionCount + NUMINSTANCEEXT) % 4294967296) v.2
    match m.1 with
    | none => (2, m.2)
    | some ext =>
      let e := vulInitializeInstance.verbose d loader m.2
      if e.1 = false then (2, e.2)
      else
        let r := vkCreate d Obj.vkInstance e.2
        match r.1 with
        | none => (1, free ext.ptr r.2)
        | some vkInstance =>
          (0, free ext.ptr (r.2.setVul { r.2.vul with vkInstance := vkInstance }))

/-- The function `vulFinalizeInstance`. -/
def vulFinalizeInstance (w : World) : World :=
  vkDestroy Obj.vkInstance w.vul.vkInstance w

/-- The function `vulInitializeSurface`. -/
def vulInitializeSurface (d : Driver) (w : World) : Int × World :=
  let r := vkCreate d Obj.surface w
  match r.1 with
  | none => (1, r.2)
  | some surface => (0, r.2.setVul { r.2.vul with surface := surface })

/-- The function `vulFinalizeSurface`. -/
def vulFinalizeSurface (w : World) : World :=
  vkDestroy Obj.surface w.vul.surface w

/-- The function `vulInitializeLogicalDevice`.  A queue is not created but
looked up (`vkGetDeviceQueue`): the graphics queue gets a handle of its own,
and the present queue the same handle when it is of the same family. -/
def vulInitializeLogicalDevice (d : Driver) (w : World) : Int × World :=
  let q := vulGetQueueFamilies d w
  let indices := q.1
  let uniqueQueueFamiliesCount : Nat :=
    if indices.presentFamily = indices.graphicsFamily then 1 else 2
  let m := malloc d uniqueQueueFamiliesCount q.2
  match m.1 with
  | none => (2, m.2)
  | some queueCreateInfos =>
    let r := vkCreate d Obj.device m.2
    match r.1 with
    | none => (1, free queueCreateInfos.ptr r.2)
    | some device =>
      let graphicsQueue := r.2.env.nextHandle
      let presentQueue :=
        if indices.presentFamily = indices.graphicsFamily then graphicsQueue
        else graphicsQueue + 1
      let w1 : World := { r.2 with env := { r.2.env with nextHandle := graphicsQueue + 2 } }
      (0, free queueCreateInfos.ptr
        (w1.setVul { w1.vul with device := device, graphicsQueue := graphicsQueue,
                                 presentQueue := presentQueue }))

/-- The function `vulFinalizeLogicalDevice`. -/
def vulFinalizeLogicalDevice (w : World) : World :=
  vkDestroy Obj.device w.vul.device w

/-- The function `vulInitializeCommandPool`. -/
def vulInitializeCommandPool (d : Driver) (w : World) : Int × World :=
  let q := vulGetQueueFamilies d w
  let r := vkCreate d Obj.commandPool q.2
  match r.1 with
  | none => (1, r.2)
  | some commandPool => (0, r.2.setVul { r.2.vul with commandPool := commandPool })

/-- The function `vulFinalizeCommandPool`. -/
def vulFinalizeCommandPool (w : World) : World :=
  vkDestroy Obj.commandPool w.vul.commandPool w

/-- The function `vulInitialize`.  After the device is chosen the driver `d`
answers for it. -/
def vulInitialize (d : Driver) (loader : Loader) (w0 : World) : Int × World :=
  let w := enter Fn.vulInitialize w0
  let i := vulInitializeInstance d loader w
  if i.1 ≠ 0 then (5, i.2)
  else
    let s := vulInitializeSurface d i.2
    if s.1 ≠ 0 then (4, vulFinalizeInstance s.2)
    else
      let p := vulSetPhysicalDevice ANISOTROPY deviceExtensions d loader.devices s.2
      if p.1 ≠ 0 then (3, vulFinalizeInstance (vulFinalizeSurface p.2))
      else
        let l := vulInitializeLogicalDevice d p.2
        if l.1 ≠ 0 then (2, vulFinalizeInstance (vulFinalizeSurface l.2))
        else
          let c := vulInitializeCommandPool d l.2
          if c.1 ≠ 0 then
            (1, vulFinalizeInstance (vulFinalizeSurface (vulFinalizeLogicalDevice c.2)))
          else (0, c.2)

/-- The function `vulFinalize`. -/
def vulFinalize (w0 : World) : World :=
  let w := enter Fn.vulFinalize w0
  vulFinalizeInstance (vulFinalizeSurface (vulFinalizeLogicalDevice
    (vulFinalizeCommandPool w)))

/-! ## 590mainDiffuse.c: the artwork and `main` -/

/-- An initializer of the artwork (`shaInitialize`, `veshInitializeStyle`,
`initializeVeshes`, `initializeTextures`).  What it loads and builds is kept as
one object of kind `kind`, named by the address `global` of the global variable
that holds it; the Boolean tells whether the initializer returned 0. -/
def artInitialize (d : Driver) (kind : Obj) (global : Handle) (w : World) : Bool × World :=
  if d.createOk w.env.nCreate then
    (true, { w with env := { w.env with
        trace := w.env.trace ++ [Call.create kind global],
        nCreate := w.env.nCreate + 1 } })
  else
    (false, { w with env := { w.env with
        trace := w.env.trace ++ [Call.createFailed kind],
        nCreate := w.env.nCreate + 1 } })

/-- The address of the global `shaProg`. -/
def shaProg : Handle := 40

/-- The address of the global `style`. -/
def style : Handle := 41

/-- The address of the first of the eight meshes (`heroTorsoVesh`); the others
follow it: head 51, left eye 52, right eye 53, left iris 54, right iris 55,
water 56, landscape 57. -/
def heroTorsoVesh : Handle := 50

/-- The address of the array `textures`. -/
def textures : Handle := 60

/-- The function `initializeScene`: the eight `bodyConfigure` calls build the
scene graph that hangs from `heroTorsoBody`.  It returns 0 in every case. -/
def initializeScene (w : World) : Int × World :=
  (0, w.setScene
    (bodyBody.body 50
      (bodyBody.body 51
        (bodyBody.body 52 (bodyBody.body 54 bodyBody.NULL bodyBody.NULL)
          (bodyBody.body 53 (bodyBody.body 55 bodyBody.NULL bodyBody.NULL)
            bodyBody.NULL))
        bodyBody.NULL)
      (bodyBody.body 56 bodyBody.NULL (bodyBody.body 57 bodyBody.NULL bodyBody.NULL))))

/-- The function `finalizeScene`, which does nothing. -/
def finalizeScene (w : World) : World := w

/-- The function `initializeArtwork`. -/
def initializeArtwork (d : Driver) (w0 : World) : Int × World :=
  let w := enter Fn.initializeArtwork w0
  let s := artInitialize d Obj.shaProgram shaProg w
  if s.1 = false then (5, s.2)
  else
    let y := artInitialize d Obj.veshStyle style s.2
    if y.1 = false then (4, vkDestroy Obj.shaProgram shaProg y.2)
    else
      let v := artInitialize d Obj.veshes heroTorsoVesh y.2
      if v.1 = false then
        (3, vkDestroy Obj.shaProgram shaProg (vkDestroy Obj.veshStyle style v.2))
      else
        let t := artInitialize d Obj.textures textures v.2
        if t.1 = false then
          (2, vkDestroy Obj.shaProgram shaProg (vkDestroy Obj.veshStyle style
            (vkDestroy Obj.veshes heroTorsoVesh t.2)))
        else
          let c := initializeScene t.2
          if c.1 ≠ 0 then
            (1, vkDestroy Obj.shaProgram shaProg (vkDestroy Obj.veshStyle style
              (vkDestroy Obj.veshes heroTorsoVesh (vkDestroy Obj.textures textures c.2))))
          else (0, c.2)

/-- The function `finalizeArtwork`. -/
def finalizeArtwork (w0 : World) : World :=
  let w := enter Fn.finalizeArtwork w0
  vkDestroy Obj.shaProgram shaProg (vkDestroy Obj.veshStyle style
    (vkDestroy Obj.veshes heroTorsoVesh (vkDestroy Obj.textures textures
      (finalizeScene w))))

/-- The function `main` of `590mainDiffuse.c`, with its exit code; `none` when
the frame loop has not ended within `guiFuel` iterations (or a wait inside a
frame has not ended within `fuel` iterations).  The key handler only moves the
hero and the camera and is left out. -/
def main (d : Driver) (loader : Loader) (fuel guiFuel : Nat) (w : World) :
    Option Int × World :=
  let g := guiInitialize d w
  if g.1 ≠ 0 then (some 5, g.2)
  else
    let v := vulInitialize d loader g.2
    if v.1 ≠ 0 then (some 4, guiFinalize v.2)
    else
      let s := swapInitialize MAXFRAMESINFLIGHT d v.2
      if s.1 ≠ 0 then (some 3, guiFinalize (vulFinalize s.2))
      else
        let a := initializeArtwork d s.2
        if a.1 ≠ 0 then
          (some 2, guiFinalize (vulFinalize (swapFinalize MAXFRAMESINFLIGHT a.2)))
        else
          let c := initializeConnection d a.2
          if c.1 ≠ 0 then
            (some 1, guiFinalize (vulFinalize (swapFinalize MAXFRAMESINFLIGHT
              (finalizeArtwork c.2))))
          else
            let r := guiRun d (presentFrame MAXFRAMESINFLIGHT d fuel) guiFuel c.2
            match r.1 with
            | none => (none, r.2)
            | some _ =>
              let w1 := r.2.log Call.vkDeviceWaitIdle
              (some 0, guiFinalize (vulFinalize (swapFinalize MAXFRAMESINFLIGHT
                (finalizeArtwork (finalizeConnection w1)))))

/-- The five stages of `main`, by their initializers, in the order in which
`main` calls them. -/
def main.initializers : List Fn :=
  [Fn.guiInitialize, Fn.vulInitialize, Fn.swapInitialize, Fn.initializeArtwork,
   Fn.initializeConnection]

/-- The finalizers of the five stages, in the order of `main.initializers`. -/
def main.finalizers : List Fn :=
  [Fn.guiFinalize, Fn.vulFinalize, Fn.swapFinalize, Fn.finalizeArtwork,
   Fn.finalizeConnection]

/-- Whether a function is the initializer or the finalizer of a stage of
`main`. -/
def Fn.isStage (f : Fn) : Bool :=
  decide (f ∈ main.initializers ++ main.finalizers)

/-- The stage initializers and finalizers that a trace enters, in order. -/
def stages (tr : List Call) : List Fn := (enters tr).filter Fn.isStage

/-- The state in which `main` starts: every global is zero-filled, apart from
`bodyNum`, which is 8. -/
def startWorld : World :=
  { gui := { window := 0, framebufferResized := 0 },
    vul := { vkInstance := 0, surface := 0, physicalDevice := 0, device := 0,
             graphicsQueue := 0, presentQueue := 0, commandPool := 0,
             minUniformBufferOffsetAlignment := 0 },
    swap := bootWorld.swap,
    conn := bootWorld.conn,
    heroTorsoBody := bodyBody.body 0 bodyBody.NULL bodyBody.NULL,
    bodyNum := 8,
    env := bootWorld.env }

/-- Loaders that report the validation layer and one suitable device. -/
def okLoader : Loader :=
  { availLayers := ["VK_LAYER_KHRONOS_validation"],
    glfwExtensionCount := 2,
    extCount := 12,
    devices := [goodDevice] }

/-- The driver `okDriver` with the window closed by the user after two
frames. -/
def closingDriver : Driver :=
  { okDriver with windowShouldClose := fun n => decide (2 ≤ n) }

/-- The driver `okDriver` with the creation of the textures failing (the
creating call number 26 of `main`, counted from 0). -/
def texturesFailDriver : Driver :=
  { okDriver with createOk := fun n => decide (n ≠ 26) }

/-- What the claims about `main` and about the ring look at: the stage
initializers and finalizers entered so far, and the sizes of the three arrays
of the ring. -/
def World.sketch (w : World) : List Fn × Nat × Nat × Nat :=
  (stages w.env.trace, w.swap.imageAvailSems.length, w.swap.renderDoneSems.length,
    w.swap.inFlightFences.length)

/-! ## 450mainSwap.c -/

/-- The function `reinitializeSwapChain` of `450mainSwap.c`: the same wait
loop as in `590mainDiffuse.c`, then the swap chain alone is finalized and
initialized again (this program has no connection). -/
def mainSwap.reinitializeSwapChain (MAXFRAMESINFLIGHT : Nat) (d : Driver) (fuel : Nat)
    (w0 : World) : Option Int × World :=
  let w := enter Fn.reinitializeSwapChain w0
  let r := glfwGetFramebufferSize d w
  let l := reinitializeSwapChain.wait d fuel r.1.1 r.1.2 r.2
  if l.1 = false then (none, l.2)
  else
    let w1 := l.2.log Call.vkDeviceWaitIdle
    let w2 := swapFinalize MAXFRAMESINFLIGHT w1
    let s := swapInitialize MAXFRAMESINFLIGHT d w2
    if s.1 ≠ 0 then (some 2, s.2)
    else (some 0, s.2)

/-- The function `presentFrame` of `450mainSwap.c`: it sends no uniforms and
submits no command buffer. -/
def mainSwap.presentFrame (MAXFRAMESINFLIGHT : Nat) (d : Driver) (fuel : Nat)
    (w0 : World) : Option Int × World :=
  let w := enter Fn.presentFrame w0
  let w1 := w.log (Call.vkWaitForFences (w.swap.inFlightFences.getD w.swap.curFrame 0))
  let a := vkAcquireNextImageKHR d w1.swap.swapChain
    (w1.swap.imageAvailSems.getD w1.swap.curFrame 0) w1
  let imageIndex := a.1.2
  if a.1.1 = VkResult.VK_ERROR_OUT_OF_DATE_KHR then
    let r := mainSwap.reinitializeSwapChain MAXFRAMESINFLIGHT d fuel a.2
    match r.1 with
    | none => (none, r.2)
    | some _ => (some 5, r.2)
  else if a.1.1 ≠ VkResult.VK_SUCCESS ∧ a.1.1 ≠ VkResult.VK_SUBOPTIMAL_KHR then
    (some 4, a.2)
  else
    let w2 := a.2.setImagesInFlight (a.2.swap.imagesInFlight.write imageIndex
      (a.2.swap.inFlightFences.getD a.2.swap.curFrame 0))
    let w3 :=
      if w2.swap.imagesInFlight.read imageIndex ≠ VK_NULL_HANDLE then
        w2.log (Call.vkWaitForFences (w2.swap.imagesInFlight.read imageIndex))
      else w2
    let submitInfo : VkSubmitInfo :=
      { waitSemaphores := [w3.swap.imageAvailSems.getD w3.swap.curFrame 0],
        waitDstStageMask := [VK_PIPELINE_STAGE_COLOR_ATTACHMENT_OUTPUT_BIT],
        commandBuffers := [],
        signalSemaphores := [w3.swap.renderDoneSems.getD w3.swap.curFrame 0] }
    let w4 := w3.log (Call.vkResetFences (w3.swap.inFlightFences.getD w3.swap.curFrame 0))
    let s := vkQueueSubmit d submitInfo
      (w4.swap.inFlightFences.getD w4.swap.curFrame 0) w4
    if s.1 ≠ VkResult.VK_SUCCESS then (some 3, s.2)
    else
      let presentInfo : VkPresentInfoKHR :=
        { waitSemaphores := submitInfo.signalSemaphores,
          swapchains := [s.2.swap.swapChain],
          imageIndices := [imageIndex] }
      let p := vkQueuePresentKHR d presentInfo s.2
      if p.1 = VkResult.VK_ERROR_OUT_OF_DATE_KHR ∨ p.1 = VkResult.VK_SUBOPTIMAL_KHR ∨
          p.2.gui.framebufferResized ≠ 0 then
        let r := mainSwap.reinitializeSwapChain MAXFRAMESINFLIGHT d fuel
          (guiSetFramebufferResized p.2 0)
        match r.1 with
        | none => (none, r.2)
        | some error =>
          if error ≠ 0 then (some 2, r.2)
          else (some 0, { r.2 with swap := swapIncrementFrame MAXFRAMESINFLIGHT r.2.swap })
      else if p.1 ≠ VkResult.VK_SUCCESS then (some 1, p.2)
      else (some 0, { p.2 with swap := swapIncrementFrame MAXFRAMESINFLIGHT p.2.swap })

/-- The function `main` of `450mainSwap.c`, with its exit code; `none` when the
frame loop has not ended within `guiFuel` iterations (or a wait inside a frame
has not ended within `fuel` iterations).  Its stages are the first three of
`main.initializers`. -/
def mainSwap.main (d : Driver) (loader : Loader) (fuel guiFuel : Nat) (w : World) :
    Option Int × World :=
  let g := guiInitialize d w
  if g.1 ≠ 0 then (some 5, g.2)
  else
    let v := vulInitialize d loader g.2
    if v.1 ≠ 0 then (some 4, guiFinalize v.2)
    else
      let s := swapInitialize MAXFRAMESINFLIGHT d v.2
      if s.1 ≠ 0 then (some 3, guiFinalize (vulFinalize s.2))
      else
        let r := guiRun d (mainSwap.presentFrame MAXFRAMESINFLIGHT d fuel) guiFuel s.2
        match r.1 with
        | none => (none, r.2)
        | some _ =>
          let w1 := r.2.log Call.vkDeviceWaitIdle
          (some 0, guiFinalize (vulFinalize (swapFinalize MAXFRAMESINFLIGHT w1)))

/-- What the teardown claim says of a run of a `main` whose stages are the
first `n` of `main.initializers`, given the trace `start` before the run and
the result `r` (exit code and final state).  Either the initializer of a stage
`k < n` has failed: the exit code is `5 - k`, and the stage functions entered
in the run are the initializers of the stages `0 .. k` in order, then the
finalizers of the stages `0 .. k - 1` in reverse order.  Or the exit code is
0: the trace ends with `vkDeviceWaitIdle` and then the finalizers of the `n`
stages in reverse order (no other stage function is entered after the device
wait), and before the device wait the run has started with the `n`
initializers in order.  Or the frame loop has not ended, after the `n`
initializers. -/
def main.ExitsInOrder (n : Nat) (start : List Call) (r : Option Int × World) : Prop :=
  (∃ k : Nat, k < n ∧ r.1 = some (5 - (k : Int)) ∧
    stages r.2.env.trace =
      stages start ++ main.initializers.take (k + 1) ++ (main.finalizers.take k).reverse) ∨
  (r.1 = some 0 ∧
    ∃ before down, r.2.env.trace = before ++ Call.vkDeviceWaitIdle :: down ∧
      stages start ++ main.initializers.take n <+: stages before ∧
      stages down = (main.finalizers.take n).reverse) ∨
  (r.1 = none ∧ stages start ++ main.initializers.take n <+: stages r.2.env.trace)

/-! ## The construction and destruction code does not touch the frame state -/

theorem quietPart_append (a b : List Call) :
    quietPart (a ++ b) = quietPart a ++ quietPart b := by
  simp [quietPart]

theorem frameSteps_append (a b : List Call) :
    frameSteps (a ++ b) = frameSteps a ++ frameSteps b := by
  simp [frameSteps]

@[simp] theorem hide_swap (h : Hidden) (w : World) :
    (w.hide h).swap = { w.swap with curFrame := h.curFrame } := rfl

@[simp] theorem hide_conn (h : Hidden) (w : World) : (w.hide h).conn = w.conn := rfl

@[simp] theorem hide_vul (h : Hidden) (w : World) : (w.hide h).vul = w.vul := rfl

@[simp] theorem hide_heroTorsoBody (h : Hidden) (w : World) :
    (w.hide h).heroTorsoBody = w.heroTorsoBody := rfl

@[simp] theorem hide_bodyNum (h : Hidden) (w : World) : (w.hide h).bodyNum = w.bodyNum := rfl

@[simp] theorem hide_setSwapChain (h : Hidden) (w : World) (v : Handle) :
    (w.hide h).setSwapChain v = (w.setSwapChain v).hide h := rfl

@[simp] theorem hide_setImages (h : Hidden) (w : World) (v : Arr) :
    (w.hide h).setImages v = (w.setImages v).hide h := rfl

@[simp] theorem hide_setImageFormat (h : Hidden) (w : World) (v : Nat) :
    (w.hide h).setImageFormat v = (w.setImageFormat v).hide h := rfl

@[simp] theorem hide_setExtent (h : Hidden) (w : World) (v : VkExtent2D) :
    (w.hide h).setExtent v = (w.setExtent v).hide h := rfl

@[simp] theorem hide_setNumImages (h : Hidden) (w : World) (v : Nat) :
    (w.hide h).setNumImages v = (w.setNumImages v).hide h := rfl

@[simp] theorem hide_setImageViews (h : Hidden) (w : World) (v : Arr) :
    (w.hide h).setImageViews v = (w.setImageViews v).hide h := rfl

@[simp] theorem hide_setDepthImage (h : Hidden) (w : World) (v : Handle) :
    (w.hide h).setDepthImage v = (w.setDepthImage v).hide h := rfl

@[simp] theorem hide_setDepthImageMemory (h : Hidden) (w : World) (v : Handle) :
    (w.hide h).setDepthImageMemory v = (w.setDepthImageMemory v).hide h := rfl

@[simp] theorem hide_setDepthImageView (h : Hidden) (w : World) (v : Handle) :
    (w.hide h).setDepthImageView v = (w.setDepthImageView v).hide h := rfl

@[simp] theorem hide_setRenderPass (h : Hidden) (w : World) (v : Handle) :
    (w.hide h).setRenderPass v = (w.setRenderPass v).hide h := rfl

@[simp] theorem hide_setFramebuffers (h : Hidden) (w : World) (v : Arr) :
    (w.hide h).setFramebuffers v = (w.setFramebuffers v).hide h := rfl

@[simp] theorem hide_setImagesInFlight (h : Hidden) (w : World) (v : Arr) :
    (w.hide h).setImagesInFlight v = (w.setImagesInFlight v).hide h := rfl

@[simp] theorem hide_setImageAvailSems (h : Hidden) (w : World) (v : List Handle) :
    (w.hide h).setImageAvailSems v = (w.setImageAvailSems v).hide h := rfl

@[simp] theorem hide_setRenderDoneSems (h : Hidden) (w : World) (v : List Handle) :
    (w.hide h).setRenderDoneSems v = (w.setRenderDoneSems v).hide h := rfl

@[simp] theorem hide_setInFlightFences (h : Hidden) (w : World) (v : List Handle) :
    (w.hide h).setInFlightFences v = (w.setInFlightFences v).hide h := rfl

@[simp] theorem hide_setConn (h : Hidden) (w : World) (v : Connection) :
    (w.hide h).setConn v = (w.setConn v).hide h := rfl

@[simp] theorem hide_setCurFrame (h : Hidden) (w : World) (c : Nat) :
    (w.hide h).setCurFrame c = (w.setCurFrame c).hide { h with curFrame := c } := rfl

@[simp] theorem hide_log (h : Hidden) (w : World) (c : Call) (hc : c.isFrameStep = false) :
    (w.hide h).log c = (w.log c).hide h := by
  simp [World.hide, World.log, quietPart, hc]

@[simp] theorem hide_enter (h : Hidden) (w : World) (f : Fn)
    (hf : (Call.enter f).isFrameStep = false) :
    enter f (w.hide h) = (enter f w).hide h := by
  simp [enter, hf]

@[simp] theorem hide_vkCreate (d : Driver) (k : Obj) (h : Hidden) (w : World) :
    vkCreate d k (w.hide h) = ((vkCreate d k w).1, (vkCreate d k w).2.hide h) := by
  unfold vkCreate
  by_cases hc : d.createOk w.env.nCreate <;>
    simp [World.hide, hc, quietPart, Call.isFrameStep]

@[simp] theorem hide_vkDestroy (k : Obj) (x : Handle) (h : Hidden) (w : World) :
    vkDestroy k x (w.hide h) = (vkDestroy k x w).hide h := by
  simp [vkDestroy, Call.isFrameStep]

@[simp] theorem hide_malloc (d : Driver) (n : Nat) (h : Hidden) (w : World) :
    malloc d n (w.hide h) = ((malloc d n w).1, (malloc d n w).2.hide h) := by
  unfold malloc
  by_cases hc : d.mallocOk w.env.nMalloc <;>
    simp [World.hide, hc, quietPart, Call.isFrameStep]

@[simp] theorem hide_free (x : Handle) (h : Hidden) (w : World) :
    free x (w.hide h) = (free x w).hide h := by
  simp [free, Call.isFrameStep]

@[simp] theorem hide_glfwGetFramebufferSize (d : Driver) (h : Hidden) (w : World) :
    glfwGetFramebufferSize d (w.hide h) =
      ((glfwGetFramebufferSize d w).1, (glfwGetFramebufferSize d w).2.hide h) := by
  simp [glfwGetFramebufferSize, World.hide, quietPart, Call.isFrameStep]

theorem hide_forRange (h : Hidden) (body : Nat → World → World)
    (hb : ∀ i w, body i (w.hide h) = (body i w).hide h) (n : Nat) (w : World) :
    forRange n body (w.hide h) = (forRange n body w).hide h := by
  unfold forRange
  induction n generalizing w with
  | zero => simp
  | succ n ih => simp [List.range_succ, ih, hb]

@[simp] theorem hide_vkAllocate (d : Driver) (k : Obj) (n : Nat) (h : Hidden) (w : World) :
    vkAllocate d k n (w.hide h) = ((vkAllocate d k n w).1, (vkAllocate d k n w).2.hide h) := by
  unfold vkAllocate
  have hq : quietPart ((List.range n).map (fun i => Call.create k (w.env.nextHandle + i))) =
      (List.range n).map (fun i => Call.create k (w.env.nextHandle + i)) := by
    simp only [quietPart, List.filter_eq_self]
    intro c hc
    simp only [List.mem_map] at hc
    obtain ⟨i, _, rfl⟩ := hc
    rfl
  by_cases hc : d.createOk w.env.nCreate
  · simp [World.hide, hc, quietPart_append, hq]
  · simp [World.hide, hc, quietPart, Call.isFrameStep]

@[simp] theorem hide_vkBeginCommandBuffer (d : Driver) (cb : Handle) (h : Hidden) (w : World) :
    vkBeginCommandBuffer d cb (w.hide h) =
      ((vkBeginCommandBuffer d cb w).1, (vkBeginCommandBuffer d cb w).2.hide h) := by
  simp [vkBeginCommandBuffer, World.hide, quietPart, Call.isFrameStep]

@[simp] theorem hide_vkEndCommandBuffer (d : Driver) (cb : Handle) (h : Hidden) (w : World) :
    vkEndCommandBuffer d cb (w.hide h) =
      ((vkEndCommandBuffer d cb w).1, (vkEndCommandBuffer d cb w).2.hide h) := by
  simp [vkEndCommandBuffer, World.hide, quietPart, Call.isFrameStep]

theorem hide_vkQueueSubmit (d : Driver) (info : VkSubmitInfo) (f : Handle) (h : Hidden)
    (w : World) (hi : info.signalSemaphores = []) :
    vkQueueSubmit d info f (w.hide h) =
      ((vkQueueSubmit d info f w).1, (vkQueueSubmit d info f w).2.hide h) := by
  simp [vkQueueSubmit, World.hide, quietPart, Call.isFrameStep, hi]

@[simp] theorem hide_vkGetSwapchainImagesKHR (d : Driver) (h : Hidden) (w : World) :
    vkGetSwapchainImagesKHR d (w.hide h) =
      ((vkGetSwapchainImagesKHR d w).1, (vkGetSwapchainImagesKHR d w).2.hide h) := by
  simp [vkGetSwapchainImagesKHR, World.hide]

@[simp] theorem hide_vkAllocateDescriptorSets (d : Driver) (n : Nat) (h : Hidden) (w : World) :
    vkAllocateDescriptorSets d n (w.hide h) =
      ((vkAllocateDescriptorSets d n w).1, (vkAllocateDescriptorSets d n w).2.hide h) := by
  unfold vkAllocateDescriptorSets
  by_cases hc : d.createOk w.env.nCreate <;> simp [World.hide, hc]

/-! ### 440vulkan.c -/

@[simp] theorem hide_vulGetQueueFamilies (d : Driver) (h : Hidden) (w : World) :
    vulGetQueueFamilies d (w.hide h) =
      ((vulGetQueueFamilies d w).1, (vulGetQueueFamilies d w).2.hide h) := by
  unfold vulGetQueueFamilies
  simp only [hide_malloc]
  cases (malloc d d.queueFamilies.length w).1 <;> simp

@[simp] theorem hide_querySwapChainSupport (d : Driver) (h : Hidden) (w : World) :
    querySwapChainSupport d (w.hide h) =
      ((querySwapChainSupport d w).1, (querySwapChainSupport d w).2.hide h) := by
  simp [querySwapChainSupport, World.hide]

@[simp] theorem hide_vulInitializeSwapChainSupport_alloc (d : Driver) (n : Nat) (h : Hidden)
    (w : World) :
    vulInitializeSwapChainSupport.alloc d n (w.hide h) =
      ((vulInitializeSwapChainSupport.alloc d n w).1,
        (vulInitializeSwapChainSupport.alloc d n w).2.hide h) := by
  unfold vulInitializeSwapChainSupport.alloc
  by_cases hn : n = 0
  · simp [hn]
  · simp only [hn, ne_eq, not_false_eq_true, if_true, hide_malloc]
    cases (malloc d n w).1 <;> simp

@[simp] theorem hide_vulInitializeSwapChainSupport (d : Driver) (h : Hidden) (w : World) :
    vulInitializeSwapChainSupport d (w.hide h) =
      ((vulInitializeSwapChainSupport d w).1, (vulInitializeSwapChainSupport d w).2.1,
        (vulInitializeSwapChainSupport d w).2.2.hide h) := by
  unfold vulInitializeSwapChainSupport
  simp only [hide_querySwapChainSupport, hide_vulInitializeSwapChainSupport_alloc]
  split
  · rfl
  · split
    · split <;> simp
    · rfl

@[simp] theorem hide_vulFinalizeSwapChainSupport (x : vulSwapChainSupportDetails) (h : Hidden)
    (w : World) :
    vulFinalizeSwapChainSupport x (w.hide h) = (vulFinalizeSwapChainSupport x w).hide h := by
  unfold vulFinalizeSwapChainSupport
  split <;> split <;> simp

/-! ### 450buffer.c and 450image.c -/

@[simp] theorem hide_bufBeginSingleTimeCommands (d : Driver) (h : Hidden) (w : World) :
    bufBeginSingleTimeCommands d (w.hide h) =
      ((bufBeginSingleTimeCommands d w).1, (bufBeginSingleTimeCommands d w).2.hide h) := by
  simp [bufBeginSingleTimeCommands]

@[simp] theorem hide_bufEndSingleTimeCommands (d : Driver) (cb : Handle) (h : Hidden)
    (w : World) :
    bufEndSingleTimeCommands d cb (w.hide h) = (bufEndSingleTimeCommands d cb w).hide h := by
  simp [bufEndSingleTimeCommands, hide_vkQueueSubmit, Call.isFrameStep]

@[simp] theorem hide_bufInitialize (d : Driver) (p : Nat) (b m : Handle) (h : Hidden)
    (w : World) :
    bufInitialize d p b m (w.hide h) =
      ((bufInitialize d p b m w).1, (bufInitialize d p b m w).2.1,
        (bufInitialize d p b m w).2.2.1, (bufInitialize d p b m w).2.2.2.hide h) := by
  unfold bufInitialize
  simp only [hide_vkCreate]
  split
  · rfl
  · split
    · simp
    · split <;> simp [Call.isFrameStep]

@[simp] theorem hide_bufFinalize (b m : Handle) (h : Hidden) (w : World) :
    bufFinalize b m (w.hide h) = (bufFinalize b m w).hide h := by
  simp [bufFinalize]

@[simp] theorem hide_imageTransitionLayout (d : Driver) (im : Handle) (o n : Nat)
    (h : Hidden) (w : World) :
    imageTransitionLayout d im o n (w.hide h) =
      ((imageTransitionLayout d im o n w).1, (imageTransitionLayout d im o n w).2.hide h) := by
  unfold imageTransitionLayout
  simp only [hide_bufBeginSingleTimeCommands]
  split <;> simp [Call.isFrameStep]

@[simp] theorem hide_imageInitialize (d : Driver) (p : Nat) (b m : Handle) (h : Hidden)
    (w : World) :
    imageInitialize d p b m (w.hide h) =
      ((imageInitialize d p b m w).1, (imageInitialize d p b m w).2.1,
        (imageInitialize d p b m w).2.2.1, (imageInitialize d p b m w).2.2.2.hide h) := by
  unfold imageInitialize
  simp only [hide_vkCreate]
  split
  · rfl
  · split
    · simp
    · split <;> simp [Call.isFrameStep]

@[simp] theorem hide_imageFinalize (b m : Handle) (h : Hidden) (w : World) :
    imageFinalize b m (w.hide h) = (imageFinalize b m w).hide h := by
  simp [imageFinalize]

@[simp] theorem hide_imageInitializeView (d : Driver) (v : Handle) (h : Hidden) (w : World) :
    imageInitializeView d v (w.hide h) =
      ((imageInitializeView d v w).1, (imageInitializeView d v w).2.1,
        (imageInitializeView d v w).2.2.hide h) := by
  unfold imageInitializeView
  simp only [hide_vkCreate]
  split <;> rfl

@[simp] theorem hide_imageFinalizeView (v : Handle) (h : Hidden) (w : World) :
    imageFinalizeView v (w.hide h) = (imageFinalizeView v w).hide h := by
  simp [imageFinalizeView]

/-! ### 450swap.c -/

@[simp] theorem hide_swapGetExtent (d : Driver) (c : VkSurfaceCapabilitiesKHR) (h : Hidden)
    (w : World) :
    swapGetExtent d c (w.hide h) = ((swapGetExtent d c w).1, (swapGetExtent d c w).2.hide h) := by
  unfold swapGetExtent
  split <;> simp

@[simp] theorem hide_swapInitializeImages (d : Driver) (h : Hidden) (w : World) :
    swapInitializeImages d (w.hide h) =
      ((swapInitializeImages d w).1, (swapInitializeImages d w).2.hide h) := by
  unfold swapInitializeImages
  simp only [hide_enter, Call.isFrameStep, hide_vulInitializeSwapChainSupport,
    hide_swapGetExtent, hide_vulGetQueueFamilies, hide_log, hide_vkCreate,
    hide_setSwapChain, hide_vkGetSwapchainImagesKHR, hide_malloc]
  split
  · rfl
  · split
    · simp
    · split <;> simp

@[simp] theorem hide_swapFinalizeImages (h : Hidden) (w : World) :
    swapFinalizeImages (w.hide h) = (swapFinalizeImages w).hide h := by
  simp [swapFinalizeImages, Call.isFrameStep]

@[simp] theorem hide_swapFinalizeViewAt (j : Nat) (h : Hidden) (w : World) :
    swapFinalizeViewAt j (w.hide h) = (swapFinalizeViewAt j w).hide h := by
  simp [swapFinalizeViewAt]

@[simp] theorem hide_swapInitializeViews_loop (d : Driver) (h : Hidden) (n i : Nat)
    (w : World) :
    swapInitializeViews.loop d n i (w.hide h) =
      ((swapInitializeViews.loop d n i w).1, (swapInitializeViews.loop d n i w).2.hide h) := by
  induction n generalizing i w with
  | zero => rfl
  | succ n ih =>
    unfold swapInitializeViews.loop
    simp only [hide_imageInitializeView, hide_swap, hide_setImageViews, ih]
    split
    · rw [hide_forRange h _ (hide_swapFinalizeViewAt · h)]
      simp
    · rfl

@[simp] theorem hide_swapInitializeViews (d : Driver) (h : Hidden) (w : World) :
    swapInitializeViews d (w.hide h) =
      ((swapInitializeViews d w).1, (swapInitializeViews d w).2.hide h) := by
  unfold swapInitializeViews
  simp only [hide_enter, Call.isFrameStep, hide_malloc, hide_swap]
  split <;> simp

@[simp] theorem hide_swapFinalizeViews (h : Hidden) (w : World) :
    swapFinalizeViews (w.hide h) = (swapFinalizeViews w).hide h := by
  unfold swapFinalizeViews
  simp only [hide_enter, Call.isFrameStep, hide_swap]
  rw [hide_forRange h _ (hide_swapFinalizeViewAt · h)]
  simp

@[simp] theorem hide_swapInitializeRenderPass (d : Driver) (h : Hidden) (w : World) :
    swapInitializeRenderPass d (w.hide h) =
      ((swapInitializeRenderPass d w).1, (swapInitializeRenderPass d w).2.hide h) := by
  unfold swapInitializeRenderPass
  simp only [hide_enter, Call.isFrameStep, hide_vkCreate]
  split
  · rfl
  · split <;> simp

@[simp] theorem hide_swapFinalizeRenderPass (h : Hidden) (w : World) :
    swapFinalizeRenderPass (w.hide h) = (swapFinalizeRenderPass w).hide h := by
  simp [swapFinalizeRenderPass, Call.isFrameStep]

@[simp] theorem hide_swapInitializeFramebuffers_loop (d : Driver) (h : Hidden) (n i : Nat)
    (w : World) :
    swapInitializeFramebuffers.loop d n i (w.hide h) =
      ((swapInitializeFramebuffers.loop d n i w).1,
        (swapInitializeFramebuffers.loop d n i w).2.hide h) := by
  induction n generalizing i w with
  | zero => rfl
  | succ n ih =>
    unfold swapInitializeFramebuffers.loop
    simp only [hide_vkCreate, hide_swap, hide_setFramebuffers, ih]
    split <;> simp

@[simp] theorem hide_swapInitializeFramebuffers (d : Driver) (h : Hidden) (w : World) :
    swapInitializeFramebuffers d (w.hide h) =
      ((swapInitializeFramebuffers d w).1, (swapInitializeFramebuffers d w).2.hide h) := by
  unfold swapInitializeFramebuffers
  simp only [hide_enter, Call.isFrameStep, hide_malloc, hide_swap]
  split <;> simp

@[simp] theorem hide_swapDestroyFramebufferAt (j : Nat) (h : Hidden) (w : World) :
    swapDestroyFramebufferAt j (w.hide h) = (swapDestroyFramebufferAt j w).hide h := by
  simp [swapDestroyFramebufferAt]

@[simp] theorem hide_swapFinalizeFramebuffers (h : Hidden) (w : World) :
    swapFinalizeFramebuffers (w.hide h) = (swapFinalizeFramebuffers w).hide h := by
  unfold swapFinalizeFramebuffers
  simp only [hide_enter, Call.isFrameStep, hide_swap]
  rw [hide_forRange h _ (hide_swapDestroyFramebufferAt · h)]
  simp

@[simp] theorem hide_swapDestroySyncSlot (j : Nat) (h : Hidden) (w : World) :
    swapDestroySyncSlot j (w.hide h) = (swapDestroySyncSlot j w).hide h := by
  simp [swapDestroySyncSlot]

@[simp] theorem hide_swapInitializeSyncs_loop (d : Driver) (h : Hidden) (n i : Nat)
    (w : World) :
    swapInitializeSyncs.loop d n i (w.hide h) =
      ((swapInitializeSyncs.loop d n i w).1, (swapInitializeSyncs.loop d n i w).2.hide h) := by
  induction n generalizing i w with
  | zero => rfl
  | succ n ih =>
    unfold swapInitializeSyncs.loop
    simp only [hide_vkCreate, hide_swap, hide_setImageAvailSems, hide_setRenderDoneSems,
      hide_setInFlightFences, ih, hide_forRange h _ (hide_swapDestroySyncSlot · h)]
    split
    · simp
    · split
      · simp
      · split <;> simp

@[simp] theorem hide_swapInitializeSyncs (K : Nat) (d : Driver) (h : Hidden) (w : World) :
    swapInitializeSyncs K d (w.hide h) =
      ((swapInitializeSyncs K d w).1, (swapInitializeSyncs K d w).2.hide h) := by
  unfold swapInitializeSyncs
  simp only [hide_enter, Call.isFrameStep, hide_malloc, hide_swap]
  split <;> simp

@[simp] theorem hide_swapFinalizeSyncs (K : Nat) (h : Hidden) (w : World) :
    swapFinalizeSyncs K (w.hide h) = (swapFinalizeSyncs K w).hide h := by
  unfold swapFinalizeSyncs
  simp only [hide_enter, Call.isFrameStep]
  rw [hide_forRange h _ (hide_swapDestroySyncSlot · h)]
  simp

@[simp] theorem hide_swapInitializeDepthBuffer (d : Driver) (h : Hidden) (w : World) :
    swapInitializeDepthBuffer d (w.hide h) =
      ((swapInitializeDepthBuffer d w).1, (swapInitializeDepthBuffer d w).2.hide h) := by
  unfold swapInitializeDepthBuffer
  simp only [hide_enter, Call.isFrameStep, hide_swap, hide_imageInitialize,
    hide_setDepthImage, hide_setDepthImageMemory, hide_imageInitializeView,
    hide_setDepthImageView, hide_imageFinalize, hide_imageTransitionLayout]
  split
  · rfl
  · split
    · rfl
    · split <;> rfl

@[simp] theorem hide_swapFinalizeDepthBuffer (h : Hidden) (w : World) :
    swapFinalizeDepthBuffer (w.hide h) = (swapFinalizeDepthBuffer w).hide h := by
  simp [swapFinalizeDepthBuffer, Call.isFrameStep]

@[simp] theorem hide_swapFinalize (K : Nat) (h : Hidden) (w : World) :
    swapFinalize K (w.hide h) = (swapFinalize K w).hide h := by
  simp [swapFinalize, Call.isFrameStep]

@[simp] theorem hide_swapInitialize (K : Nat) (d : Driver) (h : Hidden) (w : World) :
    swapInitialize K d (w.hide h) =
      ((swapInitialize K d w).1, (swapInitialize K d w).2.hide { h with curFrame := 0 }) := by
  unfold swapInitialize
  simp only [hide_enter, Call.isFrameStep, hide_setCurFrame, hide_swapInitializeImages,
    hide_swapInitializeViews, hide_swapInitializeDepthBuffer, hide_swapInitializeRenderPass,
    hide_swapInitializeFramebuffers, hide_swapInitializeSyncs, hide_swapFinalizeImages,
    hide_swapFinalizeViews, hide_swapFinalizeDepthBuffer, hide_swapFinalizeRenderPass,
    hide_swapFinalizeFramebuffers]
  repeat' split
  all_goals rfl

/-! ### 480uniform.c, 480description.c, 550body.c -/

@[simp] theorem hide_unifFinalizeBufferAt (slot : UnifSlot) (j : Nat) (h : Hidden)
    (w : World) :
    unifFinalizeBufferAt slot j (w.hide h) = (unifFinalizeBufferAt slot j w).hide h := by
  simp [unifFinalizeBufferAt]

@[simp] theorem hide_unifInitializeBuffers_loop (d : Driver) (slot : UnifSlot) (h : Hidden)
    (n i : Nat) (w : World) :
    unifInitializeBuffers.loop d slot n i (w.hide h) =
      ((unifInitializeBuffers.loop d slot n i w).1,
        (unifInitializeBuffers.loop d slot n i w).2.hide h) := by
  induction n generalizing i w with
  | zero => rfl
  | succ n ih =>
    unfold unifInitializeBuffers.loop
    simp only [hide_bufInitialize, hide_conn, hide_setConn, ih,
      hide_forRange h _ (hide_unifFinalizeBufferAt slot · h)]
    split <;> simp

@[simp] theorem hide_unifInitializeBuffers (d : Driver) (slot : UnifSlot) (h : Hidden)
    (w : World) :
    unifInitializeBuffers d slot (w.hide h) =
      ((unifInitializeBuffers d slot w).1, (unifInitializeBuffers d slot w).2.hide h) := by
  unfold unifInitializeBuffers
  simp only [hide_malloc, hide_swap, hide_conn, hide_setConn]
  split
  · rfl
  · split <;> simp

@[simp] theorem hide_unifFinalizeBuffers (slot : UnifSlot) (h : Hidden) (w : World) :
    unifFinalizeBuffers slot (w.hide h) = (unifFinalizeBuffers slot w).hide h := by
  unfold unifFinalizeBuffers
  simp only [hide_swap, hide_forRange h _ (hide_unifFinalizeBufferAt slot · h)]
  simp

@[simp] theorem hide_unifInitializeAligned (d : Driver) (a b : Int) (h : Hidden) (w : World) :
    unifInitializeAligned d a b (w.hide h) =
      ((unifInitializeAligned d a b w).1, (unifInitializeAligned d a b w).2.hide h) := by
  unfold unifInitializeAligned
  simp only [hide_malloc, hide_vul, hide_conn, hide_setConn]
  split <;> rfl

@[simp] theorem hide_unifFinalizeAligned (h : Hidden) (w : World) :
    unifFinalizeAligned (w.hide h) = (unifFinalizeAligned w).hide h := by
  simp [unifFinalizeAligned]

@[simp] theorem hide_descInitializeLayout (d : Driver) (h : Hidden) (w : World) :
    descInitializeLayout d (w.hide h) =
      ((descInitializeLayout d w).1, (descInitializeLayout d w).2.hide h) := by
  unfold descInitializeLayout
  simp only [hide_malloc, hide_vkCreate, hide_conn, hide_setConn]
  split
  · rfl
  · split <;> simp

@[simp] theorem hide_descFinalizeLayout (h : Hidden) (w : World) :
    descFinalizeLayout (w.hide h) = (descFinalizeLayout w).hide h := by
  simp [descFinalizeLayout]

@[simp] theorem hide_descInitializePool (d : Driver) (h : Hidden) (w : World) :
    descInitializePool d (w.hide h) =
      ((descInitializePool d w).1, (descInitializePool d w).2.hide h) := by
  unfold descInitializePool
  simp only [hide_malloc, hide_vkCreate, hide_conn, hide_setConn]
  split
  · rfl
  · split <;> simp

@[simp] theorem hide_descFinalizePool (h : Hidden) (w : World) :
    descFinalizePool (w.hide h) = (descFinalizePool w).hide h := by
  simp [descFinalizePool]

@[simp] theorem hide_setDescriptorSet (i : Nat) (h : Hidden) (w : World) :
    setDescriptorSet i (w.hide h) = (setDescriptorSet i w).hide h := by
  simp [setDescriptorSet, Call.isFrameStep]

@[simp] theorem hide_descInitializeSets (d : Driver) (h : Hidden) (w : World) :
    descInitializeSets d (w.hide h) =
      ((descInitializeSets d w).1, (descInitializeSets d w).2.hide h) := by
  unfold descInitializeSets
  simp only [hide_malloc, hide_swap, hide_conn, hide_setConn, hide_vkAllocateDescriptorSets,
    hide_forRange h _ (hide_setDescriptorSet · h)]
  split
  · rfl
  · split
    · simp
    · split <;> simp

@[simp] theorem hide_descFinalizeSets (h : Hidden) (w : World) :
    descFinalizeSets (w.hide h) = (descFinalizeSets w).hide h := by
  simp [descFinalizeSets]

@[simp] theorem hide_descInitialize (d : Driver) (h : Hidden) (w : World) :
    descInitialize d (w.hide h) = ((descInitialize d w).1, (descInitialize d w).2.hide h) := by
  unfold descInitialize
  simp only [hide_descInitializeLayout, hide_descInitializePool, hide_descInitializeSets,
    hide_descFinalizeLayout, hide_descFinalizePool]
  repeat' split
  all_goals rfl

@[simp] theorem hide_descFinalize (h : Hidden) (w : World) :
    descFinalize (w.hide h) = (descFinalize w).hide h := by
  simp [descFinalize]

@[simp] theorem hide_bodyRender (v cb ds : Handle) (a i : Int) (h : Hidden) (w : World) :
    bodyRender v cb ds a i (w.hide h) = (bodyRender v cb ds a i w).hide h := by
  simp [bodyRender, Call.isFrameStep]

@[simp] theorem hide_bodyRenderRecursively (cb ds : Handle) (a : Int) (h : Hidden)
    (b : bodyBody) (i : Int) (w : World) :
    bodyRenderRecursively cb ds a b i (w.hide h) =
      ((bodyRenderRecursively cb ds a b i w).1,
        (bodyRenderRecursively cb ds a b i w).2.hide h) := by
  induction b generalizing i w with
  | NULL => rfl
  | body vesh firstChild nextSibling ih1 ih2 =>
    unfold bodyRenderRecursively
    simp only [hide_bodyRender]
    cases firstChild <;> cases nextSibling <;> simp [ih1, ih2]

/-! ### 590mainDiffuse.c -/

@[simp] theorem hide_initializeUniforms (d : Driver) (h : Hidden) (w : World) :
    initializeUniforms d (w.hide h) =
      ((initializeUniforms d w).1, (initializeUniforms d w).2.hide h) := by
  unfold initializeUniforms
  simp only [hide_enter, Call.isFrameStep, hide_unifInitializeBuffers,
    hide_unifFinalizeBuffers, hide_unifInitializeAligned, hide_unifFinalizeAligned,
    hide_descInitialize, hide_bodyNum]
  repeat' split
  all_goals rfl

@[simp] theorem hide_finalizeUniforms (h : Hidden) (w : World) :
    finalizeUniforms (w.hide h) = (finalizeUniforms w).hide h := by
  simp [finalizeUniforms, Call.isFrameStep]

@[simp] theorem hide_initializePipeline (d : Driver) (h : Hidden) (w : World) :
    initializePipeline d (w.hide h) =
      ((initializePipeline d w).1, (initializePipeline d w).2.hide h) := by
  unfold initializePipeline
  simp only [hide_enter, Call.isFrameStep, hide_vkCreate, hide_conn, hide_setConn]
  split
  · rfl
  · split <;> simp

@[simp] theorem hide_finalizePipeline (h : Hidden) (w : World) :
    finalizePipeline (w.hide h) = (finalizePipeline w).hide h := by
  simp [finalizePipeline, Call.isFrameStep]

@[simp] theorem hide_initializeCommandBuffers_loop (d : Driver) (h : Hidden) (n i : Nat)
    (w : World) :
    initializeCommandBuffers.loop d n i (w.hide h) =
      ((initializeCommandBuffers.loop d n i w).1,
        (initializeCommandBuffers.loop d n i w).2.hide h) := by
  induction n generalizing i w with
  | zero => rfl
  | succ n ih =>
    unfold initializeCommandBuffers.loop
    simp only [hide_vkBeginCommandBuffer, hide_conn, hide_swap, hide_log, Call.isFrameStep,
      hide_heroTorsoBody, hide_bodyRenderRecursively, hide_vkEndCommandBuffer, ih]
    split
    · simp
    · split <;> simp

@[simp] theorem hide_initializeCommandBuffers (d : Driver) (h : Hidden) (w : World) :
    initializeCommandBuffers d (w.hide h) =
      ((initializeCommandBuffers d w).1, (initializeCommandBuffers d w).2.hide h) := by
  unfold initializeCommandBuffers
  simp only [hide_enter, Call.isFrameStep, hide_malloc, hide_swap, hide_conn, hide_setConn,
    hide_vkAllocate]
  split
  · rfl
  · split <;> simp

@[simp] theorem hide_freeCommandBufferAt (j : Nat) (h : Hidden) (w : World) :
    freeCommandBufferAt j (w.hide h) = (freeCommandBufferAt j w).hide h := by
  simp [freeCommandBufferAt]

@[simp] theorem hide_finalizeCommandBuffers (h : Hidden) (w : World) :
    finalizeCommandBuffers (w.hide h) = (finalizeCommandBuffers w).hide h := by
  unfold finalizeCommandBuffers
  simp only [hide_enter, Call.isFrameStep, hide_swap,
    hide_forRange h _ (hide_freeCommandBufferAt · h)]
  simp

@[simp] theorem hide_initializeConnection (d : Driver) (h : Hidden) (w : World) :
    initializeConnection d (w.hide h) =
      ((initializeConnection d w).1, (initializeConnection d w).2.hide h) := by
  unfold initializeConnection
  simp only [hide_enter, Call.isFrameStep, hide_initializeUniforms, hide_initializePipeline,
    hide_initializeCommandBuffers, hide_finalizeUniforms, hide_finalizePipeline]
  repeat' split
  all_goals rfl

@[simp] theorem hide_finalizeConnection (h : Hidden) (w : World) :
    finalizeConnection (w.hide h) = (finalizeConnection w).hide h := by
  simp [finalizeConnection, Call.isFrameStep]

theorem hide_rebuild (K : Nat) (d : Driver) (h : Hidden) (w : World) :
    reinitializeSwapChain.rebuild K d (w.hide h) =
      ((reinitializeSwapChain.rebuild K d w).1,
        (reinitializeSwapChain.rebuild K d w).2.hide { h with curFrame := 0 }) := by
  unfold reinitializeSwapChain.rebuild
  simp only [hide_log, Call.isFrameStep, hide_finalizeConnection, hide_swapFinalize,
    hide_swapInitialize, hide_initializeConnection]
  repeat' split
  all_goals rfl

/-! ### What follows for any starting state -/

theorem frameSteps_quietPart (tr : List Call) : frameSteps (quietPart tr) = [] := by
  simp [frameSteps, quietPart, List.filter_filter]

theorem hide_fresh (w : World) : w.fresh.hide w.hidden = w := by
  simp [World.hide, World.fresh, World.hidden, quietPart]

theorem Calm.refl (w : World) : Calm w w :=
  ⟨rfl, rfl, [], by simp, rfl⟩

theorem Calm.trans {a b c : World} (h1 : Calm a b) (h2 : Calm b c) : Calm a c := by
  obtain ⟨p1, e1, q1⟩ := h1.trace
  obtain ⟨p2, e2, q2⟩ := h2.trace
  refine ⟨h2.nAcquire.trans h1.nAcquire, h2.nPresent.trans h1.nPresent, p1 ++ p2, ?_, ?_⟩
  · rw [e2, e1, List.append_assoc]
  · rw [frameSteps_append, q1, q2]; rfl

theorem Calm.log {a b : World} (h : Calm a b) (c : Call) (hc : c.isFrameStep = false) :
    Calm a (b.log c) := by
  refine h.trans ⟨rfl, rfl, [c], rfl, ?_⟩
  simp [frameSteps, hc]

theorem calm_hide (h : Hidden) (x : World) (w : World) (hp : h.pre = w.env.trace)
    (ha : h.nAcquire = w.env.nAcquire) (hq : h.nPresent = w.env.nPresent) :
    Calm w (x.hide h) :=
  ⟨ha, hq, quietPart x.env.trace, by simp [World.hide, hp], frameSteps_quietPart _⟩

/-- The rebuild proper leaves the GUI state and the frame counters alone, adds
no step of the presentation cycle, and leaves `curFrame` at 0. -/
theorem rebuild_facts (K : Nat) (d : Driver) (w : World) :
    Calm w (reinitializeSwapChain.rebuild K d w).2 ∧
    (reinitializeSwapChain.rebuild K d w).2.gui = w.gui ∧
    (reinitializeSwapChain.rebuild K d w).2.swap.curFrame = 0 := by
  have e := hide_rebuild K d w.hidden w.fresh
  rw [hide_fresh] at e
  rw [e]
  exact ⟨calm_hide _ _ _ rfl rfl rfl, rfl, rfl⟩

theorem swapInitialize_facts (K : Nat) (d : Driver) (w : World) :
    Calm w (swapInitialize K d w).2 ∧
    (swapInitialize K d w).2.gui = w.gui ∧
    (swapInitialize K d w).2.swap.curFrame = 0 := by
  have e := hide_swapInitialize K d w.hidden w.fresh
  rw [hide_fresh] at e
  rw [e]
  exact ⟨calm_hide _ _ _ rfl rfl rfl, rfl, rfl⟩

theorem glfwWaitEvents_facts (d : Driver) (w : World) :
    Calm w (glfwWaitEvents d w) ∧
    (glfwWaitEvents d w).swap = w.swap ∧
    (glfwWaitEvents d w).env.nFramebufferSize = w.env.nFramebufferSize ∧
    (glfwWaitEvents d w).env.nWaitEvents = w.env.nWaitEvents + 1 ∧
    (d.resizeOnWait w.env.nWaitEvents = false → (glfwWaitEvents d w).gui = w.gui) := by
  unfold glfwWaitEvents guiResizingCallback
  by_cases hr : d.resizeOnWait w.env.nWaitEvents
  · simp only [hr, if_true]
    refine ⟨⟨rfl, rfl, [Call.glfwWaitEvents, Call.guiResizingCallback], ?_, rfl⟩, rfl, rfl, rfl, ?_⟩
    · simp [World.log]
    · intro hf; cases hf
  · simp only [hr]
    exact ⟨⟨rfl, rfl, [Call.glfwWaitEvents], rfl, rfl⟩, rfl, rfl, rfl, fun _ => rfl⟩

theorem glfwGetFramebufferSize_facts (d : Driver) (w : World) :
    Calm w (glfwGetFramebufferSize d w).2 ∧
    (glfwGetFramebufferSize d w).2.swap = w.swap ∧
    (glfwGetFramebufferSize d w).2.gui = w.gui ∧
    (glfwGetFramebufferSize d w).2.env.nFramebufferSize = w.env.nFramebufferSize + 1 ∧
    (glfwGetFramebufferSize d w).2.env.nWaitEvents = w.env.nWaitEvents ∧
    (glfwGetFramebufferSize d w).1 = d.framebufferSize w.env.nFramebufferSize :=
  ⟨⟨rfl, rfl, [Call.glfwGetFramebufferSize _ _], rfl, rfl⟩, rfl, rfl, rfl, rfl, rfl⟩

/-- The wait loop of `reinitializeSwapChain` only reads the size and waits for
events: it leaves the swap chain and the frame counters alone, and the GUI
state too unless a wait dispatches the resize callback. -/
theorem wait_facts (d : Driver) (fuel : Nat) (width height : Int) (w : World) :
    Calm w (reinitializeSwapChain.wait d fuel width height w).2 ∧
    (reinitializeSwapChain.wait d fuel width height w).2.swap = w.swap ∧
    ((∀ n, w.env.nWaitEvents ≤ n → d.resizeOnWait n = false) →
      (reinitializeSwapChain.wait d fuel width height w).2.gui = w.gui) ∧
    (width ≠ 0 ∧ height ≠ 0 →
      reinitializeSwapChain.wait d fuel width height w = (true, w)) := by
  induction fuel generalizing width height w with
  | zero =>
    unfold reinitializeSwapChain.wait
    refine ⟨Calm.refl w, rfl, fun _ => rfl, ?_⟩
    rintro ⟨h1, h2⟩
    simp [h1, h2]
  | succ fuel ih =>
    unfold reinitializeSwapChain.wait
    by_cases hz : width = 0 ∨ height = 0
    · rw [if_pos hz]
      obtain ⟨c1, s1, g1, _, n1, _⟩ := glfwGetFramebufferSize_facts d w
      obtain ⟨c2, s2, _, n2, g2⟩ := glfwWaitEvents_facts d (glfwGetFramebufferSize d w).2
      obtain ⟨c3, s3, g3, _⟩ := ih (glfwGetFramebufferSize d w).1.1
        (glfwGetFramebufferSize d w).1.2 (glfwWaitEvents d (glfwGetFramebufferSize d w).2)
      refine ⟨(c1.trans c2).trans c3, by rw [s3, s2, s1], ?_, ?_⟩
      · intro hq
        rw [g3 (fun n hn => hq n (by rw [n2, n1] at hn; omega)),
          g2 (hq _ (by rw [n1])), g1]
      · rintro ⟨h1, h2⟩
        rcases hz with hz | hz
        · exact absurd hz h1
        · exact absurd hz h2
    · rw [if_neg hz]
      exact ⟨Calm.refl w, rfl, fun _ => rfl, fun _ => rfl⟩

/-- The wait loop ends once a read reports a non-zero size: enough fuel gives
the result. -/
theorem wait_terminates (d : Driver) (fuel : Nat) (width height : Int) (w : World)
    (h : (width ≠ 0 ∧ height ≠ 0) ∨
      ∃ m, m < fuel ∧ (d.framebufferSize (w.env.nFramebufferSize + m)).1 ≠ 0 ∧
        (d.framebufferSize (w.env.nFramebufferSize + m)).2 ≠ 0) :
    (reinitializeSwapChain.wait d fuel width height w).1 = true := by
  induction fuel generalizing width height w with
  | zero =>
    unfold reinitializeSwapChain.wait
    rcases h with ⟨h1, h2⟩ | ⟨m, hm, _⟩
    · simp [h1, h2]
    · omega
  | succ fuel ih =>
    unfold reinitializeSwapChain.wait
    by_cases hz : width = 0 ∨ height = 0
    · rw [if_pos hz]
      obtain ⟨_, _, _, n1, _, v1⟩ := glfwGetFramebufferSize_facts d w
      obtain ⟨_, _, n2, _, _⟩ := glfwWaitEvents_facts d (glfwGetFramebufferSize d w).2
      apply ih
      rcases h with ⟨h1, h2⟩ | ⟨m, hm, hs⟩
      · rcases hz with hz | hz
        · exact absurd hz h1
        · exact absurd hz h2
      · cases m with
        | zero =>
          left
          rw [v1]
          simpa using hs
        | succ m =>
          right
          refine ⟨m, by omega, ?_⟩
          rw [n2, n1]
          have : w.env.nFramebufferSize + 1 + m = w.env.nFramebufferSize + (m + 1) := by omega
          rw [this]
          exact hs
    · rw [if_neg hz]

/-! ### `reinitializeSwapChain` as a whole -/

/-- After its entry mark, `reinitializeSwapChain` adds no step of the
presentation cycle and leaves the frame counters alone. -/
theorem reinit_calm (K : Nat) (d : Driver) (fuel : Nat) (w : World) :
    Calm (enter Fn.reinitializeSwapChain w) (reinitializeSwapChain K d fuel w).2 := by
  unfold reinitializeSwapChain
  obtain ⟨c1, _⟩ := glfwGetFramebufferSize_facts d (enter Fn.reinitializeSwapChain w)
  obtain ⟨c2, _⟩ := wait_facts d fuel
    (glfwGetFramebufferSize d (enter Fn.reinitializeSwapChain w)).1.1
    (glfwGetFramebufferSize d (enter Fn.reinitializeSwapChain w)).1.2
    (glfwGetFramebufferSize d (enter Fn.reinitializeSwapChain w)).2
  dsimp only
  split
  · exact c1.trans c2
  · exact (c1.trans c2).trans (rebuild_facts K d _).1

theorem reinit_trace (K : Nat) (d : Driver) (fuel : Nat) (w : World) :
    ∃ post, (reinitializeSwapChain K d fuel w).2.env.trace =
        w.env.trace ++ Call.enter Fn.reinitializeSwapChain :: post ∧
      frameSteps post = [] := by
  obtain ⟨post, e, q⟩ := (reinit_calm K d fuel w).trace
  exact ⟨post, by rw [e]; simp [enter, World.log], q⟩

/-- A rebuild that returns has left `curFrame` at 0; one that is still waiting
has not touched it. -/
theorem reinit_curFrame (K : Nat) (d : Driver) (fuel : Nat) (w : World) :
    (reinitializeSwapChain K d fuel w).2.swap.curFrame =
      if (reinitializeSwapChain K d fuel w).1 = none then w.swap.curFrame else 0 := by
  unfold reinitializeSwapChain
  obtain ⟨_, s1, _⟩ := glfwGetFramebufferSize_facts d (enter Fn.reinitializeSwapChain w)
  obtain ⟨_, s2, _⟩ := wait_facts d fuel
    (glfwGetFramebufferSize d (enter Fn.reinitializeSwapChain w)).1.1
    (glfwGetFramebufferSize d (enter Fn.reinitializeSwapChain w)).1.2
    (glfwGetFramebufferSize d (enter Fn.reinitializeSwapChain w)).2
  dsimp only
  split
  · simp only [if_true]
    rw [s2, s1]
    rfl
  · simp only [reduceCtorEq, if_false]
    exact (rebuild_facts K d _).2.2

/-- The rebuild changes the GUI state only through the resize callback, which
only a `glfwWaitEvents` of its wait loop can dispatch. -/
theorem reinit_gui (K : Nat) (d : Driver) (fuel : Nat) (w : World)
    (hq : ∀ n, w.env.nWaitEvents ≤ n → d.resizeOnWait n = false) :
    (reinitializeSwapChain K d fuel w).2.gui = w.gui := by
  unfold reinitializeSwapChain
  obtain ⟨_, _, g1, _, n1, _⟩ :=
    glfwGetFramebufferSize_facts d (enter Fn.reinitializeSwapChain w)
  obtain ⟨_, _, g2, _⟩ := wait_facts d fuel
    (glfwGetFramebufferSize d (enter Fn.reinitializeSwapChain w)).1.1
    (glfwGetFramebufferSize d (enter Fn.reinitializeSwapChain w)).1.2
    (glfwGetFramebufferSize d (enter Fn.reinitializeSwapChain w)).2
  have g2' := g2 (fun n hn => hq n (by rw [n1] at hn; exact hn))
  dsimp only
  split
  · rw [g2', g1]; rfl
  · rw [(rebuild_facts K d _).2.1, g2', g1]; rfl

/-- When the first read of the framebuffer size is non-zero, the rebuild makes
no `glfwWaitEvents` call: it returns, whatever the fuel, with the GUI state
unchanged. -/
theorem reinit_nonzero (K : Nat) (d : Driver) (fuel : Nat) (w : World)
    (h1 : (d.framebufferSize w.env.nFramebufferSize).1 ≠ 0)
    (h2 : (d.framebufferSize w.env.nFramebufferSize).2 ≠ 0) :
    (reinitializeSwapChain K d fuel w).1 ≠ none ∧
    (reinitializeSwapChain K d fuel w).2.gui = w.gui := by
  unfold reinitializeSwapChain
  obtain ⟨_, _, g1, _, _, v1⟩ :=
    glfwGetFramebufferSize_facts d (enter Fn.reinitializeSwapChain w)
  have hv : (glfwGetFramebufferSize d (enter Fn.reinitializeSwapChain w)).1 =
      d.framebufferSize w.env.nFramebufferSize := v1
  obtain ⟨_, _, _, e⟩ := wait_facts d fuel
    (glfwGetFramebufferSize d (enter Fn.reinitializeSwapChain w)).1.1
    (glfwGetFramebufferSize d (enter Fn.reinitializeSwapChain w)).1.2
    (glfwGetFramebufferSize d (enter Fn.reinitializeSwapChain w)).2
  have e' := e (by rw [hv]; exact ⟨h1, h2⟩)
  dsimp only
  rw [e']
  simp only [Bool.true_eq_false, if_false]
  refine ⟨by simp, ?_⟩
  rw [(rebuild_facts K d _).2.1, g1]
  rfl

/-- The rebuild returns as soon as one of its first `fuel + 1` reads of the
framebuffer size is non-zero. -/
theorem reinit_terminates (K : Nat) (d : Driver) (fuel : Nat) (w : World)
    (h : ∃ m, m ≤ fuel ∧ (d.framebufferSize (w.env.nFramebufferSize + m)).1 ≠ 0 ∧
      (d.framebufferSize (w.env.nFramebufferSize + m)).2 ≠ 0) :
    (reinitializeSwapChain K d fuel w).1 ≠ none := by
  unfold reinitializeSwapChain
  obtain ⟨_, _, _, n1, _, v1⟩ :=
    glfwGetFramebufferSize_facts d (enter Fn.reinitializeSwapChain w)
  have hv : (glfwGetFramebufferSize d (enter Fn.reinitializeSwapChain w)).1 =
      d.framebufferSize w.env.nFramebufferSize := v1
  have hn : (glfwGetFramebufferSize d (enter Fn.reinitializeSwapChain w)).2.env.nFramebufferSize
      = w.env.nFramebufferSize + 1 := n1
  have t := wait_terminates d fuel
    (glfwGetFramebufferSize d (enter Fn.reinitializeSwapChain w)).1.1
    (glfwGetFramebufferSize d (enter Fn.reinitializeSwapChain w)).1.2
    (glfwGetFramebufferSize d (enter Fn.reinitializeSwapChain w)).2 (by
      obtain ⟨m, hm, hs⟩ := h
      cases m with
      | zero => left; rw [hv]; simpa using hs
      | succ m =>
        right
        refine ⟨m, by omega, ?_⟩
        rw [hn]
        have : w.env.nFramebufferSize + 1 + m = w.env.nFramebufferSize + (m + 1) := by omega
        rw [this]
        exact hs)
  dsimp only
  rw [t]
  simp

/-! ### The branches of `presentFrame` -/

theorem presentFrame_outOfDate (K : Nat) (d : Driver) (fuel : Nat) (w : World)
    (ha : (d.acquireNextImage w.env.nAcquire).1 = VkResult.VK_ERROR_OUT_OF_DATE_KHR) :
    presentFrame K d fuel w =
      match (reinitializeSwapChain K d fuel (presentFrame.acquired d w)).1 with
      | none => (none, (reinitializeSwapChain K d fuel (presentFrame.acquired d w)).2)
      | some _ => (some 5, (reinitializeSwapChain K d fuel (presentFrame.acquired d w)).2) := by
  unfold presentFrame
  refine (if_pos ha).trans ?_
  simp only [vkAcquireNextImageKHR, enter, World.log, presentFrame.acquired,
    presentFrame.acquireSteps, List.append_assoc, List.cons_append, List.nil_append]

theorem presentFrame_acquireError (K : Nat) (d : Driver) (fuel : Nat) (w : World)
    (h1 : (d.acquireNextImage w.env.nAcquire).1 ≠ VkResult.VK_ERROR_OUT_OF_DATE_KHR)
    (h2 : (d.acquireNextImage w.env.nAcquire).1 ≠ VkResult.VK_SUCCESS ∧
      (d.acquireNextImage w.env.nAcquire).1 ≠ VkResult.VK_SUBOPTIMAL_KHR) :
    presentFrame K d fuel w = (some 4, presentFrame.acquired d w) := by
  unfold presentFrame
  refine (if_neg h1).trans ((if_pos h2).trans ?_)
  simp only [vkAcquireNextImageKHR, enter, World.log, presentFrame.acquired,
    presentFrame.acquireSteps, List.append_assoc, List.cons_append, List.nil_append]

theorem presentFrame_submitError (K : Nat) (d : Driver) (fuel : Nat) (w : World)
    (h1 : (d.acquireNextImage w.env.nAcquire).1 ≠ VkResult.VK_ERROR_OUT_OF_DATE_KHR)
    (h2 : ¬ ((d.acquireNextImage w.env.nAcquire).1 ≠ VkResult.VK_SUCCESS ∧
      (d.acquireNextImage w.env.nAcquire).1 ≠ VkResult.VK_SUBOPTIMAL_KHR))
    (h3 : d.queueSubmit w.env.nSubmit ≠ VkResult.VK_SUCCESS) :
    presentFrame K d fuel w = (some 3, presentFrame.submitted d w) := by
  by_cases hz : (w.swap.imagesInFlight.write (d.acquireNextImage w.env.nAcquire).2
      (w.swap.inFlightFences.getD w.swap.curFrame 0)).read
        (d.acquireNextImage w.env.nAcquire).2 = VK_NULL_HANDLE <;>
  simp only [presentFrame, vkAcquireNextImageKHR, enter, World.log, presentFrame.submitted,
    presentFrame.submitSteps, vkQueueSubmit, setSceneUniforms, setBodyUniforms,
    World.setImagesInFlight, presentFrame.imagesInFlight, presentFrame.acquireSteps,
    List.append_assoc, List.cons_append, List.nil_append, h1, h2, h3, hz, if_false, if_true,
    ne_eq, not_true_eq_false, not_false_eq_true]

theorem presentFrame_presentError (K : Nat) (d : Driver) (fuel : Nat) (w : World)
    (h1 : (d.acquireNextImage w.env.nAcquire).1 ≠ VkResult.VK_ERROR_OUT_OF_DATE_KHR)
    (h2 : ¬ ((d.acquireNextImage w.env.nAcquire).1 ≠ VkResult.VK_SUCCESS ∧
      (d.acquireNextImage w.env.nAcquire).1 ≠ VkResult.VK_SUBOPTIMAL_KHR))
    (h3 : d.queueSubmit w.env.nSubmit = VkResult.VK_SUCCESS)
    (h4 : ¬ presentFrame.rebuilds d w)
    (h5 : d.queuePresent w.env.nPresent ≠ VkResult.VK_SUCCESS) :
    presentFrame K d fuel w = (some 1, presentFrame.presented d w) := by
  unfold presentFrame.rebuilds at h4
  by_cases hz : (w.swap.imagesInFlight.write (d.acquireNextImage w.env.nAcquire).2
      (w.swap.inFlightFences.getD w.swap.curFrame 0)).read
        (d.acquireNextImage w.env.nAcquire).2 = VK_NULL_HANDLE <;>
  simp only [presentFrame, vkAcquireNextImageKHR, enter, World.log, presentFrame.submitted,
    presentFrame.presented, presentFrame.presentStep, vkQueuePresentKHR,
    presentFrame.submitSteps, vkQueueSubmit, setSceneUniforms, setBodyUniforms,
    World.setImagesInFlight, presentFrame.imagesInFlight, presentFrame.acquireSteps,
    List.append_assoc, List.cons_append, List.nil_append, h1, h2, h3, h4, h5, hz,
    if_false, if_true, ne_eq, not_true_eq_false, not_false_eq_true]

theorem presentFrame_presented (K : Nat) (d : Driver) (fuel : Nat) (w : World)
    (h1 : (d.acquireNextImage w.env.nAcquire).1 ≠ VkResult.VK_ERROR_OUT_OF_DATE_KHR)
    (h2 : ¬ ((d.acquireNextImage w.env.nAcquire).1 ≠ VkResult.VK_SUCCESS ∧
      (d.acquireNextImage w.env.nAcquire).1 ≠ VkResult.VK_SUBOPTIMAL_KHR))
    (h3 : d.queueSubmit w.env.nSubmit = VkResult.VK_SUCCESS)
    (h4 : ¬ presentFrame.rebuilds d w)
    (h5 : d.queuePresent w.env.nPresent = VkResult.VK_SUCCESS) :
    presentFrame K d fuel w =
      (some 0, { presentFrame.presented d w with
        swap := swapIncrementFrame K (presentFrame.presented d w).swap }) := by
  unfold presentFrame.rebuilds at h4
  have h6 : w.gui.framebufferResized = 0 := by
    by_contra hx
    exact h4 (Or.inr (Or.inr hx))
  by_cases hz : (w.swap.imagesInFlight.write (d.acquireNextImage w.env.nAcquire).2
      (w.swap.inFlightFences.getD w.swap.curFrame 0)).read
        (d.acquireNextImage w.env.nAcquire).2 = VK_NULL_HANDLE <;>
  simp only [presentFrame, vkAcquireNextImageKHR, enter, World.log, presentFrame.submitted,
    presentFrame.presented, presentFrame.presentStep, vkQueuePresentKHR,
    presentFrame.submitSteps, vkQueueSubmit, setSceneUniforms, setBodyUniforms,
    World.setImagesInFlight, presentFrame.imagesInFlight, presentFrame.acquireSteps,
    List.append_assoc, List.cons_append, List.nil_append, h1, h2, h3, h5, h6, hz,
    if_false, if_true, ne_eq, not_true_eq_false, not_false_eq_true, reduceCtorEq, or_self]

theorem presentFrame_rebuild (K : Nat) (d : Driver) (fuel : Nat) (w : World)
    (h1 : (d.acquireNextImage w.env.nAcquire).1 ≠ VkResult.VK_ERROR_OUT_OF_DATE_KHR)
    (h2 : ¬ ((d.acquireNextImage w.env.nAcquire).1 ≠ VkResult.VK_SUCCESS ∧
      (d.acquireNextImage w.env.nAcquire).1 ≠ VkResult.VK_SUBOPTIMAL_KHR))
    (h3 : d.queueSubmit w.env.nSubmit = VkResult.VK_SUCCESS)
    (h4 : presentFrame.rebuilds d w) :
    presentFrame K d fuel w =
      match (reinitializeSwapChain K d fuel
          (guiSetFramebufferResized (presentFrame.presented d w) 0)).1 with
      | none =>
        (none, (reinitializeSwapChain K d fuel
          (guiSetFramebufferResized (presentFrame.presented d w) 0)).2)
      | some error =>
        if error ≠ 0 then
          (some 2, (reinitializeSwapChain K d fuel
            (guiSetFramebufferResized (presentFrame.presented d w) 0)).2)
        else
          (some 0,
            { (reinitializeSwapChain K d fuel
                (guiSetFramebufferResized (presentFrame.presented d w) 0)).2 with
              swap := swapIncrementFrame K (reinitializeSwapChain K d fuel
                (guiSetFramebufferResized (presentFrame.presented d w) 0)).2.swap }) := by
  unfold presentFrame.rebuilds at h4
  by_cases hz : (w.swap.imagesInFlight.write (d.acquireNextImage w.env.nAcquire).2
      (w.swap.inFlightFences.getD w.swap.curFrame 0)).read
        (d.acquireNextImage w.env.nAcquire).2 = VK_NULL_HANDLE <;>
  (simp only [presentFrame, vkAcquireNextImageKHR, enter, World.log, presentFrame.submitted,
    presentFrame.presented, presentFrame.presentStep, vkQueuePresentKHR,
    presentFrame.submitSteps, vkQueueSubmit, setSceneUniforms, setBodyUniforms,
    World.setImagesInFlight, presentFrame.imagesInFlight, presentFrame.acquireSteps,
    List.append_assoc, List.cons_append, List.nil_append, h1, h2, h3, h4, hz,
    if_false, if_true, ne_eq, not_true_eq_false, not_false_eq_true])

/-! ## The selection helpers of 450swap.c -/

theorem swapGetSurfaceFormat.loop_none (l : List VkSurfaceFormatKHR) :
    swapGetSurfaceFormat.loop l = none ↔ ∀ f ∈ l, ¬ isPreferredFormat f := by
  induction l with
  | nil => simp [swapGetSurfaceFormat.loop]
  | cons a l ih =>
    unfold swapGetSurfaceFormat.loop
    by_cases h : isPreferredFormat a
    · have h' := h
      unfold isPreferredFormat at h'
      simp [h', h]
    · have h' := h
      unfold isPreferredFormat at h'
      simp [h', h, ih]

theorem swapGetSurfaceFormat.loop_some (l : List VkSurfaceFormatKHR) (f : VkSurfaceFormatKHR) :
    swapGetSurfaceFormat.loop l = some f ↔
      ∃ i : Nat, l[i]? = some f ∧ isPreferredFormat f ∧
        ∀ j : Nat, j < i → ∀ g, l[j]? = some g → ¬ isPreferredFormat g := by
  induction l with
  | nil => simp [swapGetSurfaceFormat.loop]
  | cons a l ih =>
    unfold swapGetSurfaceFormat.loop
    by_cases h : isPreferredFormat a
    · have h' := h
      unfold isPreferredFormat at h'
      simp only [h', and_self, if_true, Option.some.injEq]
      constructor
      · rintro rfl
        exact ⟨0, by simp, h, by intro j hj; omega⟩
      · rintro ⟨i, hi, _, hmin⟩
        cases i with
        | zero => simpa using hi
        | succ i =>
          exact absurd h (hmin 0 (by omega) a (by simp))
    · have h' := h
      unfold isPreferredFormat at h'
      simp only [h', if_false, ih]
      constructor
      · rintro ⟨i, hi, hp, hmin⟩
        refine ⟨i + 1, by simpa using hi, hp, ?_⟩
        intro j hj g hg
        cases j with
        | zero =>
          simp at hg
          subst hg
          exact h
        | succ j =>
          exact hmin j (by omega) g (by simpa using hg)
      · rintro ⟨i, hi, hp, hmin⟩
        cases i with
        | zero =>
          simp at hi
          subst hi
          exact absurd hp h
        | succ i =>
          refine ⟨i, by simpa using hi, hp, ?_⟩
          intro j hj g hg
          exact hmin (j + 1) (by omega) g (by simpa using hg)

theorem swapClip_mem (x a b : Nat) (h : a ≤ b) :
    a ≤ swapClip x a b ∧ swapClip x a b ≤ b := by
  unfold swapClip; split_ifs <;> omega

theorem swapClip_id (x a b : Nat) (h1 : a ≤ x) (h2 : x ≤ b) : swapClip x a b = x := by
  unfold swapClip; split_ifs <;> omega

theorem toUint32_of_range (x : Int) (h0 : 0 ≤ x) (h1 : x ≤ (UINT32_MAX : Int)) :
    ((toUint32 x : Nat) : Int) = x := by
  unfold toUint32 UINT32_MAX at *
  rw [Int.toNat_of_nonneg (by omega)]
  omega

/-- C10: on a non-empty list of available formats, `swapGetSurfaceFormat`
returns the first entry with the preferred format and colour space when there
is one, the first entry of the list when there is none, and in both cases a
member of the list. -/
theorem swapGetSurfaceFormat_first_preferred (availFormats : List VkSurfaceFormatKHR)
    (junk : VkSurfaceFormatKHR) (hne : availFormats ≠ []) :
    (∀ (i : Nat) f, availFormats[i]? = some f → isPreferredFormat f →
        (∀ j : Nat, j < i → ∀ g, availFormats[j]? = some g → ¬ isPreferredFormat g) →
        swapGetSurfaceFormat availFormats junk = f) ∧
    ((∀ f ∈ availFormats, ¬ isPreferredFormat f) →
        swapGetSurfaceFormat availFormats junk = availFormats.head hne) ∧
    swapGetSurfaceFormat availFormats junk ∈ availFormats := by
  refine ⟨?_, ?_, ?_⟩
  · intro i f hi hp hmin
    have h : swapGetSurfaceFormat.loop availFormats = some f :=
      (swapGetSurfaceFormat.loop_some availFormats f).2 ⟨i, hi, hp, hmin⟩
    simp [swapGetSurfaceFormat, h]
  · intro hnone
    have h := (swapGetSurfaceFormat.loop_none availFormats).2 hnone
    cases availFormats with
    | nil => exact absurd rfl hne
    | cons a l => simp [swapGetSurfaceFormat, h]
  · cases hl : swapGetSurfaceFormat.loop availFormats with
    | none =>
      cases availFormats with
      | nil => exact absurd rfl hne
      | cons a l => simp [swapGetSurfaceFormat, hl]
    | some f =>
      obtain ⟨i, hi, _, _⟩ := (swapGetSurfaceFormat.loop_some availFormats f).1 hl
      simp only [swapGetSurfaceFormat, hl]
      exact List.getElem?_mem hi

/-- The theorem of C10 at the list `[(44, 0), (50, 0), (50, 1)]`, whose entry
1 is the first preferred one, and at `[(44, 0), (50, 1)]`, which has none. -/
theorem swapGetSurfaceFormat_first_preferred_witness :
    ([⟨44, 0⟩, ⟨50, 0⟩, ⟨50, 1⟩] : List VkSurfaceFormatKHR) ≠ [] ∧
    swapGetSurfaceFormat [⟨44, 0⟩, ⟨50, 0⟩, ⟨50, 1⟩] ⟨0, 0⟩ = ⟨50, 0⟩ ∧
    swapGetSurfaceFormat [⟨44, 0⟩, ⟨50, 1⟩] ⟨0, 0⟩ = ⟨44, 0⟩ ∧
    swapGetSurfaceFormat [⟨44, 0⟩, ⟨50, 0⟩, ⟨50, 1⟩] ⟨0, 0⟩ ∈
      ([⟨44, 0⟩, ⟨50, 0⟩, ⟨50, 1⟩] : List VkSurfaceFormatKHR) :=
  ⟨by decide,
   (swapGetSurfaceFormat_first_preferred [⟨44, 0⟩, ⟨50, 0⟩, ⟨50, 1⟩] ⟨0, 0⟩ (by decide)).1
     1 ⟨50, 0⟩ (by decide) (by decide) (by decide),
   (swapGetSurfaceFormat_first_preferred [⟨44, 0⟩, ⟨50, 1⟩] ⟨0, 0⟩ (by decide)).2.1
     (by decide),
   (swapGetSurfaceFormat_first_preferred [⟨44, 0⟩, ⟨50, 0⟩, ⟨50, 1⟩] ⟨0, 0⟩ (by decide)).2.2⟩

/-- C9: `swapGetExtent` returns `currentExtent` unchanged, without reading the
framebuffer, unless its width is the "undefined" mark `UINT32_MAX`; then it
reads the framebuffer size once and returns it with each axis clamped by
`swapClip`.  When `minImageExtent ≤ maxImageExtent` on an axis, that axis of
the result lies between them, and it is the framebuffer size itself when that
size already lies between them (the bounds being 32-bit values). -/
theorem swapGetExtent_clamps (d : Driver) (capabilities : VkSurfaceCapabilitiesKHR)
    (w : World) :
    (capabilities.currentExtent.width ≠ UINT32_MAX →
      swapGetExtent d capabilities w = (capabilities.currentExtent, w)) ∧
    (capabilities.currentExtent.width = UINT32_MAX →
      (swapGetExtent d capabilities w).1 =
        { width := swapClip (toUint32 (d.framebufferSize w.env.nFramebufferSize).1)
            capabilities.minImageExtent.width capabilities.maxImageExtent.width,
          height := swapClip (toUint32 (d.framebufferSize w.env.nFramebufferSize).2)
            capabilities.minImageExtent.height capabilities.maxImageExtent.height } ∧
      (capabilities.minImageExtent.width ≤ capabilities.maxImageExtent.width →
        capabilities.minImageExtent.width ≤ (swapGetExtent d capabilities w).1.width ∧
        (swapGetExtent d capabilities w).1.width ≤ capabilities.maxImageExtent.width) ∧
      (capabilities.minImageExtent.height ≤ capabilities.maxImageExtent.height →
        capabilities.minImageExtent.height ≤ (swapGetExtent d capabilities w).1.height ∧
        (swapGetExtent d capabilities w).1.height ≤ capabilities.maxImageExtent.height) ∧
      (capabilities.maxImageExtent.width ≤ UINT32_MAX →
        (capabilities.minImageExtent.width : Int) ≤ (d.framebufferSize w.env.nFramebufferSize).1 →
        (d.framebufferSize w.env.nFramebufferSize).1 ≤ capabilities.maxImageExtent.width →
        ((swapGetExtent d capabilities w).1.width : Int) =
          (d.framebufferSize w.env.nFramebufferSize).1) ∧
      (capabilities.maxImageExtent.height ≤ UINT32_MAX →
        (capabilities.minImageExtent.height : Int) ≤ (d.framebufferSize w.env.nFramebufferSize).2 →
        (d.framebufferSize w.env.nFramebufferSize).2 ≤ capabilities.maxImageExtent.height →
        ((swapGetExtent d capabilities w).1.height : Int) =
          (d.framebufferSize w.env.nFramebufferSize).2)) := by
  refine ⟨fun h => by simp [swapGetExtent, h], fun h => ?_⟩
  have e : (swapGetExtent d capabilities w).1 =
      { width := swapClip (toUint32 (d.framebufferSize w.env.nFramebufferSize).1)
          capabilities.minImageExtent.width capabilities.maxImageExtent.width,
        height := swapClip (toUint32 (d.framebufferSize w.env.nFramebufferSize).2)
          capabilities.minImageExtent.height capabilities.maxImageExtent.height } := by
    simp [swapGetExtent, h, glfwGetFramebufferSize]
  refine ⟨e, ?_, ?_, ?_, ?_⟩
  · intro hm
    rw [e]
    exact swapClip_mem _ _ _ hm
  · intro hm
    rw [e]
    exact swapClip_mem _ _ _ hm
  · intro hb h1 h2
    rw [e]
    have h0 : (0 : Int) ≤ (d.framebufferSize w.env.nFramebufferSize).1 := by omega
    have hu := toUint32_of_range _ h0 (by omega)
    dsimp only
    rw [swapClip_id _ _ _ (by omega) (by omega)]
    exact hu
  · intro hb h1 h2
    rw [e]
    have h0 : (0 : Int) ≤ (d.framebufferSize w.env.nFramebufferSize).2 := by omega
    have hu := toUint32_of_range _ h0 (by omega)
    dsimp only
    rw [swapClip_id _ _ _ (by omega) (by omega)]
    exact hu

/-- The theorem of C9 on a framebuffer of 5000 x 300 pixels and a surface with
an undefined extent and the bounds 1 and 4096: the width is clamped to 4096,
the height stays 300; and on the defined extent of `okDriver`. -/
theorem swapGetExtent_clamps_witness :
    swapGetExtent okDriver (okDriver.surfaceCapabilities 0) bootWorld =
      ({ width := 800, height := 600 }, bootWorld) ∧
    undefinedExtent.currentExtent.width = UINT32_MAX ∧
    (swapGetExtent wideWindowDriver undefinedExtent bootWorld).1 =
      { width := 4096, height := 300 } ∧
    (1 ≤ (swapGetExtent wideWindowDriver undefinedExtent bootWorld).1.width ∧
      (swapGetExtent wideWindowDriver undefinedExtent bootWorld).1.width ≤ 4096) ∧
    ((swapGetExtent wideWindowDriver undefinedExtent bootWorld).1.height : Int) = 300 :=
  ⟨(swapGetExtent_clamps okDriver (okDriver.surfaceCapabilities 0) bootWorld).1 (by decide),
   rfl,
   ((swapGetExtent_clamps wideWindowDriver undefinedExtent bootWorld).2 rfl).1.trans
     (by decide),
   ((swapGetExtent_clamps wideWindowDriver undefinedExtent bootWorld).2 rfl).2.1 (by decide),
   ((swapGetExtent_clamps wideWindowDriver undefinedExtent bootWorld).2 rfl).2.2.2.2
     (by decide) (by decide) (by decide)⟩


/-! ### The image count that `swapInitializeImages` requests -/

theorem requestedImageCounts_append (a b : List Call) :
    requestedImageCounts (a ++ b) = requestedImageCounts a ++ requestedImageCounts b := by
  induction a with
  | nil => rfl
  | cons c a ih =>
    cases c <;> simp [requestedImageCounts, ih]

theorem requested_malloc (d : Driver) (n : Nat) (w : World) :
    requestedImageCounts (malloc d n w).2.env.trace = requestedImageCounts w.env.trace := by
  unfold malloc
  split <;> simp [requestedImageCounts_append, requestedImageCounts]

theorem requested_free (p : Handle) (w : World) :
    requestedImageCounts (free p w).env.trace = requestedImageCounts w.env.trace := by
  simp [free, World.log, requestedImageCounts_append, requestedImageCounts]

theorem requested_vkCreate (d : Driver) (kind : Obj) (w : World) :
    requestedImageCounts (vkCreate d kind w).2.env.trace =
      requestedImageCounts w.env.trace := by
  unfold vkCreate
  split <;> simp [requestedImageCounts_append, requestedImageCounts]

theorem requested_alloc (d : Driver) (count : Nat) (w : World) :
    requestedImageCounts (vulInitializeSwapChainSupport.alloc d count w).2.env.trace =
      requestedImageCounts w.env.trace := by
  unfold vulInitializeSwapChainSupport.alloc
  split
  · dsimp only
    split <;> exact requested_malloc d count w
  · rfl

theorem requested_support (d : Driver) (w : World) :
    requestedImageCounts (vulInitializeSwapChainSupport d w).2.2.env.trace =
      requestedImageCounts w.env.trace ∧
    (vulInitializeSwapChainSupport d w).2.1.capabilities =
      d.surfaceCapabilities w.env.nSupport := by
  have q : requestedImageCounts (querySwapChainSupport d w).2.env.trace =
      requestedImageCounts w.env.trace := rfl
  unfold vulInitializeSwapChainSupport
  dsimp only
  split
  · exact ⟨(requested_alloc _ _ _).trans q, rfl⟩
  · split
    · refine ⟨?_, rfl⟩
      split
      · rw [requested_free, requested_alloc, requested_alloc]; exact q
      · rw [requested_alloc, requested_alloc]; exact q
    · refine ⟨?_, rfl⟩
      rw [requested_alloc, requested_alloc]; exact q

theorem requested_finalizeSupport (details : vulSwapChainSupportDetails) (w : World) :
    requestedImageCounts (vulFinalizeSwapChainSupport details w).env.trace =
      requestedImageCounts w.env.trace := by
  unfold vulFinalizeSwapChainSupport
  dsimp only
  split <;> split <;> simp only [requested_free]

theorem requested_swapGetExtent (d : Driver) (capabilities : VkSurfaceCapabilitiesKHR)
    (w : World) :
    requestedImageCounts (swapGetExtent d capabilities w).2.env.trace =
      requestedImageCounts w.env.trace := by
  unfold swapGetExtent
  split
  · rfl
  · simp [glfwGetFramebufferSize, requestedImageCounts_append, requestedImageCounts]

theorem requested_vulGetQueueFamilies (d : Driver) (w : World) :
    requestedImageCounts (vulGetQueueFamilies d w).2.env.trace =
      requestedImageCounts w.env.trace := by
  unfold vulGetQueueFamilies
  dsimp only
  split
  · exact requested_malloc _ _ _
  · rw [requested_free]; exact requested_malloc _ _ _

/-- The count that `swapInitializeImages` computes from the reported minimum
and maximum, in 32-bit arithmetic. -/
theorem imageCount_no_wrap (minImageCount maxImageCount : Nat)
    (h : minImageCount < UINT32_MAX) :
    (if maxImageCount > 0 ∧ (minImageCount + 1) % 4294967296 > maxImageCount then
        maxImageCount
      else (minImageCount + 1) % 4294967296) =
    if maxImageCount > 0 then min (minImageCount + 1) maxImageCount
    else minImageCount + 1 := by
  unfold UINT32_MAX at h
  rw [Nat.mod_eq_of_lt (by omega)]
  split_ifs <;> omega

/-- C8 (amended): when the support query succeeds and the reported
`minImageCount` is below `UINT32_MAX`, `swapInitializeImages` makes exactly one
`vkCreateSwapchainKHR` request, and its `createInfo.minImageCount` is
`min (minImageCount + 1) maxImageCount` when `maxImageCount > 0` and
`minImageCount + 1` when `maxImageCount = 0`. -/
theorem swapInitializeImages_imageCount (d : Driver) (w : World)
    (hs : (vulInitializeSwapChainSupport d (enter Fn.swapInitializeImages w)).1 = 0)
    (hmin : (d.surfaceCapabilities w.env.nSupport).minImageCount < UINT32_MAX) :
    requestedImageCounts (swapInitializeImages d w).2.env.trace =
      requestedImageCounts w.env.trace ++
        [if (d.surfaceCapabilities w.env.nSupport).maxImageCount > 0 then
            min ((d.surfaceCapabilities w.env.nSupport).minImageCount + 1)
              (d.surfaceCapabilities w.env.nSupport).maxImageCount
          else (d.surfaceCapabilities w.env.nSupport).minImageCount + 1] := by
  obtain ⟨t, c⟩ := requested_support d (enter Fn.swapInitializeImages w)
  have c' : (vulInitializeSwapChainSupport d (enter Fn.swapInitializeImages w)).2.1.capabilities
      = d.surfaceCapabilities w.env.nSupport := c
  have t' : requestedImageCounts
      (vulInitializeSwapChainSupport d (enter Fn.swapInitializeImages w)).2.2.env.trace =
      requestedImageCounts w.env.trace := by
    rw [t]; simp [enter, World.log, requestedImageCounts_append, requestedImageCounts]
  rw [← imageCount_no_wrap _ _ hmin, ← t', ← c']
  unfold swapInitializeImages
  simp only [hs, ne_eq, not_true_eq_false, if_false]
  split
  · simp [requested_finalizeSupport, requested_vkCreate, World.log,
      requestedImageCounts_append, requestedImageCounts, requested_vulGetQueueFamilies,
      requested_swapGetExtent]
  · split
    · simp [requested_finalizeSupport, requested_vkCreate, World.log, requested_malloc,
        vkGetSwapchainImagesKHR, World.setSwapChain, World.setImages,
        requestedImageCounts_append, requestedImageCounts, requested_vulGetQueueFamilies,
        requested_swapGetExtent]
    · simp [requested_finalizeSupport, requested_vkCreate, World.log, requested_malloc,
        vkGetSwapchainImagesKHR, World.setSwapChain, World.setImages, World.setImageFormat,
        World.setExtent, World.setNumImages,
        requestedImageCounts_append, requestedImageCounts, requested_vulGetQueueFamilies,
        requested_swapGetExtent]

/-- The theorem of C8 on `okDriver`, whose surface reports the minimum 2 and
the maximum 8: the request is for 3 images. -/
theorem swapInitializeImages_imageCount_witness :
    (vulInitializeSwapChainSupport okDriver (enter Fn.swapInitializeImages bootWorld)).1 = 0 ∧
    (okDriver.surfaceCapabilities bootWorld.env.nSupport).minImageCount < UINT32_MAX ∧
    requestedImageCounts (swapInitializeImages okDriver bootWorld).2.env.trace = [3] :=
  ⟨by decide, by decide,
   (swapInitializeImages_imageCount okDriver bootWorld (by decide) (by decide)).trans
     (by decide)⟩

/-- C8 as stated fails: on a surface that reports `minImageCount = 4294967295`
and `maxImageCount = 5` the sum wraps to 0 in 32 bits, the test against the
maximum does not fire and `swapInitializeImages` requests 0 images, where
`min (minImageCount + 1) maxImageCount` is 5. -/
theorem imageCount_wraps_at_uint32_max :
    (wrapDriver.surfaceCapabilities bootWorld.env.nSupport).minImageCount = 4294967295 ∧
    (wrapDriver.surfaceCapabilities bootWorld.env.nSupport).maxImageCount = 5 ∧
    requestedImageCounts (swapInitializeImages wrapDriver bootWorld).2.env.trace = [0] ∧
    min ((wrapDriver.surfaceCapabilities bootWorld.env.nSupport).minImageCount + 1)
      (wrapDriver.surfaceCapabilities bootWorld.env.nSupport).maxImageCount = 5 := by
  decide


/-! ### What `presentFrame` does after a successful acquisition -/

theorem acquires_not_outOfDate {d : Driver} {w : World} (ha : presentFrame.acquires d w) :
    (d.acquireNextImage w.env.nAcquire).1 ≠ VkResult.VK_ERROR_OUT_OF_DATE_KHR := by
  rcases ha with h | h <;> rw [h] <;> simp

theorem acquires_not_error {d : Driver} {w : World} (ha : presentFrame.acquires d w) :
    ¬ ((d.acquireNextImage w.env.nAcquire).1 ≠ VkResult.VK_SUCCESS ∧
      (d.acquireNextImage w.env.nAcquire).1 ≠ VkResult.VK_SUBOPTIMAL_KHR) := by
  rcases ha with h | h <;> rw [h] <;> simp

/-- The rebuild after the presentation request: what it adds to the trace, the
return code, the frame slot and the resize flag afterwards. -/
theorem presentFrame_rebuild_facts (K : Nat) (d : Driver) (fuel : Nat) (w : World)
    (ha : presentFrame.acquires d w)
    (h3 : d.queueSubmit w.env.nSubmit = VkResult.VK_SUCCESS)
    (h4 : presentFrame.rebuilds d w) :
    (∃ post, (presentFrame K d fuel w).2.env.trace =
        (presentFrame.presented d w).env.trace ++
          Call.enter Fn.reinitializeSwapChain :: post ∧ frameSteps post = []) ∧
    (presentFrame K d fuel w).2.env.nAcquire = w.env.nAcquire + 1 ∧
    (presentFrame K d fuel w).2.env.nPresent = w.env.nPresent + 1 ∧
    (((presentFrame K d fuel w).1 = none ∧
        (reinitializeSwapChain K d fuel (presentFrame.cleared d w)).1 = none ∧
        (presentFrame K d fuel w).2.swap.curFrame = w.swap.curFrame) ∨
      ((presentFrame K d fuel w).1 = some 2 ∧
        (∃ e, e ≠ 0 ∧
          (reinitializeSwapChain K d fuel (presentFrame.cleared d w)).1 = some e) ∧
        (presentFrame K d fuel w).2.swap.curFrame = 0) ∨
      ((presentFrame K d fuel w).1 = some 0 ∧
        (reinitializeSwapChain K d fuel (presentFrame.cleared d w)).1 = some 0 ∧
        (presentFrame K d fuel w).2.swap.curFrame = 1 % K)) ∧
    (presentFrame K d fuel w).2.gui =
      (reinitializeSwapChain K d fuel (presentFrame.cleared d w)).2.gui := by
  have e := presentFrame_rebuild K d fuel w (acquires_not_outOfDate ha)
    (acquires_not_error ha) h3 h4
  have hc := reinit_calm K d fuel (presentFrame.cleared d w)
  have ht := reinit_trace K d fuel (presentFrame.cleared d w)
  have hf := reinit_curFrame K d fuel (presentFrame.cleared d w)
  unfold presentFrame.cleared at hc ht hf ⊢
  rw [e]
  rcases hR : (reinitializeSwapChain K d fuel
      (guiSetFramebufferResized (presentFrame.presented d w) 0)).1 with _ | err
  · rw [hR] at hf
    refine ⟨ht, hc.nAcquire, hc.nPresent, Or.inl ⟨rfl, rfl, ?_⟩, rfl⟩
    exact hf.trans rfl
  · rw [hR] at hf
    simp only [reduceCtorEq, if_false] at hf
    by_cases hz : err = 0
    · subst hz
      simp only [ne_eq, not_true_eq_false, if_false]
      refine ⟨ht, hc.nAcquire, hc.nPresent, Or.inr (Or.inr ⟨trivial, trivial, ?_⟩), trivial⟩
      simp [swapIncrementFrame, hf]
    · simp only [ne_eq, hz, not_false_eq_true, if_true]
      exact ⟨ht, hc.nAcquire, hc.nPresent, Or.inr (Or.inl ⟨trivial, ⟨err, hz, rfl⟩, hf⟩), trivial⟩


theorem rebuildCount_append (a b : List Call) :
    rebuildCount (a ++ b) = rebuildCount a + rebuildCount b := by
  simp [rebuildCount]

theorem rebuildCount_of_frameSteps_nil (post : List Call) (h : frameSteps post = []) :
    rebuildCount post = 0 := by
  unfold rebuildCount
  rw [List.count_eq_zero]
  intro hm
  have : Call.enter Fn.reinitializeSwapChain ∈ frameSteps post := by
    unfold frameSteps
    exact List.mem_filter.2 ⟨hm, rfl⟩
  rw [h] at this
  cases this

theorem rebuildCount_presented (d : Driver) (w : World) :
    rebuildCount (presentFrame.presented d w).env.trace = rebuildCount w.env.trace := by
  simp only [presentFrame.presented, presentFrame.submitted, presentFrame.acquireSteps,
    presentFrame.submitSteps, presentFrame.presentStep, rebuildCount_append]
  split <;> simp [rebuildCount, List.count_cons]

/-- After a successful acquisition: the cycle ends with code 3 right after a
failed submission; otherwise it goes on to the presentation request, after
which the trace continues only with a rebuild, if there is one. -/
theorem presentFrame_trace (K : Nat) (d : Driver) (fuel : Nat) (w : World)
    (ha : presentFrame.acquires d w) :
    (d.queueSubmit w.env.nSubmit ≠ VkResult.VK_SUCCESS →
      presentFrame K d fuel w = (some 3, presentFrame.submitted d w)) ∧
    (d.queueSubmit w.env.nSubmit = VkResult.VK_SUCCESS →
      ∃ rest, (presentFrame K d fuel w).2.env.trace =
          (presentFrame.presented d w).env.trace ++ rest ∧
        (¬ presentFrame.rebuilds d w → rest = []) ∧
        (presentFrame.rebuilds d w →
          ∃ post, rest = Call.enter Fn.reinitializeSwapChain :: post ∧
            frameSteps post = [])) := by
  have h1 := acquires_not_outOfDate ha
  have h2 := acquires_not_error ha
  refine ⟨fun h3 => presentFrame_submitError K d fuel w h1 h2 h3, fun h3 => ?_⟩
  by_cases h4 : presentFrame.rebuilds d w
  · obtain ⟨⟨post, e, q⟩, _⟩ := presentFrame_rebuild_facts K d fuel w ha h3 h4
    exact ⟨_, e, fun h => absurd h4 h, fun _ => ⟨post, rfl, q⟩⟩
  · refine ⟨[], ?_, fun _ => rfl, fun h => absurd h h4⟩
    by_cases h5 : d.queuePresent w.env.nPresent = VkResult.VK_SUCCESS
    · rw [presentFrame_presented K d fuel w h1 h2 h3 h4 h5]
      simp
    · rw [presentFrame_presentError K d fuel w h1 h2 h3 h4 h5]
      simp

/-- C5: in a cycle whose acquisition succeeds, with slot `f = swap.curFrame`
and image index `i`: the trace of the call is `pre`, then the reset of
`inFlightFences[f]`, then at once the queue submission, then `post`.  The
submission has exactly the command buffer `connCommandBuffers[i]`, waits on
`imageAvailSems[f]` at the colour-attachment-output stage, signals
`renderDoneSems[f]` and has `inFlightFences[f]` as its fence; no submission
comes before it; when it succeeds, the next call is the presentation request,
which names the swap chain and image `i` and waits on `renderDoneSems[f]`. -/
theorem presentFrame_submission (K : Nat) (d : Driver) (fuel : Nat) (w : World)
    (ha : presentFrame.acquires d w) :
    ∃ pre post, (presentFrame K d fuel w).2.env.trace =
        w.env.trace ++ pre ++
          [Call.vkResetFences (w.swap.inFlightFences.getD w.swap.curFrame 0),
           Call.vkQueueSubmit
             { waitSemaphores := [w.swap.imageAvailSems.getD w.swap.curFrame 0],
               waitDstStageMask := [VK_PIPELINE_STAGE_COLOR_ATTACHMENT_OUTPUT_BIT],
               commandBuffers :=
                 [w.conn.connCommandBuffers.read (d.acquireNextImage w.env.nAcquire).2],
               signalSemaphores := [w.swap.renderDoneSems.getD w.swap.curFrame 0] }
             (w.swap.inFlightFences.getD w.swap.curFrame 0)
             (d.queueSubmit w.env.nSubmit)] ++ post ∧
      queueSubmissions pre = [] ∧
      (d.queueSubmit w.env.nSubmit ≠ VkResult.VK_SUCCESS →
        post = [] ∧ (presentFrame K d fuel w).1 = some 3) ∧
      (d.queueSubmit w.env.nSubmit = VkResult.VK_SUCCESS →
        ∃ rest, post =
          Call.vkQueuePresentKHR
            { waitSemaphores := [w.swap.renderDoneSems.getD w.swap.curFrame 0],
              swapchains := [w.swap.swapChain],
              imageIndices := [(d.acquireNextImage w.env.nAcquire).2] }
            (d.queuePresent w.env.nPresent) :: rest) := by
  obtain ⟨t3, t0⟩ := presentFrame_trace K d fuel w ha
  refine ⟨presentFrame.acquireSteps d w ++ (presentFrame.submitSteps d w).take
    ((presentFrame.submitSteps d w).length - 2), ?_⟩
  have hs : (presentFrame.submitted d w).env.trace =
      w.env.trace ++ (presentFrame.acquireSteps d w ++ (presentFrame.submitSteps d w).take
        ((presentFrame.submitSteps d w).length - 2)) ++
        [Call.vkResetFences (w.swap.inFlightFences.getD w.swap.curFrame 0),
         Call.vkQueueSubmit
           { waitSemaphores := [w.swap.imageAvailSems.getD w.swap.curFrame 0],
             waitDstStageMask := [VK_PIPELINE_STAGE_COLOR_ATTACHMENT_OUTPUT_BIT],
             commandBuffers :=
               [w.conn.connCommandBuffers.read (d.acquireNextImage w.env.nAcquire).2],
             signalSemaphores := [w.swap.renderDoneSems.getD w.swap.curFrame 0] }
           (w.swap.inFlightFences.getD w.swap.curFrame 0)
           (d.queueSubmit w.env.nSubmit)] := by
    simp only [presentFrame.submitted, presentFrame.submitSteps]
    split <;> simp
  have hq : queueSubmissions (presentFrame.acquireSteps d w ++
      (presentFrame.submitSteps d w).take ((presentFrame.submitSteps d w).length - 2)) = [] := by
    simp only [presentFrame.submitSteps, presentFrame.acquireSteps, queueSubmissions]
    split <;> simp
  by_cases h3 : d.queueSubmit w.env.nSubmit = VkResult.VK_SUCCESS
  · obtain ⟨rest, e, _⟩ := t0 h3
    refine ⟨presentFrame.presentStep d w :: rest, ?_, hq, fun h => absurd h3 h,
      fun _ => ⟨rest, rfl⟩⟩
    rw [e]
    simp only [presentFrame.presented]
    rw [hs]
    simp
  · refine ⟨[], ?_, hq, fun _ => ⟨rfl, ?_⟩, fun h => absurd h h3⟩
    · rw [t3 h3, hs]; simp
    · rw [t3 h3]


set_option maxRecDepth 8000 in
/-- The theorem of C5 on the first frame of `okDriver` from `readyWorld`: slot
0 with fence 124 and semaphores 122 and 123, image 0 with command buffer
157. -/
theorem presentFrame_submission_witness :
    presentFrame.acquires okDriver readyWorld ∧
    ∃ pre post, (presentFrame MAXFRAMESINFLIGHT okDriver 1 readyWorld).2.env.trace =
        readyWorld.env.trace ++ pre ++
          [Call.vkResetFences 124,
           Call.vkQueueSubmit
             { waitSemaphores := [122], waitDstStageMask := [1024],
               commandBuffers := [157], signalSemaphores := [123] }
             124 VkResult.VK_SUCCESS] ++ post ∧
      queueSubmissions pre = [] ∧
      ∃ rest, post =
        Call.vkQueuePresentKHR
          { waitSemaphores := [123], swapchains := [103], imageIndices := [0] }
          VkResult.VK_SUCCESS :: rest :=
  ⟨by decide,
   (presentFrame_submission MAXFRAMESINFLIGHT okDriver 1 readyWorld (by decide)).imp
     fun _ hpre => hpre.imp fun _ h => ⟨h.1, h.2.1, h.2.2.2 rfl⟩⟩


/-- C4 (amended): after the presentation request of `presentFrame` has
returned, the call enters `reinitializeSwapChain` once when the request
reported out-of-date or suboptimal or `gui.framebufferResized` was non-zero,
and not at all otherwise.  The rebuild starts right after the flag has been
cleared, and the flag is still 0 after the call when no `glfwWaitEvents` of the
rebuild delivers a resize event.  Without a rebuild, a result other than
success gives the return code 1. -/
theorem presentFrame_rebuild_iff (K : Nat) (d : Driver) (fuel : Nat) (w : World)
    (ha : presentFrame.acquires d w)
    (h3 : d.queueSubmit w.env.nSubmit = VkResult.VK_SUCCESS) :
    rebuildCount (presentFrame K d fuel w).2.env.trace =
      rebuildCount w.env.trace + (if presentFrame.rebuilds d w then 1 else 0) ∧
    (presentFrame.rebuilds d w →
      (∃ post, (presentFrame K d fuel w).2.env.trace =
        (presentFrame.cleared d w).env.trace ++
          Call.enter Fn.reinitializeSwapChain :: post) ∧
      (presentFrame.cleared d w).gui.framebufferResized = 0 ∧
      ((∀ n, w.env.nWaitEvents ≤ n → d.resizeOnWait n = false) →
        (presentFrame K d fuel w).2.gui.framebufferResized = 0)) ∧
    (¬ presentFrame.rebuilds d w →
      d.queuePresent w.env.nPresent ≠ VkResult.VK_SUCCESS →
      (presentFrame K d fuel w).1 = some 1) := by
  obtain ⟨rest, e, n0, n1⟩ := (presentFrame_trace K d fuel w ha).2 h3
  refine ⟨?_, fun h4 => ?_, fun h4 h5 => ?_⟩
  · rw [e, rebuildCount_append, rebuildCount_presented]
    by_cases h4 : presentFrame.rebuilds d w
    · obtain ⟨post, ep, q⟩ := n1 h4
      rw [ep, if_pos h4]
      have : rebuildCount (Call.enter Fn.reinitializeSwapChain :: post) =
          rebuildCount post + 1 := by
        simp [rebuildCount]
      rw [this, rebuildCount_of_frameSteps_nil post q]
    · rw [n0 h4, if_neg h4]
      rfl
  · obtain ⟨⟨post, ep, _⟩, _, _, _, g⟩ := presentFrame_rebuild_facts K d fuel w ha h3 h4
    refine ⟨⟨post, ep⟩, rfl, fun hq => ?_⟩
    rw [g, reinit_gui K d fuel (presentFrame.cleared d w) hq]
    rfl
  · rw [presentFrame_presentError K d fuel w (acquires_not_outOfDate ha)
      (acquires_not_error ha) h3 h4 h5]

set_option maxRecDepth 8000 in
/-- The theorem of C4 on `okDriver` from `resizedWorld`, where the resize flag
is set: one rebuild, and the flag is 0 afterwards. -/
theorem presentFrame_rebuild_iff_witness :
    presentFrame.acquires okDriver resizedWorld ∧
    okDriver.queueSubmit resizedWorld.env.nSubmit = VkResult.VK_SUCCESS ∧
    presentFrame.rebuilds okDriver resizedWorld ∧
    rebuildCount (presentFrame MAXFRAMESINFLIGHT okDriver 1 resizedWorld).2.env.trace =
      rebuildCount resizedWorld.env.trace + 1 ∧
    (presentFrame MAXFRAMESINFLIGHT okDriver 1 resizedWorld).2.gui.framebufferResized = 0 :=
  ⟨by decide, rfl, by decide,
   (presentFrame_rebuild_iff MAXFRAMESINFLIGHT okDriver 1 resizedWorld (by decide) rfl).1.trans
     (by decide),
   ((presentFrame_rebuild_iff MAXFRAMESINFLIGHT okDriver 1 resizedWorld (by decide) rfl).2.1
     (by decide)).2.2 (fun _ _ => rfl)⟩

set_option maxRecDepth 8000 in
/-- C4 as stated fails: with the window minimised when the resize flag
triggers the rebuild, the wait loop of `reinitializeSwapChain` calls
`glfwWaitEvents`, which delivers the resize event of the restored window, and
`guiResizingCallback` sets the flag again: the rebuild succeeds, `presentFrame`
returns 0 and `gui.framebufferResized` is 1. -/
theorem presentFrame_flag_set_during_rebuild :
    presentFrame.acquires minimizedDriver resizedWorld ∧
    minimizedDriver.queueSubmit resizedWorld.env.nSubmit = VkResult.VK_SUCCESS ∧
    presentFrame.rebuilds minimizedDriver resizedWorld ∧
    (presentFrame MAXFRAMESINFLIGHT minimizedDriver 2 resizedWorld).1 = some 0 ∧
    rebuildCount (presentFrame MAXFRAMESINFLIGHT minimizedDriver 2 resizedWorld).2.env.trace
      = rebuildCount resizedWorld.env.trace + 1 ∧
    (presentFrame MAXFRAMESINFLIGHT minimizedDriver 2 resizedWorld).2.gui.framebufferResized
      = 1 := by
  decide

/-- C2 (amended): for a call of `presentFrame` that reaches the presentation
request, with `f` the value of `swap.curFrame` at entry and `K` the number of
frames in flight.  Without a rebuild, the call returns 0 with `swap.curFrame`
at `(f + 1) mod K` when the request succeeded, and 1 with `swap.curFrame` still
`f` when it did not.  With a rebuild, the call returns 0 with `swap.curFrame`
at `1 mod K` when the rebuild succeeded (`swapInitialize` has put it back to
0), and 2 with `swap.curFrame` at 0 when the rebuild failed; while the rebuild
is waiting, `swap.curFrame` is still `f`. -/
theorem presentFrame_curFrame (K : Nat) (d : Driver) (fuel : Nat) (w : World)
    (ha : presentFrame.acquires d w)
    (h3 : d.queueSubmit w.env.nSubmit = VkResult.VK_SUCCESS) :
    (¬ presentFrame.rebuilds d w →
      d.queuePresent w.env.nPresent = VkResult.VK_SUCCESS →
      (presentFrame K d fuel w).1 = some 0 ∧
      (presentFrame K d fuel w).2.swap.curFrame = (w.swap.curFrame + 1) % K) ∧
    (¬ presentFrame.rebuilds d w →
      d.queuePresent w.env.nPresent ≠ VkResult.VK_SUCCESS →
      (presentFrame K d fuel w).1 = some 1 ∧
      (presentFrame K d fuel w).2.swap.curFrame = w.swap.curFrame) ∧
    (presentFrame.rebuilds d w →
      ((presentFrame K d fuel w).1 = some 0 ∧
        (reinitializeSwapChain K d fuel (presentFrame.cleared d w)).1 = some 0 ∧
        (presentFrame K d fuel w).2.swap.curFrame = 1 % K) ∨
      ((presentFrame K d fuel w).1 = some 2 ∧
        (∃ e, e ≠ 0 ∧
          (reinitializeSwapChain K d fuel (presentFrame.cleared d w)).1 = some e) ∧
        (presentFrame K d fuel w).2.swap.curFrame = 0) ∨
      ((presentFrame K d fuel w).1 = none ∧
        (reinitializeSwapChain K d fuel (presentFrame.cleared d w)).1 = none ∧
        (presentFrame K d fuel w).2.swap.curFrame = w.swap.curFrame)) := by
  have h1 := acquires_not_outOfDate ha
  have h2 := acquires_not_error ha
  refine ⟨fun h4 h5 => ?_, fun h4 h5 => ?_, fun h4 => ?_⟩
  · rw [presentFrame_presented K d fuel w h1 h2 h3 h4 h5]
    exact ⟨rfl, rfl⟩
  · rw [presentFrame_presentError K d fuel w h1 h2 h3 h4 h5]
    exact ⟨rfl, rfl⟩
  · obtain ⟨_, _, _, c, _⟩ := presentFrame_rebuild_facts K d fuel w ha h3 h4
    rcases c with c | c | c
    · exact Or.inr (Or.inr c)
    · exact Or.inr (Or.inl c)
    · exact Or.inl c

set_option maxRecDepth 8000 in
/-- The theorem of C2 on the first frame of `okDriver` from `readyWorld`: no
rebuild, and the frame slot goes from 0 to 1. -/
theorem presentFrame_curFrame_witness :
    presentFrame.acquires okDriver readyWorld ∧
    okDriver.queueSubmit readyWorld.env.nSubmit = VkResult.VK_SUCCESS ∧
    ¬ presentFrame.rebuilds okDriver readyWorld ∧
    readyWorld.swap.curFrame = 0 ∧
    (presentFrame MAXFRAMESINFLIGHT okDriver 1 readyWorld).1 = some 0 ∧
    (presentFrame MAXFRAMESINFLIGHT okDriver 1 readyWorld).2.swap.curFrame = 1 :=
  ⟨by decide, rfl, by decide, by decide,
   ((presentFrame_curFrame MAXFRAMESINFLIGHT okDriver 1 readyWorld (by decide) rfl).1
     (by decide) rfl).1,
   ((presentFrame_curFrame MAXFRAMESINFLIGHT okDriver 1 readyWorld (by decide) rfl).1
     (by decide) rfl).2.trans (by decide)⟩

set_option maxRecDepth 8000 in
/-- C2 as stated fails: from slot 1 with two frames in flight, a presentation
request that reports suboptimal triggers a rebuild; `swapInitialize` puts
`swap.curFrame` back to 0 and `presentFrame` then advances it to 1, where
`(1 + 1) mod 2` is 0. -/
theorem rebuild_resets_frame_slot :
    presentFrame.acquires suboptimalDriver secondFrameWorld ∧
    suboptimalDriver.queueSubmit secondFrameWorld.env.nSubmit = VkResult.VK_SUCCESS ∧
    presentFrame.rebuilds suboptimalDriver secondFrameWorld ∧
    secondFrameWorld.swap.curFrame = 1 ∧
    (presentFrame MAXFRAMESINFLIGHT suboptimalDriver 1 secondFrameWorld).1 = some 0 ∧
    (presentFrame MAXFRAMESINFLIGHT suboptimalDriver 1 secondFrameWorld).2.swap.curFrame = 1 ∧
    (presentFrame MAXFRAMESINFLIGHT suboptimalDriver 1 secondFrameWorld).2.swap.curFrame ≠
      (secondFrameWorld.swap.curFrame + 1) % MAXFRAMESINFLIGHT := by
  decide


/-! ### Runs of `presentFrame` -/

/-- A frame on which every driver call succeeds and no resize is pending. -/
theorem presentFrame_good (K : Nat) (d : Driver) (fuel : Nat) (w : World)
    (ha : (d.acquireNextImage w.env.nAcquire).1 = VkResult.VK_SUCCESS)
    (h3 : d.queueSubmit w.env.nSubmit = VkResult.VK_SUCCESS)
    (h5 : d.queuePresent w.env.nPresent = VkResult.VK_SUCCESS)
    (hg : w.gui.framebufferResized = 0) :
    (presentFrame K d fuel w).1 = some 0 ∧
    (presentFrame K d fuel w).2.env.nAcquire = w.env.nAcquire + 1 ∧
    (presentFrame K d fuel w).2.gui = w.gui ∧
    (presentFrame K d fuel w).2.env.nWaitEvents = w.env.nWaitEvents ∧
    rebuildCount (presentFrame K d fuel w).2.env.trace = rebuildCount w.env.trace := by
  have hacq : presentFrame.acquires d w := Or.inl ha
  have h4 : ¬ presentFrame.rebuilds d w := by
    unfold presentFrame.rebuilds
    rw [h5, hg]
    simp
  rw [presentFrame_presented K d fuel w (acquires_not_outOfDate hacq)
    (acquires_not_error hacq) h3 h4 h5]
  exact ⟨rfl, rfl, rfl, rfl, rebuildCount_presented d w⟩

/-- A frame whose acquisition reports out-of-date, with a rebuild that
returns. -/
theorem presentFrame_skipped (K : Nat) (d : Driver) (fuel : Nat) (w : World) (e : Int)
    (ha : (d.acquireNextImage w.env.nAcquire).1 = VkResult.VK_ERROR_OUT_OF_DATE_KHR)
    (hre : (reinitializeSwapChain K d fuel (presentFrame.acquired d w)).1 = some e)
    (hq : ∀ n, w.env.nWaitEvents ≤ n → d.resizeOnWait n = false) :
    (presentFrame K d fuel w).1 = some 5 ∧
    (presentFrame K d fuel w).2.env.nAcquire = w.env.nAcquire + 1 ∧
    (presentFrame K d fuel w).2.gui = w.gui ∧
    rebuildCount (presentFrame K d fuel w).2.env.trace = rebuildCount w.env.trace + 1 ∧
    ∃ post, (presentFrame K d fuel w).2.env.trace =
        w.env.trace ++ presentFrame.acquireSteps d w ++
          Call.enter Fn.reinitializeSwapChain :: post ∧
      frameSteps post = [] := by
  have hc := reinit_calm K d fuel (presentFrame.acquired d w)
  obtain ⟨post, ht, q⟩ := reinit_trace K d fuel (presentFrame.acquired d w)
  have hg := reinit_gui K d fuel (presentFrame.acquired d w) hq
  rw [presentFrame_outOfDate K d fuel w ha, hre]
  refine ⟨rfl, hc.nAcquire, hg, ?_, post, ht, q⟩
  dsimp only
  rw [ht]
  have hcount : rebuildCount (Call.enter Fn.reinitializeSwapChain :: post) =
      rebuildCount post + 1 := by
    simp [rebuildCount]
  rw [rebuildCount_append, hcount, rebuildCount_of_frameSteps_nil post q]
  simp only [presentFrame.acquired, presentFrame.acquireSteps, rebuildCount_append]
  simp [rebuildCount, List.count_cons]

theorem presentFrames_succ (K : Nat) (d : Driver) (fuel : Nat) (n : Nat) (w : World)
    (code : Int) (hr : (presentFrame K d fuel w).1 = some code) :
    presentFrames K d fuel (n + 1) w =
      (some code :: (presentFrames K d fuel n (presentFrame K d fuel w).2).1,
        (presentFrames K d fuel n (presentFrame K d fuel w).2).2) := by
  rw [presentFrames]
  simp only [hr]

theorem presentFrames_stuck (K : Nat) (d : Driver) (fuel : Nat) (n : Nat) (w : World)
    (hr : (presentFrame K d fuel w).1 = none) :
    presentFrames K d fuel (n + 1) w = ([none], (presentFrame K d fuel w).2) := by
  rw [presentFrames]
  simp only [hr]

theorem presentFrames_add (K : Nat) (d : Driver) (fuel : Nat) (a b : Nat) (w : World)
    (h : none ∉ (presentFrames K d fuel a w).1) :
    presentFrames K d fuel (a + b) w =
      ((presentFrames K d fuel a w).1 ++
          (presentFrames K d fuel b (presentFrames K d fuel a w).2).1,
        (presentFrames K d fuel b (presentFrames K d fuel a w).2).2) := by
  induction a generalizing w with
  | zero => simp [presentFrames]
  | succ a ih =>
    rw [Nat.add_right_comm]
    rcases hr : (presentFrame K d fuel w).1 with _ | code
    · rw [presentFrames_stuck K d fuel a w hr] at h
      simp at h
    · rw [presentFrames_succ K d fuel a w code hr] at h ⊢
      rw [presentFrames_succ K d fuel (a + b) w code hr,
        ih (presentFrame K d fuel w).2 (fun hn => h (List.mem_cons_of_mem _ hn))]
      rfl

/-- A run of frames on which every driver call succeeds and no resize is
pending. -/
theorem presentFrames_good (K : Nat) (d : Driver) (fuel : Nat)
    (hsub : ∀ j, d.queueSubmit j = VkResult.VK_SUCCESS)
    (hpres : ∀ j, d.queuePresent j = VkResult.VK_SUCCESS) (m : Nat) (w : World)
    (hg : w.gui.framebufferResized = 0)
    (hacq : ∀ j, j < m → (d.acquireNextImage (w.env.nAcquire + j)).1 = VkResult.VK_SUCCESS) :
    (presentFrames K d fuel m w).1 = List.replicate m (some 0) ∧
    (presentFrames K d fuel m w).2.env.nAcquire = w.env.nAcquire + m ∧
    (presentFrames K d fuel m w).2.gui = w.gui ∧
    (presentFrames K d fuel m w).2.env.nWaitEvents = w.env.nWaitEvents ∧
    rebuildCount (presentFrames K d fuel m w).2.env.trace = rebuildCount w.env.trace := by
  induction m generalizing w with
  | zero => exact ⟨rfl, rfl, rfl, rfl, rfl⟩
  | succ m ih =>
    obtain ⟨c, na, g, nw, rc⟩ := presentFrame_good K d fuel w (hacq 0 (by omega))
      (hsub _) (hpres _) hg
    obtain ⟨c', na', g', nw', rc'⟩ := ih (presentFrame K d fuel w).2 (by rw [g]; exact hg)
      (fun j hj => by
        rw [na]
        have := hacq (j + 1) (by omega)
        rwa [show w.env.nAcquire + 1 + j = w.env.nAcquire + (j + 1) by omega])
    rw [presentFrames_succ K d fuel m w 0 c]
    refine ⟨?_, ?_, ?_, ?_, ?_⟩
    · dsimp only
      rw [c']; rfl
    · rw [na', na]; omega
    · rw [g', g]
    · rw [nw', nw]
    · rw [rc', rc]


/-- C3 (amended): a run of `n` calls of `presentFrame` in which the image
acquisition of call `k` reports out-of-date and every other acquisition, every
queue submission and every presentation request succeeds, with no resize
pending at the start, no resize event delivered by a `glfwWaitEvents`, and a
rebuild in call `k` that succeeds.  Call `k` returns 5 and every other call
returns 0; `reinitializeSwapChain` is entered once in the whole run; and call
`k` consists of the wait on the slot's fence, the acquisition and the rebuild:
the rebuild contains no submission that signals a semaphore and no
presentation request (its only queue submission is the one-time command buffer
of the depth-image layout transition). -/
theorem presentFrames_one_outOfDate (K : Nat) (d : Driver) (fuel n k : Nat) (w : World)
    (hk : k < n)
    (hood : (d.acquireNextImage (w.env.nAcquire + k)).1 = VkResult.VK_ERROR_OUT_OF_DATE_KHR)
    (hacq : ∀ j, j < n → j ≠ k →
      (d.acquireNextImage (w.env.nAcquire + j)).1 = VkResult.VK_SUCCESS)
    (hsub : ∀ j, d.queueSubmit j = VkResult.VK_SUCCESS)
    (hpres : ∀ j, d.queuePresent j = VkResult.VK_SUCCESS)
    (hflag : w.gui.framebufferResized = 0)
    (hwait : ∀ j, w.env.nWaitEvents ≤ j → d.resizeOnWait j = false)
    (hre : (reinitializeSwapChain K d fuel
      (presentFrame.acquired d (presentFrames K d fuel k w).2)).1 = some 0) :
    (presentFrames K d fuel n w).1 =
      List.replicate k (some 0) ++ some 5 :: List.replicate (n - k - 1) (some 0) ∧
    rebuildCount (presentFrames K d fuel n w).2.env.trace = rebuildCount w.env.trace + 1 ∧
    (presentFrame K d fuel (presentFrames K d fuel k w).2).1 = some 5 ∧
    ∃ post, (presentFrame K d fuel (presentFrames K d fuel k w).2).2.env.trace =
        (presentFrames K d fuel k w).2.env.trace ++
          presentFrame.acquireSteps d (presentFrames K d fuel k w).2 ++
          Call.enter Fn.reinitializeSwapChain :: post ∧
      frameSteps post = [] := by
  obtain ⟨c1, na1, g1, nw1, rc1⟩ := presentFrames_good K d fuel hsub hpres k w hflag
    (fun j hj => hacq j (by omega) (by omega))
  obtain ⟨c2, na2, g2, rc2, tr2⟩ := presentFrame_skipped K d fuel
    (presentFrames K d fuel k w).2 0 (by rw [na1]; exact hood) hre
    (fun j hj => hwait j (by rw [nw1] at hj; exact hj))
  obtain ⟨c3, _, _, _, rc3⟩ := presentFrames_good K d fuel hsub hpres (n - k - 1)
    (presentFrame K d fuel (presentFrames K d fuel k w).2).2
    (by rw [g2, g1]; exact hflag)
    (fun j hj => by
      rw [na2, na1]
      have := hacq (k + 1 + j) (by omega) (by omega)
      rwa [show w.env.nAcquire + k + 1 + j = w.env.nAcquire + (k + 1 + j) by omega])
  have hn : n = k + ((n - k - 1) + 1) := by omega
  have hadd := presentFrames_add K d fuel k ((n - k - 1) + 1) w (by
    rw [c1]
    intro hm
    have := List.eq_of_mem_replicate hm
    cases this)
  rw [presentFrames_succ K d fuel (n - k - 1) (presentFrames K d fuel k w).2 5 c2] at hadd
  rw [← hn] at hadd
  refine ⟨?_, ?_, c2, tr2⟩
  · rw [hadd]
    dsimp only
    rw [c1, c3]
  · rw [hadd]
    dsimp only
    rw [rc3, rc2, rc1]

set_option maxRecDepth 8000 in
/-- The theorem of C3 on three frames of `oneOutOfDateDriver` from
`readyWorld`: the codes are 0, 5, 0 and there is one rebuild. -/
theorem presentFrames_one_outOfDate_witness :
    (oneOutOfDateDriver.acquireNextImage (readyWorld.env.nAcquire + 1)).1 =
      VkResult.VK_ERROR_OUT_OF_DATE_KHR ∧
    readyWorld.gui.framebufferResized = 0 ∧
    (reinitializeSwapChain MAXFRAMESINFLIGHT oneOutOfDateDriver 1
      (presentFrame.acquired oneOutOfDateDriver
        (presentFrames MAXFRAMESINFLIGHT oneOutOfDateDriver 1 1 readyWorld).2)).1 = some 0 ∧
    (presentFrames MAXFRAMESINFLIGHT oneOutOfDateDriver 1 3 readyWorld).1 =
      [some 0, some 5, some 0] ∧
    rebuildCount (presentFrames MAXFRAMESINFLIGHT oneOutOfDateDriver 1 3 readyWorld).2.env.trace
      = rebuildCount readyWorld.env.trace + 1 :=
  ⟨by decide, by decide, by decide,
   (presentFrames_one_outOfDate MAXFRAMESINFLIGHT oneOutOfDateDriver 1 3 1 readyWorld
     (by decide) (by decide)
     (fun j hj hne => by
       have h : j = 0 ∨ j = 2 := by omega
       rcases h with rfl | rfl <;> decide)
     (fun _ => rfl) (fun _ => rfl) (by decide) (fun _ _ => rfl) (by decide)).1,
   (presentFrames_one_outOfDate MAXFRAMESINFLIGHT oneOutOfDateDriver 1 3 1 readyWorld
     (by decide) (by decide)
     (fun j hj hne => by
       have h : j = 0 ∨ j = 2 := by omega
       rcases h with rfl | rfl <;> decide)
     (fun _ => rfl) (fun _ => rfl) (by decide) (fun _ _ => rfl) (by decide)).2.1⟩

set_option maxRecDepth 8000 in
/-- C3 as stated fails: in a run of `oneOutOfDateDriver` the second call has
the only acquisition that reports out-of-date, its rebuild succeeds and it
returns 5, and it makes a queue submission: `swapInitializeDepthBuffer` moves
the depth image to its layout with a one-time command buffer, which
`bufEndSingleTimeCommands` submits to the graphics queue. -/
theorem presentFrame_skipped_submits :
    (oneOutOfDateDriver.acquireNextImage skippedFrameWorld.env.nAcquire).1 =
      VkResult.VK_ERROR_OUT_OF_DATE_KHR ∧
    skippedFrameWorld.gui.framebufferResized = 0 ∧
    (reinitializeSwapChain MAXFRAMESINFLIGHT oneOutOfDateDriver 1
      (presentFrame.acquired oneOutOfDateDriver skippedFrameWorld)).1 = some 0 ∧
    (presentFrame MAXFRAMESINFLIGHT oneOutOfDateDriver 1 skippedFrameWorld).1 = some 5 ∧
    queueSubmissions
        (presentFrame MAXFRAMESINFLIGHT oneOutOfDateDriver 1 skippedFrameWorld).2.env.trace =
      [Call.vkQueueSubmit
        { waitSemaphores := [], waitDstStageMask := [], commandBuffers := [175],
          signalSemaphores := [] }
        VK_NULL_HANDLE VkResult.VK_SUCCESS] := by
  decide


/-! ### The frame loop -/

theorem guiRun_step (d : Driver) (pf : World → Option Int × World) (n : Nat) (w : World)
    (code : Int) (hopen : d.windowShouldClose w.env.nShouldClose = false)
    (hret : (pf (guiRun.polled d w)).1 = some code) :
    guiRun d pf (n + 1) w = guiRun d pf n (pf (guiRun.polled d w)).2 := by
  rw [guiRun]
  simp only [hopen, Bool.false_eq_true, if_false]
  unfold guiRun.polled at hret ⊢
  split
  · rename_i h
    rw [h] at hret
    cases hret
  · rename_i h
    rw [h]

/-- C6 (amended): a rebuild that fails does not stop the frame loop.  When the
acquisition reports out-of-date, `presentFrame` returns 5 whatever code the
rebuild returns; when the rebuild after the presentation request returns a
non-zero code, `presentFrame` returns 2.  In both cases `guiRun`, which does
not test the code, goes on from the state that the failed rebuild has left:
the loop stops only when `glfwWindowShouldClose` reports true. -/
theorem guiRun_goes_on_after_failed_rebuild (K : Nat) (d : Driver) (fuel n : Nat)
    (w : World) (e : Int)
    (hopen : d.windowShouldClose w.env.nShouldClose = false) :
    ((d.acquireNextImage (guiRun.polled d w).env.nAcquire).1 =
        VkResult.VK_ERROR_OUT_OF_DATE_KHR →
      (reinitializeSwapChain K d fuel
        (presentFrame.acquired d (guiRun.polled d w))).1 = some e →
      (presentFrame K d fuel (guiRun.polled d w)).1 = some 5 ∧
      guiRun d (presentFrame K d fuel) (n + 1) w =
        guiRun d (presentFrame K d fuel) n (presentFrame K d fuel (guiRun.polled d w)).2) ∧
    (presentFrame.acquires d (guiRun.polled d w) →
      d.queueSubmit (guiRun.polled d w).env.nSubmit = VkResult.VK_SUCCESS →
      presentFrame.rebuilds d (guiRun.polled d w) →
      (reinitializeSwapChain K d fuel
        (presentFrame.cleared d (guiRun.polled d w))).1 = some e →
      e ≠ 0 →
      (presentFrame K d fuel (guiRun.polled d w)).1 = some 2 ∧
      guiRun d (presentFrame K d fuel) (n + 1) w =
        guiRun d (presentFrame K d fuel) n (presentFrame K d fuel (guiRun.polled d w)).2) := by
  refine ⟨fun ha hre => ?_, fun ha h3 h4 hre he => ?_⟩
  · have c : (presentFrame K d fuel (guiRun.polled d w)).1 = some 5 := by
      rw [presentFrame_outOfDate K d fuel _ ha, hre]
    exact ⟨c, guiRun_step d _ n w 5 hopen c⟩
  · have c : (presentFrame K d fuel (guiRun.polled d w)).1 = some 2 := by
      obtain ⟨_, _, _, r, _⟩ := presentFrame_rebuild_facts K d fuel _ ha h3 h4
      rcases r with ⟨_, r, _⟩ | ⟨r, _⟩ | ⟨_, r, _⟩
      · rw [hre] at r
        cases r
      · exact r
      · rw [hre] at r
        cases r
        exact absurd rfl he
    exact ⟨c, guiRun_step d _ n w 2 hopen c⟩

set_option maxRecDepth 8000 in
/-- The theorem of C6 on `brokenRebuildDriver` from `readyWorld`: the rebuild
after the first presentation request returns 2, `presentFrame` returns 2, and
the loop goes on. -/
theorem guiRun_goes_on_after_failed_rebuild_witness :
    brokenRebuildDriver.windowShouldClose readyWorld.env.nShouldClose = false ∧
    (reinitializeSwapChain MAXFRAMESINFLIGHT brokenRebuildDriver 1
      (presentFrame.cleared brokenRebuildDriver
        (guiRun.polled brokenRebuildDriver readyWorld))).1 = some 2 ∧
    (presentFrame MAXFRAMESINFLIGHT brokenRebuildDriver 1
      (guiRun.polled brokenRebuildDriver readyWorld)).1 = some 2 ∧
    guiRun brokenRebuildDriver (presentFrame MAXFRAMESINFLIGHT brokenRebuildDriver 1) (2 + 1)
        readyWorld =
      guiRun brokenRebuildDriver (presentFrame MAXFRAMESINFLIGHT brokenRebuildDriver 1) 2
        (presentFrame MAXFRAMESINFLIGHT brokenRebuildDriver 1
          (guiRun.polled brokenRebuildDriver readyWorld)).2 :=
  ⟨by decide, by decide,
   ((guiRun_goes_on_after_failed_rebuild MAXFRAMESINFLIGHT brokenRebuildDriver 1 2 readyWorld
     2 (by decide)).2 (by decide) rfl (by decide) (by decide) (by decide)).1,
   ((guiRun_goes_on_after_failed_rebuild MAXFRAMESINFLIGHT brokenRebuildDriver 1 2 readyWorld
     2 (by decide)).2 (by decide) rfl (by decide) (by decide) (by decide)).2⟩

set_option maxRecDepth 8000 in
/-- C6 as stated fails: on `brokenRebuildDriver` the rebuild of the first
frame fails with code 2, and `guiRun` calls `presentFrame` a second time
before the window closes. -/
theorem guiRun_calls_presentFrame_after_failed_rebuild :
    (reinitializeSwapChain MAXFRAMESINFLIGHT brokenRebuildDriver 1
      (presentFrame.cleared brokenRebuildDriver
        (guiRun.polled brokenRebuildDriver readyWorld))).1 = some 2 ∧
    (guiRun brokenRebuildDriver (presentFrame MAXFRAMESINFLIGHT brokenRebuildDriver 1) 3
      readyWorld).1 = some () ∧
    (guiRun brokenRebuildDriver (presentFrame MAXFRAMESINFLIGHT brokenRebuildDriver 1) 3
      readyWorld).2.env.trace.count (Call.enter Fn.presentFrame) = 2 := by
  decide

/-! ### Two defects -/

set_option maxRecDepth 8000 in
/-- C1 at a failing input: the second frame on `sameImageDriver`, in slot 1
with fence 127, acquires image 0, which is in flight with fence 124 of slot 0.
`presentFrame` stores fence 127 in `imagesInFlight[0]` before it tests the
entry, so its second wait is on fence 127 again, and fence 124 is not waited
on before the submission. -/
theorem presentFrame_prior_fence_not_waited :
    secondFrameWorld.swap.curFrame = 1 ∧
    secondFrameWorld.swap.inFlightFences = [124, 127] ∧
    secondFrameWorld.swap.imagesInFlight.read 0 = 124 ∧
    sameImageDriver.acquireNextImage secondFrameWorld.env.nAcquire =
      (VkResult.VK_SUCCESS, 0) ∧
    (presentFrame MAXFRAMESINFLIGHT sameImageDriver 1 secondFrameWorld).2.env.trace =
      [Call.enter Fn.presentFrame,
       Call.vkWaitForFences 127,
       Call.vkAcquireNextImageKHR 103 125 VkResult.VK_SUCCESS 0,
       Call.vkWaitForFences 127,
       Call.vkMapMemory 131, Call.vkUnmapMemory 131,
       Call.vkMapMemory 139, Call.vkUnmapMemory 139,
       Call.vkResetFences 127,
       Call.vkQueueSubmit
         { waitSemaphores := [125], waitDstStageMask := [1024], commandBuffers := [157],
           signalSemaphores := [126] }
         127 VkResult.VK_SUCCESS,
       Call.vkQueuePresentKHR
         { waitSemaphores := [126], swapchains := [103], imageIndices := [0] }
         VkResult.VK_SUCCESS] ∧
    Call.vkWaitForFences 124 ∉
      (presentFrame MAXFRAMESINFLIGHT sameImageDriver 1 secondFrameWorld).2.env.trace := by
  decide

set_option maxRecDepth 8000 in
/-- C7 at a failing input: from `readyWorld`, whose trace is empty, with the
`vkCreateFramebuffer` for the second image failing.  `swapInitialize` fails,
`reinitializeSwapChain` returns 2, and the framebuffer of the first image,
created during the call, has not been destroyed. -/
theorem reinitializeSwapChain_leaks_framebuffer :
    readyWorld.env.trace = [] ∧
    (reinitializeSwapChain MAXFRAMESINFLIGHT leakyDriver 1 readyWorld).1 = some 2 ∧
    liveObjects (reinitializeSwapChain MAXFRAMESINFLIGHT leakyDriver 1 readyWorld).2.env.trace =
      [(Obj.framebuffer, 178)] := by
  decide

/-! ## Selection of the present mode, the depth format and the memory type -/

theorem includesFlags_iff (flags required : Nat) :
    includesFlags flags required ↔ flags &&& required = required := by
  unfold includesFlags
  constructor
  · intro h
    apply Nat.eq_of_testBit_eq
    intro i
    rw [Nat.testBit_and]
    cases hr : required.testBit i
    · simp
    · simp [h i hr]
  · intro h b hb
    rw [← h, Nat.testBit_and] at hb
    simp only [Bool.and_eq_true] at hb
    exact hb.1

theorem and_shiftLeft_ne_zero_iff (x i : Nat) : x &&& (1 <<< i) ≠ 0 ↔ x.testBit i = true := by
  rw [Nat.one_shiftLeft, Nat.and_two_pow]
  cases x.testBit i <;> simp

/-- C11: for every list of available present modes, the empty list included,
`swapGetPresentMode` returns `MAILBOX` when `MAILBOX` occurs in the list and
`FIFO` when it does not; so it returns `MAILBOX` if and only if `MAILBOX`
occurs in the list. -/
theorem swapGetPresentMode_mailbox_iff (availModes : List Nat) :
    swapGetPresentMode availModes =
      (if VK_PRESENT_MODE_MAILBOX_KHR ∈ availModes then VK_PRESENT_MODE_MAILBOX_KHR
        else VK_PRESENT_MODE_FIFO_KHR) ∧
    (swapGetPresentMode availModes = VK_PRESENT_MODE_MAILBOX_KHR ↔
      VK_PRESENT_MODE_MAILBOX_KHR ∈ availModes) := by
  have h : swapGetPresentMode availModes =
      (if VK_PRESENT_MODE_MAILBOX_KHR ∈ availModes then VK_PRESENT_MODE_MAILBOX_KHR
        else VK_PRESENT_MODE_FIFO_KHR) := by
    induction availModes with
    | nil => simp [swapGetPresentMode]
    | cons m rest ih =>
      unfold swapGetPresentMode
      by_cases hm : m = VK_PRESENT_MODE_MAILBOX_KHR
      · simp [hm]
      · rw [if_neg hm, ih]
        have hm' : ¬ VK_PRESENT_MODE_MAILBOX_KHR = m := fun e => hm e.symm
        simp [hm']
  refine ⟨h, ?_⟩
  rw [h]
  by_cases hm : VK_PRESENT_MODE_MAILBOX_KHR ∈ availModes
  · simp [hm]
  · simp only [hm, if_false, iff_false]
    decide

/-- C12: `swapGetDepthFormat` tries `D32_SFLOAT`, `D32_SFLOAT_S8_UINT` and
`D24_UNORM_S8_UINT` in this order and returns 0 with the first of them whose
optimal-tiling features include the depth-stencil-attachment feature; it
returns the error, writing no format, if and only if none of the three has the
feature. -/
theorem swapGetDepthFormat_first_supported (d : Driver) :
    (supportsDepthStencil d VK_FORMAT_D32_SFLOAT →
      swapGetDepthFormat d = some VK_FORMAT_D32_SFLOAT) ∧
    (¬ supportsDepthStencil d VK_FORMAT_D32_SFLOAT →
      supportsDepthStencil d VK_FORMAT_D32_SFLOAT_S8_UINT →
      swapGetDepthFormat d = some VK_FORMAT_D32_SFLOAT_S8_UINT) ∧
    (¬ supportsDepthStencil d VK_FORMAT_D32_SFLOAT →
      ¬ supportsDepthStencil d VK_FORMAT_D32_SFLOAT_S8_UINT →
      supportsDepthStencil d VK_FORMAT_D24_UNORM_S8_UINT →
      swapGetDepthFormat d = some VK_FORMAT_D24_UNORM_S8_UINT) ∧
    (swapGetDepthFormat d = none ↔
      ∀ c ∈ [VK_FORMAT_D32_SFLOAT, VK_FORMAT_D32_SFLOAT_S8_UINT,
        VK_FORMAT_D24_UNORM_S8_UINT], ¬ supportsDepthStencil d c) := by
  have key : ∀ c, supportsDepthStencil d c ↔
      (d.formatProperties c).optimalTilingFeatures &&&
        VK_FORMAT_FEATURE_DEPTH_STENCIL_ATTACHMENT_BIT =
        VK_FORMAT_FEATURE_DEPTH_STENCIL_ATTACHMENT_BIT :=
    fun c => includesFlags_iff _ _
  have ht : ¬ VK_IMAGE_TILING_OPTIMAL = VK_IMAGE_TILING_LINEAR := by decide
  simp only [key, List.mem_cons, List.mem_singleton, forall_eq_or_imp, forall_eq,
    List.not_mem_nil, IsEmpty.forall_iff, implies_true, and_true]
  by_cases h1 : (d.formatProperties VK_FORMAT_D32_SFLOAT).optimalTilingFeatures &&&
      VK_FORMAT_FEATURE_DEPTH_STENCIL_ATTACHMENT_BIT =
      VK_FORMAT_FEATURE_DEPTH_STENCIL_ATTACHMENT_BIT
  · simp [swapGetDepthFormat, swapGetSupportedFormat, swapGetSupportedFormat.loop, ht, h1]
  · by_cases h2 : (d.formatProperties VK_FORMAT_D32_SFLOAT_S8_UINT).optimalTilingFeatures &&&
        VK_FORMAT_FEATURE_DEPTH_STENCIL_ATTACHMENT_BIT =
        VK_FORMAT_FEATURE_DEPTH_STENCIL_ATTACHMENT_BIT
    · simp [swapGetDepthFormat, swapGetSupportedFormat, swapGetSupportedFormat.loop, ht, h1,
        h2]
    · by_cases h3 : (d.formatProperties VK_FORMAT_D24_UNORM_S8_UINT).optimalTilingFeatures &&&
          VK_FORMAT_FEATURE_DEPTH_STENCIL_ATTACHMENT_BIT =
          VK_FORMAT_FEATURE_DEPTH_STENCIL_ATTACHMENT_BIT
      · simp [swapGetDepthFormat, swapGetSupportedFormat, swapGetSupportedFormat.loop, ht,
          h1, h2, h3]
      · simp [swapGetDepthFormat, swapGetSupportedFormat, swapGetSupportedFormat.loop, ht,
          h1, h2, h3]

theorem memoryType_loop_some (typeFilter props : Nat) (l : List VkMemoryType)
    (k i : Nat) :
    vulGetMemoryType.loop typeFilter props l k = some i ↔
      k ≤ i ∧ typeFilter.testBit i = true ∧
      (∃ t, l[i - k]? = some t ∧ includesFlags t.propertyFlags props) ∧
      ∀ j, k ≤ j → j < i →
        ¬ (typeFilter.testBit j = true ∧
          ∃ t, l[j - k]? = some t ∧ includesFlags t.propertyFlags props) := by
  induction l generalizing k with
  | nil => simp [vulGetMemoryType.loop]
  | cons t rest ih =>
    unfold vulGetMemoryType.loop
    have hiff : (typeFilter &&& (1 <<< k) ≠ 0 ∧ t.propertyFlags &&& props = props) ↔
        (typeFilter.testBit k = true ∧ includesFlags t.propertyFlags props) := by
      rw [and_shiftLeft_ne_zero_iff, ← includesFlags_iff]
    by_cases hc0 : typeFilter &&& (1 <<< k) ≠ 0 ∧ t.propertyFlags &&& props = props
    · rw [if_pos hc0]
      have hc := hiff.1 hc0
      constructor
      · intro e
        cases e
        exact ⟨Nat.le_refl _, hc.1, ⟨t, by simp, hc.2⟩, fun j h1 h2 => by omega⟩
      · rintro ⟨hk, _, _, hmin⟩
        by_cases hik : i = k
        · rw [hik]
        · exact absurd ⟨hc.1, t, by simp, hc.2⟩ (hmin k (Nat.le_refl _) (by omega))
    · rw [if_neg hc0, ih (k + 1)]
      have hc : ¬ (typeFilter.testBit k = true ∧ includesFlags t.propertyFlags props) :=
        fun h => hc0 (hiff.2 h)
      constructor
      · rintro ⟨hk, hb, ⟨u, hu, hp⟩, hmin⟩
        refine ⟨by omega, hb, ⟨u, ?_, hp⟩, ?_⟩
        · have : i - k = (i - (k + 1)) + 1 := by omega
          rw [this, List.getElem?_cons_succ]
          exact hu
        · intro j h1 h2
          by_cases hjk : j = k
          · subst hjk
            rintro ⟨hb', u', hu', hp'⟩
            simp at hu'
            subst hu'
            exact hc ⟨hb', hp'⟩
          · have hm := hmin j (by omega) h2
            have : j - k = (j - (k + 1)) + 1 := by omega
            rw [this, List.getElem?_cons_succ]
            exact hm
      · rintro ⟨hk, hb, ⟨u, hu, hp⟩, hmin⟩
        have hik : i ≠ k := by
          rintro rfl
          simp at hu
          subst hu
          exact hc ⟨hb, hp⟩
        refine ⟨by omega, hb, ⟨u, ?_, hp⟩, ?_⟩
        · have : i - k = (i - (k + 1)) + 1 := by omega
          rw [this, List.getElem?_cons_succ] at hu
          exact hu
        · intro j h1 h2
          have hm := hmin j (by omega) h2
          have : j - k = (j - (k + 1)) + 1 := by omega
          rw [this, List.getElem?_cons_succ] at hm
          exact hm

/-- C19: `vulGetMemoryType` returns 0 and writes `i` exactly when `i` is the
least index of a memory type of the device such that bit `i` of the filter is
set and the type has every required property; it returns the error, writing
nothing, if and only if no index satisfies both conditions. -/
theorem vulGetMemoryType_least (d : Driver) (typeFilter props : Nat) :
    (∀ i, vulGetMemoryType d typeFilter props = some i ↔
      vulGetMemoryType.suits d typeFilter props i ∧
      ∀ j, j < i → ¬ vulGetMemoryType.suits d typeFilter props j) ∧
    (vulGetMemoryType d typeFilter props = none ↔
      ∀ i, ¬ vulGetMemoryType.suits d typeFilter props i) := by
  have hsome : ∀ i, vulGetMemoryType d typeFilter props = some i ↔
      vulGetMemoryType.suits d typeFilter props i ∧
      ∀ j, j < i → ¬ vulGetMemoryType.suits d typeFilter props j := by
    intro i
    unfold vulGetMemoryType vulGetMemoryType.suits
    rw [memoryType_loop_some]
    simp only [Nat.zero_le, true_and, Nat.sub_zero, forall_const]
    constructor
    · rintro ⟨a, b, c⟩
      exact ⟨⟨a, b⟩, c⟩
    · rintro ⟨⟨a, b⟩, c⟩
      exact ⟨a, b, c⟩
  refine ⟨hsome, ?_⟩
  constructor
  · intro hn i hi
    -- a least suitable index exists below `i + 1`
    have hex : ∃ m, vulGetMemoryType.suits d typeFilter props m := ⟨i, hi⟩
    classical
    have hmin := Nat.find_spec hex
    have hlt := fun j (hj : j < Nat.find hex) => Nat.find_min hex hj
    have := (hsome (Nat.find hex)).2 ⟨hmin, hlt⟩
    rw [hn] at this
    cases this
  · intro hall
    cases hr : vulGetMemoryType d typeFilter props with
    | none => rfl
    | some i => exact absurd ((hsome i).1 hr).1 (hall i)

/-- The theorem of C12 on `d24Driver`, where only the third candidate has the
feature. -/
theorem swapGetDepthFormat_first_supported_witness :
    ¬ supportsDepthStencil d24Driver VK_FORMAT_D32_SFLOAT ∧
    ¬ supportsDepthStencil d24Driver VK_FORMAT_D32_SFLOAT_S8_UINT ∧
    supportsDepthStencil d24Driver VK_FORMAT_D24_UNORM_S8_UINT ∧
    swapGetDepthFormat d24Driver = some VK_FORMAT_D24_UNORM_S8_UINT :=
  ⟨fun h => absurd ((includesFlags_iff _ _).1 h) (by decide),
   fun h => absurd ((includesFlags_iff _ _).1 h) (by decide),
   (includesFlags_iff _ _).2 (by decide),
   (swapGetDepthFormat_first_supported d24Driver).2.2.1
     (fun h => absurd ((includesFlags_iff _ _).1 h) (by decide))
     (fun h => absurd ((includesFlags_iff _ _).1 h) (by decide))
     ((includesFlags_iff _ _).2 (by decide))⟩


/-! ## Buffers and images with their memory -/

theorem bufInitialize_outcome (d : Driver) (properties : Nat) (buf bufMem : Handle)
    (w : World) :
    InitializeOutcome d properties Obj.buffer Call.vkBindBufferMemory w
      (bufInitialize d properties buf bufMem w) := by
  unfold InitializeOutcome bufInitialize
  by_cases h1 : d.createOk w.env.nCreate = true
  · cases h2 : vulGetMemoryType d (d.memoryRequirements w.env.nextHandle).memoryTypeBits
        properties with
    | none =>
      refine ⟨[Call.create Obj.buffer w.env.nextHandle,
        Call.destroy Obj.buffer w.env.nextHandle], ?_⟩
      simp [vkCreate, vkDestroy, World.log, h1, h2, liveObjects, memoryBinds]
    | some mt =>
      by_cases h3 : d.createOk (w.env.nCreate + 1) = true
      · refine ⟨[Call.create Obj.buffer w.env.nextHandle,
          Call.create Obj.deviceMemory (w.env.nextHandle + 1),
          Call.vkBindBufferMemory w.env.nextHandle (w.env.nextHandle + 1)], ?_⟩
        simp [vkCreate, vkDestroy, World.log, h1, h2, h3, liveObjects, memoryBinds]
      · refine ⟨[Call.create Obj.buffer w.env.nextHandle,
          Call.createFailed Obj.deviceMemory,
          Call.destroy Obj.buffer w.env.nextHandle], ?_⟩
        simp [vkCreate, vkDestroy, World.log, h1, h2, h3, liveObjects, memoryBinds]
  · refine ⟨[Call.createFailed Obj.buffer], ?_⟩
    simp [vkCreate, vkDestroy, World.log, h1, liveObjects, memoryBinds]

theorem imageInitialize_outcome (d : Driver) (properties : Nat) (image imageMemory : Handle)
    (w : World) :
    InitializeOutcome d properties Obj.image Call.vkBindImageMemory w
      (imageInitialize d properties image imageMemory w) := by
  unfold InitializeOutcome imageInitialize
  by_cases h1 : d.createOk w.env.nCreate = true
  · cases h2 : vulGetMemoryType d (d.memoryRequirements w.env.nextHandle).memoryTypeBits
        properties with
    | none =>
      refine ⟨[Call.create Obj.image w.env.nextHandle,
        Call.destroy Obj.image w.env.nextHandle], ?_⟩
      simp [vkCreate, vkDestroy, World.log, h1, h2, liveObjects, memoryBinds]
    | some mt =>
      by_cases h3 : d.createOk (w.env.nCreate + 1) = true
      · refine ⟨[Call.create Obj.image w.env.nextHandle,
          Call.create Obj.deviceMemory (w.env.nextHandle + 1),
          Call.vkBindImageMemory w.env.nextHandle (w.env.nextHandle + 1)], ?_⟩
        simp [vkCreate, vkDestroy, World.log, h1, h2, h3, liveObjects, memoryBinds]
      · refine ⟨[Call.create Obj.image w.env.nextHandle,
          Call.createFailed Obj.deviceMemory,
          Call.destroy Obj.image w.env.nextHandle], ?_⟩
        simp [vkCreate, vkDestroy, World.log, h1, h2, h3, liveObjects, memoryBinds]
  · refine ⟨[Call.createFailed Obj.image], ?_⟩
    simp [vkCreate, vkDestroy, World.log, h1, liveObjects, memoryBinds]

/-- C20: `bufInitialize` and `imageInitialize` return 3 when the creation of
the buffer (image) fails, 2 when no memory type matches and 1 when the memory
allocation fails; on every non-zero return the buffer (image) created in the
call has been destroyed, no memory allocated in the call remains and no memory
was bound; memory is bound, once, only on the return 0, after both the
creation and the allocation have succeeded. -/
theorem initialize_with_memory (d : Driver) (properties : Nat) (object memory : Handle)
    (w : World) :
    InitializeOutcome d properties Obj.buffer Call.vkBindBufferMemory w
      (bufInitialize d properties object memory w) ∧
    InitializeOutcome d properties Obj.image Call.vkBindImageMemory w
      (imageInitialize d properties object memory w) :=
  ⟨bufInitialize_outcome d properties object memory w,
   imageInitialize_outcome d properties object memory w⟩


/-! ## Which functions the construction code enters, and what it does to the ring -/

theorem enters_append (a b : List Call) : enters (a ++ b) = enters a ++ enters b := by
  induction a with
  | nil => rfl
  | cons c a ih => cases c <;> simp [enters, ih]

theorem enters_single (c : Call) (hc : c.isEnter = false) : enters [c] = [] := by
  cases c <;> first | rfl | cases hc

@[simp] theorem outline_log (w : World) (c : Call) (hc : c.isEnter = false) :
    (w.log c).outline = w.outline := by
  simp [World.outline, World.log, enters_append, enters_single c hc]

@[simp] theorem outline_enter (f : Fn) (w : World) :
    (enter f w).outline = (w.outline.1 ++ [f], w.outline.2) := by
  simp [World.outline, enter, World.log, enters_append, enters]

@[simp] theorem outline_setSwapChain (w : World) (v : Handle) :
    (w.setSwapChain v).outline = w.outline := rfl

@[simp] theorem outline_setImages (w : World) (v : Arr) :
    (w.setImages v).outline = w.outline := rfl

@[simp] theorem outline_setImageFormat (w : World) (v : Nat) :
    (w.setImageFormat v).outline = w.outline := rfl

@[simp] theorem outline_setExtent (w : World) (v : VkExtent2D) :
    (w.setExtent v).outline = w.outline := rfl

@[simp] theorem outline_setNumImages (w : World) (v : Nat) :
    (w.setNumImages v).outline = w.outline := rfl

@[simp] theorem outline_setImageViews (w : World) (v : Arr) :
    (w.setImageViews v).outline = w.outline := rfl

@[simp] theorem outline_setDepthImage (w : World) (v : Handle) :
    (w.setDepthImage v).outline = w.outline := rfl

@[simp] theorem outline_setDepthImageMemory (w : World) (v : Handle) :
    (w.setDepthImageMemory v).outline = w.outline := rfl

@[simp] theorem outline_setDepthImageView (w : World) (v : Handle) :
    (w.setDepthImageView v).outline = w.outline := rfl

@[simp] theorem outline_setRenderPass (w : World) (v : Handle) :
    (w.setRenderPass v).outline = w.outline := rfl

@[simp] theorem outline_setFramebuffers (w : World) (v : Arr) :
    (w.setFramebuffers v).outline = w.outline := rfl

@[simp] theorem outline_setImagesInFlight (w : World) (v : Arr) :
    (w.setImagesInFlight v).outline = w.outline := rfl

@[simp] theorem outline_setCurFrame (w : World) (v : Nat) :
    (w.setCurFrame v).outline = w.outline := rfl

@[simp] theorem outline_setImageAvailSems (w : World) (v : List Handle) :
    (w.setImageAvailSems v).outline.1 = w.outline.1 := rfl

@[simp] theorem outline_setRenderDoneSems (w : World) (v : List Handle) :
    (w.setRenderDoneSems v).outline.1 = w.outline.1 := rfl

@[simp] theorem outline_setInFlightFences (w : World) (v : List Handle) :
    (w.setInFlightFences v).outline.1 = w.outline.1 := rfl

@[simp] theorem outline_vkCreate (d : Driver) (k : Obj) (w : World) :
    (vkCreate d k w).2.outline = w.outline := by
  unfold vkCreate
  split <;> simp [World.outline, enters_append, enters]

@[simp] theorem outline_vkDestroy (k : Obj) (x : Handle) (w : World) :
    (vkDestroy k x w).outline = w.outline := by
  simp [vkDestroy, Call.isEnter]

@[simp] theorem outline_malloc (d : Driver) (n : Nat) (w : World) :
    (malloc d n w).2.outline = w.outline := by
  unfold malloc
  split <;> simp [World.outline, enters_append, enters]

@[simp] theorem outline_free (x : Handle) (w : World) : (free x w).outline = w.outline := by
  simp [free, Call.isEnter]

@[simp] theorem outline_glfwGetFramebufferSize (d : Driver) (w : World) :
    (glfwGetFramebufferSize d w).2.outline = w.outline := by
  simp [glfwGetFramebufferSize, World.outline, enters_append, enters]

@[simp] theorem outline_vkBeginCommandBuffer (d : Driver) (cb : Handle) (w : World) :
    (vkBeginCommandBuffer d cb w).2.outline = w.outline := by
  simp [vkBeginCommandBuffer, World.outline, enters_append, enters]

@[simp] theorem outline_vkEndCommandBuffer (d : Driver) (cb : Handle) (w : World) :
    (vkEndCommandBuffer d cb w).2.outline = w.outline := by
  simp [vkEndCommandBuffer, World.outline, enters_append, enters]

@[simp] theorem outline_vkQueueSubmit (d : Driver) (info : VkSubmitInfo) (f : Handle)
    (w : World) : (vkQueueSubmit d info f w).2.outline = w.outline := by
  simp [vkQueueSubmit, World.outline, enters_append, enters]

@[simp] theorem outline_vkGetSwapchainImagesKHR (d : Driver) (w : World) :
    (vkGetSwapchainImagesKHR d w).2.outline = w.outline := rfl

@[simp] theorem outline_querySwapChainSupport (d : Driver) (w : World) :
    (querySwapChainSupport d w).2.outline = w.outline := rfl

theorem outline_forRange (body : Nat → World → World)
    (hb : ∀ i w, (body i w).outline = w.outline) (n : Nat) (w : World) :
    (forRange n body w).outline = w.outline := by
  unfold forRange
  induction n generalizing w with
  | zero => simp
  | succ n ih => simp [List.range_succ, ih, hb]

@[simp] theorem outline_vulGetQueueFamilies (d : Driver) (w : World) :
    (vulGetQueueFamilies d w).2.outline = w.outline := by
  unfold vulGetQueueFamilies
  dsimp only
  split <;> simp

@[simp] theorem outline_alloc (d : Driver) (n : Nat) (w : World) :
    (vulInitializeSwapChainSupport.alloc d n w).2.outline = w.outline := by
  unfold vulInitializeSwapChainSupport.alloc
  split
  · dsimp only
    split <;> simp
  · rfl

@[simp] theorem outline_vulInitializeSwapChainSupport (d : Driver) (w : World) :
    (vulInitializeSwapChainSupport d w).2.2.outline = w.outline := by
  unfold vulInitializeSwapChainSupport
  dsimp only
  split
  · simp
  · split
    · split <;> simp
    · simp

@[simp] theorem outline_vulFinalizeSwapChainSupport (x : vulSwapChainSupportDetails)
    (w : World) : (vulFinalizeSwapChainSupport x w).outline = w.outline := by
  unfold vulFinalizeSwapChainSupport
  dsimp only
  split <;> split <;> simp

@[simp] theorem outline_bufBeginSingleTimeCommands (d : Driver) (w : World) :
    (bufBeginSingleTimeCommands d w).2.outline = w.outline := by
  simp [bufBeginSingleTimeCommands]

@[simp] theorem outline_bufEndSingleTimeCommands (d : Driver) (cb : Handle) (w : World) :
    (bufEndSingleTimeCommands d cb w).outline = w.outline := by
  simp [bufEndSingleTimeCommands, Call.isEnter]

@[simp] theorem outline_imageTransitionLayout (d : Driver) (image : Handle) (o n : Nat)
    (w : World) : (imageTransitionLayout d image o n w).2.outline = w.outline := by
  unfold imageTransitionLayout
  dsimp only
  split <;> simp [Call.isEnter]

@[simp] theorem outline_imageInitialize (d : Driver) (p : Nat) (a b : Handle) (w : World) :
    (imageInitialize d p a b w).2.2.2.outline = w.outline := by
  unfold imageInitialize
  dsimp only
  split
  · simp
  · split
    · simp
    · split <;> simp [Call.isEnter]

@[simp] theorem outline_imageFinalize (a b : Handle) (w : World) :
    (imageFinalize a b w).outline = w.outline := by
  simp [imageFinalize]

@[simp] theorem outline_imageInitializeView (d : Driver) (v : Handle) (w : World) :
    (imageInitializeView d v w).2.2.outline = w.outline := by
  unfold imageInitializeView
  dsimp only
  split <;> simp

@[simp] theorem outline_imageFinalizeView (v : Handle) (w : World) :
    (imageFinalizeView v w).outline = w.outline := by
  simp [imageFinalizeView]

@[simp] theorem outline_swapGetExtent (d : Driver) (c : VkSurfaceCapabilitiesKHR)
    (w : World) : (swapGetExtent d c w).2.outline = w.outline := by
  unfold swapGetExtent
  split <;> simp


@[simp] theorem outline_swapInitializeImages (d : Driver) (w : World) :
    (swapInitializeImages d w).2.outline =
      (w.outline.1 ++ [Fn.swapInitializeImages], w.outline.2) := by
  unfold swapInitializeImages
  dsimp only
  split
  · simp
  · split
    · simp [Call.isEnter]
    · split <;> simp [Call.isEnter]

@[simp] theorem outline_swapFinalizeImages (w : World) :
    (swapFinalizeImages w).outline = (w.outline.1 ++ [Fn.swapFinalizeImages], w.outline.2) := by
  simp [swapFinalizeImages]

@[simp] theorem outline_swapFinalizeViewAt (j : Nat) (w : World) :
    (swapFinalizeViewAt j w).outline = w.outline := by
  simp [swapFinalizeViewAt]

@[simp] theorem outline_swapInitializeViews_loop (d : Driver) (n i : Nat) (w : World) :
    (swapInitializeViews.loop d n i w).2.outline = w.outline := by
  induction n generalizing i w with
  | zero => rfl
  | succ n ih =>
    unfold swapInitializeViews.loop
    dsimp only
    split
    · simp [outline_forRange _ outline_swapFinalizeViewAt]
    · simp [ih]

@[simp] theorem outline_swapInitializeViews (d : Driver) (w : World) :
    (swapInitializeViews d w).2.outline =
      (w.outline.1 ++ [Fn.swapInitializeViews], w.outline.2) := by
  unfold swapInitializeViews
  dsimp only
  split <;> simp

@[simp] theorem outline_swapFinalizeViews (w : World) :
    (swapFinalizeViews w).outline = (w.outline.1 ++ [Fn.swapFinalizeViews], w.outline.2) := by
  simp [swapFinalizeViews, outline_forRange _ outline_swapFinalizeViewAt]

@[simp] theorem outline_swapInitializeDepthBuffer (d : Driver) (w : World) :
    (swapInitializeDepthBuffer d w).2.outline =
      (w.outline.1 ++ [Fn.swapInitializeDepthBuffer], w.outline.2) := by
  unfold swapInitializeDepthBuffer
  dsimp only
  split
  · simp
  · split
    · simp
    · split <;> simp

@[simp] theorem outline_swapFinalizeDepthBuffer (w : World) :
    (swapFinalizeDepthBuffer w).outline =
      (w.outline.1 ++ [Fn.swapFinalizeDepthBuffer], w.outline.2) := by
  simp [swapFinalizeDepthBuffer]

@[simp] theorem outline_swapInitializeRenderPass (d : Driver) (w : World) :
    (swapInitializeRenderPass d w).2.outline =
      (w.outline.1 ++ [Fn.swapInitializeRenderPass], w.outline.2) := by
  unfold swapInitializeRenderPass
  dsimp only
  split
  · simp
  · split <;> simp

@[simp] theorem outline_swapFinalizeRenderPass (w : World) :
    (swapFinalizeRenderPass w).outline =
      (w.outline.1 ++ [Fn.swapFinalizeRenderPass], w.outline.2) := by
  simp [swapFinalizeRenderPass]

@[simp] theorem outline_swapInitializeFramebuffers_loop (d : Driver) (n i : Nat)
    (w : World) : (swapInitializeFramebuffers.loop d n i w).2.outline = w.outline := by
  induction n generalizing i w with
  | zero => rfl
  | succ n ih =>
    unfold swapInitializeFramebuffers.loop
    dsimp only
    split
    · simp
    · simp [ih]

@[simp] theorem outline_swapInitializeFramebuffers (d : Driver) (w : World) :
    (swapInitializeFramebuffers d w).2.outline =
      (w.outline.1 ++ [Fn.swapInitializeFramebuffers], w.outline.2) := by
  unfold swapInitializeFramebuffers
  dsimp only
  split <;> simp

@[simp] theorem outline_swapDestroyFramebufferAt (j : Nat) (w : World) :
    (swapDestroyFramebufferAt j w).outline = w.outline := by
  simp [swapDestroyFramebufferAt]

@[simp] theorem outline_swapFinalizeFramebuffers (w : World) :
    (swapFinalizeFramebuffers w).outline =
      (w.outline.1 ++ [Fn.swapFinalizeFramebuffers], w.outline.2) := by
  simp [swapFinalizeFramebuffers, outline_forRange _ outline_swapDestroyFramebufferAt]

@[simp] theorem outline_swapDestroySyncSlot (j : Nat) (w : World) :
    (swapDestroySyncSlot j w).outline = w.outline := by
  simp [swapDestroySyncSlot]

@[simp] theorem enters_swapInitializeSyncs_loop (d : Driver) (n i : Nat) (w : World) :
    (swapInitializeSyncs.loop d n i w).2.outline.1 = w.outline.1 := by
  induction n generalizing i w with
  | zero => rfl
  | succ n ih =>
    unfold swapInitializeSyncs.loop
    dsimp only
    split
    · simp [outline_forRange _ outline_swapDestroySyncSlot]
    · split
      · simp [outline_forRange _ outline_swapDestroySyncSlot]
      · split
        · simp [outline_forRange _ outline_swapDestroySyncSlot]
        · simp [ih]

@[simp] theorem enters_swapInitializeSyncs (K : Nat) (d : Driver) (w : World) :
    (swapInitializeSyncs K d w).2.outline.1 = w.outline.1 ++ [Fn.swapInitializeSyncs] := by
  unfold swapInitializeSyncs
  dsimp only
  split <;> simp


/-! ## The steps of `swapInitialize` -/

theorem enters_eq_outline (w : World) : enters w.env.trace = w.outline.1 := rfl

/-- The outcomes of `swapInitialize`, by the first step that fails. -/
theorem swapInitialize_branches (K : Nat) (d : Driver) (w : World) :
    ((swapInitialize.images d w).1 ≠ 0 →
      (swapInitialize K d w).1 = 6 ∧
      enters (swapInitialize K d w).2.env.trace = enters w.env.trace ++
        [Fn.swapInitialize, Fn.swapInitializeImages]) ∧
    ((swapInitialize.images d w).1 = 0 → (swapInitialize.views d w).1 ≠ 0 →
      (swapInitialize K d w).1 = 5 ∧
      enters (swapInitialize K d w).2.env.trace = enters w.env.trace ++
        [Fn.swapInitialize, Fn.swapInitializeImages, Fn.swapInitializeViews,
         Fn.swapFinalizeImages]) ∧
    ((swapInitialize.images d w).1 = 0 → (swapInitialize.views d w).1 = 0 →
      (swapInitialize.depthBuffer d w).1 ≠ 0 →
      (swapInitialize K d w).1 = 4 ∧
      enters (swapInitialize K d w).2.env.trace = enters w.env.trace ++
        [Fn.swapInitialize, Fn.swapInitializeImages, Fn.swapInitializeViews,
         Fn.swapInitializeDepthBuffer,
         Fn.swapFinalizeViews, Fn.swapFinalizeImages]) ∧
    ((swapInitialize.images d w).1 = 0 → (swapInitialize.views d w).1 = 0 →
      (swapInitialize.depthBuffer d w).1 = 0 → (swapInitialize.renderPass d w).1 ≠ 0 →
      (swapInitialize K d w).1 = 3 ∧
      enters (swapInitialize K d w).2.env.trace = enters w.env.trace ++
        [Fn.swapInitialize, Fn.swapInitializeImages, Fn.swapInitializeViews,
         Fn.swapInitializeDepthBuffer, Fn.swapInitializeRenderPass,
         Fn.swapFinalizeDepthBuffer, Fn.swapFinalizeViews, Fn.swapFinalizeImages]) ∧
    ((swapInitialize.images d w).1 = 0 → (swapInitialize.views d w).1 = 0 →
      (swapInitialize.depthBuffer d w).1 = 0 → (swapInitialize.renderPass d w).1 = 0 →
      (swapInitialize.framebuffers d w).1 ≠ 0 →
      (swapInitialize K d w).1 = 2 ∧
      enters (swapInitialize K d w).2.env.trace = enters w.env.trace ++
        [Fn.swapInitialize, Fn.swapInitializeImages, Fn.swapInitializeViews,
         Fn.swapInitializeDepthBuffer, Fn.swapInitializeRenderPass,
         Fn.swapInitializeFramebuffers,
         Fn.swapFinalizeRenderPass, Fn.swapFinalizeDepthBuffer, Fn.swapFinalizeViews,
         Fn.swapFinalizeImages]) ∧
    ((swapInitialize.images d w).1 = 0 → (swapInitialize.views d w).1 = 0 →
      (swapInitialize.depthBuffer d w).1 = 0 → (swapInitialize.renderPass d w).1 = 0 →
      (swapInitialize.framebuffers d w).1 = 0 → (swapInitialize.syncs K d w).1 ≠ 0 →
      (swapInitialize K d w).1 = 1 ∧
      enters (swapInitialize K d w).2.env.trace = enters w.env.trace ++
        [Fn.swapInitialize, Fn.swapInitializeImages, Fn.swapInitializeViews,
         Fn.swapInitializeDepthBuffer, Fn.swapInitializeRenderPass,
         Fn.swapInitializeFramebuffers, Fn.swapInitializeSyncs,
         Fn.swapFinalizeFramebuffers, Fn.swapFinalizeRenderPass,
         Fn.swapFinalizeDepthBuffer, Fn.swapFinalizeViews, Fn.swapFinalizeImages]) ∧
    ((swapInitialize.images d w).1 = 0 → (swapInitialize.views d w).1 = 0 →
      (swapInitialize.depthBuffer d w).1 = 0 → (swapInitialize.renderPass d w).1 = 0 →
      (swapInitialize.framebuffers d w).1 = 0 → (swapInitialize.syncs K d w).1 = 0 →
      swapInitialize K d w = (0, (swapInitialize.syncs K d w).2) ∧
      enters (swapInitialize K d w).2.env.trace = enters w.env.trace ++
        [Fn.swapInitialize, Fn.swapInitializeImages, Fn.swapInitializeViews,
         Fn.swapInitializeDepthBuffer, Fn.swapInitializeRenderPass,
         Fn.swapInitializeFramebuffers, Fn.swapInitializeSyncs]) := by
  simp only [enters_eq_outline]
  unfold swapInitialize swapInitialize.syncs swapInitialize.framebuffers
    swapInitialize.renderPass swapInitialize.depthBuffer swapInitialize.views
    swapInitialize.images
  dsimp only
  refine ⟨?_, ?_, ?_, ?_, ?_, ?_, ?_⟩
  · intro h1
    simp [h1]
  · intro h1 h2
    simp [h1, h2]
  · intro h1 h2 h3
    simp [h1, h2, h3]
  · intro h1 h2 h3 h4
    simp [h1, h2, h3, h4]
  · intro h1 h2 h3 h4 h5
    simp [h1, h2, h3, h4, h5]
  · intro h1 h2 h3 h4 h5 h6
    simp [h1, h2, h3, h4, h5, h6]
  · intro h1 h2 h3 h4 h5 h6
    simp [h1, h2, h3, h4, h5, h6]

/-- The function `swapInitialize` returns 0 exactly when each of its six steps
does. -/
theorem swapInitialize_zero_iff (K : Nat) (d : Driver) (w : World) :
    (swapInitialize K d w).1 = 0 ↔
      ((swapInitialize.images d w).1 = 0 ∧ (swapInitialize.views d w).1 = 0 ∧
        (swapInitialize.depthBuffer d w).1 = 0 ∧ (swapInitialize.renderPass d w).1 = 0 ∧
        (swapInitialize.framebuffers d w).1 = 0 ∧ (swapInitialize.syncs K d w).1 = 0) := by
  obtain ⟨b1, b2, b3, b4, b5, b6, b7⟩ := swapInitialize_branches K d w
  constructor
  · intro hz
    by_cases h1 : (swapInitialize.images d w).1 = 0
    · by_cases h2 : (swapInitialize.views d w).1 = 0
      · by_cases h3 : (swapInitialize.depthBuffer d w).1 = 0
        · by_cases h4 : (swapInitialize.renderPass d w).1 = 0
          · by_cases h5 : (swapInitialize.framebuffers d w).1 = 0
            · by_cases h6 : (swapInitialize.syncs K d w).1 = 0
              · exact ⟨h1, h2, h3, h4, h5, h6⟩
              · rw [(b6 h1 h2 h3 h4 h5 h6).1] at hz
                cases hz
            · rw [(b5 h1 h2 h3 h4 h5).1] at hz
              cases hz
          · rw [(b4 h1 h2 h3 h4).1] at hz
            cases hz
        · rw [(b3 h1 h2 h3).1] at hz
          cases hz
      · rw [(b2 h1 h2).1] at hz
        cases hz
    · rw [(b1 h1).1] at hz
      cases hz
  · rintro ⟨h1, h2, h3, h4, h5, h6⟩
    rw [(b7 h1 h2 h3 h4 h5 h6).1]

/-- C13: `swapInitialize` runs its six steps in the order images, views, depth
buffer, render pass, framebuffers, syncs, each on the state the steps before
have left.  When step `j + 1` is the first to fail it returns `6 - j` (6, 5, 4,
3, 2, 1): it has then entered the first `j + 1` steps in this order and, after
them, the finalizers of the first `j` steps in reverse order, and nothing
else.  When all six succeed it returns 0, having entered the six steps and no
finalizer.  So it returns 0 if and only if all six steps succeed. -/
theorem swapInitialize_steps_and_rollback (K : Nat) (d : Driver) (w : World) :
    (∀ j, j < 6 →
      (∀ i, i < j → (swapInitialize.stepCodes K d w).getD i 0 = 0) →
      (swapInitialize.stepCodes K d w).getD j 0 ≠ 0 →
      (swapInitialize K d w).1 = 6 - (j : Int) ∧
      enters (swapInitialize K d w).2.env.trace = enters w.env.trace ++
        Fn.swapInitialize :: (swapInitialize.stepNames.take (j + 1) ++
          (swapInitialize.finalizerNames.take j).reverse)) ∧
    ((∀ c ∈ swapInitialize.stepCodes K d w, c = 0) →
      (swapInitialize K d w).1 = 0 ∧
      enters (swapInitialize K d w).2.env.trace = enters w.env.trace ++
        Fn.swapInitialize :: swapInitialize.stepNames) ∧
    ((swapInitialize K d w).1 = 0 ↔ ∀ c ∈ swapInitialize.stepCodes K d w, c = 0) := by
  obtain ⟨b1, b2, b3, b4, b5, b6, b7⟩ := swapInitialize_branches K d w
  have hall : (∀ c ∈ swapInitialize.stepCodes K d w, c = 0) ↔
      ((swapInitialize.images d w).1 = 0 ∧ (swapInitialize.views d w).1 = 0 ∧
        (swapInitialize.depthBuffer d w).1 = 0 ∧ (swapInitialize.renderPass d w).1 = 0 ∧
        (swapInitialize.framebuffers d w).1 = 0 ∧ (swapInitialize.syncs K d w).1 = 0) := by
    simp [swapInitialize.stepCodes]
  refine ⟨?_, ?_, ?_⟩
  · intro j hj hprev hfail
    interval_cases j
    · have h := b1 (by simpa [swapInitialize.stepCodes] using hfail)
      exact ⟨h.1, h.2⟩
    · have h0 := hprev 0 (by omega)
      have h := b2 (by simpa [swapInitialize.stepCodes] using h0)
        (by simpa [swapInitialize.stepCodes] using hfail)
      exact ⟨h.1, h.2⟩
    · have h0 := hprev 0 (by omega)
      have h1 := hprev 1 (by omega)
      have h := b3 (by simpa [swapInitialize.stepCodes] using h0)
        (by simpa [swapInitialize.stepCodes] using h1)
        (by simpa [swapInitialize.stepCodes] using hfail)
      exact ⟨h.1, h.2⟩
    · have h0 := hprev 0 (by omega)
      have h1 := hprev 1 (by omega)
      have h2 := hprev 2 (by omega)
      have h := b4 (by simpa [swapInitialize.stepCodes] using h0)
        (by simpa [swapInitialize.stepCodes] using h1)
        (by simpa [swapInitialize.stepCodes] using h2)
        (by simpa [swapInitialize.stepCodes] using hfail)
      exact ⟨h.1, h.2⟩
    · have h0 := hprev 0 (by omega)
      have h1 := hprev 1 (by omega)
      have h2 := hprev 2 (by omega)
      have h3 := hprev 3 (by omega)
      have h := b5 (by simpa [swapInitialize.stepCodes] using h0)
        (by simpa [swapInitialize.stepCodes] using h1)
        (by simpa [swapInitialize.stepCodes] using h2)
        (by simpa [swapInitialize.stepCodes] using h3)
        (by simpa [swapInitialize.stepCodes] using hfail)
      exact ⟨h.1, h.2⟩
    · have h0 := hprev 0 (by omega)
      have h1 := hprev 1 (by omega)
      have h2 := hprev 2 (by omega)
      have h3 := hprev 3 (by omega)
      have h4 := hprev 4 (by omega)
      have h := b6 (by simpa [swapInitialize.stepCodes] using h0)
        (by simpa [swapInitialize.stepCodes] using h1)
        (by simpa [swapInitialize.stepCodes] using h2)
        (by simpa [swapInitialize.stepCodes] using h3)
        (by simpa [swapInitialize.stepCodes] using h4)
        (by simpa [swapInitialize.stepCodes] using hfail)
      exact ⟨h.1, h.2⟩
  · intro h
    obtain ⟨h1, h2, h3, h4, h5, h6⟩ := hall.1 h
    have e := b7 h1 h2 h3 h4 h5 h6
    exact ⟨by rw [e.1], e.2⟩
  · rw [hall]
    exact swapInitialize_zero_iff K d w

set_option maxRecDepth 8000 in
/-- The theorem of C13 from `bootWorld`: on `okDriver` all six steps succeed;
on `framebufferFailsDriver` the fifth step is the first to fail, the code is 2
and the finalizers of the first four steps run in reverse order. -/
theorem swapInitialize_steps_and_rollback_witness :
    (∀ c ∈ swapInitialize.stepCodes MAXFRAMESINFLIGHT okDriver bootWorld, c = 0) ∧
    (swapInitialize MAXFRAMESINFLIGHT okDriver bootWorld).1 = 0 ∧
    (∀ i, i < 4 →
      (swapInitialize.stepCodes MAXFRAMESINFLIGHT framebufferFailsDriver bootWorld).getD i 0
        = 0) ∧
    (swapInitialize.stepCodes MAXFRAMESINFLIGHT framebufferFailsDriver bootWorld).getD 4 0
      ≠ 0 ∧
    (swapInitialize MAXFRAMESINFLIGHT framebufferFailsDriver bootWorld).1 = 2 ∧
    enters (swapInitialize MAXFRAMESINFLIGHT framebufferFailsDriver bootWorld).2.env.trace =
      [Fn.swapInitialize, Fn.swapInitializeImages, Fn.swapInitializeViews,
       Fn.swapInitializeDepthBuffer, Fn.swapInitializeRenderPass,
       Fn.swapInitializeFramebuffers,
       Fn.swapFinalizeRenderPass, Fn.swapFinalizeDepthBuffer, Fn.swapFinalizeViews,
       Fn.swapFinalizeImages] :=
  ⟨by decide,
   ((swapInitialize_steps_and_rollback MAXFRAMESINFLIGHT okDriver bootWorld).2.1
     (by decide)).1,
   by decide, by decide,
   ((swapInitialize_steps_and_rollback MAXFRAMESINFLIGHT framebufferFailsDriver
     bootWorld).1 4 (by decide) (by decide) (by decide)).1,
   ((swapInitialize_steps_and_rollback MAXFRAMESINFLIGHT framebufferFailsDriver
     bootWorld).1 4 (by decide) (by decide) (by decide)).2⟩


/-! ## Failure paths of the swap-chain construction -/

set_option maxRecDepth 8000 in
/-- C14 at a failing input: `swapInitializeFramebuffers` on a swap chain of
three images, in the state that the first four steps of `swapInitialize` have
left (trace emptied), with the `vkCreateFramebuffer` for the second image
failing.  The function frees the array and returns 1; the framebuffer of the
first image, created in the call, is not destroyed. -/
theorem swapInitializeFramebuffers_leaks_earlier :
    (swapInitialize.renderPass okDriver bootWorld).1 = 0 ∧
    (swapInitialize.renderPass okDriver bootWorld).2.swap.numImages = 3 ∧
    (swapInitializeFramebuffers framebufferFailsDriver
      (swapInitialize.renderPass okDriver bootWorld).2.fresh).1 = 1 ∧
    (swapInitializeFramebuffers framebufferFailsDriver
      (swapInitialize.renderPass okDriver bootWorld).2.fresh).2.env.trace =
      [Call.enter Fn.swapInitializeFramebuffers,
       Call.create Obj.hostMemory 117,
       Call.create Obj.framebuffer 118,
       Call.createFailed Obj.framebuffer,
       Call.destroy Obj.hostMemory 117] ∧
    liveObjects (swapInitializeFramebuffers framebufferFailsDriver
      (swapInitialize.renderPass okDriver bootWorld).2.fresh).2.env.trace =
      [(Obj.framebuffer, 118)] := by
  decide

set_option maxRecDepth 8000 in
/-- C15 at two failing inputs: `swapInitializeDepthBuffer` in the state that
the first two steps of `swapInitialize` have left (trace emptied), once with
the creation of the depth image failing and once with the creation of its view
failing.  Both calls return 1. -/
theorem swapInitializeDepthBuffer_same_code :
    (swapInitialize.views okDriver bootWorld).1 = 0 ∧
    (swapInitializeDepthBuffer depthImageFailsDriver
      (swapInitialize.views okDriver bootWorld).2.fresh).1 = 1 ∧
    (swapInitializeDepthBuffer depthImageFailsDriver
      (swapInitialize.views okDriver bootWorld).2.fresh).2.env.trace =
      [Call.enter Fn.swapInitializeDepthBuffer, Call.createFailed Obj.image] ∧
    (swapInitializeDepthBuffer depthViewFailsDriver
      (swapInitialize.views okDriver bootWorld).2.fresh).1 = 1 ∧
    (swapInitializeDepthBuffer depthViewFailsDriver
      (swapInitialize.views okDriver bootWorld).2.fresh).2.env.trace =
      [Call.enter Fn.swapInitializeDepthBuffer,
       Call.create Obj.image 112,
       Call.create Obj.deviceMemory 113,
       Call.vkBindImageMemory 112 113,
       Call.createFailed Obj.imageView,
       Call.destroy Obj.deviceMemory 113,
       Call.destroy Obj.image 112] := by
  decide


/-! ## The tables that `swapInitializeSyncs` builds -/

theorem syncs_loop_step (d : Driver) (n i : Nat) (w : World)
    (h : (swapInitializeSyncs.loop d (n + 1) i w).1 = 0) :
    swapInitializeSyncs.loop d (n + 1) i w =
      swapInitializeSyncs.loop d n (i + 1) (swapInitializeSyncs.filled i w) := by
  rw [swapInitializeSyncs.loop] at h ⊢
  by_cases c1 : d.createOk w.env.nCreate = true
  · by_cases c2 : d.createOk (w.env.nCreate + 1) = true
    · by_cases c3 : d.createOk (w.env.nCreate + 1 + 1) = true
      · simp [vkCreate, c1, c2, c3, swapInitializeSyncs.filled, World.setImageAvailSems,
          World.setRenderDoneSems, World.setInFlightFences]
      · simp [vkCreate, c1, c2, c3, World.setImageAvailSems, World.setRenderDoneSems] at h
    · simp [vkCreate, c1, c2, World.setImageAvailSems] at h
  · simp [vkCreate, c1] at h

theorem syncs_loop_success (d : Driver) (n i : Nat) (w : World)
    (h : (swapInitializeSyncs.loop d n i w).1 = 0) :
    (swapInitializeSyncs.loop d n i w).2.swap.numImages = w.swap.numImages ∧
    (swapInitializeSyncs.loop d n i w).2.swap.imagesInFlight = w.swap.imagesInFlight ∧
    (swapInitializeSyncs.loop d n i w).2.swap.imageAvailSems.length =
      w.swap.imageAvailSems.length ∧
    (swapInitializeSyncs.loop d n i w).2.swap.renderDoneSems.length =
      w.swap.renderDoneSems.length ∧
    (swapInitializeSyncs.loop d n i w).2.swap.inFlightFences.length =
      w.swap.inFlightFences.length ∧
    (∀ j, j < i →
      (swapInitializeSyncs.loop d n i w).2.swap.imageAvailSems[j]? =
        w.swap.imageAvailSems[j]? ∧
      (swapInitializeSyncs.loop d n i w).2.swap.renderDoneSems[j]? =
        w.swap.renderDoneSems[j]? ∧
      (swapInitializeSyncs.loop d n i w).2.swap.inFlightFences[j]? =
        w.swap.inFlightFences[j]?) ∧
    ∀ j, i ≤ j → j < i + n →
      (j < w.swap.imageAvailSems.length →
        (swapInitializeSyncs.loop d n i w).2.swap.imageAvailSems[j]? =
          some (w.env.nextHandle + 3 * (j - i))) ∧
      (j < w.swap.renderDoneSems.length →
        (swapInitializeSyncs.loop d n i w).2.swap.renderDoneSems[j]? =
          some (w.env.nextHandle + 3 * (j - i) + 1)) ∧
      (j < w.swap.inFlightFences.length →
        (swapInitializeSyncs.loop d n i w).2.swap.inFlightFences[j]? =
          some (w.env.nextHandle + 3 * (j - i) + 2)) := by
  induction n generalizing i w with
  | zero =>
    refine ⟨rfl, rfl, rfl, rfl, rfl, fun j _ => ⟨rfl, rfl, rfl⟩, fun j h1 h2 => ?_⟩
    omega
  | succ n ih =>
    have hs := syncs_loop_step d n i w h
    rw [hs] at h ⊢
    obtain ⟨a1, a2, a3, a4, a5, a6, a7⟩ := ih (i + 1) (swapInitializeSyncs.filled i w) h
    refine ⟨a1, a2, ?_, ?_, ?_, ?_, ?_⟩
    · rw [a3]; simp [swapInitializeSyncs.filled]
    · rw [a4]; simp [swapInitializeSyncs.filled]
    · rw [a5]; simp [swapInitializeSyncs.filled]
    · intro j hj
      obtain ⟨b1, b2, b3⟩ := a6 j (by omega)
      have hne : i ≠ j := by omega
      refine ⟨?_, ?_, ?_⟩
      · rw [b1]; simp [swapInitializeSyncs.filled, List.getElem?_set_ne hne]
      · rw [b2]; simp [swapInitializeSyncs.filled, List.getElem?_set_ne hne]
      · rw [b3]; simp [swapInitializeSyncs.filled, List.getElem?_set_ne hne]
    · intro j h1 h2
      by_cases hji : j = i
      · subst hji
        obtain ⟨b1, b2, b3⟩ := a6 j (by omega)
        refine ⟨fun hl => ?_, fun hl => ?_, fun hl => ?_⟩
        · rw [b1]; simp [swapInitializeSyncs.filled, List.getElem?_set_self hl]
        · rw [b2]; simp [swapInitializeSyncs.filled, List.getElem?_set_self hl]
        · rw [b3]; simp [swapInitializeSyncs.filled, List.getElem?_set_self hl]
      · obtain ⟨b1, b2, b3⟩ := a7 j (by omega) (by omega)
        have e : (swapInitializeSyncs.filled i w).env.nextHandle + 3 * (j - (i + 1)) =
            w.env.nextHandle + 3 * (j - i) := by
          simp only [swapInitializeSyncs.filled]
          omega
        rw [e] at b1 b2 b3
        refine ⟨fun hl => b1 ?_, fun hl => b2 ?_, fun hl => b3 ?_⟩
        · simpa [swapInitializeSyncs.filled] using hl
        · simpa [swapInitializeSyncs.filled] using hl
        · simpa [swapInitializeSyncs.filled] using hl

theorem swapInitializeSyncs_tables (K : Nat) (d : Driver) (w : World)
    (hA : w.swap.imageAvailSems.length = K) (hR : w.swap.renderDoneSems.length = K)
    (hF : w.swap.inFlightFences.length = K)
    (h : (swapInitializeSyncs K d w).1 = 0) :
    SyncTables K (w.env.nextHandle + 1) (swapInitializeSyncs K d w).2.swap ∧
    (swapInitializeSyncs K d w).2.swap.numImages = w.swap.numImages ∧
    (swapInitializeSyncs K d w).2.swap.imagesInFlight.elems =
      (List.range w.swap.numImages).map (d.heapJunk w.env.nMalloc) := by
  unfold swapInitializeSyncs at h ⊢
  by_cases hm : d.mallocOk w.env.nMalloc = true
  · simp only [malloc, enter, World.log, hm, if_true] at h ⊢
    obtain ⟨a1, a2, a3, a4, a5, _, a7⟩ := syncs_loop_success d K 0 _ h
    refine ⟨⟨?_, ?_, ?_, ?_, ?_⟩, a1, ?_⟩
    · rw [a2, a1]
      simp [World.setImagesInFlight]
    · rw [a3]; exact hA
    · rw [a4]; exact hR
    · rw [a5]; exact hF
    · intro j hj
      obtain ⟨b1, b2, b3⟩ := a7 j (Nat.zero_le _) (by omega)
      exact ⟨b1 (by rw [← hA] at hj; exact hj), b2 (by rw [← hR] at hj; exact hj),
        b3 (by rw [← hF] at hj; exact hj)⟩
    · rw [a2]
      rfl
  · simp [malloc, enter, World.log, hm] at h

/-- The tables after `swapInitializeSyncs` has returned 0, and so after a
successful `swapInitialize`: `swap.imagesInFlight` has exactly `swap.numImages`
entries, and the ring has exactly `MAXFRAMESINFLIGHT` slots, each with the two
semaphores and the fence created for it.  The entries of `swap.imagesInFlight`
are what `malloc` left in the block: the code does not set them. -/
theorem swapInitialize_sync_tables (K : Nat) (d : Driver) (w : World)
    (hA : w.swap.imageAvailSems.length = K) (hR : w.swap.renderDoneSems.length = K)
    (hF : w.swap.inFlightFences.length = K) :
    ((swapInitializeSyncs K d w).1 = 0 →
      SyncTables K (w.env.nextHandle + 1) (swapInitializeSyncs K d w).2.swap ∧
      (swapInitializeSyncs K d w).2.swap.imagesInFlight.elems =
        (List.range (swapInitializeSyncs K d w).2.swap.numImages).map
          (d.heapJunk w.env.nMalloc)) ∧
    ((swapInitialize K d w).1 = 0 →
      SyncTables K ((swapInitialize.framebuffers d w).2.env.nextHandle + 1)
        (swapInitialize K d w).2.swap ∧
      (swapInitialize K d w).2.swap.imagesInFlight.elems =
        (List.range (swapInitialize K d w).2.swap.numImages).map
          (d.heapJunk (swapInitialize.framebuffers d w).2.env.nMalloc)) := by
  refine ⟨fun h => ?_, fun h => ?_⟩
  · obtain ⟨t, n, e⟩ := swapInitializeSyncs_tables K d w hA hR hF h
    exact ⟨t, by rw [n]; exact e⟩
  · obtain ⟨h1, h2, h3, h4, h5, h6⟩ :
        (swapInitialize.images d w).1 = 0 ∧ (swapInitialize.views d w).1 = 0 ∧
        (swapInitialize.depthBuffer d w).1 = 0 ∧ (swapInitialize.renderPass d w).1 = 0 ∧
        (swapInitialize.framebuffers d w).1 = 0 ∧ (swapInitialize.syncs K d w).1 = 0 := by
      have := (swapInitialize_zero_iff K d w).1 h
      exact this
    have e := ((swapInitialize_branches K d w).2.2.2.2.2.2 h1 h2 h3 h4 h5 h6).1
    have ho : (swapInitialize.framebuffers d w).2.outline.2 = w.outline.2 := by
      simp [swapInitialize.framebuffers, swapInitialize.renderPass,
        swapInitialize.depthBuffer, swapInitialize.views, swapInitialize.images]
    have hA' : (swapInitialize.framebuffers d w).2.swap.imageAvailSems.length = K := by
      have := congrArg (fun x => x.1) ho
      exact (congrArg List.length this).trans hA
    have hR' : (swapInitialize.framebuffers d w).2.swap.renderDoneSems.length = K := by
      have := congrArg (fun x => x.2.1) ho
      exact (congrArg List.length this).trans hR
    have hF' : (swapInitialize.framebuffers d w).2.swap.inFlightFences.length = K := by
      have := congrArg (fun x => x.2.2) ho
      exact (congrArg List.length this).trans hF
    obtain ⟨t, n, el⟩ := swapInitializeSyncs_tables K d (swapInitialize.framebuffers d w).2
      hA' hR' hF' h6
    rw [e]
    exact ⟨t, by
      show (swapInitialize.syncs K d w).2.swap.imagesInFlight.elems = _
      unfold swapInitialize.syncs
      rw [n]; exact el⟩

set_option maxRecDepth 8000 in
/-- The tables on `okDriver` from `bootWorld`: three entries for three images,
and a ring of two slots. -/
theorem swapInitialize_sync_tables_witness :
    bootWorld.swap.imageAvailSems.length = MAXFRAMESINFLIGHT ∧
    (swapInitialize MAXFRAMESINFLIGHT okDriver bootWorld).1 = 0 ∧
    (swapInitialize MAXFRAMESINFLIGHT okDriver bootWorld).2.swap.imagesInFlight.elems.length
      = (swapInitialize MAXFRAMESINFLIGHT okDriver bootWorld).2.swap.numImages ∧
    (swapInitialize MAXFRAMESINFLIGHT okDriver bootWorld).2.swap.inFlightFences.length =
      MAXFRAMESINFLIGHT :=
  ⟨rfl, by decide,
   ((swapInitialize_sync_tables MAXFRAMESINFLIGHT okDriver bootWorld rfl rfl rfl).2
     (by decide)).1.1,
   ((swapInitialize_sync_tables MAXFRAMESINFLIGHT okDriver bootWorld rfl rfl rfl).2
     (by decide)).1.2.2.2.1⟩

set_option maxRecDepth 8000 in
/-- C16 at a failing input: `swapInitialize` on `okDriver` from `bootWorld`,
with heap blocks that hold 9000, 9001, ... when `malloc` returns them.  The
call returns 0 with three images, three entries in `swap.imagesInFlight` and
two slots in the ring; but `swapInitializeSyncs` has written nothing to the
block of `swap.imagesInFlight`, and its entries are not null handles. -/
theorem imagesInFlight_not_null :
    (swapInitialize MAXFRAMESINFLIGHT okDriver bootWorld).1 = 0 ∧
    (swapInitialize MAXFRAMESINFLIGHT okDriver bootWorld).2.swap.numImages = 3 ∧
    (swapInitialize MAXFRAMESINFLIGHT okDriver bootWorld).2.swap.imageAvailSems =
      [122, 125] ∧
    (swapInitialize MAXFRAMESINFLIGHT okDriver bootWorld).2.swap.renderDoneSems =
      [123, 126] ∧
    (swapInitialize MAXFRAMESINFLIGHT okDriver bootWorld).2.swap.inFlightFences =
      [124, 127] ∧
    (swapInitialize MAXFRAMESINFLIGHT okDriver bootWorld).2.swap.imagesInFlight.elems =
      [9000, 9001, 9002] ∧
    ¬ ∀ x ∈ (swapInitialize MAXFRAMESINFLIGHT okDriver bootWorld).2.swap.imagesInFlight.elems,
      x = VK_NULL_HANDLE := by
  decide

/-! ## Choosing the physical device -/

@[simp] theorem vul_log (w : World) (c : Call) : (w.log c).vul = w.vul := rfl

@[simp] theorem vul_malloc (d : Driver) (n : Nat) (w : World) :
    (malloc d n w).2.vul = w.vul := by
  unfold malloc
  split <;> rfl

@[simp] theorem vul_free (p : Handle) (w : World) : (free p w).vul = w.vul := rfl

@[simp] theorem vul_vulGetQueueFamilies (d : Driver) (w : World) :
    (vulGetQueueFamilies d w).2.vul = w.vul := by
  unfold vulGetQueueFamilies
  dsimp only
  split <;> simp

@[simp] theorem vul_alloc (d : Driver) (n : Nat) (w : World) :
    (vulInitializeSwapChainSupport.alloc d n w).2.vul = w.vul := by
  unfold vulInitializeSwapChainSupport.alloc
  split
  · dsimp only
    split <;> simp
  · rfl

@[simp] theorem vul_querySwapChainSupport (d : Driver) (w : World) :
    (querySwapChainSupport d w).2.vul = w.vul := rfl

@[simp] theorem vul_vulInitializeSwapChainSupport (d : Driver) (w : World) :
    (vulInitializeSwapChainSupport d w).2.2.vul = w.vul := by
  unfold vulInitializeSwapChainSupport
  dsimp only
  split
  · simp
  · split
    · split <;> simp
    · simp

@[simp] theorem vul_vulFinalizeSwapChainSupport (x : vulSwapChainSupportDetails)
    (w : World) : (vulFinalizeSwapChainSupport x w).vul = w.vul := by
  unfold vulFinalizeSwapChainSupport
  dsimp only
  split <;> split <;> simp

@[simp] theorem vul_extensionLoop (avail : List String) (p : Handle) (E : List String)
    (w : World) : (vulExtensionSupportError.loop avail p E w).2.vul = w.vul := by
  induction E with
  | nil => rfl
  | cons e rest ih =>
    unfold vulExtensionSupportError.loop
    split
    · rfl
    · exact ih

@[simp] theorem vul_vulExtensionSupportError (E : List String) (d : Driver)
    (device : PhysicalDevice) (w : World) :
    (vulExtensionSupportError E d device w).2.vul = w.vul := by
  unfold vulExtensionSupportError
  dsimp only
  split <;> simp

@[simp] theorem vul_vulIsDeviceSuitable (A : Nat) (E : List String) (d : Driver)
    (device : PhysicalDevice) (w : World) :
    (vulIsDeviceSuitable A E d device w).2.vul = w.vul := by
  unfold vulIsDeviceSuitable
  dsimp only
  split <;> split <;> (try split) <;> simp

theorem queueFamilies_loop_graphics (l : List QueueFamily) (i : Nat)
    (ind : vulQueueFamilyIndices) :
    (vulGetQueueFamilies.loop l i ind).hasGraphicsFamily ≠ 0 ↔
      ind.hasGraphicsFamily ≠ 0 ∨ ∃ q ∈ l, q.graphics = true := by
  induction l generalizing i ind with
  | nil => simp [vulGetQueueFamilies.loop]
  | cons q rest ih =>
    unfold vulGetQueueFamilies.loop
    dsimp only
    rw [ih]
    cases hg : q.graphics <;> cases hp : q.presentSupport <;> simp [hg]

theorem queueFamilies_loop_present (l : List QueueFamily) (i : Nat)
    (ind : vulQueueFamilyIndices) :
    (vulGetQueueFamilies.loop l i ind).hasPresentFamily ≠ 0 ↔
      ind.hasPresentFamily ≠ 0 ∨ ∃ q ∈ l, q.presentSupport = true := by
  induction l generalizing i ind with
  | nil => simp [vulGetQueueFamilies.loop]
  | cons q rest ih =>
    unfold vulGetQueueFamilies.loop
    dsimp only
    rw [ih]
    cases hg : q.graphics <;> cases hp : q.presentSupport <;> simp [hp]

theorem found_ne_zero (e : String) (avail : List String) :
    vulExtensionSupportError.found e avail ≠ 0 ↔ e ∈ avail := by
  unfold vulExtensionSupportError.found
  have key : ∀ (acc : Int), avail.foldl (fun found a => if a = e then 1 else found) acc ≠ 0 ↔
      acc ≠ 0 ∨ e ∈ avail := by
    induction avail with
    | nil => simp
    | cons a rest ih =>
      intro acc
      simp only [List.foldl_cons, ih, List.mem_cons]
      by_cases hae : a = e
      · simp [hae]
      · have : ¬ e = a := fun h => hae h.symm
        simp [hae, this]
  simpa using key 0

theorem extensionLoop_code (avail : List String) (p : Handle) (E : List String)
    (w : World) :
    ((vulExtensionSupportError.loop avail p E w).1 = 0 ↔ ∀ e ∈ E, e ∈ avail) := by
  induction E with
  | nil => simp [vulExtensionSupportError.loop]
  | cons e rest ih =>
    unfold vulExtensionSupportError.loop
    by_cases hf : vulExtensionSupportError.found e avail = 0
    · have hn : ¬ e ∈ avail := fun h => (found_ne_zero e avail).2 h hf
      simp [hf, hn]
    · have hy : e ∈ avail := (found_ne_zero e avail).1 hf
      simp [hf, hy, ih]

theorem vulGetQueueFamilies_ok (d : Driver) (w : World)
    (h : d.mallocOk w.env.nMalloc = true) :
    ((vulGetQueueFamilies d w).1.hasGraphicsFamily ≠ 0 ↔
      ∃ q ∈ d.queueFamilies, q.graphics = true) ∧
    ((vulGetQueueFamilies d w).1.hasPresentFamily ≠ 0 ↔
      ∃ q ∈ d.queueFamilies, q.presentSupport = true) := by
  unfold vulGetQueueFamilies
  simp only [malloc, h, if_true]
  rw [queueFamilies_loop_graphics, queueFamilies_loop_present]
  simp

theorem vulExtensionSupportError_ok (E : List String) (d : Driver)
    (device : PhysicalDevice) (w : World) (h : d.mallocOk w.env.nMalloc = true) :
    (vulExtensionSupportError E d device w).1 = 0 ↔ ∀ e ∈ E, e ∈ device.extensions := by
  unfold vulExtensionSupportError
  simp only [malloc, h, if_true]
  exact extensionLoop_code _ _ _ _

theorem alloc_ok (d : Driver) (n : Nat) (w : World) (h : ∀ k, d.mallocOk k = true) :
    (vulInitializeSwapChainSupport.alloc d n w).1 ≠ none := by
  unfold vulInitializeSwapChainSupport.alloc
  split
  · simp [malloc, h]
  · simp

theorem vulInitializeSwapChainSupport_ok (d : Driver) (w : World)
    (h : ∀ k, d.mallocOk k = true) :
    (vulInitializeSwapChainSupport d w).1 = 0 ∧
    (vulInitializeSwapChainSupport d w).2.1.formats = d.surfaceFormats w.env.nSupport ∧
    (vulInitializeSwapChainSupport d w).2.1.presentModes =
      d.presentModes w.env.nSupport := by
  unfold vulInitializeSwapChainSupport
  dsimp only
  split
  · rename_i hn
    exact absurd hn (alloc_ok d _ _ h)
  · split
    · rename_i hn
      exact absurd hn (alloc_ok d _ _ h)
    · exact ⟨rfl, rfl, rfl⟩

/-- When no allocation fails, `vulIsDeviceSuitable` answers 1 exactly for the
suitable devices, and 0 for the others. -/
theorem vulIsDeviceSuitable_iff (A : Nat) (E : List String) (d : Driver)
    (device : PhysicalDevice) (w : World) (hm : ∀ k, d.mallocOk k = true) :
    (vulIsDeviceSuitable A E d device w).1 ≠ 0 ↔ device.suitable A E := by
  obtain ⟨hg, hp⟩ := vulGetQueueFamilies_ok (d.forDevice device) w (hm _)
  have he := vulExtensionSupportError_ok E d device
    (vulGetQueueFamilies (d.forDevice device) w).2 (hm _)
  obtain ⟨hs, hf, hpm⟩ := vulInitializeSwapChainSupport_ok (d.forDevice device)
    (vulExtensionSupportError E d device (vulGetQueueFamilies (d.forDevice device) w).2).2
    (fun k => hm k)
  have hf' : (vulInitializeSwapChainSupport (d.forDevice device)
      (vulExtensionSupportError E d device
        (vulGetQueueFamilies (d.forDevice device) w).2).2).2.1.formats = device.formats := hf
  have hpm' : (vulInitializeSwapChainSupport (d.forDevice device)
      (vulExtensionSupportError E d device
        (vulGetQueueFamilies (d.forDevice device) w).2).2).2.1.presentModes =
      device.presentModes := hpm
  have hg' : (vulGetQueueFamilies (d.forDevice device) w).1.hasGraphicsFamily ≠ 0 ↔
      ∃ q ∈ device.queueFamilies, q.graphics = true := hg
  have hp' : (vulGetQueueFamilies (d.forDevice device) w).1.hasPresentFamily ≠ 0 ↔
      ∃ q ∈ device.queueFamilies, q.presentSupport = true := hp
  have hlen : ∀ {α : Type} (l : List α), l.length ≥ 1 ↔ l ≠ [] := by
    intro α l
    cases l <;> simp
  unfold vulIsDeviceSuitable PhysicalDevice.suitable
  dsimp only
  by_cases hx : (vulExtensionSupportError E d device
      (vulGetQueueFamilies (d.forDevice device) w).2).1 = 0
  · have hall := he.1 hx
    by_cases hA : A ≠ 0
    · simp only [hA, hx, hs, hf', hpm', if_true, ne_eq, not_false_eq_true, true_and,
        decide_eq_true_eq, hlen, Bool.decide_and, Bool.and_eq_true, forall_const]
      rw [← hg', ← hp']
      constructor
      · intro h
        split at h
        · rename_i hc
          exact ⟨hc.1.1, hc.1.2, hall, hc.2.1.1, hc.2.1.2, hc.2.2⟩
        · exact absurd rfl h
      · rintro ⟨a, b, _, c, e, f⟩
        rw [if_pos ⟨⟨a, b⟩, ⟨c, e⟩, f⟩]
        decide
    · simp only [hA, hx, hs, hf', hpm', if_true, if_false, ne_eq, not_false_eq_true,
        true_and, decide_eq_true_eq, hlen, Bool.decide_and, Bool.and_eq_true,
        IsEmpty.forall_iff, and_true]
      rw [← hg', ← hp']
      constructor
      · intro h
        split at h
        · rename_i hc
          exact ⟨hc.1.1, hc.1.2, hall, hc.2.1, hc.2.2⟩
        · exact absurd rfl h
      · rintro ⟨a, b, _, c, e⟩
        rw [if_pos ⟨⟨a, b⟩, c, e⟩]
        decide
  · have hnall : ¬ ∀ e ∈ E, e ∈ device.extensions := fun h => hx (he.2 h)
    by_cases hA : A ≠ 0
    · simp [hA, hx, hnall]
    · simp [hA, hx, hnall]

theorem setPhysicalDevice_loop (A : Nat) (E : List String) (d : Driver)
    (hm : ∀ k, d.mallocOk k = true) (l : List PhysicalDevice) (w : World) :
    ((∀ x ∈ l, ¬ x.suitable A E) →
      (vulSetPhysicalDevice.loop A E d l w).vul.physicalDevice = w.vul.physicalDevice) ∧
    (∀ (i : Nat) device, l[i]? = some device → device.suitable A E →
      (∀ j : Nat, j < i → ∀ x, l[j]? = some x → ¬ x.suitable A E) →
      (vulSetPhysicalDevice.loop A E d l w).vul.physicalDevice = device.handle) := by
  induction l generalizing w with
  | nil =>
    refine ⟨fun _ => rfl, fun i device h => ?_⟩
    simp at h
  | cons a rest ih =>
    unfold vulSetPhysicalDevice.loop
    dsimp only
    have hiff := vulIsDeviceSuitable_iff A E d a w hm
    by_cases hs : a.suitable A E
    · have hne := hiff.2 hs
      rw [if_pos hne]
      refine ⟨fun hall => absurd hs (hall a (List.mem_cons_self _ _)), ?_⟩
      intro i device hi hsd hmin
      cases i with
      | zero =>
        simp at hi
        subst hi
        rfl
      | succ i => exact absurd hs (hmin 0 (by omega) a (by simp))
    · have hz : ¬ (vulIsDeviceSuitable A E d a w).1 ≠ 0 := fun h => hs (hiff.1 h)
      rw [if_neg hz]
      obtain ⟨i1, i2⟩ := ih (vulIsDeviceSuitable A E d a w).2
      refine ⟨fun hall => ?_, ?_⟩
      · rw [i1 (fun x hx => hall x (List.mem_cons_of_mem _ hx))]
        simp
      · intro i device hi hsd hmin
        cases i with
        | zero =>
          simp at hi
          subst hi
          exact absurd hsd hs
        | succ i =>
          exact i2 i device (by simpa using hi) hsd
            (fun j hj x hx => hmin (j + 1) (by omega) x (by simpa using hx))

/-- C17 (amended): `vulSetPhysicalDevice` returns 3 when no device is
enumerated and 2 when the array for the devices cannot be allocated, in both
cases with `physicalDevice` null.  When no allocation of the call fails (and
the device handles are not null, as Vulkan guarantees), it returns 0 with
`physicalDevice` the first device in enumeration order that is suitable, and
it returns a non-zero code with `physicalDevice` null when no device is
suitable. -/
theorem vulSetPhysicalDevice_first_suitable (A : Nat) (E : List String) (d : Driver)
    (devices : List PhysicalDevice) (w : World) :
    (devices = [] →
      (vulSetPhysicalDevice A E d devices w).1 = 3 ∧
      (vulSetPhysicalDevice A E d devices w).2.vul.physicalDevice = VK_NULL_HANDLE) ∧
    (devices ≠ [] → d.mallocOk w.env.nMalloc = false →
      (vulSetPhysicalDevice A E d devices w).1 = 2 ∧
      (vulSetPhysicalDevice A E d devices w).2.vul.physicalDevice = VK_NULL_HANDLE) ∧
    ((∀ k, d.mallocOk k = true) → (∀ x ∈ devices, x.handle ≠ VK_NULL_HANDLE) →
      (∀ (i : Nat) device, devices[i]? = some device → device.suitable A E →
        (∀ j : Nat, j < i → ∀ x, devices[j]? = some x → ¬ x.suitable A E) →
        (vulSetPhysicalDevice A E d devices w).1 = 0 ∧
        (vulSetPhysicalDevice A E d devices w).2.vul.physicalDevice = device.handle) ∧
      ((∀ x ∈ devices, ¬ x.suitable A E) →
        (vulSetPhysicalDevice A E d devices w).1 ≠ 0 ∧
        (vulSetPhysicalDevice A E d devices w).2.vul.physicalDevice = VK_NULL_HANDLE)) := by
  refine ⟨?_, ?_, ?_⟩
  · rintro rfl
    simp [vulSetPhysicalDevice, World.setPhysicalDevice]
  · intro hne hm
    have hl : devices.length ≠ 0 := by
      cases devices with
      | nil => exact absurd rfl hne
      | cons a l => simp
    have hm' : d.mallocOk (w.setPhysicalDevice VK_NULL_HANDLE).env.nMalloc = false := hm
    unfold vulSetPhysicalDevice
    simp only [hl, if_false, malloc, hm', Bool.false_eq_true]
    constructor <;> first | rfl | trivial
  · intro hm hnull
    have hmw : d.mallocOk (w.setPhysicalDevice VK_NULL_HANDLE).env.nMalloc = true := hm _
    refine ⟨?_, ?_⟩
    · intro i device hi hs hmin
      have hl : devices.length ≠ 0 := by
        cases devices with
        | nil => simp at hi
        | cons a l => simp
      have hmem : device ∈ devices := List.getElem?_mem hi
      have hh := hnull device hmem
      have hpd : ∀ W, (vulSetPhysicalDevice.loop A E d devices W).vul.physicalDevice =
          device.handle :=
        fun W => (setPhysicalDevice_loop A E d hm devices W).2 i device hi hs hmin
      unfold vulSetPhysicalDevice
      simp only [hl, if_false, malloc, hmw, if_true]
      rw [if_neg (by rw [hpd]; exact hh)]
      split
      · exact ⟨rfl, hpd _⟩
      · exact ⟨rfl, hpd _⟩
    · intro hall
      have hpd : ∀ W, (vulSetPhysicalDevice.loop A E d devices W).vul.physicalDevice =
          W.vul.physicalDevice :=
        fun W => (setPhysicalDevice_loop A E d hm devices W).1 hall
      by_cases hl : devices.length = 0
      · unfold vulSetPhysicalDevice
        simp only [hl, if_true]
        exact ⟨by simp, rfl⟩
      · unfold vulSetPhysicalDevice
        simp only [hl, if_false, malloc, hmw, if_true]
        rw [if_pos (by rw [hpd]; rfl)]
        exact ⟨by simp, by rw [hpd]; rfl⟩

set_option maxRecDepth 8000 in
/-- The theorem of C17 on two devices, the first without a present-capable
queue family: the second is chosen. -/
theorem vulSetPhysicalDevice_first_suitable_witness :
    (∀ x ∈ [headlessDevice, goodDevice], x.handle ≠ VK_NULL_HANDLE) ∧
    ¬ headlessDevice.suitable ANISOTROPY deviceExtensions ∧
    goodDevice.suitable ANISOTROPY deviceExtensions ∧
    (vulSetPhysicalDevice ANISOTROPY deviceExtensions okDriver [headlessDevice, goodDevice]
      instanceWorld).1 = 0 ∧
    (vulSetPhysicalDevice ANISOTROPY deviceExtensions okDriver [headlessDevice, goodDevice]
      instanceWorld).2.vul.physicalDevice = goodDevice.handle :=
  ⟨by decide, by decide, by decide,
   (((vulSetPhysicalDevice_first_suitable ANISOTROPY deviceExtensions okDriver
      [headlessDevice, goodDevice] instanceWorld).2.2 (fun _ => rfl) (by decide)).1
      1 goodDevice rfl (by decide)
      (fun j hj x hx => by
        have hj0 : j = 0 := by omega
        subst hj0
        simp at hx
        subst hx
        decide)).1,
   (((vulSetPhysicalDevice_first_suitable ANISOTROPY deviceExtensions okDriver
      [headlessDevice, goodDevice] instanceWorld).2.2 (fun _ => rfl) (by decide)).1
      1 goodDevice rfl (by decide)
      (fun j hj x hx => by
        have hj0 : j = 0 := by omega
        subst hj0
        simp at hx
        subst hx
        decide)).2⟩

set_option maxRecDepth 8000 in
/-- C17 as stated fails: with one suitable device and the allocation of the
device array failing, `vulSetPhysicalDevice` returns 2 and leaves
`physicalDevice` null. -/
theorem vulSetPhysicalDevice_allocation_fails :
    goodDevice.suitable ANISOTROPY deviceExtensions ∧
    (vulSetPhysicalDevice ANISOTROPY deviceExtensions noMemoryDriver [goodDevice]
      instanceWorld).1 = 2 ∧
    (vulSetPhysicalDevice ANISOTROPY deviceExtensions noMemoryDriver [goodDevice]
      instanceWorld).2.vul.physicalDevice = VK_NULL_HANDLE := by
  decide

set_option maxRecDepth 8000 in
/-- C18 at a failing input: one device, without a present-capable queue
family, and no allocation failing.  `vulSetPhysicalDevice` returns 1 without
freeing the device array (block 100), which it allocated in the call. -/
theorem vulSetPhysicalDevice_leaks_devices :
    instanceWorld.env.trace = [] ∧
    ¬ headlessDevice.suitable ANISOTROPY deviceExtensions ∧
    (vulSetPhysicalDevice ANISOTROPY deviceExtensions okDriver [headlessDevice]
      instanceWorld).1 = 1 ∧
    (vulSetPhysicalDevice ANISOTROPY deviceExtensions okDriver [headlessDevice]
      instanceWorld).2.env.trace =
      [Call.create Obj.hostMemory 100,
       Call.create Obj.hostMemory 101, Call.destroy Obj.hostMemory 101,
       Call.create Obj.hostMemory 102, Call.destroy Obj.hostMemory 102,
       Call.create Obj.hostMemory 103, Call.create Obj.hostMemory 104,
       Call.destroy Obj.hostMemory 103, Call.destroy Obj.hostMemory 104] ∧
    liveObjects (vulSetPhysicalDevice ANISOTROPY deviceExtensions okDriver [headlessDevice]
      instanceWorld).2.env.trace = [(Obj.hostMemory, 100)] := by
  decide

/-! ## The viewport matrix and its claimed inverse -/

theorem mat444Multiply_apply (m n : Mat44) (i j : Fin 4) :
    mat444Multiply m n i j =
      0 + m i 0 * n 0 j + m i 1 * n 1 j + m i 2 * n 2 j + m i 3 * n 3 j := rfl

/-- C29 at a failing input, and at every other: for all `width` and `height`
the products of the matrices of `mat44Viewport` and `mat44InverseViewport`
have -1 at `[3][3]`, where the identity has 1, so neither product is the
identity; for a window of 512 x 512 the product also has -512 at `[0][3]`.
The constant stored in `view[3][3]` by `mat44InverseViewport` is -1 where the
inverse has 1. -/
theorem mat44InverseViewport_not_inverse (width height : ℚ) :
    mat444Multiply (mat44Viewport width height) (mat44InverseViewport width height) 3 3
      = -1 ∧
    mat444Multiply (mat44InverseViewport width height) (mat44Viewport width height) 3 3
      = -1 ∧
    mat444Multiply (mat44Viewport width height) (mat44InverseViewport width height)
      ≠ mat44Identity ∧
    mat444Multiply (mat44InverseViewport width height) (mat44Viewport width height)
      ≠ mat44Identity ∧
    mat444Multiply (mat44Viewport 512 512) (mat44InverseViewport 512 512) 0 3 = -512 := by
  have h1 : mat444Multiply (mat44Viewport width height)
      (mat44InverseViewport width height) 3 3 = -1 := by
    rw [mat444Multiply_apply]
    simp +decide [mat44Viewport, mat44InverseViewport, Mat44.set, mat44Zero]
  have h2 : mat444Multiply (mat44InverseViewport width height)
      (mat44Viewport width height) 3 3 = -1 := by
    rw [mat444Multiply_apply]
    simp +decide [mat44Viewport, mat44InverseViewport, Mat44.set, mat44Zero]
  refine ⟨h1, h2, ?_, ?_, ?_⟩
  · intro h
    have := congrFun (congrFun h 3) 3
    rw [h1] at this
    norm_num [mat44Identity] at this
  · intro h
    have := congrFun (congrFun h 3) 3
    rw [h2] at this
    norm_num [mat44Identity] at this
  · rw [mat444Multiply_apply]
    simp +decide [mat44Viewport, mat44InverseViewport, Mat44.set, mat44Zero]
    norm_num

/-! ## Layout transitions -/

theorem pipelineBarriers_append (a b : List Call) :
    pipelineBarriers (a ++ b) = pipelineBarriers a ++ pipelineBarriers b := by
  simp [pipelineBarriers]

/-- C21: for every pair of layouts (and every image, driver and state),
`imageTransitionLayout` either is given one of the three supported pairs,
returns 0 and records exactly one pipeline barrier, for that image and pair;
or is given another pair, returns the non-zero code 1 and records no barrier.
So it returns 0 with one barrier recorded if and only if the pair is
supported. -/
theorem imageTransitionLayout_supported_iff (d : Driver) (image : Handle)
    (oldLayout newLayout : Nat) (w : World) :
    (supportedTransition oldLayout newLayout ∧
      (imageTransitionLayout d image oldLayout newLayout w).1 = 0 ∧
      ∃ commandBuffer,
        pipelineBarriers (imageTransitionLayout d image oldLayout newLayout w).2.env.trace =
          pipelineBarriers w.env.trace ++
            [Call.vkCmdPipelineBarrier commandBuffer image oldLayout newLayout]) ∨
    (¬ supportedTransition oldLayout newLayout ∧
      (imageTransitionLayout d image oldLayout newLayout w).1 = 1 ∧
      pipelineBarriers (imageTransitionLayout d image oldLayout newLayout w).2.env.trace =
        pipelineBarriers w.env.trace) := by
  by_cases h : supportedTransition oldLayout newLayout
  · left
    refine ⟨h, ?_, (bufBeginSingleTimeCommands d w).1, ?_⟩
    · unfold imageTransitionLayout
      unfold supportedTransition at h
      simp only [h, if_true]
    · unfold imageTransitionLayout
      unfold supportedTransition at h
      simp only [h, if_true]
      unfold bufEndSingleTimeCommands bufBeginSingleTimeCommands vkDestroy vkQueueSubmit
        vkEndCommandBuffer vkBeginCommandBuffer vkCreate
      split <;>
        simp [World.log, pipelineBarriers_append, pipelineBarriers, Call.isPipelineBarrier]
  · right
    refine ⟨h, ?_, ?_⟩
    · unfold imageTransitionLayout
      unfold supportedTransition at h
      simp only [h, if_false]
    · unfold imageTransitionLayout
      unfold supportedTransition at h
      simp only [h, if_false]
      unfold bufBeginSingleTimeCommands vkBeginCommandBuffer vkCreate
      split <;>
        simp [World.log, pipelineBarriers_append, pipelineBarriers, Call.isPipelineBarrier]

set_option maxRecDepth 8000 in
/-- C22 at a failing input: asked for the pair undefined to shader-read-only,
which it does not support, `imageTransitionLayout` returns 1 right after
`bufBeginSingleTimeCommands`: the one-shot command buffer 100 has been
allocated and its recording begun, and it is neither ended nor freed. -/
theorem imageTransitionLayout_leaks_command_buffer :
    ¬ supportedTransition VK_IMAGE_LAYOUT_UNDEFINED VK_IMAGE_LAYOUT_SHADER_READ_ONLY_OPTIMAL ∧
    (imageTransitionLayout okDriver 55 VK_IMAGE_LAYOUT_UNDEFINED
      VK_IMAGE_LAYOUT_SHADER_READ_ONLY_OPTIMAL bootWorld).1 = 1 ∧
    (imageTransitionLayout okDriver 55 VK_IMAGE_LAYOUT_UNDEFINED
      VK_IMAGE_LAYOUT_SHADER_READ_ONLY_OPTIMAL bootWorld).2.env.trace =
        [Call.create Obj.commandBuffer 100, Call.vkBeginCommandBuffer 100 true] ∧
    liveObjects (imageTransitionLayout okDriver 55 VK_IMAGE_LAYOUT_UNDEFINED
      VK_IMAGE_LAYOUT_SHADER_READ_ONLY_OPTIMAL bootWorld).2.env.trace =
        [(Obj.commandBuffer, 100)] := by
  decide

/-! ## Failure paths of `initializeConnection` -/

set_option maxRecDepth 8000 in
/-- C23 at two failing inputs, from the state after a successful
`swapInitialize`.  When `vkCreateGraphicsPipelines` fails, `initializePipeline`
returns 1 without destroying the pipeline layout 154 it has just created, and
`initializeConnection` returns 2 after `finalizeUniforms` alone: the layout
stays alive.  When `vkBeginCommandBuffer` fails for the second command buffer,
`initializeCommandBuffers` frees only its array, and `initializeConnection`
returns 1 after `finalizePipeline` and `finalizeUniforms`: the three command
buffers 157, 158, 159 stay allocated. -/
theorem initializeConnection_leaks :
    (initializeConnection pipelineFailsDriver chainWorld).1 = 2 ∧
    enters (initializeConnection pipelineFailsDriver chainWorld).2.env.trace =
      [Fn.initializeConnection, Fn.initializeUniforms, Fn.initializePipeline,
       Fn.finalizeUniforms] ∧
    liveObjects (initializeConnection pipelineFailsDriver chainWorld).2.env.trace =
      [(Obj.pipelineLayout, 154)] ∧
    (initializeConnection recordFailsDriver chainWorld).1 = 1 ∧
    enters (initializeConnection recordFailsDriver chainWorld).2.env.trace =
      [Fn.initializeConnection, Fn.initializeUniforms, Fn.initializePipeline,
       Fn.initializeCommandBuffers, Fn.finalizePipeline, Fn.finalizeUniforms] ∧
    liveObjects (initializeConnection recordFailsDriver chainWorld).2.env.trace =
      [(Obj.commandBuffer, 157), (Obj.commandBuffer, 158), (Obj.commandBuffer, 159)] := by
  decide

/-! ## The frame slot stays in bounds -/

theorem presentFrame_curFrame_lt (K : Nat) (d : Driver) (fuel : Nat) (w : World)
    (h : w.swap.curFrame < K) : (presentFrame K d fuel w).2.swap.curFrame < K := by
  have hK : 0 < K := Nat.lt_of_le_of_lt (Nat.zero_le _) h
  by_cases h1 : (d.acquireNextImage w.env.nAcquire).1 = VkResult.VK_ERROR_OUT_OF_DATE_KHR
  · rw [presentFrame_outOfDate K d fuel w h1]
    have hc := reinit_curFrame K d fuel (presentFrame.acquired d w)
    rcases hr : (reinitializeSwapChain K d fuel (presentFrame.acquired d w)).1 with _ | e
    · rw [hr] at hc
      simp only [if_true] at hc
      simp only
      rw [hc]
      exact h
    · rw [hr] at hc
      simp only [reduceCtorEq, if_false] at hc
      simp only
      rw [hc]
      exact hK
  · by_cases h2 : (d.acquireNextImage w.env.nAcquire).1 ≠ VkResult.VK_SUCCESS ∧
        (d.acquireNextImage w.env.nAcquire).1 ≠ VkResult.VK_SUBOPTIMAL_KHR
    · rw [presentFrame_acquireError K d fuel w h1 h2]
      exact h
    · by_cases h3 : d.queueSubmit w.env.nSubmit = VkResult.VK_SUCCESS
      · by_cases h4 : presentFrame.rebuilds d w
        · rw [presentFrame_rebuild K d fuel w h1 h2 h3 h4]
          have hc := reinit_curFrame K d fuel
            (guiSetFramebufferResized (presentFrame.presented d w) 0)
          rcases hr : (reinitializeSwapChain K d fuel
              (guiSetFramebufferResized (presentFrame.presented d w) 0)).1 with _ | e
          · rw [hr] at hc
            simp only [if_true] at hc
            simp only
            rw [hc]
            exact h
          · rw [hr] at hc
            simp only [reduceCtorEq, if_false] at hc
            simp only
            split
            · rw [hc]
              exact hK
            · exact Nat.mod_lt _ hK
        · by_cases h5 : d.queuePresent w.env.nPresent = VkResult.VK_SUCCESS
          · rw [presentFrame_presented K d fuel w h1 h2 h3 h4 h5]
            exact Nat.mod_lt _ hK
          · rw [presentFrame_presentError K d fuel w h1 h2 h3 h4 h5]
            exact h
      · rw [presentFrame_submitError K d fuel w h1 h2 h3]
        exact h

theorem presentFrames_curFrame_lt (K : Nat) (d : Driver) (fuel n : Nat) (w : World)
    (h : w.swap.curFrame < K) : (presentFrames K d fuel n w).2.swap.curFrame < K := by
  induction n generalizing w with
  | zero => exact h
  | succ n ih =>
    rcases hr : (presentFrame K d fuel w).1 with _ | code
    · rw [presentFrames_stuck K d fuel n w hr]
      exact presentFrame_curFrame_lt K d fuel w h
    · rw [presentFrames_succ K d fuel n w code hr]
      exact ih _ (presentFrame_curFrame_lt K d fuel w h)

/-! ## Arithmetic of C `int` -/

theorem toInt32_of_range (x : Int) (h1 : INT_MIN ≤ x) (h2 : x ≤ INT_MAX) : toInt32 x = x := by
  unfold INT_MIN at h1
  unfold INT_MAX at h2
  unfold toInt32
  omega

/-! ## The stride of the aligned uniform array -/

/-- C27 (amended): for every `uboSize >= 0` and every device alignment
`0 < a <= INT_MAX` such that some multiple of `a` that is at least `uboSize`
fits in an `int`, `unifAlignment(uboSize)` returns the least multiple of `a`
that is greater than or equal to `uboSize`: the result `r` satisfies
`r mod a = 0` and `uboSize <= r < uboSize + a`, and no multiple of `a` from
`uboSize` on is smaller than `r`. -/
theorem unifAlignment_least_multiple (vul : vulVulkan) (uboSize : Int)
    (hu : 0 ≤ uboSize) (ha : 0 < vul.minUniformBufferOffsetAlignment)
    (ha2 : vul.minUniformBufferOffsetAlignment ≤ INT_MAX)
    (hfit : ∃ m, vul.minUniformBufferOffsetAlignment ∣ m ∧ uboSize ≤ m ∧ m ≤ INT_MAX) :
    unifAlignment vul uboSize % vul.minUniformBufferOffsetAlignment = 0 ∧
    uboSize ≤ unifAlignment vul uboSize ∧
    unifAlignment vul uboSize < uboSize + vul.minUniformBufferOffsetAlignment ∧
    ∀ m, vul.minUniformBufferOffsetAlignment ∣ m → uboSize ≤ m →
      unifAlignment vul uboSize ≤ m := by
  obtain ⟨m0, ⟨c0, hc0⟩, hm1, hm2⟩ := hfit
  generalize hA : vul.minUniformBufferOffsetAlignment = a at *
  have hconv : toInt32 a = a :=
    toInt32_of_range a (by unfold INT_MIN; omega) ha2
  have hmod : Int.tmod uboSize a = uboSize % a := Int.tmod_eq_emod hu (le_of_lt ha)
  have hdiv : Int.tdiv uboSize a = uboSize / a := Int.tdiv_eq_ediv hu (le_of_lt ha)
  have hdm : a * (uboSize / a) + uboSize % a = uboSize := Int.ediv_add_emod uboSize a
  have hr0 : 0 ≤ uboSize % a := Int.emod_nonneg _ (ne_of_gt ha)
  have hr1 : uboSize % a < a := Int.emod_lt_of_pos _ ha
  have hq0 : 0 ≤ uboSize / a := Int.ediv_nonneg hu (le_of_lt ha)
  unfold unifAlignment
  simp only [hA, hconv, hmod, hdiv]
  by_cases hz : uboSize % a = 0
  · rw [if_pos hz]
    refine ⟨hz, le_refl _, by omega, fun m _ hm => hm⟩
  · rw [if_neg hz]
    have hrpos : 0 < uboSize % a := lt_of_le_of_ne hr0 (Ne.symm hz)
    -- every multiple of `a` from `uboSize` on is at least `(uboSize / a + 1) * a`
    have hleast : ∀ m, a ∣ m → uboSize ≤ m → (uboSize / a + 1) * a ≤ m := by
      rintro m ⟨c, rfl⟩ hm
      have hlt : a * (uboSize / a) < a * c := by omega
      have hc : uboSize / a < c := lt_of_mul_lt_mul_left hlt (le_of_lt ha)
      have : a * (uboSize / a + 1) ≤ a * c :=
        mul_le_mul_of_nonneg_left (by omega) (le_of_lt ha)
      rw [mul_comm] at this
      exact this
    have hfits : (uboSize / a + 1) * a ≤ INT_MAX :=
      le_trans (hleast m0 ⟨c0, hc0⟩ hm1) hm2
    have hge : uboSize < (uboSize / a + 1) * a := by
      have : (uboSize / a + 1) * a = a * (uboSize / a) + a := by ring
      omega
    have hq1 : uboSize / a + 1 ≤ (uboSize / a + 1) * a := by
      have h1 : (1 : Int) ≤ a := ha
      have h2 : (0 : Int) ≤ uboSize / a + 1 := by omega
      calc uboSize / a + 1 = (uboSize / a + 1) * 1 := by ring
        _ ≤ (uboSize / a + 1) * a := mul_le_mul_of_nonneg_left h1 h2
    have hin : toInt32 (uboSize / a + 1) = uboSize / a + 1 :=
      toInt32_of_range _ (by unfold INT_MIN; omega) (le_trans hq1 hfits)
    rw [hin, toInt32_of_range _ (by unfold INT_MIN; omega) hfits]
    refine ⟨by simp, le_of_lt hge, ?_, hleast⟩
    have : (uboSize / a + 1) * a = a * (uboSize / a) + a := by ring
    omega

/-- The theorem of C27 on a device with alignment 64 and the 80 bytes of
`BodyUniforms`: the stride is 128. -/
theorem unifAlignment_least_multiple_witness :
    unifAlignment bootWorld.vul sizeofBodyUniforms % 64 = 0 ∧
    sizeofBodyUniforms ≤ unifAlignment bootWorld.vul sizeofBodyUniforms ∧
    unifAlignment bootWorld.vul sizeofBodyUniforms < sizeofBodyUniforms + 64 :=
  have h := unifAlignment_least_multiple bootWorld.vul sizeofBodyUniforms (by decide)
    (by decide) (by decide) ⟨128, ⟨2, by decide⟩, by decide, by decide⟩
  ⟨h.1, h.2.1, h.2.2.1⟩

/-- C27 as stated fails at the ends of the range of `int`.  For
`uboSize = 2147483647` and alignment 2 the least multiple is 2147483648, which
no `int` holds: the 32-bit product is -2147483648, below `uboSize`.  For a
device alignment of 4294967552 (a `VkDeviceSize`) the `int` variable
`alignment` holds 256, and for `uboSize = 80` the result 256 is not a multiple
of the device alignment. -/
theorem unifAlignment_overflows :
    unifAlignment { bootWorld.vul with minUniformBufferOffsetAlignment := 2 } 2147483647
      = -2147483648 ∧
    ¬ (2147483647 ≤
      unifAlignment { bootWorld.vul with minUniformBufferOffsetAlignment := 2 } 2147483647) ∧
    unifAlignment { bootWorld.vul with minUniformBufferOffsetAlignment := 4294967552 } 80
      = 256 ∧
    ¬ (unifAlignment { bootWorld.vul with minUniformBufferOffsetAlignment := 4294967552 } 80
      % 4294967552 = 0) := by
  decide

/-! ## The traversals of the scene graph -/

theorem indexedFrom_append (k : Int) (a b : List Handle) :
    indexedFrom k (a ++ b) = indexedFrom k a ++ indexedFrom (k + a.length) b := by
  induction a generalizing k with
  | nil => simp [indexedFrom]
  | cons v a ih =>
    have e : k + 1 + (a.length : Int) = k + ((a.length : Int) + 1) := by omega
    show (k, v) :: indexedFrom (k + 1) (a ++ b) =
      (k, v) :: indexedFrom (k + 1) a ++ indexedFrom (k + ((v :: a).length : Int)) b
    rw [ih, e]
    simp

theorem drawCalls_append (cb ds : Handle) (a : Int) (x y : List (Int × Handle)) :
    drawCalls cb ds a (x ++ y) = drawCalls cb ds a x ++ drawCalls cb ds a y := by
  induction x with
  | nil => rfl
  | cons p x ih =>
    obtain ⟨i, v⟩ := p
    simp [drawCalls, ih]

theorem bodyRenderRecursively_body (cb ds : Handle) (a : Int) (v : Handle)
    (fc ns : bodyBody) (k : Int) (w : World) :
    bodyRenderRecursively cb ds a (bodyBody.body v fc ns) k w =
      bodyRenderRecursively.child cb ds a ns
        (bodyRenderRecursively.child cb ds a fc (k, bodyRender v cb ds a k w)) := by
  cases fc <;> cases ns <;> rw [bodyRenderRecursively] <;> rfl

theorem bodySetUniformsRecursively_body (v : Handle) (fc ns : bodyBody) (k : Int)
    (s : List (Int × Handle)) :
    bodySetUniformsRecursively (bodyBody.body v fc ns) k s =
      bodySetUniformsRecursively.child ns
        (bodySetUniformsRecursively.child fc (k, s ++ [(k, v)])) := by
  cases fc <;> cases ns <;> rw [bodySetUniformsRecursively] <;> rfl

/-- The traversal that `bodyRenderRecursively` makes of a child or sibling,
while the indices stay within the range of `int`. -/
theorem bodyRenderRecursively_child (cb ds : Handle) (a : Int) (b : bodyBody)
    (r : Int × World) (hk : INT_MIN ≤ r.1) (hn : r.1 + (b.preorder.length : Int) ≤ INT_MAX) :
    (bodyRenderRecursively.child cb ds a b r).1 = r.1 + (b.preorder.length : Int) ∧
    (bodyRenderRecursively.child cb ds a b r).2.env.trace =
      r.2.env.trace ++ drawCalls cb ds a (indexedFrom (r.1 + 1) b.preorder) ∧
    (bodyRenderRecursively.child cb ds a b r).2.swap = r.2.swap := by
  induction b generalizing r with
  | NULL => simp [bodyRenderRecursively.child, bodyBody.preorder, indexedFrom, drawCalls]
  | body v fc ns ih1 ih2 =>
    simp only [bodyBody.preorder, List.length_cons, List.length_append, Nat.cast_add,
      Nat.cast_one] at hn ⊢
    have hl1 : (0 : Int) ≤ (fc.preorder.length : Int) := Int.natCast_nonneg _
    have hl2 : (0 : Int) ≤ (ns.preorder.length : Int) := Int.natCast_nonneg _
    have hin : toInt32 (r.1 + 1) = r.1 + 1 := toInt32_of_range _ (by omega) (by omega)
    unfold bodyRenderRecursively.child
    simp only [hin, bodyRenderRecursively_body]
    obtain ⟨e1, e2, e3⟩ := ih1 (r.1 + 1, bodyRender v cb ds a (r.1 + 1) r.2)
      (by simp only; omega) (by simp only; omega)
    obtain ⟨f1, f2, f3⟩ := ih2
      (bodyRenderRecursively.child cb ds a fc (r.1 + 1, bodyRender v cb ds a (r.1 + 1) r.2))
      (by rw [e1]; simp only; omega) (by rw [e1]; simp only; omega)
    refine ⟨?_, ?_, ?_⟩
    · rw [f1, e1]
      simp only
      omega
    · rw [f2, e2, e1]
      have e : r.1 + 1 + (fc.preorder.length : Int) + 1 =
          r.1 + 1 + 1 + (fc.preorder.length : Int) := by omega
      simp [bodyRender, World.log, indexedFrom, drawCalls, indexedFrom_append,
        drawCalls_append, e]
    · rw [f3, e3]
      rfl

/-- The traversal that `bodySetUniformsRecursively` makes of a child or
sibling, while the indices stay within the range of `int`. -/
theorem bodySetUniformsRecursively_child (b : bodyBody) (r : Int × List (Int × Handle))
    (hk : INT_MIN ≤ r.1) (hn : r.1 + (b.preorder.length : Int) ≤ INT_MAX) :
    bodySetUniformsRecursively.child b r =
      (r.1 + (b.preorder.length : Int), r.2 ++ indexedFrom (r.1 + 1) b.preorder) := by
  induction b generalizing r
  case NULL => simp [bodySetUniformsRecursively.child, bodyBody.preorder, indexedFrom]
  case body v fc ns ih1 ih2 =>
    simp only [bodyBody.preorder, List.length_cons, List.length_append, Nat.cast_add,
      Nat.cast_one] at hn ⊢
    have hl1 : (0 : Int) ≤ (fc.preorder.length : Int) := Int.natCast_nonneg _
    have hl2 : (0 : Int) ≤ (ns.preorder.length : Int) := Int.natCast_nonneg _
    have hone : r.1 + 1 + (fc.preorder.length : Int) + 1 =
        r.1 + 1 + 1 + (fc.preorder.length : Int) := by omega
    have hsum : r.1 + 1 + (fc.preorder.length : Int) + (ns.preorder.length : Int) =
        r.1 + ((fc.preorder.length : Int) + (ns.preorder.length : Int) + 1) := by omega
    have hin : toInt32 (r.1 + 1) = r.1 + 1 := toInt32_of_range _ (by omega) (by omega)
    have e1 := ih1 (r.1 + 1, r.2 ++ [(r.1 + 1, v)]) (by simp only; omega)
      (by simp only; omega)
    have e2 := ih2 (r.1 + 1 + (fc.preorder.length : Int),
      r.2 ++ [(r.1 + 1, v)] ++ indexedFrom (r.1 + 1 + 1) fc.preorder)
      (by simp only; omega) (by simp only; omega)
    unfold bodySetUniformsRecursively.child
    simp only [hin, bodySetUniformsRecursively_body]
    rw [e1, e2]
    simp only [indexedFrom, indexedFrom_append, List.append_assoc, List.cons_append,
      List.nil_append, hone, hsum]

/-- C28 (amended): for every scene graph rooted at a body and every starting
index `k` such that `k + n - 1` is at most `INT_MAX`, where `n` is the number
of bodies reachable: `bodyRenderRecursively` and `bodySetUniformsRecursively`
visit the same bodies in the same depth-first order (body, then its first
child's subgraph, then its next sibling's subgraph), give them the
consecutive indices `k`, `k + 1`, ..., `k + n - 1`, and both return
`k + n - 1`; the draw call of each body uses the dynamic offset
`index * alignedSize` (as a `uint32_t`) for the index at which its uniforms
are stored. -/
theorem traversals_agree (cmdBuf descriptorSet : Handle) (alignedSize : Int)
    (vesh : Handle) (firstChild nextSibling : bodyBody) (k : Int) (w : World)
    (hk : INT_MIN ≤ k)
    (hn : k + ((bodyBody.body vesh firstChild nextSibling).preorder.length : Int) - 1
      ≤ INT_MAX) :
    (bodyRenderRecursively cmdBuf descriptorSet alignedSize
        (bodyBody.body vesh firstChild nextSibling) k w).1 =
      k + ((bodyBody.body vesh firstChild nextSibling).preorder.length : Int) - 1 ∧
    (bodyRenderRecursively cmdBuf descriptorSet alignedSize
        (bodyBody.body vesh firstChild nextSibling) k w).2.env.trace =
      w.env.trace ++ drawCalls cmdBuf descriptorSet alignedSize
        (indexedFrom k (bodyBody.body vesh firstChild nextSibling).preorder) ∧
    bodySetUniformsRecursively (bodyBody.body vesh firstChild nextSibling) k [] =
      (k + ((bodyBody.body vesh firstChild nextSibling).preorder.length : Int) - 1,
        indexedFrom k (bodyBody.body vesh firstChild nextSibling).preorder) := by
  simp only [bodyBody.preorder, List.length_cons, List.length_append, Nat.cast_add,
    Nat.cast_one] at hn ⊢
  have hl1 : (0 : Int) ≤ (firstChild.preorder.length : Int) := Int.natCast_nonneg _
  have hl2 : (0 : Int) ≤ (nextSibling.preorder.length : Int) := Int.natCast_nonneg _
  have hsum : k + (firstChild.preorder.length : Int) + (nextSibling.preorder.length : Int) =
      k + ((firstChild.preorder.length : Int) + (nextSibling.preorder.length : Int) + 1) - 1 :=
    by omega
  have hone : k + (firstChild.preorder.length : Int) + 1 =
      k + 1 + (firstChild.preorder.length : Int) := by omega
  obtain ⟨e1, e2, _⟩ := bodyRenderRecursively_child cmdBuf descriptorSet alignedSize
    firstChild (k, bodyRender vesh cmdBuf descriptorSet alignedSize k w)
    (by simp only; omega) (by simp only; omega)
  obtain ⟨f1, f2, _⟩ := bodyRenderRecursively_child cmdBuf descriptorSet alignedSize
    nextSibling (bodyRenderRecursively.child cmdBuf descriptorSet alignedSize firstChild
      (k, bodyRender vesh cmdBuf descriptorSet alignedSize k w))
    (by rw [e1]; simp only; omega) (by rw [e1]; simp only; omega)
  have g1 := bodySetUniformsRecursively_child firstChild (k, [] ++ [(k, vesh)])
    (by simp only; omega) (by simp only; omega)
  have g2 := bodySetUniformsRecursively_child nextSibling
    (k + (firstChild.preorder.length : Int),
      [] ++ [(k, vesh)] ++ indexedFrom (k + 1) firstChild.preorder)
    (by simp only; omega) (by simp only; omega)
  refine ⟨?_, ?_, ?_⟩
  · rw [bodyRenderRecursively_body, f1, e1]
    simp only
    omega
  · rw [bodyRenderRecursively_body, f2, e2, e1]
    simp [bodyRender, World.log, indexedFrom, drawCalls, indexedFrom_append,
      drawCalls_append, hone]
  · rw [bodySetUniformsRecursively_body, g1, g2]
    simp only [indexedFrom, indexedFrom_append, List.nil_append, List.cons_append,
      List.append_assoc, hsum, hone]

set_option maxRecDepth 8000 in
/-- The theorem of C28 on the scene of `main`, from index 0: eight bodies, both
traversals return 7. -/
theorem traversals_agree_witness :
    (bodyRenderRecursively 157 151 128 bootWorld.heroTorsoBody 0 bootWorld).1 = 7 ∧
    (bodyRenderRecursively 157 151 128 bootWorld.heroTorsoBody 0 bootWorld).2.env.trace =
      drawCalls 157 151 128
        [(0, 50), (1, 51), (2, 52), (3, 54), (4, 53), (5, 55), (6, 56), (7, 57)] ∧
    bodySetUniformsRecursively bootWorld.heroTorsoBody 0 [] =
      (7, [(0, 50), (1, 51), (2, 52), (3, 54), (4, 53), (5, 55), (6, 56), (7, 57)]) :=
  traversals_agree 157 151 128 50 _ _ 0 bootWorld (by decide) (by decide)

/-- C28 as stated fails at the end of the range of `int`: from the starting
index `k = 2147483647`, on a body with one child (`n = 2`), the sum `index + 1`
does not fit; with 32-bit arithmetic the child gets the index -2147483648,
which both functions return, where `k + n - 1` is 2147483648. -/
theorem traversal_index_overflows :
    (bodyRenderRecursively 157 151 128
      (bodyBody.body 50 (bodyBody.body 51 bodyBody.NULL bodyBody.NULL) bodyBody.NULL)
      2147483647 bootWorld).1 = -2147483648 ∧
    bodySetUniformsRecursively
      (bodyBody.body 50 (bodyBody.body 51 bodyBody.NULL bodyBody.NULL) bodyBody.NULL)
      2147483647 [] = (-2147483648, [(2147483647, 50), (-2147483648, 51)]) := by
  decide

/-! ## The wait for a non-zero framebuffer size -/

theorem calm_finalizeConnection (w : World) : Calm w (finalizeConnection w) := by
  have e := hide_finalizeConnection w.hidden w.fresh
  rw [hide_fresh] at e
  rw [e]
  exact calm_hide _ _ _ rfl rfl rfl

theorem calm_swapFinalize (K : Nat) (w : World) : Calm w (swapFinalize K w) := by
  have e := hide_swapFinalize K w.hidden w.fresh
  rw [hide_fresh] at e
  rw [e]
  exact calm_hide _ _ _ rfl rfl rfl

theorem calm_initializeConnection (d : Driver) (w : World) :
    Calm w (initializeConnection d w).2 := by
  have e := hide_initializeConnection d w.hidden w.fresh
  rw [hide_fresh] at e
  rw [e]
  exact calm_hide _ _ _ rfl rfl rfl

/-- The rebuild proper starts with `vkDeviceWaitIdle`; what follows has no step
of the presentation cycle. -/
theorem rebuild_trace (K : Nat) (d : Driver) (w : World) :
    ∃ rest, (reinitializeSwapChain.rebuild K d w).2.env.trace =
        w.env.trace ++ Call.vkDeviceWaitIdle :: rest ∧ frameSteps rest = [] := by
  have c2 := calm_finalizeConnection (w.log Call.vkDeviceWaitIdle)
  have c3 := calm_swapFinalize K (finalizeConnection (w.log Call.vkDeviceWaitIdle))
  have c4 := (swapInitialize_facts K d
    (swapFinalize K (finalizeConnection (w.log Call.vkDeviceWaitIdle)))).1
  have c5 := calm_initializeConnection d (swapInitialize K d
    (swapFinalize K (finalizeConnection (w.log Call.vkDeviceWaitIdle)))).2
  have c6 := calm_swapFinalize K (initializeConnection d (swapInitialize K d
    (swapFinalize K (finalizeConnection (w.log Call.vkDeviceWaitIdle)))).2).2
  have key : Calm (w.log Call.vkDeviceWaitIdle) (reinitializeSwapChain.rebuild K d w).2 := by
    unfold reinitializeSwapChain.rebuild
    dsimp only
    split
    · exact (c2.trans c3).trans c4
    · split
      · exact ((((c2.trans c3).trans c4).trans c5).trans c6)
      · exact (((c2.trans c3).trans c4).trans c5)
  obtain ⟨post, e, q⟩ := key.trace
  exact ⟨post, by rw [e]; simp [World.log], q⟩

/-- The wait loop, when it is left after `m` iterations: the calls it makes. -/
theorem wait_steps (d : Driver) (m fuel : Nat) (width height : Int) (w : World)
    (hm : m ≤ fuel)
    (h0 : m = 0 → ¬ zeroSize (width, height))
    (h1 : 0 < m → zeroSize (width, height))
    (hz : ∀ i, i + 1 < m → zeroSize (d.framebufferSize (w.env.nFramebufferSize + i)))
    (hl : 0 < m → ¬ zeroSize (d.framebufferSize (w.env.nFramebufferSize + (m - 1)))) :
    (reinitializeSwapChain.wait d fuel width height w).1 = true ∧
    (reinitializeSwapChain.wait d fuel width height w).2.env.trace =
      w.env.trace ++
        reinitializeSwapChain.waitSteps d m w.env.nFramebufferSize w.env.nWaitEvents ∧
    (reinitializeSwapChain.wait d fuel width height w).2.swap = w.swap ∧
    (reinitializeSwapChain.wait d fuel width height w).2.conn = w.conn := by
  induction m generalizing fuel width height w
  case zero =>
    have hnz := h0 rfl
    unfold zeroSize at hnz
    simp only at hnz
    have e := (wait_facts d fuel width height w).2.2.2
      ⟨fun h => hnz (Or.inl h), fun h => hnz (Or.inr h)⟩
    rw [e]
    simp [reinitializeSwapChain.waitSteps]
  case succ m ih =>
    have hzero := h1 (Nat.succ_pos m)
    unfold zeroSize at hzero
    simp only at hzero
    obtain ⟨fuel, rfl⟩ : ∃ f, fuel = f + 1 := ⟨fuel - 1, by omega⟩
    rw [reinitializeSwapChain.wait, if_pos hzero]
    have hw1n : (glfwWaitEvents d (glfwGetFramebufferSize d w).2).env.nFramebufferSize =
        w.env.nFramebufferSize + 1 := by
      unfold glfwWaitEvents glfwGetFramebufferSize guiResizingCallback
      dsimp only
      split <;> rfl
    have hw1w : (glfwWaitEvents d (glfwGetFramebufferSize d w).2).env.nWaitEvents =
        w.env.nWaitEvents + 1 := by
      unfold glfwWaitEvents glfwGetFramebufferSize guiResizingCallback
      dsimp only
      split <;> rfl
    have hw1t : (glfwWaitEvents d (glfwGetFramebufferSize d w).2).env.trace =
        w.env.trace ++
          ([Call.glfwGetFramebufferSize (d.framebufferSize w.env.nFramebufferSize).1
              (d.framebufferSize w.env.nFramebufferSize).2,
            Call.glfwWaitEvents] ++
          (if d.resizeOnWait w.env.nWaitEvents then [Call.guiResizingCallback] else [])) := by
      unfold glfwWaitEvents glfwGetFramebufferSize guiResizingCallback
      dsimp only
      split <;> simp [World.log]
    have hw1s : (glfwWaitEvents d (glfwGetFramebufferSize d w).2).swap = w.swap := by
      unfold glfwWaitEvents glfwGetFramebufferSize guiResizingCallback
      dsimp only
      split <;> rfl
    have hw1c : (glfwWaitEvents d (glfwGetFramebufferSize d w).2).conn = w.conn := by
      unfold glfwWaitEvents glfwGetFramebufferSize guiResizingCallback
      dsimp only
      split <;> rfl
    have hread : (glfwGetFramebufferSize d w).1 = d.framebufferSize w.env.nFramebufferSize :=
      rfl
    obtain ⟨e1, e2, e3, e4⟩ := ih fuel (glfwGetFramebufferSize d w).1.1
      (glfwGetFramebufferSize d w).1.2 (glfwWaitEvents d (glfwGetFramebufferSize d w).2)
      (by omega)
      (by
        intro hm0
        subst hm0
        have := hl (Nat.succ_pos 0)
        simpa [hread] using this)
      (by
        intro hpos
        have := hz 0 (by omega)
        simpa [hread] using this)
      (by
        intro i hi
        rw [hw1n]
        have := hz (i + 1) (by omega)
        rw [show w.env.nFramebufferSize + 1 + i = w.env.nFramebufferSize + (i + 1) by omega]
        exact this)
      (by
        intro hpos
        rw [hw1n]
        have := hl (Nat.succ_pos m)
        rw [show w.env.nFramebufferSize + 1 + (m - 1) = w.env.nFramebufferSize + (m + 1 - 1)
          by omega]
        exact this)
    refine ⟨e1, ?_, by rw [e3, hw1s], by rw [e4, hw1c]⟩
    rw [e2, hw1t, hw1n, hw1w]
    simp [reinitializeSwapChain.waitSteps]

/-- The wait loop, while every size it reads is zero: after `fuel` iterations
it has only read sizes and waited for events. -/
theorem wait_stalls (d : Driver) (fuel : Nat) (width height : Int) (w : World)
    (h1 : zeroSize (width, height))
    (hz : ∀ i, i < fuel → zeroSize (d.framebufferSize (w.env.nFramebufferSize + i))) :
    (reinitializeSwapChain.wait d fuel width height w).1 = false ∧
    (reinitializeSwapChain.wait d fuel width height w).2.env.trace =
      w.env.trace ++
        reinitializeSwapChain.waitSteps d fuel w.env.nFramebufferSize w.env.nWaitEvents ∧
    (reinitializeSwapChain.wait d fuel width height w).2.swap = w.swap ∧
    (reinitializeSwapChain.wait d fuel width height w).2.conn = w.conn := by
  induction fuel generalizing width height w
  case zero =>
    unfold zeroSize at h1
    simp only at h1
    simp [reinitializeSwapChain.wait, reinitializeSwapChain.waitSteps, h1]
  case succ fuel ih =>
    have hzero := h1
    unfold zeroSize at hzero
    simp only at hzero
    rw [reinitializeSwapChain.wait, if_pos hzero]
    have hw1n : (glfwWaitEvents d (glfwGetFramebufferSize d w).2).env.nFramebufferSize =
        w.env.nFramebufferSize + 1 := by
      unfold glfwWaitEvents glfwGetFramebufferSize guiResizingCallback
      dsimp only
      split <;> rfl
    have hw1w : (glfwWaitEvents d (glfwGetFramebufferSize d w).2).env.nWaitEvents =
        w.env.nWaitEvents + 1 := by
      unfold glfwWaitEvents glfwGetFramebufferSize guiResizingCallback
      dsimp only
      split <;> rfl
    have hw1t : (glfwWaitEvents d (glfwGetFramebufferSize d w).2).env.trace =
        w.env.trace ++
          ([Call.glfwGetFramebufferSize (d.framebufferSize w.env.nFramebufferSize).1
              (d.framebufferSize w.env.nFramebufferSize).2,
            Call.glfwWaitEvents] ++
          (if d.resizeOnWait w.env.nWaitEvents then [Call.guiResizingCallback] else [])) := by
      unfold glfwWaitEvents glfwGetFramebufferSize guiResizingCallback
      dsimp only
      split <;> simp [World.log]
    have hw1s : (glfwWaitEvents d (glfwGetFramebufferSize d w).2).swap = w.swap := by
      unfold glfwWaitEvents glfwGetFramebufferSize guiResizingCallback
      dsimp only
      split <;> rfl
    have hw1c : (glfwWaitEvents d (glfwGetFramebufferSize d w).2).conn = w.conn := by
      unfold glfwWaitEvents glfwGetFramebufferSize guiResizingCallback
      dsimp only
      split <;> rfl
    have hread : (glfwGetFramebufferSize d w).1 = d.framebufferSize w.env.nFramebufferSize :=
      rfl
    obtain ⟨e1, e2, e3, e4⟩ := ih (glfwGetFramebufferSize d w).1.1
      (glfwGetFramebufferSize d w).1.2 (glfwWaitEvents d (glfwGetFramebufferSize d w).2)
      (by
        have := hz 0 (by omega)
        simpa [hread] using this)
      (by
        intro i hi
        rw [hw1n]
        have := hz (i + 1) (by omega)
        rw [show w.env.nFramebufferSize + 1 + i = w.env.nFramebufferSize + (i + 1) by omega]
        exact this)
    refine ⟨e1, ?_, by rw [e3, hw1s], by rw [e4, hw1c]⟩
    rw [e2, hw1t, hw1n, hw1w]
    simp [reinitializeSwapChain.waitSteps]

/-- C26: `reinitializeSwapChain` reads the framebuffer size once and then, as
long as the size it has read last is zero in width or height, reads it again
and blocks in `glfwWaitEvents` once, per iteration of its loop.  If the first
`m` reads are zero and the next one is not (with `m <= fuel`), the function
returns, and its calls up to the device wait are exactly: the first read, `m`
iterations of read and event wait (none when `m = 0`), then
`vkDeviceWaitIdle`, after which the reconstruction follows.  If all the
`fuel + 1` reads are zero, the function has made only these reads and `fuel`
event waits: it has not returned (so it reports no error), it has made no
device wait, and it has destroyed and constructed nothing (the swap chain and
the connection are untouched). -/
theorem reinitializeSwapChain_waits (K : Nat) (d : Driver) (fuel : Nat) (w : World) :
    (∀ m, m ≤ fuel →
      (∀ i, i < m → zeroSize (d.framebufferSize (w.env.nFramebufferSize + i))) →
      ¬ zeroSize (d.framebufferSize (w.env.nFramebufferSize + m)) →
      (reinitializeSwapChain K d fuel w).1 ≠ none ∧
      ∃ rest, (reinitializeSwapChain K d fuel w).2.env.trace =
        w.env.trace ++
          [Call.enter Fn.reinitializeSwapChain,
           Call.glfwGetFramebufferSize (d.framebufferSize w.env.nFramebufferSize).1
             (d.framebufferSize w.env.nFramebufferSize).2] ++
          reinitializeSwapChain.waitSteps d m (w.env.nFramebufferSize + 1)
            w.env.nWaitEvents ++
          Call.vkDeviceWaitIdle :: rest) ∧
    ((∀ i, i ≤ fuel → zeroSize (d.framebufferSize (w.env.nFramebufferSize + i))) →
      (reinitializeSwapChain K d fuel w).1 = none ∧
      (reinitializeSwapChain K d fuel w).2.env.trace =
        w.env.trace ++
          [Call.enter Fn.reinitializeSwapChain,
           Call.glfwGetFramebufferSize (d.framebufferSize w.env.nFramebufferSize).1
             (d.framebufferSize w.env.nFramebufferSize).2] ++
          reinitializeSwapChain.waitSteps d fuel (w.env.nFramebufferSize + 1)
            w.env.nWaitEvents ∧
      (reinitializeSwapChain K d fuel w).2.swap = w.swap ∧
      (reinitializeSwapChain K d fuel w).2.conn = w.conn) := by
  have hread : (glfwGetFramebufferSize d (enter Fn.reinitializeSwapChain w)).1 =
      d.framebufferSize w.env.nFramebufferSize := rfl
  have hn : (glfwGetFramebufferSize d (enter Fn.reinitializeSwapChain w)).2.env.nFramebufferSize
      = w.env.nFramebufferSize + 1 := rfl
  have hnw : (glfwGetFramebufferSize d (enter Fn.reinitializeSwapChain w)).2.env.nWaitEvents
      = w.env.nWaitEvents := rfl
  have ht : (glfwGetFramebufferSize d (enter Fn.reinitializeSwapChain w)).2.env.trace =
      w.env.trace ++
        [Call.enter Fn.reinitializeSwapChain,
         Call.glfwGetFramebufferSize (d.framebufferSize w.env.nFramebufferSize).1
           (d.framebufferSize w.env.nFramebufferSize).2] := by
    simp [glfwGetFramebufferSize, enter, World.log]
  refine ⟨fun m hm hz hl => ?_, fun hz => ?_⟩
  · obtain ⟨e1, e2, _, _⟩ := wait_steps d m fuel
      (glfwGetFramebufferSize d (enter Fn.reinitializeSwapChain w)).1.1
      (glfwGetFramebufferSize d (enter Fn.reinitializeSwapChain w)).1.2
      (glfwGetFramebufferSize d (enter Fn.reinitializeSwapChain w)).2 hm
      (by
        intro hm0
        subst hm0
        simpa [hread] using hl)
      (by
        intro hpos
        have := hz 0 hpos
        simpa [hread] using this)
      (by
        intro i hi
        rw [hn]
        have := hz (i + 1) (by omega)
        rw [show w.env.nFramebufferSize + 1 + i = w.env.nFramebufferSize + (i + 1) by omega]
        exact this)
      (by
        intro hpos
        rw [hn]
        rw [show w.env.nFramebufferSize + 1 + (m - 1) = w.env.nFramebufferSize + m by omega]
        exact hl)
    obtain ⟨rest, r1, _⟩ := rebuild_trace K d
      (reinitializeSwapChain.wait d fuel
        (glfwGetFramebufferSize d (enter Fn.reinitializeSwapChain w)).1.1
        (glfwGetFramebufferSize d (enter Fn.reinitializeSwapChain w)).1.2
        (glfwGetFramebufferSize d (enter Fn.reinitializeSwapChain w)).2).2
    unfold reinitializeSwapChain
    dsimp only
    rw [e1]
    simp only [Bool.true_eq_false, if_false]
    refine ⟨by simp, rest, ?_⟩
    rw [r1, e2, ht, hn, hnw]
  · obtain ⟨e1, e2, e3, e4⟩ := wait_stalls d fuel
      (glfwGetFramebufferSize d (enter Fn.reinitializeSwapChain w)).1.1
      (glfwGetFramebufferSize d (enter Fn.reinitializeSwapChain w)).1.2
      (glfwGetFramebufferSize d (enter Fn.reinitializeSwapChain w)).2
      (by
        have := hz 0 (Nat.zero_le _)
        simpa [hread] using this)
      (by
        intro i hi
        rw [hn]
        have := hz (i + 1) (by omega)
        rw [show w.env.nFramebufferSize + 1 + i = w.env.nFramebufferSize + (i + 1) by omega]
        exact this)
    unfold reinitializeSwapChain
    dsimp only
    rw [e1]
    simp only [if_true]
    refine ⟨trivial, ?_, ?_, ?_⟩
    · rw [e2, ht, hn, hnw]
    · rw [e3]
      rfl
    · rw [e4]
      rfl

set_option maxRecDepth 8000 in
/-- The theorem of C26 on a minimised window (`minimizedDriver` from
`readyWorld`): the first two reads give 0 x 0, the third 800 x 600.  The
function returns after two iterations of its loop, the first of whose event
waits delivers the resize event. -/
theorem reinitializeSwapChain_waits_witness :
    (reinitializeSwapChain MAXFRAMESINFLIGHT minimizedDriver 5 readyWorld).1 ≠ none ∧
    ∃ rest,
      (reinitializeSwapChain MAXFRAMESINFLIGHT minimizedDriver 5 readyWorld).2.env.trace =
        [Call.enter Fn.reinitializeSwapChain, Call.glfwGetFramebufferSize 0 0,
         Call.glfwGetFramebufferSize 0 0, Call.glfwWaitEvents, Call.guiResizingCallback,
         Call.glfwGetFramebufferSize 800 600, Call.glfwWaitEvents,
         Call.vkDeviceWaitIdle] ++ rest := by
  have h := (reinitializeSwapChain_waits MAXFRAMESINFLIGHT minimizedDriver 5 readyWorld).1 2
    (by decide) (by decide) (by decide)
  obtain ⟨h1, rest, h2⟩ := h
  exact ⟨h1, rest, h2⟩

/-! ## The ring bound -/

theorem outstanding_append (a b : List Call) :
    outstanding (a ++ b) = b.foldl outstanding.step (outstanding a) := by
  simp [outstanding, List.foldl_append]

theorem outstanding_snoc (a : List Call) (c : Call) :
    outstanding (a ++ [c]) = outstanding.step (outstanding a) c := by
  simp [outstanding_append]

theorem step_sublist (s : List Handle) (c : Call) (h : c.frameFence = none) :
    (outstanding.step s c).Sublist s := by
  cases c <;> simp [outstanding.step, Call.frameFence] at h ⊢
  case vkQueueSubmit info fence result => simp [h]

theorem frameFence_of_quiet (c : Call) (h : c.isFrameStep = false) : c.frameFence = none := by
  cases c <;> simp [Call.frameFence, Call.isFrameStep] at h ⊢
  case vkQueueSubmit info fence result => exact h

theorem quiet_mem (seg : List Call) (h : frameSteps seg = []) :
    ∀ c ∈ seg, c.frameFence = none := by
  intro c hc
  apply frameFence_of_quiet
  unfold frameSteps at h
  rw [List.filter_eq_nil_iff] at h
  simpa using h c hc

theorem settle_sublist (seg : List Call) (s : List Handle)
    (h : ∀ c ∈ seg, c.frameFence = none) : (seg.foldl outstanding.step s).Sublist s := by
  induction seg generalizing s
  case nil => simp
  case cons c seg ih =>
    simp only [List.foldl_cons]
    exact (ih _ (fun x hx => h x (List.mem_cons_of_mem _ hx))).trans
      (step_sublist s c (h c (List.mem_cons_self _ _)))

theorem outstanding_quiet_sublist (tr seg : List Call)
    (h : ∀ c ∈ seg, c.frameFence = none) :
    (outstanding (tr ++ seg)).Sublist (outstanding tr) := by
  rw [outstanding_append]
  exact settle_sublist seg _ h

theorem not_mem_after_wait (tr seg : List Call) (F : Handle)
    (h : ∀ c ∈ seg, c.frameFence = none) :
    F ∉ outstanding (tr ++ Call.vkWaitForFences F :: seg) := by
  have e : tr ++ Call.vkWaitForFences F :: seg = (tr ++ [Call.vkWaitForFences F]) ++ seg := by
    simp
  rw [e]
  intro hmem
  have h2 := (outstanding_quiet_sublist (tr ++ [Call.vkWaitForFences F]) seg h).subset hmem
  rw [outstanding_snoc] at h2
  simp [outstanding.step] at h2

theorem outstanding_idle (tr pre rest : List Call)
    (h : ∀ c ∈ rest, c.frameFence = none) :
    outstanding (tr ++ (pre ++ Call.vkDeviceWaitIdle :: rest)) = [] := by
  have e : tr ++ (pre ++ Call.vkDeviceWaitIdle :: rest) =
      ((tr ++ pre) ++ [Call.vkDeviceWaitIdle]) ++ rest := by simp
  rw [e]
  have h2 := outstanding_quiet_sublist ((tr ++ pre) ++ [Call.vkDeviceWaitIdle]) rest h
  rw [outstanding_snoc] at h2
  simpa [outstanding.step] using h2

theorem ringBounded_snoc_quiet (K : Nat) (R : List Handle) (tr : List Call) (c : Call)
    (hg : RingBounded K R tr) (h : c.frameFence = none) : RingBounded K R (tr ++ [c]) := by
  obtain ⟨g1, g2, g3⟩ := hg
  have hs : (outstanding (tr ++ [c])).Sublist (outstanding tr) := by
    rw [outstanding_snoc]
    exact step_sublist _ c h
  refine ⟨fun p hp => ?_, hs.nodup g2, fun f hf => g3 f (hs.subset hf)⟩
  rcases List.prefix_concat_iff.mp hp with e | hp'
  · rw [e]
    exact le_trans hs.length_le (g1 tr (List.prefix_refl _))
  · exact g1 p hp'

theorem ringBounded_append_quiet (K : Nat) (R : List Handle) (tr seg : List Call)
    (hg : RingBounded K R tr) (h : ∀ c ∈ seg, c.frameFence = none) :
    RingBounded K R (tr ++ seg) := by
  induction seg generalizing tr
  case nil => simpa using hg
  case cons c seg ih =>
    have e : tr ++ c :: seg = (tr ++ [c]) ++ seg := by simp
    rw [e]
    exact ih _ (ringBounded_snoc_quiet K R tr c hg (h c (List.mem_cons_self _ _)))
      (fun x hx => h x (List.mem_cons_of_mem _ hx))

theorem ringBounded_snoc_submit (K : Nat) (R : List Handle) (tr : List Call)
    (info : VkSubmitInfo) (F : Handle) (result : VkResult)
    (hg : RingBounded K R tr) (hR : R.length = K) (hF : F ∈ R) (hn : F ∉ outstanding tr) :
    RingBounded K R (tr ++ [Call.vkQueueSubmit info F result]) := by
  obtain ⟨g1, g2, g3⟩ := hg
  have hsub : ∀ f ∈ outstanding (tr ++ [Call.vkQueueSubmit info F result]), f ∈ R := by
    intro f hf
    rw [outstanding_snoc] at hf
    simp only [outstanding.step] at hf
    split at hf
    · rcases List.mem_append.mp hf with h | h
      · exact g3 f h
      · simp at h
        rw [h]
        exact hF
    · exact g3 f hf
  have hnd : (outstanding (tr ++ [Call.vkQueueSubmit info F result])).Nodup := by
    rw [outstanding_snoc]
    simp only [outstanding.step]
    split
    · rw [List.nodup_append]
      refine ⟨g2, by simp, ?_⟩
      intro a ha hb
      simp at hb
      rw [hb] at ha
      exact hn ha
    · exact g2
  refine ⟨fun p hp => ?_, hnd, hsub⟩
  rcases List.prefix_concat_iff.mp hp with e | hp'
  · rw [e, ← hR]
    exact (List.Nodup.subperm hnd hsub).length_le
  · exact g1 p hp'

theorem ringBounded_reset (K : Nat) (R R' : List Handle) (tr : List Call)
    (hg : RingBounded K R tr) (h : outstanding tr = []) : RingBounded K R' tr := by
  refine ⟨hg.1, hg.2.1, ?_⟩
  rw [h]
  simp

/-- A rebuild that returns has waited for the device: its calls are the entry
mark, calls that are no steps of the presentation cycle, `vkDeviceWaitIdle`,
and again calls that are no steps of the presentation cycle. -/
theorem reinit_trace_idle (K : Nat) (d : Driver) (fuel : Nat) (w : World)
    (h : (reinitializeSwapChain K d fuel w).1 ≠ none) :
    ∃ pre rest, (reinitializeSwapChain K d fuel w).2.env.trace =
        w.env.trace ++ Call.enter Fn.reinitializeSwapChain ::
          (pre ++ Call.vkDeviceWaitIdle :: rest) ∧
      frameSteps pre = [] ∧ frameSteps rest = [] := by
  obtain ⟨c1, _⟩ := glfwGetFramebufferSize_facts d (enter Fn.reinitializeSwapChain w)
  obtain ⟨c2, _⟩ := wait_facts d fuel
    (glfwGetFramebufferSize d (enter Fn.reinitializeSwapChain w)).1.1
    (glfwGetFramebufferSize d (enter Fn.reinitializeSwapChain w)).1.2
    (glfwGetFramebufferSize d (enter Fn.reinitializeSwapChain w)).2
  obtain ⟨pre, e1, q1⟩ := (c1.trans c2).trace
  obtain ⟨rest, e2, q2⟩ := rebuild_trace K d
    (reinitializeSwapChain.wait d fuel
      (glfwGetFramebufferSize d (enter Fn.reinitializeSwapChain w)).1.1
      (glfwGetFramebufferSize d (enter Fn.reinitializeSwapChain w)).1.2
      (glfwGetFramebufferSize d (enter Fn.reinitializeSwapChain w)).2).2
  unfold reinitializeSwapChain at h ⊢
  dsimp only at h ⊢
  split at h
  · exact absurd rfl h
  · rename_i hl
    rw [if_neg hl]
    refine ⟨pre, rest, ?_, q1, q2⟩
    dsimp only
    rw [e2, e1]
    simp [enter, World.log]

theorem mem_ringFences (K : Nat) (s : swapChain) (h : s.curFrame < K) :
    s.inFlightFences.getD s.curFrame 0 ∈ ringFences K s := by
  unfold ringFences
  exact List.mem_map.mpr ⟨s.curFrame, List.mem_range.mpr h, rfl⟩

theorem ringFences_length (K : Nat) (s : swapChain) : (ringFences K s).length = K := by
  simp [ringFences]

/-- What a rebuild inside `presentFrame` does to the invariant of the ring
bound. -/
theorem ringBounded_reinit (K : Nat) (d : Driver) (fuel : Nat) (R : List Handle)
    (w : World) (hg : RingBounded K R w.env.trace) :
    RingBounded K R (reinitializeSwapChain K d fuel w).2.env.trace ∧
    ((reinitializeSwapChain K d fuel w).1 ≠ none →
      outstanding (reinitializeSwapChain K d fuel w).2.env.trace = []) := by
  obtain ⟨post, e, q⟩ := reinit_trace K d fuel w
  refine ⟨?_, fun h => ?_⟩
  · rw [e]
    apply ringBounded_append_quiet K R _ _ hg
    intro c hc
    rcases List.mem_cons.mp hc with h1 | h1
    · rw [h1]
      rfl
    · exact quiet_mem post q c h1
  · obtain ⟨pre, rest, e2, _, q2⟩ := reinit_trace_idle K d fuel w h
    rw [e2]
    have e3 : w.env.trace ++ Call.enter Fn.reinitializeSwapChain ::
        (pre ++ Call.vkDeviceWaitIdle :: rest) =
        w.env.trace ++ ((Call.enter Fn.reinitializeSwapChain :: pre) ++
          Call.vkDeviceWaitIdle :: rest) := by simp
    rw [e3]
    exact outstanding_idle _ _ _ (quiet_mem rest q2)

/-- The invariant of the ring bound up to the queue submission of
`presentFrame`. -/
theorem ringBounded_submitted (K : Nat) (d : Driver) (w : World)
    (hg : RingBounded K (ringFences K w.swap) w.env.trace) (hc : w.swap.curFrame < K) :
    RingBounded K (ringFences K w.swap) (presentFrame.acquired d w).env.trace ∧
    RingBounded K (ringFences K w.swap) (presentFrame.submitted d w).env.trace ∧
    RingBounded K (ringFences K w.swap) (presentFrame.presented d w).env.trace := by
  have hA : ∀ c ∈ presentFrame.acquireSteps d w, c.frameFence = none := by
    intro c hc
    simp [presentFrame.acquireSteps] at hc
    rcases hc with h | h | h <;> rw [h] <;> rfl
  have g1 : RingBounded K (ringFences K w.swap) (presentFrame.acquired d w).env.trace :=
    ringBounded_append_quiet K _ _ _ hg hA
  -- the calls between the acquisition and the submission
  have hsplit : ∃ mid info result, presentFrame.submitSteps d w =
      mid ++ [Call.vkQueueSubmit info (w.swap.inFlightFences.getD w.swap.curFrame 0) result] ∧
      ∀ c ∈ mid, c.frameFence = none := by
    refine ⟨(if (presentFrame.imagesInFlight d w).read (d.acquireNextImage w.env.nAcquire).2
          ≠ VK_NULL_HANDLE then
        [Call.vkWaitForFences
          ((presentFrame.imagesInFlight d w).read (d.acquireNextImage w.env.nAcquire).2)]
      else []) ++
      [Call.vkMapMemory
         (w.conn.sceneUniformBuffersMemory.read (d.acquireNextImage w.env.nAcquire).2),
       Call.vkUnmapMemory
         (w.conn.sceneUniformBuffersMemory.read (d.acquireNextImage w.env.nAcquire).2),
       Call.vkMapMemory
         (w.conn.bodyUniformBuffersMemory.read (d.acquireNextImage w.env.nAcquire).2),
       Call.vkUnmapMemory
         (w.conn.bodyUniformBuffersMemory.read (d.acquireNextImage w.env.nAcquire).2),
       Call.vkResetFences (w.swap.inFlightFences.getD w.swap.curFrame 0)],
      { waitSemaphores := [w.swap.imageAvailSems.getD w.swap.curFrame 0],
        waitDstStageMask := [VK_PIPELINE_STAGE_COLOR_ATTACHMENT_OUTPUT_BIT],
        commandBuffers :=
          [w.conn.connCommandBuffers.read (d.acquireNextImage w.env.nAcquire).2],
        signalSemaphores := [w.swap.renderDoneSems.getD w.swap.curFrame 0] },
      d.queueSubmit w.env.nSubmit, ?_, ?_⟩
    · simp [presentFrame.submitSteps]
    · intro c hc
      rcases List.mem_append.mp hc with h | h
      · split at h
        · simp at h
          rw [h]
          rfl
        · simp at h
      · simp at h
        rcases h with h | h | h | h | h <;> rw [h] <;> rfl
  obtain ⟨mid, info, result, es, hmid⟩ := hsplit
  have et : (presentFrame.submitted d w).env.trace =
      (w.env.trace ++ (presentFrame.acquireSteps d w ++ mid)) ++
        [Call.vkQueueSubmit info (w.swap.inFlightFences.getD w.swap.curFrame 0) result] := by
    simp [presentFrame.submitted, es]
  have hquiet : ∀ c ∈ presentFrame.acquireSteps d w ++ mid, c.frameFence = none := by
    intro c hc
    rcases List.mem_append.mp hc with h | h
    · exact hA c h
    · exact hmid c h
  have g2a : RingBounded K (ringFences K w.swap)
      (w.env.trace ++ (presentFrame.acquireSteps d w ++ mid)) :=
    ringBounded_append_quiet K _ _ _ hg hquiet
  have hnot : w.swap.inFlightFences.getD w.swap.curFrame 0 ∉
      outstanding (w.env.trace ++ (presentFrame.acquireSteps d w ++ mid)) := by
    have e : w.env.trace ++ (presentFrame.acquireSteps d w ++ mid) =
        (w.env.trace ++ [Call.enter Fn.presentFrame]) ++
          Call.vkWaitForFences (w.swap.inFlightFences.getD w.swap.curFrame 0) ::
            ([Call.vkAcquireNextImageKHR w.swap.swapChain
              (w.swap.imageAvailSems.getD w.swap.curFrame 0)
              (d.acquireNextImage w.env.nAcquire).1 (d.acquireNextImage w.env.nAcquire).2]
              ++ mid) := by
      simp [presentFrame.acquireSteps]
    rw [e]
    apply not_mem_after_wait
    intro c hc
    rcases List.mem_append.mp hc with h | h
    · simp at h
      rw [h]
      rfl
    · exact hmid c h
  have g2 : RingBounded K (ringFences K w.swap) (presentFrame.submitted d w).env.trace := by
    rw [et]
    exact ringBounded_snoc_submit K _ _ info _ result g2a (ringFences_length K w.swap)
      (mem_ringFences K w.swap hc) hnot
  refine ⟨g1, g2, ?_⟩
  have ep : (presentFrame.presented d w).env.trace =
      (presentFrame.submitted d w).env.trace ++ [presentFrame.presentStep d w] := rfl
  rw [ep]
  exact ringBounded_snoc_quiet K _ _ _ g2 rfl

/-- One call of `presentFrame` keeps the invariant of the ring bound. -/
theorem ringBounded_presentFrame (K : Nat) (d : Driver) (fuel : Nat) (w : World)
    (hg : RingBounded K (ringFences K w.swap) w.env.trace) (hc : w.swap.curFrame < K) :
    (∀ p, p <+: (presentFrame K d fuel w).2.env.trace → (outstanding p).length ≤ K) ∧
    ((presentFrame K d fuel w).1 ≠ none →
      RingBounded K (ringFences K (presentFrame K d fuel w).2.swap)
        (presentFrame K d fuel w).2.env.trace) := by
  obtain ⟨g1, g2, g3⟩ := ringBounded_submitted K d w hg hc
  by_cases h1 : (d.acquireNextImage w.env.nAcquire).1 = VkResult.VK_ERROR_OUT_OF_DATE_KHR
  · obtain ⟨r1, r2⟩ := ringBounded_reinit K d fuel (ringFences K w.swap)
      (presentFrame.acquired d w) g1
    rw [presentFrame_outOfDate K d fuel w h1]
    rcases hr : (reinitializeSwapChain K d fuel (presentFrame.acquired d w)).1 with _ | e
    · exact ⟨r1.1, fun h => absurd rfl h⟩
    · refine ⟨r1.1, fun _ => ?_⟩
      exact ringBounded_reset K _ _ _ r1 (r2 (by rw [hr]; simp))
  · by_cases h2 : (d.acquireNextImage w.env.nAcquire).1 ≠ VkResult.VK_SUCCESS ∧
        (d.acquireNextImage w.env.nAcquire).1 ≠ VkResult.VK_SUBOPTIMAL_KHR
    · rw [presentFrame_acquireError K d fuel w h1 h2]
      exact ⟨g1.1, fun _ => g1⟩
    · by_cases h3 : d.queueSubmit w.env.nSubmit = VkResult.VK_SUCCESS
      · by_cases h4 : presentFrame.rebuilds d w
        · obtain ⟨r1, r2⟩ := ringBounded_reinit K d fuel (ringFences K w.swap)
            (guiSetFramebufferResized (presentFrame.presented d w) 0) g3
          rw [presentFrame_rebuild K d fuel w h1 h2 h3 h4]
          rcases hr : (reinitializeSwapChain K d fuel
              (guiSetFramebufferResized (presentFrame.presented d w) 0)).1 with _ | e
          · exact ⟨r1.1, fun h => absurd rfl h⟩
          · have hz := r2 (by rw [hr]; simp)
            simp only
            split
            · exact ⟨r1.1, fun _ => ringBounded_reset K _ _ _ r1 hz⟩
            · exact ⟨r1.1, fun _ => ringBounded_reset K _ _ _ r1 hz⟩
        · by_cases h5 : d.queuePresent w.env.nPresent = VkResult.VK_SUCCESS
          · rw [presentFrame_presented K d fuel w h1 h2 h3 h4 h5]
            exact ⟨g3.1, fun _ => g3⟩
          · rw [presentFrame_presentError K d fuel w h1 h2 h3 h4 h5]
            exact ⟨g3.1, fun _ => g3⟩
      · rw [presentFrame_submitError K d fuel w h1 h2 h3]
        exact ⟨g2.1, fun _ => g2⟩

theorem ringBounded_presentFrames (K : Nat) (d : Driver) (fuel n : Nat) (w : World)
    (hg : RingBounded K (ringFences K w.swap) w.env.trace) (hc : w.swap.curFrame < K) :
    ∀ p, p <+: (presentFrames K d fuel n w).2.env.trace → (outstanding p).length ≤ K := by
  induction n generalizing w
  case zero => exact hg.1
  case succ n ih =>
    obtain ⟨b1, b2⟩ := ringBounded_presentFrame K d fuel w hg hc
    rcases hr : (presentFrame K d fuel w).1 with _ | code
    · rw [presentFrames_stuck K d fuel n w hr]
      exact b1
    · rw [presentFrames_succ K d fuel n w code hr]
      exact ih _ (b2 (by rw [hr]; simp)) (presentFrame_curFrame_lt K d fuel w hc)

theorem submitSteps_fence (d : Driver) (w : World) :
    ∀ c ∈ presentFrame.submitSteps d w, ∀ f, c.frameFence = some f →
      f = w.swap.inFlightFences.getD w.swap.curFrame 0 := by
  intro c hc f hf
  unfold presentFrame.submitSteps at hc
  rcases List.mem_append.mp hc with h | h
  · split at h
    · simp at h
      rw [h] at hf
      cases hf
    · simp at h
  · simp at h
    rcases h with h | h | h | h | h | h <;> rw [h] at hf <;>
      simp [Call.frameFence] at hf
    rw [← hf]
    simp

theorem quiet_fence (seg : List Call) (h : frameSteps seg = []) (F : Handle) :
    ∀ c ∈ seg, ∀ f, c.frameFence = some f → f = F := by
  intro c hc f hf
  rw [quiet_mem seg h c hc] at hf
  cases hf

/-- What one call of `presentFrame` adds to the trace: its entry mark, the wait
on the fence of the current slot, and then calls among which every frame
submission uses that fence. -/
theorem presentFrame_waits_first (K : Nat) (d : Driver) (fuel : Nat) (w : World) :
    ∃ rest, (presentFrame K d fuel w).2.env.trace =
        w.env.trace ++
          [Call.enter Fn.presentFrame,
           Call.vkWaitForFences (w.swap.inFlightFences.getD w.swap.curFrame 0)] ++ rest ∧
      ∀ c ∈ rest, ∀ f, c.frameFence = some f →
        f = w.swap.inFlightFences.getD w.swap.curFrame 0 := by
  have hacq : ∀ c ∈ [Call.vkAcquireNextImageKHR w.swap.swapChain
      (w.swap.imageAvailSems.getD w.swap.curFrame 0)
      (d.acquireNextImage w.env.nAcquire).1 (d.acquireNextImage w.env.nAcquire).2],
      ∀ f, c.frameFence = some f → f = w.swap.inFlightFences.getD w.swap.curFrame 0 := by
    intro c hc f hf
    simp at hc
    rw [hc] at hf
    cases hf
  have hpres : ∀ c ∈ [presentFrame.presentStep d w],
      ∀ f, c.frameFence = some f → f = w.swap.inFlightFences.getD w.swap.curFrame 0 := by
    intro c hc f hf
    simp at hc
    rw [hc] at hf
    cases hf
  have hreinit : ∀ post, frameSteps post = [] →
      ∀ c ∈ Call.enter Fn.reinitializeSwapChain :: post,
      ∀ f, c.frameFence = some f → f = w.swap.inFlightFences.getD w.swap.curFrame 0 := by
    intro post q c hc f hf
    rcases List.mem_cons.mp hc with h | h
    · rw [h] at hf
      cases hf
    · exact quiet_fence post q _ c h f hf
  have join : ∀ (a b : List Call) (F : Handle),
      (∀ c ∈ a, ∀ f, c.frameFence = some f → f = F) →
      (∀ c ∈ b, ∀ f, c.frameFence = some f → f = F) →
      ∀ c ∈ a ++ b, ∀ f, c.frameFence = some f → f = F := by
    intro a b F ha hb c hc
    rcases List.mem_append.mp hc with h | h
    · exact ha c h
    · exact hb c h
  have hsub := submitSteps_fence d w
  by_cases h1 : (d.acquireNextImage w.env.nAcquire).1 = VkResult.VK_ERROR_OUT_OF_DATE_KHR
  · obtain ⟨post, e, q⟩ := reinit_trace K d fuel (presentFrame.acquired d w)
    refine ⟨_ ++ Call.enter Fn.reinitializeSwapChain :: post, ?_,
      join _ _ _ hacq (hreinit post q)⟩
    rw [presentFrame_outOfDate K d fuel w h1]
    have e' : (reinitializeSwapChain K d fuel (presentFrame.acquired d w)).2.env.trace =
        w.env.trace ++
          [Call.enter Fn.presentFrame,
           Call.vkWaitForFences (w.swap.inFlightFences.getD w.swap.curFrame 0)] ++
          ([Call.vkAcquireNextImageKHR w.swap.swapChain
              (w.swap.imageAvailSems.getD w.swap.curFrame 0)
              (d.acquireNextImage w.env.nAcquire).1 (d.acquireNextImage w.env.nAcquire).2] ++
            Call.enter Fn.reinitializeSwapChain :: post) := by
      rw [e]
      simp [presentFrame.acquired, presentFrame.acquireSteps]
    split <;> exact e'
  · by_cases h2 : (d.acquireNextImage w.env.nAcquire).1 ≠ VkResult.VK_SUCCESS ∧
        (d.acquireNextImage w.env.nAcquire).1 ≠ VkResult.VK_SUBOPTIMAL_KHR
    · refine ⟨_, ?_, hacq⟩
      rw [presentFrame_acquireError K d fuel w h1 h2]
      simp [presentFrame.acquired, presentFrame.acquireSteps]
    · by_cases h3 : d.queueSubmit w.env.nSubmit = VkResult.VK_SUCCESS
      · by_cases h4 : presentFrame.rebuilds d w
        · obtain ⟨post, e, q⟩ := reinit_trace K d fuel
            (guiSetFramebufferResized (presentFrame.presented d w) 0)
          refine ⟨_ ++ (presentFrame.submitSteps d w ++ ([presentFrame.presentStep d w] ++
            Call.enter Fn.reinitializeSwapChain :: post)), ?_,
            join _ _ _ hacq (join _ _ _ hsub (join _ _ _ hpres (hreinit post q)))⟩
          rw [presentFrame_rebuild K d fuel w h1 h2 h3 h4]
          have e' : (reinitializeSwapChain K d fuel
              (guiSetFramebufferResized (presentFrame.presented d w) 0)).2.env.trace =
              w.env.trace ++
                [Call.enter Fn.presentFrame,
                 Call.vkWaitForFences (w.swap.inFlightFences.getD w.swap.curFrame 0)] ++
                ([Call.vkAcquireNextImageKHR w.swap.swapChain
                    (w.swap.imageAvailSems.getD w.swap.curFrame 0)
                    (d.acquireNextImage w.env.nAcquire).1
                    (d.acquireNextImage w.env.nAcquire).2] ++
                  (presentFrame.submitSteps d w ++ ([presentFrame.presentStep d w] ++
                    Call.enter Fn.reinitializeSwapChain :: post))) := by
            rw [e]
            simp [guiSetFramebufferResized, presentFrame.presented, presentFrame.submitted,
              presentFrame.acquireSteps]
          split
          · exact e'
          · split <;> exact e'
        · refine ⟨_ ++ (presentFrame.submitSteps d w ++ [presentFrame.presentStep d w]), ?_,
            join _ _ _ hacq (join _ _ _ hsub hpres)⟩
          by_cases h5 : d.queuePresent w.env.nPresent = VkResult.VK_SUCCESS
          · rw [presentFrame_presented K d fuel w h1 h2 h3 h4 h5]
            simp [presentFrame.presented, presentFrame.submitted, presentFrame.acquireSteps]
          · rw [presentFrame_presentError K d fuel w h1 h2 h3 h4 h5]
            simp [presentFrame.presented, presentFrame.submitted, presentFrame.acquireSteps]
      · refine ⟨_ ++ presentFrame.submitSteps d w, ?_, join _ _ _ hacq hsub⟩
        rw [presentFrame_submitError K d fuel w h1 h2 h3]
        simp [presentFrame.submitted, presentFrame.acquireSteps]

/-- C24: for every `K` and every sequence of `presentFrame` calls, started
with `swap.curFrame < K` in a state in which no step of the presentation cycle
has been made yet (the state in which `main` starts the frame loop), the number
of frame submissions that are outstanding never exceeds `K`, at any point of
the trace.  A submission is outstanding from its `vkQueueSubmit` until the CPU
waits for its completion fence, or for the whole device as the rebuild does
before it destroys the fences.  The reason is the first conjunct: every call
starts with a wait on `inFlightFences[curFrame]`, and every frame submission
of the call uses that fence. -/
theorem presentFrames_ring_bound (K : Nat) (d : Driver) (fuel : Nat) :
    (∀ w : World, ∃ rest, (presentFrame K d fuel w).2.env.trace =
        w.env.trace ++
          [Call.enter Fn.presentFrame,
           Call.vkWaitForFences (w.swap.inFlightFences.getD w.swap.curFrame 0)] ++ rest ∧
      ∀ c ∈ rest, ∀ f, c.frameFence = some f →
        f = w.swap.inFlightFences.getD w.swap.curFrame 0) ∧
    (∀ (n : Nat) (w : World), w.swap.curFrame < K → frameSteps w.env.trace = [] →
      ∀ p, p <+: (presentFrames K d fuel n w).2.env.trace → (outstanding p).length ≤ K) := by
  refine ⟨presentFrame_waits_first K d fuel, fun n w hc hq => ?_⟩
  apply ringBounded_presentFrames K d fuel n w _ hc
  have hall : ∀ p, p <+: w.env.trace → outstanding p = [] := by
    intro p hp
    have hmem : ∀ c ∈ p, c.frameFence = none :=
      fun c hc => quiet_mem _ hq c (hp.subset hc)
    have := outstanding_quiet_sublist [] p hmem
    simpa [outstanding] using this
  refine ⟨fun p hp => by rw [hall p hp]; simp, ?_, ?_⟩
  · rw [hall _ (List.prefix_refl _)]
    simp
  · rw [hall _ (List.prefix_refl _)]
    simp

set_option maxRecDepth 8000 in
/-- The theorem of C24 on five frames on `okDriver` from `readyWorld`, with
`MAXFRAMESINFLIGHT = 2`: at the end at most two submissions are
outstanding. -/
theorem presentFrames_ring_bound_witness :
    readyWorld.swap.curFrame < MAXFRAMESINFLIGHT ∧
    frameSteps readyWorld.env.trace = [] ∧
    (outstanding
      (presentFrames MAXFRAMESINFLIGHT okDriver 1 5 readyWorld).2.env.trace).length ≤
        MAXFRAMESINFLIGHT :=
  ⟨by decide, by decide,
   (presentFrames_ring_bound MAXFRAMESINFLIGHT okDriver 1).2 5 readyWorld (by decide)
     (by decide) _ (List.prefix_refl _)⟩

/-! ## The stages of `main` and the sizes of the ring -/

theorem stages_append (a b : List Call) : stages (a ++ b) = stages a ++ stages b := by
  simp [stages, enters_append]

theorem sketch_congr {a b : World} (h : a.outline = b.outline) : a.sketch = b.sketch := by
  simp only [World.outline, Prod.mk.injEq] at h
  obtain ⟨h1, h2, h3, h4⟩ := h
  simp [World.sketch, stages, h1, h2, h3, h4]

theorem sketch_quiet {a b : World} {f : Fn}
    (h : a.outline = (b.outline.1 ++ [f], b.outline.2)) (hf : f.isStage = false) :
    a.sketch = b.sketch := by
  simp only [World.outline, Prod.mk.injEq] at h
  obtain ⟨h1, h2, h3, h4⟩ := h
  simp [World.sketch, stages, h1, h2, h3, h4, hf]

@[simp] theorem sketch_log (w : World) (c : Call) (hc : c.isEnter = false) :
    (w.log c).sketch = w.sketch := sketch_congr (outline_log w c hc)

@[simp] theorem sketch_enter (f : Fn) (w : World) :
    (enter f w).sketch = (w.sketch.1 ++ (if f.isStage then [f] else []), w.sketch.2) := by
  simp only [World.sketch, stages, enter, World.log, enters_append, enters,
    List.filter_append]
  cases hf : f.isStage <;> simp [List.filter, hf]

@[simp] theorem sketch_setConn (w : World) (v : Connection) :
    (w.setConn v).sketch = w.sketch := rfl

@[simp] theorem sketch_setGui (w : World) (v : guiGUI) :
    (w.setGui v).sketch = w.sketch := rfl

@[simp] theorem sketch_setVul (w : World) (v : vulVulkan) :
    (w.setVul v).sketch = w.sketch := rfl

@[simp] theorem sketch_setScene (w : World) (v : bodyBody) :
    (w.setScene v).sketch = w.sketch := rfl

@[simp] theorem sketch_setPhysicalDevice (w : World) (v : Handle) :
    (w.setPhysicalDevice v).sketch = w.sketch := rfl

@[simp] theorem sketch_setCurFrame (w : World) (v : Nat) :
    (w.setCurFrame v).sketch = w.sketch := rfl

@[simp] theorem sketch_setImagesInFlight (w : World) (v : Arr) :
    (w.setImagesInFlight v).sketch = w.sketch := rfl

@[simp] theorem sketch_setImageAvailSems (w : World) (i : Nat) (v : Handle) :
    (w.setImageAvailSems (w.swap.imageAvailSems.set i v)).sketch = w.sketch := by
  simp [World.sketch, World.setImageAvailSems]

@[simp] theorem sketch_setRenderDoneSems (w : World) (i : Nat) (v : Handle) :
    (w.setRenderDoneSems (w.swap.renderDoneSems.set i v)).sketch = w.sketch := by
  simp [World.sketch, World.setRenderDoneSems]

@[simp] theorem sketch_setInFlightFences (w : World) (i : Nat) (v : Handle) :
    (w.setInFlightFences (w.swap.inFlightFences.set i v)).sketch = w.sketch := by
  simp [World.sketch, World.setInFlightFences]

@[simp] theorem sketch_vkCreate (d : Driver) (k : Obj) (w : World) :
    (vkCreate d k w).2.sketch = w.sketch := sketch_congr (outline_vkCreate d k w)

@[simp] theorem sketch_vkDestroy (k : Obj) (x : Handle) (w : World) :
    (vkDestroy k x w).sketch = w.sketch := sketch_congr (outline_vkDestroy k x w)

@[simp] theorem sketch_malloc (d : Driver) (n : Nat) (w : World) :
    (malloc d n w).2.sketch = w.sketch := sketch_congr (outline_malloc d n w)

@[simp] theorem sketch_free (x : Handle) (w : World) : (free x w).sketch = w.sketch :=
  sketch_congr (outline_free x w)

@[simp] theorem sketch_vkAllocate (d : Driver) (k : Obj) (n : Nat) (w : World) :
    (vkAllocate d k n w).2.sketch = w.sketch := by
  have e : ∀ (l : List Nat) (g : Nat → Handle),
      enters (l.map (fun i => Call.create k (g i))) = [] := by
    intro l g
    induction l with
    | nil => rfl
    | cons a l ih => simpa [enters] using ih
  unfold vkAllocate
  split <;> simp [World.sketch, stages, enters_append, enters, e]

@[simp] theorem sketch_vkAllocateDescriptorSets (d : Driver) (n : Nat) (w : World) :
    (vkAllocateDescriptorSets d n w).2.sketch = w.sketch := by
  unfold vkAllocateDescriptorSets
  split <;> rfl

@[simp] theorem sketch_vkBeginCommandBuffer (d : Driver) (cb : Handle) (w : World) :
    (vkBeginCommandBuffer d cb w).2.sketch = w.sketch :=
  sketch_congr (outline_vkBeginCommandBuffer d cb w)

@[simp] theorem sketch_vkEndCommandBuffer (d : Driver) (cb : Handle) (w : World) :
    (vkEndCommandBuffer d cb w).2.sketch = w.sketch :=
  sketch_congr (outline_vkEndCommandBuffer d cb w)

theorem sketch_forRange (body : Nat → World → World)
    (hb : ∀ i w, (body i w).sketch = w.sketch) (n : Nat) (w : World) :
    (forRange n body w).sketch = w.sketch := by
  unfold forRange
  induction n generalizing w with
  | zero => simp
  | succ n ih => simp [List.range_succ, ih, hb]

@[simp] theorem sketch_vulGetQueueFamilies (d : Driver) (w : World) :
    (vulGetQueueFamilies d w).2.sketch = w.sketch :=
  sketch_congr (outline_vulGetQueueFamilies d w)

@[simp] theorem sketch_vulInitializeSwapChainSupport (d : Driver) (w : World) :
    (vulInitializeSwapChainSupport d w).2.2.sketch = w.sketch :=
  sketch_congr (outline_vulInitializeSwapChainSupport d w)

@[simp] theorem sketch_vulFinalizeSwapChainSupport (x : vulSwapChainSupportDetails)
    (w : World) : (vulFinalizeSwapChainSupport x w).sketch = w.sketch :=
  sketch_congr (outline_vulFinalizeSwapChainSupport x w)

/-! ### 450buffer.c and 450swap.c -/

@[simp] theorem sketch_bufInitialize (d : Driver) (p : Nat) (a b : Handle) (w : World) :
    (bufInitialize d p a b w).2.2.2.sketch = w.sketch := by
  unfold bufInitialize
  dsimp only
  split
  · simp
  · split
    · simp
    · split <;> simp [Call.isEnter]

@[simp] theorem sketch_bufFinalize (a b : Handle) (w : World) :
    (bufFinalize a b w).sketch = w.sketch := by
  simp [bufFinalize]

@[simp] theorem sketch_swapInitializeImages (d : Driver) (w : World) :
    (swapInitializeImages d w).2.sketch = w.sketch :=
  sketch_quiet (outline_swapInitializeImages d w) rfl

@[simp] theorem sketch_swapFinalizeImages (w : World) :
    (swapFinalizeImages w).sketch = w.sketch :=
  sketch_quiet (outline_swapFinalizeImages w) rfl

@[simp] theorem sketch_swapInitializeViews (d : Driver) (w : World) :
    (swapInitializeViews d w).2.sketch = w.sketch :=
  sketch_quiet (outline_swapInitializeViews d w) rfl

@[simp] theorem sketch_swapFinalizeViews (w : World) :
    (swapFinalizeViews w).sketch = w.sketch :=
  sketch_quiet (outline_swapFinalizeViews w) rfl

@[simp] theorem sketch_swapInitializeDepthBuffer (d : Driver) (w : World) :
    (swapInitializeDepthBuffer d w).2.sketch = w.sketch :=
  sketch_quiet (outline_swapInitializeDepthBuffer d w) rfl

@[simp] theorem sketch_swapFinalizeDepthBuffer (w : World) :
    (swapFinalizeDepthBuffer w).sketch = w.sketch :=
  sketch_quiet (outline_swapFinalizeDepthBuffer w) rfl

@[simp] theorem sketch_swapInitializeRenderPass (d : Driver) (w : World) :
    (swapInitializeRenderPass d w).2.sketch = w.sketch :=
  sketch_quiet (outline_swapInitializeRenderPass d w) rfl

@[simp] theorem sketch_swapFinalizeRenderPass (w : World) :
    (swapFinalizeRenderPass w).sketch = w.sketch :=
  sketch_quiet (outline_swapFinalizeRenderPass w) rfl

@[simp] theorem sketch_swapInitializeFramebuffers (d : Driver) (w : World) :
    (swapInitializeFramebuffers d w).2.sketch = w.sketch :=
  sketch_quiet (outline_swapInitializeFramebuffers d w) rfl

@[simp] theorem sketch_swapFinalizeFramebuffers (w : World) :
    (swapFinalizeFramebuffers w).sketch = w.sketch :=
  sketch_quiet (outline_swapFinalizeFramebuffers w) rfl

@[simp] theorem sketch_swapDestroySyncSlot (j : Nat) (w : World) :
    (swapDestroySyncSlot j w).sketch = w.sketch :=
  sketch_congr (outline_swapDestroySyncSlot j w)

@[simp] theorem sketch_swapInitializeSyncs_loop (d : Driver) (n i : Nat) (w : World) :
    (swapInitializeSyncs.loop d n i w).2.sketch = w.sketch := by
  induction n generalizing i w with
  | zero => rfl
  | succ n ih =>
    unfold swapInitializeSyncs.loop
    dsimp only
    split
    · simp [sketch_forRange _ sketch_swapDestroySyncSlot]
    · split
      · simp [sketch_forRange _ sketch_swapDestroySyncSlot]
      · split
        · simp [sketch_forRange _ sketch_swapDestroySyncSlot]
        · simp [ih]

@[simp] theorem sketch_swapInitializeSyncs (K : Nat) (d : Driver) (w : World) :
    (swapInitializeSyncs K d w).2.sketch = w.sketch := by
  unfold swapInitializeSyncs
  dsimp only
  split <;> simp [Fn.isStage, main.initializers, main.finalizers]

@[simp] theorem sketch_swapFinalizeSyncs (K : Nat) (w : World) :
    (swapFinalizeSyncs K w).sketch = w.sketch := by
  simp [swapFinalizeSyncs, sketch_forRange _ sketch_swapDestroySyncSlot, Fn.isStage,
    main.initializers, main.finalizers]

@[simp] theorem sketch_swapInitialize (K : Nat) (d : Driver) (w : World) :
    (swapInitialize K d w).2.sketch = (w.sketch.1 ++ [Fn.swapInitialize], w.sketch.2) := by
  unfold swapInitialize
  dsimp only
  repeat' split
  all_goals simp [Fn.isStage, main.initializers, main.finalizers]

@[simp] theorem sketch_swapFinalize (K : Nat) (w : World) :
    (swapFinalize K w).sketch = (w.sketch.1 ++ [Fn.swapFinalize], w.sketch.2) := by
  simp [swapFinalize, Fn.isStage, main.initializers, main.finalizers]

/-! ### 480uniform.c, 480description.c, 550body.c -/

@[simp] theorem sketch_unifFinalizeBufferAt (slot : UnifSlot) (j : Nat) (w : World) :
    (unifFinalizeBufferAt slot j w).sketch = w.sketch := by
  simp [unifFinalizeBufferAt]

@[simp] theorem sketch_unifInitializeBuffers_loop (d : Driver) (slot : UnifSlot)
    (n i : Nat) (w : World) :
    (unifInitializeBuffers.loop d slot n i w).2.sketch = w.sketch := by
  induction n generalizing i w with
  | zero => rfl
  | succ n ih =>
    unfold unifInitializeBuffers.loop
    dsimp only
    split
    · simp [sketch_forRange _ (sketch_unifFinalizeBufferAt slot)]
    · simp [ih]

@[simp] theorem sketch_unifInitializeBuffers (d : Driver) (slot : UnifSlot) (w : World) :
    (unifInitializeBuffers d slot w).2.sketch = w.sketch := by
  unfold unifInitializeBuffers
  dsimp only
  split
  · simp
  · split <;> simp

@[simp] theorem sketch_unifFinalizeBuffers (slot : UnifSlot) (w : World) :
    (unifFinalizeBuffers slot w).sketch = w.sketch := by
  simp [unifFinalizeBuffers, sketch_forRange _ (sketch_unifFinalizeBufferAt slot)]

@[simp] theorem sketch_unifInitializeAligned (d : Driver) (a b : Int) (w : World) :
    (unifInitializeAligned d a b w).2.sketch = w.sketch := by
  unfold unifInitializeAligned
  dsimp only
  split <;> simp

@[simp] theorem sketch_unifFinalizeAligned (w : World) :
    (unifFinalizeAligned w).sketch = w.sketch := by
  simp [unifFinalizeAligned]

@[simp] theorem sketch_descInitializeLayout (d : Driver) (w : World) :
    (descInitializeLayout d w).2.sketch = w.sketch := by
  unfold descInitializeLayout
  dsimp only
  split
  · simp
  · split <;> simp

@[simp] theorem sketch_descFinalizeLayout (w : World) :
    (descFinalizeLayout w).sketch = w.sketch := by
  simp [descFinalizeLayout]

@[simp] theorem sketch_descInitializePool (d : Driver) (w : World) :
    (descInitializePool d w).2.sketch = w.sketch := by
  unfold descInitializePool
  dsimp only
  split
  · simp
  · split <;> simp

@[simp] theorem sketch_descFinalizePool (w : World) :
    (descFinalizePool w).sketch = w.sketch := by
  simp [descFinalizePool]

@[simp] theorem sketch_setDescriptorSet (i : Nat) (w : World) :
    (setDescriptorSet i w).sketch = w.sketch := by
  simp [setDescriptorSet, Call.isEnter]

@[simp] theorem sketch_descInitializeSets (d : Driver) (w : World) :
    (descInitializeSets d w).2.sketch = w.sketch := by
  unfold descInitializeSets
  dsimp only
  split
  · simp
  · split
    · simp
    · split <;> simp [sketch_forRange _ sketch_setDescriptorSet]

@[simp] theorem sketch_descFinalizeSets (w : World) :
    (descFinalizeSets w).sketch = w.sketch := by
  simp [descFinalizeSets]

@[simp] theorem sketch_descInitialize (d : Driver) (w : World) :
    (descInitialize d w).2.sketch = w.sketch := by
  unfold descInitialize
  dsimp only
  repeat' split
  all_goals simp

@[simp] theorem sketch_descFinalize (w : World) : (descFinalize w).sketch = w.sketch := by
  simp [descFinalize]

@[simp] theorem sketch_bodyRender (v cb ds : Handle) (a i : Int) (w : World) :
    (bodyRender v cb ds a i w).sketch = w.sketch := by
  simp [bodyRender, Call.isEnter]

@[simp] theorem sketch_bodyRenderRecursively (cb ds : Handle) (a : Int) (b : bodyBody)
    (i : Int) (w : World) : (bodyRenderRecursively cb ds a b i w).2.sketch = w.sketch := by
  induction b generalizing i w with
  | NULL => rfl
  | body vesh firstChild nextSibling ih1 ih2 =>
    unfold bodyRenderRecursively
    cases firstChild <;> cases nextSibling <;> simp [ih1, ih2]

/-! ### 590mainDiffuse.c -/

@[simp] theorem sketch_initializeUniforms (d : Driver) (w : World) :
    (initializeUniforms d w).2.sketch = w.sketch := by
  unfold initializeUniforms
  dsimp only
  repeat' split
  all_goals simp [Fn.isStage, main.initializers, main.finalizers]

@[simp] theorem sketch_finalizeUniforms (w : World) :
    (finalizeUniforms w).sketch = w.sketch := by
  simp [finalizeUniforms, Fn.isStage, main.initializers, main.finalizers]

@[simp] theorem sketch_initializePipeline (d : Driver) (w : World) :
    (initializePipeline d w).2.sketch = w.sketch := by
  unfold initializePipeline
  dsimp only
  split
  · simp [Fn.isStage, main.initializers, main.finalizers]
  · split <;> simp [Fn.isStage, main.initializers, main.finalizers]

@[simp] theorem sketch_finalizePipeline (w : World) :
    (finalizePipeline w).sketch = w.sketch := by
  simp [finalizePipeline, Fn.isStage, main.initializers, main.finalizers]

@[simp] theorem sketch_initializeCommandBuffers_loop (d : Driver) (n i : Nat) (w : World) :
    (initializeCommandBuffers.loop d n i w).2.sketch = w.sketch := by
  induction n generalizing i w with
  | zero => rfl
  | succ n ih =>
    unfold initializeCommandBuffers.loop
    dsimp only
    split
    · simp
    · split <;> simp [ih, Call.isEnter]

@[simp] theorem sketch_initializeCommandBuffers (d : Driver) (w : World) :
    (initializeCommandBuffers d w).2.sketch = w.sketch := by
  unfold initializeCommandBuffers
  dsimp only
  split
  · simp [Fn.isStage, main.initializers, main.finalizers]
  · split <;> simp [Fn.isStage, main.initializers, main.finalizers]

@[simp] theorem sketch_freeCommandBufferAt (j : Nat) (w : World) :
    (freeCommandBufferAt j w).sketch = w.sketch := by
  simp [freeCommandBufferAt]

@[simp] theorem sketch_finalizeCommandBuffers (w : World) :
    (finalizeCommandBuffers w).sketch = w.sketch := by
  simp [finalizeCommandBuffers, sketch_forRange _ sketch_freeCommandBufferAt, Fn.isStage,
    main.initializers, main.finalizers]

@[simp] theorem sketch_initializeConnection (d : Driver) (w : World) :
    (initializeConnection d w).2.sketch =
      (w.sketch.1 ++ [Fn.initializeConnection], w.sketch.2) := by
  unfold initializeConnection
  dsimp only
  repeat' split
  all_goals simp [Fn.isStage, main.initializers, main.finalizers]

@[simp] theorem sketch_finalizeConnection (w : World) :
    (finalizeConnection w).sketch = (w.sketch.1 ++ [Fn.finalizeConnection], w.sketch.2) := by
  simp [finalizeConnection, Fn.isStage, main.initializers, main.finalizers]

/-! ### 440gui.c and 440vulkan.c -/

@[simp] theorem sketch_guiInitialize (d : Driver) (w : World) :
    (guiInitialize d w).2.sketch = (w.sketch.1 ++ [Fn.guiInitialize], w.sketch.2) := by
  simp [guiInitialize, Fn.isStage, main.initializers, main.finalizers]

@[simp] theorem sketch_guiFinalize (w : World) :
    (guiFinalize w).sketch = (w.sketch.1 ++ [Fn.guiFinalize], w.sketch.2) := by
  simp [guiFinalize, Fn.isStage, main.initializers, main.finalizers]

@[simp] theorem sketch_vulValLayerSupportError_loop (avail : List String) (p : Handle)
    (ls : List String) (w : World) :
    (vulValLayerSupportError.loop avail p ls w).2.sketch = w.sketch := by
  induction ls with
  | nil => simp [vulValLayerSupportError.loop]
  | cons l rest ih =>
    unfold vulValLayerSupportError.loop
    split
    · exact ih
    · simp

@[simp] theorem sketch_vulValLayerSupportError (d : Driver) (loader : Loader) (w : World) :
    (vulValLayerSupportError d loader w).2.sketch = w.sketch := by
  unfold vulValLayerSupportError
  dsimp only
  split
  · rfl
  · split <;> simp

@[simp] theorem sketch_verbose (d : Driver) (loader : Loader) (w : World) :
    (vulInitializeInstance.verbose d loader w).2.sketch = w.sketch := by
  unfold vulInitializeInstance.verbose
  dsimp only
  split
  · split <;> simp
  · rfl

@[simp] theorem sketch_vulInitializeInstance (d : Driver) (loader : Loader) (w : World) :
    (vulInitializeInstance d loader w).2.sketch = w.sketch := by
  unfold vulInitializeInstance
  rw [if_pos (show NUMVALLAYERS ≥ 1 by decide)]
  dsimp only
  split
  · simp
  · split
    · simp
    · split
      · simp
      · split <;> simp

@[simp] theorem sketch_vulFinalizeInstance (w : World) :
    (vulFinalizeInstance w).sketch = w.sketch := by
  simp [vulFinalizeInstance]

@[simp] theorem sketch_vulInitializeSurface (d : Driver) (w : World) :
    (vulInitializeSurface d w).2.sketch = w.sketch := by
  unfold vulInitializeSurface
  dsimp only
  split <;> simp

@[simp] theorem sketch_vulFinalizeSurface (w : World) :
    (vulFinalizeSurface w).sketch = w.sketch := by
  simp [vulFinalizeSurface]

@[simp] theorem sketch_vulExtensionSupportError_loop (avail : List String) (p : Handle)
    (es : List String) (w : World) :
    (vulExtensionSupportError.loop avail p es w).2.sketch = w.sketch := by
  induction es with
  | nil => simp [vulExtensionSupportError.loop]
  | cons e rest ih =>
    unfold vulExtensionSupportError.loop
    split
    · simp
    · exact ih

@[simp] theorem sketch_vulExtensionSupportError (es : List String) (d : Driver)
    (device : PhysicalDevice) (w : World) :
    (vulExtensionSupportError es d device w).2.sketch = w.sketch := by
  unfold vulExtensionSupportError
  dsimp only
  split <;> simp

@[simp] theorem sketch_vulIsDeviceSuitable (A : Nat) (es : List String) (d : Driver)
    (device : PhysicalDevice) (w : World) :
    (vulIsDeviceSuitable A es d device w).2.sketch = w.sketch := by
  unfold vulIsDeviceSuitable
  dsimp only
  repeat' split
  all_goals simp

@[simp] theorem sketch_vulSetPhysicalDevice_loop (A : Nat) (es : List String) (d : Driver)
    (devices : List PhysicalDevice) (w : World) :
    (vulSetPhysicalDevice.loop A es d devices w).sketch = w.sketch := by
  induction devices generalizing w with
  | nil => rfl
  | cons device rest ih =>
    unfold vulSetPhysicalDevice.loop
    dsimp only
    split
    · simp
    · simp [ih]

@[simp] theorem sketch_vulSetPhysicalDevice (A : Nat) (es : List String) (d : Driver)
    (devices : List PhysicalDevice) (w : World) :
    (vulSetPhysicalDevice A es d devices w).2.sketch = w.sketch := by
  unfold vulSetPhysicalDevice
  dsimp only
  split
  · simp
  · split
    · simp
    · split
      · simp
      · split
        · show (free _ (vulSetPhysicalDevice.loop A es d devices _)).sketch = w.sketch
          simp
        · simp

@[simp] theorem sketch_vulInitializeLogicalDevice (d : Driver) (w : World) :
    (vulInitializeLogicalDevice d w).2.sketch = w.sketch := by
  unfold vulInitializeLogicalDevice
  dsimp only
  split
  · simp
  · split
    · simp
    · rw [sketch_free, sketch_setVul]
      show (vkCreate d Obj.device _).2.sketch = w.sketch
      simp

@[simp] theorem sketch_vulFinalizeLogicalDevice (w : World) :
    (vulFinalizeLogicalDevice w).sketch = w.sketch := by
  simp [vulFinalizeLogicalDevice]

@[simp] theorem sketch_vulInitializeCommandPool (d : Driver) (w : World) :
    (vulInitializeCommandPool d w).2.sketch = w.sketch := by
  unfold vulInitializeCommandPool
  dsimp only
  split <;> simp

@[simp] theorem sketch_vulFinalizeCommandPool (w : World) :
    (vulFinalizeCommandPool w).sketch = w.sketch := by
  simp [vulFinalizeCommandPool]

@[simp] theorem sketch_vulInitialize (d : Driver) (loader : Loader) (w : World) :
    (vulInitialize d loader w).2.sketch = (w.sketch.1 ++ [Fn.vulInitialize], w.sketch.2) := by
  unfold vulInitialize
  dsimp only
  repeat' split
  all_goals simp [Fn.isStage, main.initializers, main.finalizers]

@[simp] theorem sketch_vulFinalize (w : World) :
    (vulFinalize w).sketch = (w.sketch.1 ++ [Fn.vulFinalize], w.sketch.2) := by
  simp [vulFinalize, Fn.isStage, main.initializers, main.finalizers]

/-! ### The artwork -/

@[simp] theorem sketch_artInitialize (d : Driver) (k : Obj) (g : Handle) (w : World) :
    (artInitialize d k g w).2.sketch = w.sketch := by
  unfold artInitialize
  split <;> simp [World.sketch, stages, enters_append, enters]

@[simp] theorem sketch_initializeScene (w : World) :
    (initializeScene w).2.sketch = w.sketch := rfl

@[simp] theorem sketch_finalizeScene (w : World) : (finalizeScene w).sketch = w.sketch := rfl

@[simp] theorem sketch_initializeArtwork (d : Driver) (w : World) :
    (initializeArtwork d w).2.sketch =
      (w.sketch.1 ++ [Fn.initializeArtwork], w.sketch.2) := by
  unfold initializeArtwork
  dsimp only
  repeat' split
  all_goals simp [Fn.isStage, main.initializers, main.finalizers]

@[simp] theorem sketch_finalizeArtwork (w : World) :
    (finalizeArtwork w).sketch = (w.sketch.1 ++ [Fn.finalizeArtwork], w.sketch.2) := by
  simp [finalizeArtwork, Fn.isStage, main.initializers, main.finalizers]

/-! ## The exit paths of `main` -/

theorem stages_eq_sketch (w : World) : stages w.env.trace = w.sketch.1 := rfl

theorem trace_guiFinalize (w : World) :
    (guiFinalize w).env.trace =
      w.env.trace ++ [Call.enter Fn.guiFinalize, Call.destroy Obj.window w.gui.window] := by
  simp [guiFinalize, enter, vkDestroy, World.log]

theorem trace_vulFinalize (w : World) :
    (vulFinalize w).env.trace =
      w.env.trace ++ [Call.enter Fn.vulFinalize,
        Call.destroy Obj.commandPool w.vul.commandPool,
        Call.destroy Obj.device w.vul.device,
        Call.destroy Obj.surface w.vul.surface,
        Call.destroy Obj.vkInstance w.vul.vkInstance] := by
  simp [vulFinalize, vulFinalizeInstance, vulFinalizeSurface, vulFinalizeLogicalDevice,
    vulFinalizeCommandPool, enter, vkDestroy, World.log]

theorem trace_finalizeArtwork (w : World) :
    (finalizeArtwork w).env.trace =
      w.env.trace ++ [Call.enter Fn.finalizeArtwork,
        Call.destroy Obj.textures textures,
        Call.destroy Obj.veshes heroTorsoVesh,
        Call.destroy Obj.veshStyle style,
        Call.destroy Obj.shaProgram shaProg] := by
  simp [finalizeArtwork, finalizeScene, enter, vkDestroy, World.log]

theorem glfwPollEvents_trace (d : Driver) (w : World) :
    w.env.trace <+: (glfwPollEvents d w).env.trace := by
  unfold glfwPollEvents guiResizingCallback
  dsimp only
  split
  · exact ⟨[Call.glfwPollEvents, Call.guiResizingCallback], by simp [World.log]⟩
  · exact ⟨[Call.glfwPollEvents], rfl⟩

/-- The frame loop only adds to the trace. -/
theorem guiRun_trace (d : Driver) (P : World → Option Int × World)
    (hP : ∀ x, x.env.trace <+: (P x).2.env.trace) (fuel : Nat) (w : World) :
    w.env.trace <+: (guiRun d P fuel w).2.env.trace := by
  induction fuel generalizing w with
  | zero => exact List.prefix_refl _
  | succ fuel ih =>
    unfold guiRun
    dsimp only
    split
    · exact List.prefix_refl _
    · have h1 := glfwPollEvents_trace d
        { w with env := { w.env with nShouldClose := w.env.nShouldClose + 1 } }
      have h2 := hP (glfwPollEvents d
        { w with env := { w.env with nShouldClose := w.env.nShouldClose + 1 } })
      split
      · rename_i w3 e
        rw [e] at h2
        exact h1.trans h2
      · rename_i c w3 e
        rw [e] at h2
        exact (h1.trans h2).trans (ih w3)

theorem presentFrame_trace_grows (K : Nat) (d : Driver) (fuel : Nat) (w : World) :
    w.env.trace <+: (presentFrame K d fuel w).2.env.trace := by
  obtain ⟨rest, e, _⟩ := presentFrame_waits_first K d fuel w
  exact ⟨_, by rw [e, List.append_assoc]⟩

/-- What `main` does after the frame loop: the trace goes on with
`vkDeviceWaitIdle` and then the five finalizers, the last stage first. -/
theorem teardown_trace (K : Nat) (w : World) :
    ∃ down, (guiFinalize (vulFinalize (swapFinalize K (finalizeArtwork
        (finalizeConnection (w.log Call.vkDeviceWaitIdle)))))).env.trace =
        w.env.trace ++ Call.vkDeviceWaitIdle :: down ∧
      stages down = main.finalizers.reverse := by
  obtain ⟨p1, e1, _⟩ := (calm_finalizeConnection (w.log Call.vkDeviceWaitIdle)).trace
  obtain ⟨p3, e3, _⟩ := (calm_swapFinalize K
    (finalizeArtwork (finalizeConnection (w.log Call.vkDeviceWaitIdle)))).trace
  have e2 := trace_finalizeArtwork (finalizeConnection (w.log Call.vkDeviceWaitIdle))
  have e4 := trace_vulFinalize (swapFinalize K (finalizeArtwork
    (finalizeConnection (w.log Call.vkDeviceWaitIdle))))
  have e5 := trace_guiFinalize (vulFinalize (swapFinalize K (finalizeArtwork
    (finalizeConnection (w.log Call.vkDeviceWaitIdle)))))
  have et : ∃ rest, (guiFinalize (vulFinalize (swapFinalize K (finalizeArtwork
      (finalizeConnection (w.log Call.vkDeviceWaitIdle)))))).env.trace =
      (w.log Call.vkDeviceWaitIdle).env.trace ++ rest := by
    rw [e5, e4, e3, e2, e1]
    simp only [List.append_assoc]
    exact ⟨_, rfl⟩
  obtain ⟨rest, et⟩ := et
  have hs : stages (guiFinalize (vulFinalize (swapFinalize K (finalizeArtwork
      (finalizeConnection (w.log Call.vkDeviceWaitIdle)))))).env.trace =
      stages (w.log Call.vkDeviceWaitIdle).env.trace ++ main.finalizers.reverse := by
    rw [stages_eq_sketch, stages_eq_sketch]
    simp [main.finalizers]
  rw [et, stages_append] at hs
  refine ⟨_, ?_, List.append_cancel_left hs⟩
  rw [et]
  simp [World.log]

/-- What `main` of `450mainSwap.c` does after the frame loop. -/
theorem mainSwap_teardown_trace (K : Nat) (w : World) :
    ∃ down, (guiFinalize (vulFinalize (swapFinalize K
        (w.log Call.vkDeviceWaitIdle)))).env.trace =
        w.env.trace ++ Call.vkDeviceWaitIdle :: down ∧
      stages down = (main.finalizers.take 3).reverse := by
  obtain ⟨p3, e3, _⟩ := (calm_swapFinalize K (w.log Call.vkDeviceWaitIdle)).trace
  have e4 := trace_vulFinalize (swapFinalize K (w.log Call.vkDeviceWaitIdle))
  have e5 := trace_guiFinalize (vulFinalize (swapFinalize K (w.log Call.vkDeviceWaitIdle)))
  have et : ∃ rest, (guiFinalize (vulFinalize (swapFinalize K
      (w.log Call.vkDeviceWaitIdle)))).env.trace =
      (w.log Call.vkDeviceWaitIdle).env.trace ++ rest := by
    rw [e5, e4, e3]
    simp only [List.append_assoc]
    exact ⟨_, rfl⟩
  obtain ⟨rest, et⟩ := et
  have hs : stages (guiFinalize (vulFinalize (swapFinalize K
      (w.log Call.vkDeviceWaitIdle)))).env.trace =
      stages (w.log Call.vkDeviceWaitIdle).env.trace ++ (main.finalizers.take 3).reverse := by
    rw [stages_eq_sketch, stages_eq_sketch]
    simp [main.finalizers]
  rw [et, stages_append] at hs
  refine ⟨_, ?_, List.append_cancel_left hs⟩
  rw [et]
  simp [World.log]

theorem Calm.grows {a b : World} (h : Calm a b) : a.env.trace <+: b.env.trace := by
  obtain ⟨post, e, _⟩ := h.trace
  exact ⟨post, e.symm⟩

theorem mainSwap_reinit_trace_grows (K : Nat) (d : Driver) (fuel : Nat) (w : World) :
    w.env.trace <+: (mainSwap.reinitializeSwapChain K d fuel w).2.env.trace := by
  have h0 : w.env.trace <+: (enter Fn.reinitializeSwapChain w).env.trace :=
    List.prefix_append _ _
  have h1 := (glfwGetFramebufferSize_facts d (enter Fn.reinitializeSwapChain w)).1.grows
  have h2 := (wait_facts d fuel
    (glfwGetFramebufferSize d (enter Fn.reinitializeSwapChain w)).1.1
    (glfwGetFramebufferSize d (enter Fn.reinitializeSwapChain w)).1.2
    (glfwGetFramebufferSize d (enter Fn.reinitializeSwapChain w)).2).1.grows
  have h3 : ∀ x : World, x.env.trace <+:
      (swapInitialize K d (swapFinalize K (x.log Call.vkDeviceWaitIdle))).2.env.trace :=
    fun x => (List.prefix_append _ _).trans
      ((calm_swapFinalize K (x.log Call.vkDeviceWaitIdle)).grows.trans
        (swapInitialize_facts K d _).1.grows)
  unfold mainSwap.reinitializeSwapChain
  dsimp only
  split
  · exact h0.trans (h1.trans h2)
  · split
    · exact h0.trans (h1.trans (h2.trans (h3 _)))
    · exact h0.trans (h1.trans (h2.trans (h3 _)))

theorem mainSwap_presentFrame_trace_grows (K : Nat) (d : Driver) (fuel : Nat) (w : World) :
    w.env.trace <+: (mainSwap.presentFrame K d fuel w).2.env.trace := by
  unfold mainSwap.presentFrame
  dsimp only
  repeat' split
  all_goals first
    | (refine List.IsPrefix.trans ?_ (mainSwap_reinit_trace_grows K d fuel _)
       simp [vkAcquireNextImageKHR, vkQueueSubmit, vkQueuePresentKHR, enter, World.log,
         World.setImagesInFlight, guiSetFramebufferResized])
    | simp [vkAcquireNextImageKHR, vkQueueSubmit, vkQueuePresentKHR, enter, World.log,
        World.setImagesInFlight, guiSetFramebufferResized]

/-- C25: on every exit path of `main`, in `590mainDiffuse.c` (five stages:
GUI, Vulkan, swap chain, artwork, connection) and in `450mainSwap.c` (the first
three of them), the stage functions entered are those of `main.ExitsInOrder`.
When the initializer of stage `k` (counted from 0) fails, `main` returns
`5 - k`, having entered the initializers of the stages `0 .. k` in order and
then the finalizers of the stages `0 .. k - 1`, the last one first, and no
other stage function.  When the frame loop ends, `main` returns 0: the trace
ends with `vkDeviceWaitIdle` followed by the finalizers of all its stages, the
last stage first (connection, artwork, swap chain, Vulkan, GUI), with no other
stage function among them, and what comes before starts with the initializers
in order.  So `finalizeConnection` comes before `swapFinalize` and
`swapFinalize` before `vulFinalize` on each path.  `main` has no other exit;
`none` stands for a frame loop that has not ended, after all the
initializers. -/
theorem main_teardown_order (d : Driver) (loader : Loader) (fuel guiFuel : Nat)
    (w : World) :
    main.ExitsInOrder 5 w.env.trace (main d loader fuel guiFuel w) ∧
    main.ExitsInOrder 3 w.env.trace (mainSwap.main d loader fuel guiFuel w) := by
  constructor
  · have hready : ∀ x : World, x = (initializeConnection d (initializeArtwork d
        (swapInitialize MAXFRAMESINFLIGHT d (vulInitialize d loader
          (guiInitialize d w).2).2).2).2).2 →
        stages w.env.trace ++ main.initializers.take 5 <+:
          stages (guiRun d (presentFrame MAXFRAMESINFLIGHT d fuel) guiFuel x).2.env.trace := by
      intro x hx
      obtain ⟨run, e⟩ := guiRun_trace d (presentFrame MAXFRAMESINFLIGHT d fuel)
        (presentFrame_trace_grows MAXFRAMESINFLIGHT d fuel) guiFuel x
      rw [← e, stages_append]
      have hs : stages x.env.trace = stages w.env.trace ++ main.initializers.take 5 := by
        rw [hx, stages_eq_sketch, stages_eq_sketch]
        simp [main.initializers]
      rw [hs]
      exact List.prefix_append _ _
    unfold main.ExitsInOrder main
    dsimp only
    split
    · left
      refine ⟨0, by decide, rfl, ?_⟩
      rw [stages_eq_sketch, stages_eq_sketch]
      simp [main.initializers, main.finalizers]
    · split
      · left
        refine ⟨1, by decide, rfl, ?_⟩
        rw [stages_eq_sketch, stages_eq_sketch]
        simp [main.initializers, main.finalizers]
      · split
        · left
          refine ⟨2, by decide, rfl, ?_⟩
          rw [stages_eq_sketch, stages_eq_sketch]
          simp [main.initializers, main.finalizers]
        · split
          · left
            refine ⟨3, by decide, rfl, ?_⟩
            rw [stages_eq_sketch, stages_eq_sketch]
            simp [main.initializers, main.finalizers]
          · split
            · left
              refine ⟨4, by decide, rfl, ?_⟩
              rw [stages_eq_sketch, stages_eq_sketch]
              simp [main.initializers, main.finalizers]
            · have hr := hready _ rfl
              split
              · right; right
                exact ⟨rfl, hr⟩
              · right; left
                obtain ⟨down, e, hd⟩ := teardown_trace MAXFRAMESINFLIGHT
                  (guiRun d (presentFrame MAXFRAMESINFLIGHT d fuel) guiFuel
                    (initializeConnection d (initializeArtwork d
                      (swapInitialize MAXFRAMESINFLIGHT d (vulInitialize d loader
                        (guiInitialize d w).2).2).2).2).2).2
                exact ⟨rfl, _, down, e, hr, hd⟩
  · have hready : ∀ x : World, x = (swapInitialize MAXFRAMESINFLIGHT d
        (vulInitialize d loader (guiInitialize d w).2).2).2 →
        stages w.env.trace ++ main.initializers.take 3 <+:
          stages (guiRun d (mainSwap.presentFrame MAXFRAMESINFLIGHT d fuel)
            guiFuel x).2.env.trace := by
      intro x hx
      obtain ⟨run, e⟩ := guiRun_trace d (mainSwap.presentFrame MAXFRAMESINFLIGHT d fuel)
        (mainSwap_presentFrame_trace_grows MAXFRAMESINFLIGHT d fuel) guiFuel x
      rw [← e, stages_append]
      have hs : stages x.env.trace = stages w.env.trace ++ main.initializers.take 3 := by
        rw [hx, stages_eq_sketch, stages_eq_sketch]
        simp [main.initializers]
      rw [hs]
      exact List.prefix_append _ _
    unfold main.ExitsInOrder mainSwap.main
    dsimp only
    split
    · left
      refine ⟨0, by decide, rfl, ?_⟩
      rw [stages_eq_sketch, stages_eq_sketch]
      simp [main.initializers, main.finalizers]
    · split
      · left
        refine ⟨1, by decide, rfl, ?_⟩
        rw [stages_eq_sketch, stages_eq_sketch]
        simp [main.initializers, main.finalizers]
      · split
        · left
          refine ⟨2, by decide, rfl, ?_⟩
          rw [stages_eq_sketch, stages_eq_sketch]
          simp [main.initializers, main.finalizers]
        · have hr := hready _ rfl
          split
          · right; right
            exact ⟨rfl, hr⟩
          · right; left
            obtain ⟨down, e, hd⟩ := mainSwap_teardown_trace MAXFRAMESINFLIGHT
              (guiRun d (mainSwap.presentFrame MAXFRAMESINFLIGHT d fuel) guiFuel
                (swapInitialize MAXFRAMESINFLIGHT d
                  (vulInitialize d loader (guiInitialize d w).2).2).2).2
            exact ⟨rfl, _, down, e, hr, hd⟩

/-! ## The frame slot indexes the ring arrays -/

theorem rings_glfwGetFramebufferSize (d : Driver) (w : World) :
    (glfwGetFramebufferSize d w).2.sketch.2 = w.sketch.2 := rfl

theorem rings_wait (d : Driver) (fuel : Nat) (width height : Int) (w : World) :
    (reinitializeSwapChain.wait d fuel width height w).2.sketch.2 = w.sketch.2 := by
  obtain ⟨_, s, _⟩ := wait_facts d fuel width height w
  simp only [World.sketch, s]

theorem rings_rebuild (K : Nat) (d : Driver) (w : World) :
    (reinitializeSwapChain.rebuild K d w).2.sketch.2 = w.sketch.2 := by
  unfold reinitializeSwapChain.rebuild
  dsimp only
  repeat' split
  all_goals simp [Call.isEnter]

theorem rings_reinitializeSwapChain (K : Nat) (d : Driver) (fuel : Nat) (w : World) :
    (reinitializeSwapChain K d fuel w).2.sketch.2 = w.sketch.2 := by
  unfold reinitializeSwapChain
  dsimp only
  split
  · rw [rings_wait, rings_glfwGetFramebufferSize]
    simp
  · rw [rings_rebuild, rings_wait, rings_glfwGetFramebufferSize]
    simp

/-- A call of `presentFrame` leaves the lengths of the three ring arrays as
they are. -/
theorem rings_presentFrame (K : Nat) (d : Driver) (fuel : Nat) (w : World) :
    (presentFrame K d fuel w).2.sketch.2 = w.sketch.2 := by
  by_cases h1 : (d.acquireNextImage w.env.nAcquire).1 = VkResult.VK_ERROR_OUT_OF_DATE_KHR
  · rw [presentFrame_outOfDate K d fuel w h1]
    have hr := rings_reinitializeSwapChain K d fuel (presentFrame.acquired d w)
    split <;> exact hr
  · by_cases h2 : (d.acquireNextImage w.env.nAcquire).1 ≠ VkResult.VK_SUCCESS ∧
        (d.acquireNextImage w.env.nAcquire).1 ≠ VkResult.VK_SUBOPTIMAL_KHR
    · rw [presentFrame_acquireError K d fuel w h1 h2]
      rfl
    · by_cases h3 : d.queueSubmit w.env.nSubmit = VkResult.VK_SUCCESS
      · by_cases h4 : presentFrame.rebuilds d w
        · rw [presentFrame_rebuild K d fuel w h1 h2 h3 h4]
          have hr := rings_reinitializeSwapChain K d fuel
            (guiSetFramebufferResized (presentFrame.presented d w) 0)
          have hp : (guiSetFramebufferResized (presentFrame.presented d w) 0).sketch.2 =
              w.sketch.2 := rfl
          rw [hp] at hr
          split
          · exact hr
          · split
            · exact hr
            · exact hr
        · by_cases h5 : d.queuePresent w.env.nPresent = VkResult.VK_SUCCESS
          · rw [presentFrame_presented K d fuel w h1 h2 h3 h4 h5]
            rfl
          · rw [presentFrame_presentError K d fuel w h1 h2 h3 h4 h5]
            rfl
      · rw [presentFrame_submitError K d fuel w h1 h2 h3]
        rfl

theorem rings_presentFrames (K : Nat) (d : Driver) (fuel n : Nat) (w : World) :
    (presentFrames K d fuel n w).2.sketch.2 = w.sketch.2 := by
  induction n generalizing w with
  | zero => rfl
  | succ n ih =>
    rcases hr : (presentFrame K d fuel w).1 with _ | code
    · rw [presentFrames_stuck K d fuel n w hr]
      exact rings_presentFrame K d fuel w
    · rw [presentFrames_succ K d fuel n w code hr, ih]
      exact rings_presentFrame K d fuel w

/-- C30: take a number `K > 0` of frames in flight (`MAXFRAMESINFLIGHT`, which
is 2 in `590mainDiffuse.c`), a state in which the three ring arrays have `K`
entries, as the declaration of `swapChain` in `450swap.c` gives them, and a
call of `swapInitialize`.  After every sequence of `presentFrame` calls that
follows (whatever the driver answers: calls that rebuild the swap chain, calls
that return an error code, a call that is still waiting in a rebuild),
`swap.curFrame < K`, and `swap.curFrame` is an index of `inFlightFences`, of
`imageAvailSems` and of `renderDoneSems`.  These three arrays are the only ones
that `presentFrame` indexes with `swap.curFrame`.  The success of
`swapInitialize` is not needed: `swap->curFrame = 0` is its first statement. -/
theorem curFrame_in_bounds (K : Nat) (d0 d : Driver) (fuel n : Nat) (w0 : World)
    (hK : 0 < K)
    (hlen : w0.swap.imageAvailSems.length = K ∧ w0.swap.renderDoneSems.length = K ∧
      w0.swap.inFlightFences.length = K) :
    (presentFrames K d fuel n (swapInitialize K d0 w0).2).2.swap.curFrame < K ∧
    (presentFrames K d fuel n (swapInitialize K d0 w0).2).2.swap.curFrame <
      (presentFrames K d fuel n (swapInitialize K d0 w0).2).2.swap.inFlightFences.length ∧
    (presentFrames K d fuel n (swapInitialize K d0 w0).2).2.swap.curFrame <
      (presentFrames K d fuel n (swapInitialize K d0 w0).2).2.swap.imageAvailSems.length ∧
    (presentFrames K d fuel n (swapInitialize K d0 w0).2).2.swap.curFrame <
      (presentFrames K d fuel n (swapInitialize K d0 w0).2).2.swap.renderDoneSems.length := by
  have h0 : (swapInitialize K d0 w0).2.swap.curFrame < K := by
    rw [(swapInitialize_facts K d0 w0).2.2]
    exact hK
  have hc := presentFrames_curFrame_lt K d fuel n _ h0
  have hr := rings_presentFrames K d fuel n (swapInitialize K d0 w0).2
  rw [sketch_swapInitialize] at hr
  simp only [World.sketch, Prod.mk.injEq] at hr
  obtain ⟨e1, e2, e3⟩ := hr
  obtain ⟨l1, l2, l3⟩ := hlen
  refine ⟨hc, ?_, ?_, ?_⟩
  · rw [e3, l3]; exact hc
  · rw [e1, l1]; exact hc
  · rw [e2, l2]; exact hc

set_option maxRecDepth 8000 in
/-- The theorem of C30 on `bootWorld`, with a successful `swapInitialize` and
then five frames on `okDriver`, for `MAXFRAMESINFLIGHT = 2`. -/
theorem curFrame_in_bounds_witness :
    0 < MAXFRAMESINFLIGHT ∧
    (bootWorld.swap.imageAvailSems.length = MAXFRAMESINFLIGHT ∧
      bootWorld.swap.renderDoneSems.length = MAXFRAMESINFLIGHT ∧
      bootWorld.swap.inFlightFences.length = MAXFRAMESINFLIGHT) ∧
    (swapInitialize MAXFRAMESINFLIGHT okDriver bootWorld).1 = 0 ∧
    (presentFrames MAXFRAMESINFLIGHT okDriver 1 5
        (swapInitialize MAXFRAMESINFLIGHT okDriver bootWorld).2).2.swap.curFrame <
      MAXFRAMESINFLIGHT :=
  ⟨by decide, by decide, by decide,
   (curFrame_in_bounds MAXFRAMESINFLIGHT okDriver okDriver 1 5 bootWorld (by decide)
     (by decide)).1⟩

/-! ### The exit paths of `main` on the test bench -/

set_option maxRecDepth 8000 in
/-- On `closingDriver` the user closes the window after two frames: `main`
returns 0, having entered the five initializers and then the five finalizers,
the connection first. -/
theorem main_normal_shutdown :
    (main closingDriver okLoader 1 5 startWorld).1 = some 0 ∧
    stages (main closingDriver okLoader 1 5 startWorld).2.env.trace =
      [Fn.guiInitialize, Fn.vulInitialize, Fn.swapInitialize, Fn.initializeArtwork,
       Fn.initializeConnection, Fn.finalizeConnection, Fn.finalizeArtwork,
       Fn.swapFinalize, Fn.vulFinalize, Fn.guiFinalize] := by
  decide

set_option maxRecDepth 8000 in
/-- On `texturesFailDriver` the artwork is not initialized: `main` returns 2
and finalizes the swap chain, Vulkan and the GUI, in this order. -/
theorem main_artwork_failure :
    (main texturesFailDriver okLoader 1 5 startWorld).1 = some 2 ∧
    stages (main texturesFailDriver okLoader 1 5 startWorld).2.env.trace =
      [Fn.guiInitialize, Fn.vulInitialize, Fn.swapInitialize, Fn.initializeArtwork,
       Fn.swapFinalize, Fn.vulFinalize, Fn.guiFinalize] := by
  decide

set_option maxRecDepth 8000 in
/-- On `closingDriver` the `main` of `450mainSwap.c` returns 0, having entered
its three initializers and then its three finalizers, the swap chain first. -/
theorem mainSwap_normal_shutdown :
    (mainSwap.main closingDriver okLoader 1 5 startWorld).1 = some 0 ∧
    stages (mainSwap.main closingDriver okLoader 1 5 startWorld).2.env.trace =
      [Fn.guiInitialize, Fn.vulInitialize, Fn.swapInitialize,
       Fn.swapFinalize, Fn.vulFinalize, Fn.guiFinalize] := by
  decide

end CS311
